import Mathlib

/-!
Verification of the macOS Accelerate version-dispatch shim
`numpy/core/src/common/lapack/accelerate_wrapper.c`.

Every exported wrapper in that file has the shape

  if(__builtin_available(macos 13.3, *)){ routine_(args...); } else { routine$LEGACY(args...); }

We embed the file shallowly: the host OS version is an explicit `Env`,
`__builtin_available(macos M.N, *)` becomes the boolean `builtinAvailable`,
the two external entry points of each routine are explicit function
parameters acting on an explicit memory state `Mem` (the router never
dereferences any pointer, so pointers and buffers are opaque addresses),
and each wrapper body is transcribed literally.  The entry-point
parameters of each wrapper keep the source symbol names (`sgeev_` for the
modern symbol, `sgeev_LEGACY` for `sgeev$LEGACY`).

The wrappers declared with a non-void return type (`sdot`, `ddot`, the
`getrf` family and the `copy` family) contain no `return` statement in
the C source: control falls off the end of a non-void function, so the
call produces no defined return value.  Those embeddings therefore
return `Option` of the declared type and always yield `none`, while the
entry point itself is modelled as producing a value (which the source
discards).
-/

/-- Flat memory: every caller-visible buffer cell, addressed by `Nat`.
The router never reads or writes it directly; only the entry points do. -/
abbrev Mem : Type := Nat → Int

/-- Host OS version, the only input of the capability predicate. -/
structure Env where
  major : Nat
  minor : Nat

/-- Embedding of `__builtin_available(macos th.1 . th.2, *)`: the host OS
version is at least the threshold version.  When the predicate cannot be
established the builtin yields false, so `false` covers both "known too
old" and "cannot be proven present". -/
def builtinAvailable (env : Env) (th : Nat × Nat) : Bool :=
  decide (th.1 < env.major ∨ (th.1 = env.major ∧ th.2 ≤ env.minor))

/-- Opaque `char *` argument. -/
structure CharPtr where
  addr : Nat

/-- Opaque `fortran_int *` argument. -/
structure IntPtr where
  addr : Nat

/-- Opaque `fortran_int []` argument. -/
structure IntArr where
  addr : Nat

/-- Opaque `float *` argument. -/
structure FloatPtr where
  addr : Nat

/-- Opaque `float []` argument. -/
structure FloatArr where
  addr : Nat

/-- Opaque `double *` argument. -/
structure DoublePtr where
  addr : Nat

/-- Opaque `double []` argument. -/
structure DoubleArr where
  addr : Nat

/-- Opaque `f2c_complex *` argument. -/
structure CplxPtr where
  addr : Nat

/-- Opaque `f2c_complex []` argument. -/
structure CplxArr where
  addr : Nat

/-- Opaque `f2c_doublecomplex *` argument. -/
structure DCplxPtr where
  addr : Nat

/-- Opaque `f2c_doublecomplex []` argument. -/
structure DCplxArr where
  addr : Nat

/-- Opaque `fortran_doublecomplex []` argument. -/
structure FDCplxArr where
  addr : Nat

/-- A C `float` value, opaque to the router (carried as a bit pattern). -/
structure CFloat where
  bits : Nat

/-- A C `double` value, opaque to the router (carried as a bit pattern). -/
structure CDouble where
  bits : Nat

/-- The `fortran_int` type. -/
abbrev FortranInt : Type := Int

/-- Increment one memory cell; used to instrument stand-in entry points
that count how often they are invoked. -/
def bumpCell (a : Nat) (mem : Mem) : Mem :=
  fun i => if i = a then mem i + 1 else mem i

/-- Write one memory cell; used for stand-in entry points that deliver a
result through an output pointer. -/
def writeCell (a : Nat) (v : Int) (mem : Mem) : Mem :=
  fun i => if i = a then v else mem i

/-- The all-zero memory, for concrete witnesses. -/
def mem0 : Mem := fun _ => 0

/-- Kernel-computable suffix test on strings (used to carve the QR family
out of the export list). -/
def strTailEq (s pat : String) : Bool :=
  decide (s.data.drop (s.data.length - pat.data.length) = pat.data)

/-- Threshold version in the `__builtin_available(macos 13.3, *)` guard of `accelerate_sgeev`. -/
def accelerate_sgeev_threshold : Nat × Nat := (13, 3)

/-- Signature shared by the `sgeev_` and `sgeev$LEGACY` entry points. -/
abbrev SgeevFn : Type := Mem → CharPtr → CharPtr → IntPtr → FloatArr → IntPtr → FloatArr → FloatArr → FloatArr → IntPtr → FloatArr → IntPtr → FloatArr → IntArr → IntPtr → Mem

/-- Embedding of `accelerate_sgeev`: dispatch on the capability check, then
one call forwarding every argument. -/
def accelerate_sgeev (env : Env) (sgeev_ sgeev_LEGACY : SgeevFn) (mem : Mem)
    (jobvl : CharPtr) (jobvr : CharPtr) (n : IntPtr) (a : FloatArr) (lda : IntPtr)
    (wr : FloatArr) (wi : FloatArr) (vl : FloatArr) (ldvl : IntPtr) (vr : FloatArr)
    (ldvr : IntPtr) (work : FloatArr) (lwork : IntArr) (info : IntPtr)
    : Mem :=
  if builtinAvailable env accelerate_sgeev_threshold then
    sgeev_ mem jobvl jobvr n a lda wr wi vl ldvl vr ldvr work lwork info
  else
    sgeev_LEGACY mem jobvl jobvr n a lda wr wi vl ldvl vr ldvr work lwork info

/-- Threshold version in the `__builtin_available(macos 13.3, *)` guard of `accelerate_dgeev`. -/
def accelerate_dgeev_threshold : Nat × Nat := (13, 3)

/-- Signature shared by the `dgeev_` and `dgeev$LEGACY` entry points. -/
abbrev DgeevFn : Type := Mem → CharPtr → CharPtr → IntPtr → DoubleArr → IntPtr → DoubleArr → DoubleArr → DoubleArr → IntPtr → DoubleArr → IntPtr → DoubleArr → IntArr → IntPtr → Mem

/-- Embedding of `accelerate_dgeev`: dispatch on the capability check, then
one call forwarding every argument. -/
def accelerate_dgeev (env : Env) (dgeev_ dgeev_LEGACY : DgeevFn) (mem : Mem)
    (jobvl : CharPtr) (jobvr : CharPtr) (n : IntPtr) (a : DoubleArr) (lda : IntPtr)
    (wr : DoubleArr) (wi : DoubleArr) (vl : DoubleArr) (ldvl : IntPtr) (vr : DoubleArr)
    (ldvr : IntPtr) (work : DoubleArr) (lwork : IntArr) (info : IntPtr)
    : Mem :=
  if builtinAvailable env accelerate_dgeev_threshold then
    dgeev_ mem jobvl jobvr n a lda wr wi vl ldvl vr ldvr work lwork info
  else
    dgeev_LEGACY mem jobvl jobvr n a lda wr wi vl ldvl vr ldvr work lwork info

/-- Threshold version in the `__builtin_available(macos 13.3, *)` guard of `accelerate_cgeev`. -/
def accelerate_cgeev_threshold : Nat × Nat := (13, 3)

/-- Signature shared by the `cgeev_` and `cgeev$LEGACY` entry points. -/
abbrev CgeevFn : Type := Mem → CharPtr → CharPtr → IntPtr → CplxArr → IntPtr → CplxArr → CplxArr → IntPtr → CplxArr → IntPtr → CplxArr → IntPtr → FloatArr → IntPtr → Mem

/-- Embedding of `accelerate_cgeev`: dispatch on the capability check, then
one call forwarding every argument. -/
def accelerate_cgeev (env : Env) (cgeev_ cgeev_LEGACY : CgeevFn) (mem : Mem)
    (jobvl : CharPtr) (jobvr : CharPtr) (n : IntPtr) (a : CplxArr) (lda : IntPtr)
    (w : CplxArr) (vl : CplxArr) (ldvl : IntPtr) (vr : CplxArr) (ldvr : IntPtr)
    (work : CplxArr) (lwork : IntPtr) (rwork : FloatArr) (info : IntPtr)
    : Mem :=
  if builtinAvailable env accelerate_cgeev_threshold then
    cgeev_ mem jobvl jobvr n a lda w vl ldvl vr ldvr work lwork rwork info
  else
    cgeev_LEGACY mem jobvl jobvr n a lda w vl ldvl vr ldvr work lwork rwork info

/-- Threshold version in the `__builtin_available(macos 13.3, *)` guard of `accelerate_zgeev`. -/
def accelerate_zgeev_threshold : Nat × Nat := (13, 3)

/-- Signature shared by the `zgeev_` and `zgeev$LEGACY` entry points. -/
abbrev ZgeevFn : Type := Mem → CharPtr → CharPtr → IntPtr → DCplxArr → IntPtr → DCplxArr → DCplxArr → IntPtr → DCplxArr → IntPtr → DCplxArr → IntPtr → DoubleArr → IntPtr → Mem

/-- Embedding of `accelerate_zgeev`: dispatch on the capability check, then
one call forwarding every argument. -/
def accelerate_zgeev (env : Env) (zgeev_ zgeev_LEGACY : ZgeevFn) (mem : Mem)
    (jobvl : CharPtr) (jobvr : CharPtr) (n : IntPtr) (a : DCplxArr) (lda : IntPtr)
    (w : DCplxArr) (vl : DCplxArr) (ldvl : IntPtr) (vr : DCplxArr) (ldvr : IntPtr)
    (work : DCplxArr) (lwork : IntPtr) (rwork : DoubleArr) (info : IntPtr)
    : Mem :=
  if builtinAvailable env accelerate_zgeev_threshold then
    zgeev_ mem jobvl jobvr n a lda w vl ldvl vr ldvr work lwork rwork info
  else
    zgeev_LEGACY mem jobvl jobvr n a lda w vl ldvl vr ldvr work lwork rwork info

/-- Threshold version in the `__builtin_available(macos 13.3, *)` guard of `accelerate_ssyevd`. -/
def accelerate_ssyevd_threshold : Nat × Nat := (13, 3)

/-- Signature shared by the `ssyevd_` and `ssyevd$LEGACY` entry points. -/
abbrev SsyevdFn : Type := Mem → CharPtr → CharPtr → IntPtr → FloatArr → IntPtr → FloatArr → FloatArr → IntPtr → IntArr → IntPtr → IntPtr → Mem

/-- Embedding of `accelerate_ssyevd`: dispatch on the capability check, then
one call forwarding every argument. -/
def accelerate_ssyevd (env : Env) (ssyevd_ ssyevd_LEGACY : SsyevdFn) (mem : Mem)
    (jobz : CharPtr) (uplo : CharPtr) (n : IntPtr) (a : FloatArr) (lda : IntPtr)
    (w : FloatArr) (work : FloatArr) (lwork : IntPtr) (iwork : IntArr) (liwork : IntPtr)
    (info : IntPtr)
    : Mem :=
  if builtinAvailable env accelerate_ssyevd_threshold then
    ssyevd_ mem jobz uplo n a lda w work lwork iwork liwork info
  else
    ssyevd_LEGACY mem jobz uplo n a lda w work lwork iwork liwork info

/-- Threshold version in the `__builtin_available(macos 13.3, *)` guard of `accelerate_dsyevd`. -/
def accelerate_dsyevd_threshold : Nat × Nat := (13, 3)

/-- Signature shared by the `dsyevd_` and `dsyevd$LEGACY` entry points. -/
abbrev DsyevdFn : Type := Mem → CharPtr → CharPtr → IntPtr → DoubleArr → IntPtr → DoubleArr → DoubleArr → IntPtr → IntArr → IntPtr → IntPtr → Mem

/-- Embedding of `accelerate_dsyevd`: dispatch on the capability check, then
one call forwarding every argument. -/
def accelerate_dsyevd (env : Env) (dsyevd_ dsyevd_LEGACY : DsyevdFn) (mem : Mem)
    (jobz : CharPtr) (uplo : CharPtr) (n : IntPtr) (a : DoubleArr) (lda : IntPtr)
    (w : DoubleArr) (work : DoubleArr) (lwork : IntPtr) (iwork : IntArr) (liwork : IntPtr)
    (info : IntPtr)
    : Mem :=
  if builtinAvailable env accelerate_dsyevd_threshold then
    dsyevd_ mem jobz uplo n a lda w work lwork iwork liwork info
  else
    dsyevd_LEGACY mem jobz uplo n a lda w work lwork iwork liwork info

/-- Threshold version in the `__builtin_available(macos 13.3, *)` guard of `accelerate_cheevd`. -/
def accelerate_cheevd_threshold : Nat × Nat := (13, 3)

/-- Signature shared by the `cheevd_` and `cheevd$LEGACY` entry points. -/
abbrev CheevdFn : Type := Mem → CharPtr → CharPtr → IntPtr → CplxArr → IntPtr → FloatArr → CplxArr → IntPtr → FloatArr → IntPtr → IntArr → IntPtr → IntPtr → Mem

/-- Embedding of `accelerate_cheevd`: dispatch on the capability check, then
one call forwarding every argument. -/
def accelerate_cheevd (env : Env) (cheevd_ cheevd_LEGACY : CheevdFn) (mem : Mem)
    (jobz : CharPtr) (uplo : CharPtr) (n : IntPtr) (a : CplxArr) (lda : IntPtr)
    (w : FloatArr) (work : CplxArr) (lwork : IntPtr) (rwork : FloatArr) (lrwork : IntPtr)
    (iwork : IntArr) (liwork : IntPtr) (info : IntPtr)
    : Mem :=
  if builtinAvailable env accelerate_cheevd_threshold then
    cheevd_ mem jobz uplo n a lda w work lwork rwork lrwork iwork liwork info
  else
    cheevd_LEGACY mem jobz uplo n a lda w work lwork rwork lrwork iwork liwork info

/-- Threshold version in the `__builtin_available(macos 13.3, *)` guard of `accelerate_zheevd`. -/
def accelerate_zheevd_threshold : Nat × Nat := (13, 3)

/-- Signature shared by the `zheevd_` and `zheevd$LEGACY` entry points. -/
abbrev ZheevdFn : Type := Mem → CharPtr → CharPtr → IntPtr → DCplxArr → IntPtr → DoubleArr → DCplxArr → IntPtr → DoubleArr → IntPtr → IntArr → IntPtr → IntPtr → Mem

/-- Embedding of `accelerate_zheevd`: dispatch on the capability check, then
one call forwarding every argument. -/
def accelerate_zheevd (env : Env) (zheevd_ zheevd_LEGACY : ZheevdFn) (mem : Mem)
    (jobz : CharPtr) (uplo : CharPtr) (n : IntPtr) (a : DCplxArr) (lda : IntPtr)
    (w : DoubleArr) (work : DCplxArr) (lwork : IntPtr) (rwork : DoubleArr) (lrwork : IntPtr)
    (iwork : IntArr) (liwork : IntPtr) (info : IntPtr)
    : Mem :=
  if builtinAvailable env accelerate_zheevd_threshold then
    zheevd_ mem jobz uplo n a lda w work lwork rwork lrwork iwork liwork info
  else
    zheevd_LEGACY mem jobz uplo n a lda w work lwork rwork lrwork iwork liwork info

/-- Threshold version in the `__builtin_available(macos 13.3, *)` guard of `accelerate_sgelsd`. -/
def accelerate_sgelsd_threshold : Nat × Nat := (13, 3)

/-- Signature shared by the `sgelsd_` and `sgelsd$LEGACY` entry points. -/
abbrev SgelsdFn : Type := Mem → IntPtr → IntPtr → IntPtr → FloatArr → IntPtr → FloatArr → IntPtr → FloatArr → FloatPtr → IntPtr → FloatArr → IntPtr → IntArr → IntPtr → Mem

/-- Embedding of `accelerate_sgelsd`: dispatch on the capability check, then
one call forwarding every argument. -/
def accelerate_sgelsd (env : Env) (sgelsd_ sgelsd_LEGACY : SgelsdFn) (mem : Mem)
    (m : IntPtr) (n : IntPtr) (nrhs : IntPtr) (a : FloatArr) (lda : IntPtr)
    (b : FloatArr) (ldb : IntPtr) (s : FloatArr) (rcond : FloatPtr) (rank : IntPtr)
    (work : FloatArr) (lwork : IntPtr) (iwork : IntArr) (info : IntPtr)
    : Mem :=
  if builtinAvailable env accelerate_sgelsd_threshold then
    sgelsd_ mem m n nrhs a lda b ldb s rcond rank work lwork iwork info
  else
    sgelsd_LEGACY mem m n nrhs a lda b ldb s rcond rank work lwork iwork info

/-- Threshold version in the `__builtin_available(macos 13.3, *)` guard of `accelerate_dgelsd`. -/
def accelerate_dgelsd_threshold : Nat × Nat := (13, 3)

/-- Signature shared by the `dgelsd_` and `dgelsd$LEGACY` entry points. -/
abbrev DgelsdFn : Type := Mem → IntPtr → IntPtr → IntPtr → DoubleArr → IntPtr → DoubleArr → IntPtr → DoubleArr → DoublePtr → IntPtr → DoubleArr → IntPtr → IntArr → IntPtr → Mem

/-- Embedding of `accelerate_dgelsd`: dispatch on the capability check, then
one call forwarding every argument. -/
def accelerate_dgelsd (env : Env) (dgelsd_ dgelsd_LEGACY : DgelsdFn) (mem : Mem)
    (m : IntPtr) (n : IntPtr) (nrhs : IntPtr) (a : DoubleArr) (lda : IntPtr)
    (b : DoubleArr) (ldb : IntPtr) (s : DoubleArr) (rcond : DoublePtr) (rank : IntPtr)
    (work : DoubleArr) (lwork : IntPtr) (iwork : IntArr) (info : IntPtr)
    : Mem :=
  if builtinAvailable env accelerate_dgelsd_threshold then
    dgelsd_ mem m n nrhs a lda b ldb s rcond rank work lwork iwork info
  else
    dgelsd_LEGACY mem m n nrhs a lda b ldb s rcond rank work lwork iwork info

/-- Threshold version in the `__builtin_available(macos 13.3, *)` guard of `accelerate_cgelsd`. -/
def accelerate_cgelsd_threshold : Nat × Nat := (13, 3)

/-- Signature shared by the `cgelsd_` and `cgelsd$LEGACY` entry points. -/
abbrev CgelsdFn : Type := Mem → IntPtr → IntPtr → IntPtr → CplxArr → IntPtr → CplxArr → IntPtr → FloatArr → FloatPtr → IntPtr → CplxArr → IntPtr → FloatArr → IntArr → IntPtr → Mem

/-- Embedding of `accelerate_cgelsd`: dispatch on the capability check, then
one call forwarding every argument. -/
def accelerate_cgelsd (env : Env) (cgelsd_ cgelsd_LEGACY : CgelsdFn) (mem : Mem)
    (m : IntPtr) (n : IntPtr) (nrhs : IntPtr) (a : CplxArr) (lda : IntPtr)
    (b : CplxArr) (ldb : IntPtr) (s : FloatArr) (rcond : FloatPtr) (rank : IntPtr)
    (work : CplxArr) (lwork : IntPtr) (rwork : FloatArr) (iwork : IntArr) (info : IntPtr)
    : Mem :=
  if builtinAvailable env accelerate_cgelsd_threshold then
    cgelsd_ mem m n nrhs a lda b ldb s rcond rank work lwork rwork iwork info
  else
    cgelsd_LEGACY mem m n nrhs a lda b ldb s rcond rank work lwork rwork iwork info

/-- Threshold version in the `__builtin_available(macos 13.3, *)` guard of `accelerate_zgelsd`. -/
def accelerate_zgelsd_threshold : Nat × Nat := (13, 3)

/-- Signature shared by the `zgelsd_` and `zgelsd$LEGACY` entry points. -/
abbrev ZgelsdFn : Type := Mem → IntPtr → IntPtr → IntPtr → FDCplxArr → IntPtr → FDCplxArr → IntPtr → DoubleArr → DoublePtr → IntPtr → FDCplxArr → IntPtr → DoubleArr → IntArr → IntPtr → Mem

/-- Embedding of `accelerate_zgelsd`: dispatch on the capability check, then
one call forwarding every argument. -/
def accelerate_zgelsd (env : Env) (zgelsd_ zgelsd_LEGACY : ZgelsdFn) (mem : Mem)
    (m : IntPtr) (n : IntPtr) (nrhs : IntPtr) (a : FDCplxArr) (lda : IntPtr)
    (b : FDCplxArr) (ldb : IntPtr) (s : DoubleArr) (rcond : DoublePtr) (rank : IntPtr)
    (work : FDCplxArr) (lwork : IntPtr) (rwork : DoubleArr) (iwork : IntArr) (info : IntPtr)
    : Mem :=
  if builtinAvailable env accelerate_zgelsd_threshold then
    zgelsd_ mem m n nrhs a lda b ldb s rcond rank work lwork rwork iwork info
  else
    zgelsd_LEGACY mem m n nrhs a lda b ldb s rcond rank work lwork rwork iwork info

/-- Threshold version in the `__builtin_available(macos 13.3, *)` guard of `accelerate_dgeqrf`. -/
def accelerate_dgeqrf_threshold : Nat × Nat := (13, 3)

/-- Signature shared by the `dgeqrf_` and `dgeqrf$LEGACY` entry points. -/
abbrev DgeqrfFn : Type := Mem → IntPtr → IntPtr → DoubleArr → IntPtr → DoubleArr → DoubleArr → IntPtr → IntPtr → Mem

/-- Embedding of `accelerate_dgeqrf`: dispatch on the capability check, then
one call forwarding every argument. -/
def accelerate_dgeqrf (env : Env) (dgeqrf_ dgeqrf_LEGACY : DgeqrfFn) (mem : Mem)
    (m : IntPtr) (n : IntPtr) (a : DoubleArr) (lda : IntPtr) (tau : DoubleArr)
    (work : DoubleArr) (lwork : IntPtr) (info : IntPtr)
    : Mem :=
  if builtinAvailable env accelerate_dgeqrf_threshold then
    dgeqrf_ mem m n a lda tau work lwork info
  else
    dgeqrf_LEGACY mem m n a lda tau work lwork info

/-- Threshold version in the `__builtin_available(macos 13.3, *)` guard of `accelerate_zgeqrf`. -/
def accelerate_zgeqrf_threshold : Nat × Nat := (13, 3)

/-- Signature shared by the `zgeqrf_` and `zgeqrf$LEGACY` entry points. -/
abbrev ZgeqrfFn : Type := Mem → IntPtr → IntPtr → DCplxArr → IntPtr → DCplxArr → DCplxArr → IntPtr → IntPtr → Mem

/-- Embedding of `accelerate_zgeqrf`: dispatch on the capability check, then
one call forwarding every argument. -/
def accelerate_zgeqrf (env : Env) (zgeqrf_ zgeqrf_LEGACY : ZgeqrfFn) (mem : Mem)
    (m : IntPtr) (n : IntPtr) (a : DCplxArr) (lda : IntPtr) (tau : DCplxArr)
    (work : DCplxArr) (lwork : IntPtr) (info : IntPtr)
    : Mem :=
  if builtinAvailable env accelerate_zgeqrf_threshold then
    zgeqrf_ mem m n a lda tau work lwork info
  else
    zgeqrf_LEGACY mem m n a lda tau work lwork info

/-- Threshold version in the `__builtin_available(macos 13.3, *)` guard of `accelerate_dorgqr`. -/
def accelerate_dorgqr_threshold : Nat × Nat := (13, 3)

/-- Signature shared by the `dorgqr_` and `dorgqr$LEGACY` entry points. -/
abbrev DorgqrFn : Type := Mem → IntPtr → IntPtr → IntPtr → DoubleArr → IntPtr → DoubleArr → DoubleArr → IntPtr → IntPtr → Mem

/-- Embedding of `accelerate_dorgqr`: dispatch on the capability check, then
one call forwarding every argument. -/
def accelerate_dorgqr (env : Env) (dorgqr_ dorgqr_LEGACY : DorgqrFn) (mem : Mem)
    (m : IntPtr) (n : IntPtr) (k : IntPtr) (a : DoubleArr) (lda : IntPtr)
    (tau : DoubleArr) (work : DoubleArr) (lwork : IntPtr) (info : IntPtr)
    : Mem :=
  if builtinAvailable env accelerate_dorgqr_threshold then
    dorgqr_ mem m n k a lda tau work lwork info
  else
    dorgqr_LEGACY mem m n k a lda tau work lwork info

/-- Threshold version in the `__builtin_available(macos 13.3, *)` guard of `accelerate_zungqr`. -/
def accelerate_zungqr_threshold : Nat × Nat := (13, 3)

/-- Signature shared by the `zungqr_` and `zungqr$LEGACY` entry points. -/
abbrev ZungqrFn : Type := Mem → IntPtr → IntPtr → IntPtr → DCplxArr → IntPtr → DCplxArr → DCplxArr → IntPtr → IntPtr → Mem

/-- Embedding of `accelerate_zungqr`: dispatch on the capability check, then
one call forwarding every argument. -/
def accelerate_zungqr (env : Env) (zungqr_ zungqr_LEGACY : ZungqrFn) (mem : Mem)
    (m : IntPtr) (n : IntPtr) (k : IntPtr) (a : DCplxArr) (lda : IntPtr)
    (tau : DCplxArr) (work : DCplxArr) (lwork : IntPtr) (info : IntPtr)
    : Mem :=
  if builtinAvailable env accelerate_zungqr_threshold then
    zungqr_ mem m n k a lda tau work lwork info
  else
    zungqr_LEGACY mem m n k a lda tau work lwork info

/-- Threshold version in the `__builtin_available(macos 13.3, *)` guard of `accelerate_sgesv`. -/
def accelerate_sgesv_threshold : Nat × Nat := (13, 3)

/-- Signature shared by the `sgesv_` and `sgesv$LEGACY` entry points. -/
abbrev SgesvFn : Type := Mem → IntPtr → IntPtr → FloatArr → IntPtr → IntArr → FloatArr → IntPtr → IntPtr → Mem

/-- Embedding of `accelerate_sgesv`: dispatch on the capability check, then
one call forwarding every argument. -/
def accelerate_sgesv (env : Env) (sgesv_ sgesv_LEGACY : SgesvFn) (mem : Mem)
    (n : IntPtr) (nrhs : IntPtr) (a : FloatArr) (lda : IntPtr) (ipiv : IntArr)
    (b : FloatArr) (ldb : IntPtr) (info : IntPtr)
    : Mem :=
  if builtinAvailable env accelerate_sgesv_threshold then
    sgesv_ mem n nrhs a lda ipiv b ldb info
  else
    sgesv_LEGACY mem n nrhs a lda ipiv b ldb info

/-- Threshold version in the `__builtin_available(macos 13.3, *)` guard of `accelerate_dgesv`. -/
def accelerate_dgesv_threshold : Nat × Nat := (13, 3)

/-- Signature shared by the `dgesv_` and `dgesv$LEGACY` entry points. -/
abbrev DgesvFn : Type := Mem → IntPtr → IntPtr → DoubleArr → IntPtr → IntArr → DoubleArr → IntPtr → IntPtr → Mem

/-- Embedding of `accelerate_dgesv`: dispatch on the capability check, then
one call forwarding every argument. -/
def accelerate_dgesv (env : Env) (dgesv_ dgesv_LEGACY : DgesvFn) (mem : Mem)
    (n : IntPtr) (nrhs : IntPtr) (a : DoubleArr) (lda : IntPtr) (ipiv : IntArr)
    (b : DoubleArr) (ldb : IntPtr) (info : IntPtr)
    : Mem :=
  if builtinAvailable env accelerate_dgesv_threshold then
    dgesv_ mem n nrhs a lda ipiv b ldb info
  else
    dgesv_LEGACY mem n nrhs a lda ipiv b ldb info

/-- Threshold version in the `__builtin_available(macos 13.3, *)` guard of `accelerate_cgesv`. -/
def accelerate_cgesv_threshold : Nat × Nat := (13, 3)

/-- Signature shared by the `cgesv_` and `cgesv$LEGACY` entry points. -/
abbrev CgesvFn : Type := Mem → IntPtr → IntPtr → CplxArr → IntPtr → IntArr → CplxArr → IntPtr → IntPtr → Mem

/-- Embedding of `accelerate_cgesv`: dispatch on the capability check, then
one call forwarding every argument. -/
def accelerate_cgesv (env : Env) (cgesv_ cgesv_LEGACY : CgesvFn) (mem : Mem)
    (n : IntPtr) (nrhs : IntPtr) (a : CplxArr) (lda : IntPtr) (ipiv : IntArr)
    (b : CplxArr) (ldb : IntPtr) (info : IntPtr)
    : Mem :=
  if builtinAvailable env accelerate_cgesv_threshold then
    cgesv_ mem n nrhs a lda ipiv b ldb info
  else
    cgesv_LEGACY mem n nrhs a lda ipiv b ldb info

/-- Threshold version in the `__builtin_available(macos 13.3, *)` guard of `accelerate_zgesv`. -/
def accelerate_zgesv_threshold : Nat × Nat := (13, 3)

/-- Signature shared by the `zgesv_` and `zgesv$LEGACY` entry points. -/
abbrev ZgesvFn : Type := Mem → IntPtr → IntPtr → DCplxArr → IntPtr → IntArr → DCplxArr → IntPtr → IntPtr → Mem

/-- Embedding of `accelerate_zgesv`: dispatch on the capability check, then
one call forwarding every argument. -/
def accelerate_zgesv (env : Env) (zgesv_ zgesv_LEGACY : ZgesvFn) (mem : Mem)
    (n : IntPtr) (nrhs : IntPtr) (a : DCplxArr) (lda : IntPtr) (ipiv : IntArr)
    (b : DCplxArr) (ldb : IntPtr) (info : IntPtr)
    : Mem :=
  if builtinAvailable env accelerate_zgesv_threshold then
    zgesv_ mem n nrhs a lda ipiv b ldb info
  else
    zgesv_LEGACY mem n nrhs a lda ipiv b ldb info

/-- Threshold version in the `__builtin_available(macos 13.3, *)` guard of `accelerate_sgetrf`. -/
def accelerate_sgetrf_threshold : Nat × Nat := (13, 3)

/-- Signature shared by the `sgetrf_` and `sgetrf$LEGACY` entry points. -/
abbrev SgetrfFn : Type := Mem → IntPtr → IntPtr → FloatArr → IntPtr → IntArr → IntPtr → Mem × FortranInt

/-- Embedding of `accelerate_sgetrf`: dispatch on the capability check, then
one call forwarding every argument.  The C body is declared to return
`fortran_int` but has no return statement, so the entry point's return value is
discarded and the wrapper itself produces no defined value (`none`). -/
def accelerate_sgetrf (env : Env) (sgetrf_ sgetrf_LEGACY : SgetrfFn) (mem : Mem)
    (m : IntPtr) (n : IntPtr) (a : FloatArr) (lda : IntPtr) (ipiv : IntArr)
    (info : IntPtr)
    : Mem × Option FortranInt :=
  if builtinAvailable env accelerate_sgetrf_threshold then
    ((sgetrf_ mem m n a lda ipiv info).1, none)
  else
    ((sgetrf_LEGACY mem m n a lda ipiv info).1, none)

/-- Threshold version in the `__builtin_available(macos 13.3, *)` guard of `accelerate_dgetrf`. -/
def accelerate_dgetrf_threshold : Nat × Nat := (13, 3)

/-- Signature shared by the `dgetrf_` and `dgetrf$LEGACY` entry points. -/
abbrev DgetrfFn : Type := Mem → IntPtr → IntPtr → DoubleArr → IntPtr → IntArr → IntPtr → Mem × FortranInt

/-- Embedding of `accelerate_dgetrf`: dispatch on the capability check, then
one call forwarding every argument.  The C body is declared to return
`fortran_int` but has no return statement, so the entry point's return value is
discarded and the wrapper itself produces no defined value (`none`). -/
def accelerate_dgetrf (env : Env) (dgetrf_ dgetrf_LEGACY : DgetrfFn) (mem : Mem)
    (m : IntPtr) (n : IntPtr) (a : DoubleArr) (lda : IntPtr) (ipiv : IntArr)
    (info : IntPtr)
    : Mem × Option FortranInt :=
  if builtinAvailable env accelerate_dgetrf_threshold then
    ((dgetrf_ mem m n a lda ipiv info).1, none)
  else
    ((dgetrf_LEGACY mem m n a lda ipiv info).1, none)

/-- Threshold version in the `__builtin_available(macos 13.3, *)` guard of `accelerate_cgetrf`. -/
def accelerate_cgetrf_threshold : Nat × Nat := (13, 3)

/-- Signature shared by the `cgetrf_` and `cgetrf$LEGACY` entry points. -/
abbrev CgetrfFn : Type := Mem → IntPtr → IntPtr → CplxArr → IntPtr → IntArr → IntPtr → Mem × FortranInt

/-- Embedding of `accelerate_cgetrf`: dispatch on the capability check, then
one call forwarding every argument.  The C body is declared to return
`fortran_int` but has no return statement, so the entry point's return value is
discarded and the wrapper itself produces no defined value (`none`). -/
def accelerate_cgetrf (env : Env) (cgetrf_ cgetrf_LEGACY : CgetrfFn) (mem : Mem)
    (m : IntPtr) (n : IntPtr) (a : CplxArr) (lda : IntPtr) (ipiv : IntArr)
    (info : IntPtr)
    : Mem × Option FortranInt :=
  if builtinAvailable env accelerate_cgetrf_threshold then
    ((cgetrf_ mem m n a lda ipiv info).1, none)
  else
    ((cgetrf_LEGACY mem m n a lda ipiv info).1, none)

/-- Threshold version in the `__builtin_available(macos 13.3, *)` guard of `accelerate_zgetrf`. -/
def accelerate_zgetrf_threshold : Nat × Nat := (13, 3)

/-- Signature shared by the `zgetrf_` and `zgetrf$LEGACY` entry points. -/
abbrev ZgetrfFn : Type := Mem → IntPtr → IntPtr → DCplxArr → IntPtr → IntArr → IntPtr → Mem × FortranInt

/-- Embedding of `accelerate_zgetrf`: dispatch on the capability check, then
one call forwarding every argument.  The C body is declared to return
`fortran_int` but has no return statement, so the entry point's return value is
discarded and the wrapper itself produces no defined value (`none`). -/
def accelerate_zgetrf (env : Env) (zgetrf_ zgetrf_LEGACY : ZgetrfFn) (mem : Mem)
    (m : IntPtr) (n : IntPtr) (a : DCplxArr) (lda : IntPtr) (ipiv : IntArr)
    (info : IntPtr)
    : Mem × Option FortranInt :=
  if builtinAvailable env accelerate_zgetrf_threshold then
    ((zgetrf_ mem m n a lda ipiv info).1, none)
  else
    ((zgetrf_LEGACY mem m n a lda ipiv info).1, none)

/-- Threshold version in the `__builtin_available(macos 13.3, *)` guard of `accelerate_spotrf`. -/
def accelerate_spotrf_threshold : Nat × Nat := (13, 3)

/-- Signature shared by the `spotrf_` and `spotrf$LEGACY` entry points. -/
abbrev SpotrfFn : Type := Mem → CharPtr → IntPtr → FloatArr → IntPtr → IntPtr → Mem

/-- Embedding of `accelerate_spotrf`: dispatch on the capability check, then
one call forwarding every argument. -/
def accelerate_spotrf (env : Env) (spotrf_ spotrf_LEGACY : SpotrfFn) (mem : Mem)
    (uplo : CharPtr) (n : IntPtr) (a : FloatArr) (lda : IntPtr) (info : IntPtr)
    : Mem :=
  if builtinAvailable env accelerate_spotrf_threshold then
    spotrf_ mem uplo n a lda info
  else
    spotrf_LEGACY mem uplo n a lda info

/-- Threshold version in the `__builtin_available(macos 13.3, *)` guard of `accelerate_dpotrf`. -/
def accelerate_dpotrf_threshold : Nat × Nat := (13, 3)

/-- Signature shared by the `dpotrf_` and `dpotrf$LEGACY` entry points. -/
abbrev DpotrfFn : Type := Mem → CharPtr → IntPtr → DoubleArr → IntPtr → IntPtr → Mem

/-- Embedding of `accelerate_dpotrf`: dispatch on the capability check, then
one call forwarding every argument. -/
def accelerate_dpotrf (env : Env) (dpotrf_ dpotrf_LEGACY : DpotrfFn) (mem : Mem)
    (uplo : CharPtr) (n : IntPtr) (a : DoubleArr) (lda : IntPtr) (info : IntPtr)
    : Mem :=
  if builtinAvailable env accelerate_dpotrf_threshold then
    dpotrf_ mem uplo n a lda info
  else
    dpotrf_LEGACY mem uplo n a lda info

/-- Threshold version in the `__builtin_available(macos 13.3, *)` guard of `accelerate_cpotrf`. -/
def accelerate_cpotrf_threshold : Nat × Nat := (13, 3)

/-- Signature shared by the `cpotrf_` and `cpotrf$LEGACY` entry points. -/
abbrev CpotrfFn : Type := Mem → CharPtr → IntPtr → CplxArr → IntPtr → IntPtr → Mem

/-- Embedding of `accelerate_cpotrf`: dispatch on the capability check, then
one call forwarding every argument. -/
def accelerate_cpotrf (env : Env) (cpotrf_ cpotrf_LEGACY : CpotrfFn) (mem : Mem)
    (uplo : CharPtr) (n : IntPtr) (a : CplxArr) (lda : IntPtr) (info : IntPtr)
    : Mem :=
  if builtinAvailable env accelerate_cpotrf_threshold then
    cpotrf_ mem uplo n a lda info
  else
    cpotrf_LEGACY mem uplo n a lda info

/-- Threshold version in the `__builtin_available(macos 13.3, *)` guard of `accelerate_zpotrf`. -/
def accelerate_zpotrf_threshold : Nat × Nat := (13, 3)

/-- Signature shared by the `zpotrf_` and `zpotrf$LEGACY` entry points. -/
abbrev ZpotrfFn : Type := Mem → CharPtr → IntPtr → DCplxArr → IntPtr → IntPtr → Mem

/-- Embedding of `accelerate_zpotrf`: dispatch on the capability check, then
one call forwarding every argument. -/
def accelerate_zpotrf (env : Env) (zpotrf_ zpotrf_LEGACY : ZpotrfFn) (mem : Mem)
    (uplo : CharPtr) (n : IntPtr) (a : DCplxArr) (lda : IntPtr) (info : IntPtr)
    : Mem :=
  if builtinAvailable env accelerate_zpotrf_threshold then
    zpotrf_ mem uplo n a lda info
  else
    zpotrf_LEGACY mem uplo n a lda info

/-- Threshold version in the `__builtin_available(macos 13.3, *)` guard of `accelerate_sgesdd`. -/
def accelerate_sgesdd_threshold : Nat × Nat := (13, 3)

/-- Signature shared by the `sgesdd_` and `sgesdd$LEGACY` entry points. -/
abbrev SgesddFn : Type := Mem → CharPtr → IntPtr → IntPtr → FloatArr → IntPtr → FloatArr → FloatArr → IntPtr → FloatArr → IntPtr → FloatArr → IntPtr → IntArr → IntPtr → Mem

/-- Embedding of `accelerate_sgesdd`: dispatch on the capability check, then
one call forwarding every argument. -/
def accelerate_sgesdd (env : Env) (sgesdd_ sgesdd_LEGACY : SgesddFn) (mem : Mem)
    (jobz : CharPtr) (m : IntPtr) (n : IntPtr) (a : FloatArr) (lda : IntPtr)
    (s : FloatArr) (u : FloatArr) (ldu : IntPtr) (vt : FloatArr) (ldvt : IntPtr)
    (work : FloatArr) (lwork : IntPtr) (iwork : IntArr) (info : IntPtr)
    : Mem :=
  if builtinAvailable env accelerate_sgesdd_threshold then
    sgesdd_ mem jobz m n a lda s u ldu vt ldvt work lwork iwork info
  else
    sgesdd_LEGACY mem jobz m n a lda s u ldu vt ldvt work lwork iwork info

/-- Threshold version in the `__builtin_available(macos 13.3, *)` guard of `accelerate_dgesdd`. -/
def accelerate_dgesdd_threshold : Nat × Nat := (13, 3)

/-- Signature shared by the `dgesdd_` and `dgesdd$LEGACY` entry points. -/
abbrev DgesddFn : Type := Mem → CharPtr → IntPtr → IntPtr → DoubleArr → IntPtr → DoubleArr → DoubleArr → IntPtr → DoubleArr → IntPtr → DoubleArr → IntPtr → IntArr → IntPtr → Mem

/-- Embedding of `accelerate_dgesdd`: dispatch on the capability check, then
one call forwarding every argument. -/
def accelerate_dgesdd (env : Env) (dgesdd_ dgesdd_LEGACY : DgesddFn) (mem : Mem)
    (jobz : CharPtr) (m : IntPtr) (n : IntPtr) (a : DoubleArr) (lda : IntPtr)
    (s : DoubleArr) (u : DoubleArr) (ldu : IntPtr) (vt : DoubleArr) (ldvt : IntPtr)
    (work : DoubleArr) (lwork : IntPtr) (iwork : IntArr) (info : IntPtr)
    : Mem :=
  if builtinAvailable env accelerate_dgesdd_threshold then
    dgesdd_ mem jobz m n a lda s u ldu vt ldvt work lwork iwork info
  else
    dgesdd_LEGACY mem jobz m n a lda s u ldu vt ldvt work lwork iwork info

/-- Threshold version in the `__builtin_available(macos 13.3, *)` guard of `accelerate_cgesdd`. -/
def accelerate_cgesdd_threshold : Nat × Nat := (13, 3)

/-- Signature shared by the `cgesdd_` and `cgesdd$LEGACY` entry points. -/
abbrev CgesddFn : Type := Mem → CharPtr → IntPtr → IntPtr → CplxArr → IntPtr → FloatArr → CplxArr → IntPtr → CplxArr → IntPtr → CplxArr → IntPtr → FloatArr → IntArr → IntPtr → Mem

/-- Embedding of `accelerate_cgesdd`: dispatch on the capability check, then
one call forwarding every argument. -/
def accelerate_cgesdd (env : Env) (cgesdd_ cgesdd_LEGACY : CgesddFn) (mem : Mem)
    (jobz : CharPtr) (m : IntPtr) (n : IntPtr) (a : CplxArr) (lda : IntPtr)
    (s : FloatArr) (u : CplxArr) (ldu : IntPtr) (vt : CplxArr) (ldvt : IntPtr)
    (work : CplxArr) (lwork : IntPtr) (rwork : FloatArr) (iwork : IntArr) (info : IntPtr)
    : Mem :=
  if builtinAvailable env accelerate_cgesdd_threshold then
    cgesdd_ mem jobz m n a lda s u ldu vt ldvt work lwork rwork iwork info
  else
    cgesdd_LEGACY mem jobz m n a lda s u ldu vt ldvt work lwork rwork iwork info

/-- Threshold version in the `__builtin_available(macos 13.3, *)` guard of `accelerate_zgesdd`. -/
def accelerate_zgesdd_threshold : Nat × Nat := (13, 3)

/-- Signature shared by the `zgesdd_` and `zgesdd$LEGACY` entry points. -/
abbrev ZgesddFn : Type := Mem → CharPtr → IntPtr → IntPtr → DCplxArr → IntPtr → DoubleArr → DCplxArr → IntPtr → DCplxArr → IntPtr → DCplxArr → IntPtr → DoubleArr → IntArr → IntPtr → Mem

/-- Embedding of `accelerate_zgesdd`: dispatch on the capability check, then
one call forwarding every argument. -/
def accelerate_zgesdd (env : Env) (zgesdd_ zgesdd_LEGACY : ZgesddFn) (mem : Mem)
    (jobz : CharPtr) (m : IntPtr) (n : IntPtr) (a : DCplxArr) (lda : IntPtr)
    (s : DoubleArr) (u : DCplxArr) (ldu : IntPtr) (vt : DCplxArr) (ldvt : IntPtr)
    (work : DCplxArr) (lwork : IntPtr) (rwork : DoubleArr) (iwork : IntArr) (info : IntPtr)
    : Mem :=
  if builtinAvailable env accelerate_zgesdd_threshold then
    zgesdd_ mem jobz m n a lda s u ldu vt ldvt work lwork rwork iwork info
  else
    zgesdd_LEGACY mem jobz m n a lda s u ldu vt ldvt work lwork rwork iwork info

/-- Threshold version in the `__builtin_available(macos 13.3, *)` guard of `accelerate_spotrs`. -/
def accelerate_spotrs_threshold : Nat × Nat := (13, 3)

/-- Signature shared by the `spotrs_` and `spotrs$LEGACY` entry points. -/
abbrev SpotrsFn : Type := Mem → CharPtr → IntPtr → IntPtr → FloatArr → IntPtr → FloatArr → IntPtr → IntPtr → Mem

/-- Embedding of `accelerate_spotrs`: dispatch on the capability check, then
one call forwarding every argument. -/
def accelerate_spotrs (env : Env) (spotrs_ spotrs_LEGACY : SpotrsFn) (mem : Mem)
    (uplo : CharPtr) (n : IntPtr) (nrhs : IntPtr) (a : FloatArr) (lda : IntPtr)
    (b : FloatArr) (ldb : IntPtr) (info : IntPtr)
    : Mem :=
  if builtinAvailable env accelerate_spotrs_threshold then
    spotrs_ mem uplo n nrhs a lda b ldb info
  else
    spotrs_LEGACY mem uplo n nrhs a lda b ldb info

/-- Threshold version in the `__builtin_available(macos 13.3, *)` guard of `accelerate_dpotrs`. -/
def accelerate_dpotrs_threshold : Nat × Nat := (13, 3)

/-- Signature shared by the `dpotrs_` and `dpotrs$LEGACY` entry points. -/
abbrev DpotrsFn : Type := Mem → CharPtr → IntPtr → IntPtr → DoubleArr → IntPtr → DoubleArr → IntPtr → IntPtr → Mem

/-- Embedding of `accelerate_dpotrs`: dispatch on the capability check, then
one call forwarding every argument. -/
def accelerate_dpotrs (env : Env) (dpotrs_ dpotrs_LEGACY : DpotrsFn) (mem : Mem)
    (uplo : CharPtr) (n : IntPtr) (nrhs : IntPtr) (a : DoubleArr) (lda : IntPtr)
    (b : DoubleArr) (ldb : IntPtr) (info : IntPtr)
    : Mem :=
  if builtinAvailable env accelerate_dpotrs_threshold then
    dpotrs_ mem uplo n nrhs a lda b ldb info
  else
    dpotrs_LEGACY mem uplo n nrhs a lda b ldb info

/-- Threshold version in the `__builtin_available(macos 13.3, *)` guard of `accelerate_cpotrs`. -/
def accelerate_cpotrs_threshold : Nat × Nat := (13, 3)

/-- Signature shared by the `cpotrs_` and `cpotrs$LEGACY` entry points. -/
abbrev CpotrsFn : Type := Mem → CharPtr → IntPtr → IntPtr → CplxArr → IntPtr → CplxArr → IntPtr → IntPtr → Mem

/-- Embedding of `accelerate_cpotrs`: dispatch on the capability check, then
one call forwarding every argument. -/
def accelerate_cpotrs (env : Env) (cpotrs_ cpotrs_LEGACY : CpotrsFn) (mem : Mem)
    (uplo : CharPtr) (n : IntPtr) (nrhs : IntPtr) (a : CplxArr) (lda : IntPtr)
    (b : CplxArr) (ldb : IntPtr) (info : IntPtr)
    : Mem :=
  if builtinAvailable env accelerate_cpotrs_threshold then
    cpotrs_ mem uplo n nrhs a lda b ldb info
  else
    cpotrs_LEGACY mem uplo n nrhs a lda b ldb info

/-- Threshold version in the `__builtin_available(macos 13.3, *)` guard of `accelerate_zpotrs`. -/
def accelerate_zpotrs_threshold : Nat × Nat := (13, 3)

/-- Signature shared by the `zpotrs_` and `zpotrs$LEGACY` entry points. -/
abbrev ZpotrsFn : Type := Mem → CharPtr → IntPtr → IntPtr → DCplxArr → IntPtr → DCplxArr → IntPtr → IntPtr → Mem

/-- Embedding of `accelerate_zpotrs`: dispatch on the capability check, then
one call forwarding every argument. -/
def accelerate_zpotrs (env : Env) (zpotrs_ zpotrs_LEGACY : ZpotrsFn) (mem : Mem)
    (uplo : CharPtr) (n : IntPtr) (nrhs : IntPtr) (a : DCplxArr) (lda : IntPtr)
    (b : DCplxArr) (ldb : IntPtr) (info : IntPtr)
    : Mem :=
  if builtinAvailable env accelerate_zpotrs_threshold then
    zpotrs_ mem uplo n nrhs a lda b ldb info
  else
    zpotrs_LEGACY mem uplo n nrhs a lda b ldb info

/-- Threshold version in the `__builtin_available(macos 13.3, *)` guard of `accelerate_spotri`. -/
def accelerate_spotri_threshold : Nat × Nat := (13, 3)

/-- Signature shared by the `spotri_` and `spotri$LEGACY` entry points. -/
abbrev SpotriFn : Type := Mem → CharPtr → IntPtr → FloatArr → IntPtr → IntPtr → Mem

/-- Embedding of `accelerate_spotri`: dispatch on the capability check, then
one call forwarding every argument. -/
def accelerate_spotri (env : Env) (spotri_ spotri_LEGACY : SpotriFn) (mem : Mem)
    (uplo : CharPtr) (n : IntPtr) (a : FloatArr) (lda : IntPtr) (info : IntPtr)
    : Mem :=
  if builtinAvailable env accelerate_spotri_threshold then
    spotri_ mem uplo n a lda info
  else
    spotri_LEGACY mem uplo n a lda info

/-- Threshold version in the `__builtin_available(macos 13.3, *)` guard of `accelerate_dpotri`. -/
def accelerate_dpotri_threshold : Nat × Nat := (13, 3)

/-- Signature shared by the `dpotri_` and `dpotri$LEGACY` entry points. -/
abbrev DpotriFn : Type := Mem → CharPtr → IntPtr → DoubleArr → IntPtr → IntPtr → Mem

/-- Embedding of `accelerate_dpotri`: dispatch on the capability check, then
one call forwarding every argument. -/
def accelerate_dpotri (env : Env) (dpotri_ dpotri_LEGACY : DpotriFn) (mem : Mem)
    (uplo : CharPtr) (n : IntPtr) (a : DoubleArr) (lda : IntPtr) (info : IntPtr)
    : Mem :=
  if builtinAvailable env accelerate_dpotri_threshold then
    dpotri_ mem uplo n a lda info
  else
    dpotri_LEGACY mem uplo n a lda info

/-- Threshold version in the `__builtin_available(macos 13.3, *)` guard of `accelerate_cpotri`. -/
def accelerate_cpotri_threshold : Nat × Nat := (13, 3)

/-- Signature shared by the `cpotri_` and `cpotri$LEGACY` entry points. -/
abbrev CpotriFn : Type := Mem → CharPtr → IntPtr → CplxArr → IntPtr → IntPtr → Mem

/-- Embedding of `accelerate_cpotri`: dispatch on the capability check, then
one call forwarding every argument. -/
def accelerate_cpotri (env : Env) (cpotri_ cpotri_LEGACY : CpotriFn) (mem : Mem)
    (uplo : CharPtr) (n : IntPtr) (a : CplxArr) (lda : IntPtr) (info : IntPtr)
    : Mem :=
  if builtinAvailable env accelerate_cpotri_threshold then
    cpotri_ mem uplo n a lda info
  else
    cpotri_LEGACY mem uplo n a lda info

/-- Threshold version in the `__builtin_available(macos 13.3, *)` guard of `accelerate_zpotri`. -/
def accelerate_zpotri_threshold : Nat × Nat := (13, 3)

/-- Signature shared by the `zpotri_` and `zpotri$LEGACY` entry points. -/
abbrev ZpotriFn : Type := Mem → CharPtr → IntPtr → DCplxArr → IntPtr → IntPtr → Mem

/-- Embedding of `accelerate_zpotri`: dispatch on the capability check, then
one call forwarding every argument. -/
def accelerate_zpotri (env : Env) (zpotri_ zpotri_LEGACY : ZpotriFn) (mem : Mem)
    (uplo : CharPtr) (n : IntPtr) (a : DCplxArr) (lda : IntPtr) (info : IntPtr)
    : Mem :=
  if builtinAvailable env accelerate_zpotri_threshold then
    zpotri_ mem uplo n a lda info
  else
    zpotri_LEGACY mem uplo n a lda info

/-- Threshold version in the `__builtin_available(macos 13.3, *)` guard of `accelerate_scopy`. -/
def accelerate_scopy_threshold : Nat × Nat := (13, 3)

/-- Signature shared by the `scopy_` and `scopy$LEGACY` entry points. -/
abbrev ScopyFn : Type := Mem → IntPtr → FloatPtr → IntPtr → FloatPtr → IntPtr → Mem × FortranInt

/-- Embedding of `accelerate_scopy`: dispatch on the capability check, then
one call forwarding every argument.  The C body is declared to return
`fortran_int` but has no return statement, so the entry point's return value is
discarded and the wrapper itself produces no defined value (`none`). -/
def accelerate_scopy (env : Env) (scopy_ scopy_LEGACY : ScopyFn) (mem : Mem)
    (n : IntPtr) (sx : FloatPtr) (incx : IntPtr) (sy : FloatPtr) (incy : IntPtr)
    : Mem × Option FortranInt :=
  if builtinAvailable env accelerate_scopy_threshold then
    ((scopy_ mem n sx incx sy incy).1, none)
  else
    ((scopy_LEGACY mem n sx incx sy incy).1, none)

/-- Threshold version in the `__builtin_available(macos 13.3, *)` guard of `accelerate_dcopy`. -/
def accelerate_dcopy_threshold : Nat × Nat := (13, 3)

/-- Signature shared by the `dcopy_` and `dcopy$LEGACY` entry points. -/
abbrev DcopyFn : Type := Mem → IntPtr → DoublePtr → IntPtr → DoublePtr → IntPtr → Mem × FortranInt

/-- Embedding of `accelerate_dcopy`: dispatch on the capability check, then
one call forwarding every argument.  The C body is declared to return
`fortran_int` but has no return statement, so the entry point's return value is
discarded and the wrapper itself produces no defined value (`none`). -/
def accelerate_dcopy (env : Env) (dcopy_ dcopy_LEGACY : DcopyFn) (mem : Mem)
    (n : IntPtr) (sx : DoublePtr) (incx : IntPtr) (sy : DoublePtr) (incy : IntPtr)
    : Mem × Option FortranInt :=
  if builtinAvailable env accelerate_dcopy_threshold then
    ((dcopy_ mem n sx incx sy incy).1, none)
  else
    ((dcopy_LEGACY mem n sx incx sy incy).1, none)

/-- Threshold version in the `__builtin_available(macos 13.3, *)` guard of `accelerate_ccopy`. -/
def accelerate_ccopy_threshold : Nat × Nat := (13, 3)

/-- Signature shared by the `ccopy_` and `ccopy$LEGACY` entry points. -/
abbrev CcopyFn : Type := Mem → IntPtr → CplxPtr → IntPtr → CplxPtr → IntPtr → Mem × FortranInt

/-- Embedding of `accelerate_ccopy`: dispatch on the capability check, then
one call forwarding every argument.  The C body is declared to return
`fortran_int` but has no return statement, so the entry point's return value is
discarded and the wrapper itself produces no defined value (`none`). -/
def accelerate_ccopy (env : Env) (ccopy_ ccopy_LEGACY : CcopyFn) (mem : Mem)
    (n : IntPtr) (sx : CplxPtr) (incx : IntPtr) (sy : CplxPtr) (incy : IntPtr)
    : Mem × Option FortranInt :=
  if builtinAvailable env accelerate_ccopy_threshold then
    ((ccopy_ mem n sx incx sy incy).1, none)
  else
    ((ccopy_LEGACY mem n sx incx sy incy).1, none)

/-- Threshold version in the `__builtin_available(macos 13.3, *)` guard of `accelerate_zcopy`. -/
def accelerate_zcopy_threshold : Nat × Nat := (13, 3)

/-- Signature shared by the `zcopy_` and `zcopy$LEGACY` entry points. -/
abbrev ZcopyFn : Type := Mem → IntPtr → DCplxPtr → IntPtr → DCplxPtr → IntPtr → Mem × FortranInt

/-- Embedding of `accelerate_zcopy`: dispatch on the capability check, then
one call forwarding every argument.  The C body is declared to return
`fortran_int` but has no return statement, so the entry point's return value is
discarded and the wrapper itself produces no defined value (`none`). -/
def accelerate_zcopy (env : Env) (zcopy_ zcopy_LEGACY : ZcopyFn) (mem : Mem)
    (n : IntPtr) (sx : DCplxPtr) (incx : IntPtr) (sy : DCplxPtr) (incy : IntPtr)
    : Mem × Option FortranInt :=
  if builtinAvailable env accelerate_zcopy_threshold then
    ((zcopy_ mem n sx incx sy incy).1, none)
  else
    ((zcopy_LEGACY mem n sx incx sy incy).1, none)

/-- Threshold version in the `__builtin_available(macos 13.3, *)` guard of `accelerate_sdot`. -/
def accelerate_sdot_threshold : Nat × Nat := (13, 3)

/-- Signature shared by the `sdot_` and `sdot$LEGACY` entry points. -/
abbrev SdotFn : Type := Mem → IntPtr → FloatPtr → IntPtr → FloatPtr → IntPtr → Mem × CFloat

/-- Embedding of `accelerate_sdot`: dispatch on the capability check, then
one call forwarding every argument.  The C body is declared to return
`float` but has no return statement, so the entry point's return value is
discarded and the wrapper itself produces no defined value (`none`). -/
def accelerate_sdot (env : Env) (sdot_ sdot_LEGACY : SdotFn) (mem : Mem)
    (n : IntPtr) (sx : FloatPtr) (incx : IntPtr) (sy : FloatPtr) (incy : IntPtr)
    : Mem × Option CFloat :=
  if builtinAvailable env accelerate_sdot_threshold then
    ((sdot_ mem n sx incx sy incy).1, none)
  else
    ((sdot_LEGACY mem n sx incx sy incy).1, none)

/-- Threshold version in the `__builtin_available(macos 13.3, *)` guard of `accelerate_ddot`. -/
def accelerate_ddot_threshold : Nat × Nat := (13, 3)

/-- Signature shared by the `ddot_` and `ddot$LEGACY` entry points. -/
abbrev DdotFn : Type := Mem → IntPtr → DoublePtr → IntPtr → DoublePtr → IntPtr → Mem × CDouble

/-- Embedding of `accelerate_ddot`: dispatch on the capability check, then
one call forwarding every argument.  The C body is declared to return
`double` but has no return statement, so the entry point's return value is
discarded and the wrapper itself produces no defined value (`none`). -/
def accelerate_ddot (env : Env) (ddot_ ddot_LEGACY : DdotFn) (mem : Mem)
    (n : IntPtr) (sx : DoublePtr) (incx : IntPtr) (sy : DoublePtr) (incy : IntPtr)
    : Mem × Option CDouble :=
  if builtinAvailable env accelerate_ddot_threshold then
    ((ddot_ mem n sx incx sy incy).1, none)
  else
    ((ddot_LEGACY mem n sx incx sy incy).1, none)

/-- Threshold version in the `__builtin_available(macos 13.3, *)` guard of `accelerate_cdotu`. -/
def accelerate_cdotu_threshold : Nat × Nat := (13, 3)

/-- Signature shared by the `cdotu_` and `cdotu$LEGACY` entry points. -/
abbrev CdotuFn : Type := Mem → CplxPtr → IntPtr → CplxPtr → IntPtr → CplxPtr → IntPtr → Mem

/-- Embedding of `accelerate_cdotu`: dispatch on the capability check, then
one call forwarding every argument. -/
def accelerate_cdotu (env : Env) (cdotu_ cdotu_LEGACY : CdotuFn) (mem : Mem)
    (ret : CplxPtr) (n : IntPtr) (sx : CplxPtr) (incx : IntPtr) (sy : CplxPtr)
    (incy : IntPtr)
    : Mem :=
  if builtinAvailable env accelerate_cdotu_threshold then
    cdotu_ mem ret n sx incx sy incy
  else
    cdotu_LEGACY mem ret n sx incx sy incy

/-- Threshold version in the `__builtin_available(macos 13.3, *)` guard of `accelerate_zdotu`. -/
def accelerate_zdotu_threshold : Nat × Nat := (13, 3)

/-- Signature shared by the `zdotu_` and `zdotu$LEGACY` entry points. -/
abbrev ZdotuFn : Type := Mem → DCplxPtr → IntPtr → DCplxPtr → IntPtr → DCplxPtr → IntPtr → Mem

/-- Embedding of `accelerate_zdotu`: dispatch on the capability check, then
one call forwarding every argument. -/
def accelerate_zdotu (env : Env) (zdotu_ zdotu_LEGACY : ZdotuFn) (mem : Mem)
    (ret : DCplxPtr) (n : IntPtr) (sx : DCplxPtr) (incx : IntPtr) (sy : DCplxPtr)
    (incy : IntPtr)
    : Mem :=
  if builtinAvailable env accelerate_zdotu_threshold then
    zdotu_ mem ret n sx incx sy incy
  else
    zdotu_LEGACY mem ret n sx incx sy incy

/-- Threshold version in the `__builtin_available(macos 13.3, *)` guard of `accelerate_cdotc`. -/
def accelerate_cdotc_threshold : Nat × Nat := (13, 3)

/-- Signature shared by the `cdotc_` and `cdotc$LEGACY` entry points. -/
abbrev CdotcFn : Type := Mem → CplxPtr → IntPtr → CplxPtr → IntPtr → CplxPtr → IntPtr → Mem

/-- Embedding of `accelerate_cdotc`: dispatch on the capability check, then
one call forwarding every argument. -/
def accelerate_cdotc (env : Env) (cdotc_ cdotc_LEGACY : CdotcFn) (mem : Mem)
    (ret : CplxPtr) (n : IntPtr) (sx : CplxPtr) (incx : IntPtr) (sy : CplxPtr)
    (incy : IntPtr)
    : Mem :=
  if builtinAvailable env accelerate_cdotc_threshold then
    cdotc_ mem ret n sx incx sy incy
  else
    cdotc_LEGACY mem ret n sx incx sy incy

/-- Threshold version in the `__builtin_available(macos 13.3, *)` guard of `accelerate_zdotc`. -/
def accelerate_zdotc_threshold : Nat × Nat := (13, 3)

/-- Signature shared by the `zdotc_` and `zdotc$LEGACY` entry points. -/
abbrev ZdotcFn : Type := Mem → DCplxPtr → IntPtr → DCplxPtr → IntPtr → DCplxPtr → IntPtr → Mem

/-- Embedding of `accelerate_zdotc`: dispatch on the capability check, then
one call forwarding every argument. -/
def accelerate_zdotc (env : Env) (zdotc_ zdotc_LEGACY : ZdotcFn) (mem : Mem)
    (ret : DCplxPtr) (n : IntPtr) (sx : DCplxPtr) (incx : IntPtr) (sy : DCplxPtr)
    (incy : IntPtr)
    : Mem :=
  if builtinAvailable env accelerate_zdotc_threshold then
    zdotc_ mem ret n sx incx sy incy
  else
    zdotc_LEGACY mem ret n sx incx sy incy

/-- Threshold version in the `__builtin_available(macos 13.3, *)` guard of `accelerate_sgemm`. -/
def accelerate_sgemm_threshold : Nat × Nat := (13, 3)

/-- Signature shared by the `sgemm_` and `sgemm$LEGACY` entry points. -/
abbrev SgemmFn : Type := Mem → CharPtr → CharPtr → IntPtr → IntPtr → IntPtr → FloatPtr → FloatPtr → IntPtr → FloatPtr → IntPtr → FloatPtr → FloatPtr → IntPtr → Mem

/-- Embedding of `accelerate_sgemm`: dispatch on the capability check, then
one call forwarding every argument. -/
def accelerate_sgemm (env : Env) (sgemm_ sgemm_LEGACY : SgemmFn) (mem : Mem)
    (transa : CharPtr) (transb : CharPtr) (m : IntPtr) (n : IntPtr) (k : IntPtr)
    (alpha : FloatPtr) (a : FloatPtr) (lda : IntPtr) (b : FloatPtr) (ldb : IntPtr)
    (beta : FloatPtr) (c : FloatPtr) (ldc : IntPtr)
    : Mem :=
  if builtinAvailable env accelerate_sgemm_threshold then
    sgemm_ mem transa transb m n k alpha a lda b ldb beta c ldc
  else
    sgemm_LEGACY mem transa transb m n k alpha a lda b ldb beta c ldc

/-- Threshold version in the `__builtin_available(macos 13.3, *)` guard of `accelerate_dgemm`. -/
def accelerate_dgemm_threshold : Nat × Nat := (13, 3)

/-- Signature shared by the `dgemm_` and `dgemm$LEGACY` entry points. -/
abbrev DgemmFn : Type := Mem → CharPtr → CharPtr → IntPtr → IntPtr → IntPtr → DoublePtr → DoublePtr → IntPtr → DoublePtr → IntPtr → DoublePtr → DoublePtr → IntPtr → Mem

/-- Embedding of `accelerate_dgemm`: dispatch on the capability check, then
one call forwarding every argument. -/
def accelerate_dgemm (env : Env) (dgemm_ dgemm_LEGACY : DgemmFn) (mem : Mem)
    (transa : CharPtr) (transb : CharPtr) (m : IntPtr) (n : IntPtr) (k : IntPtr)
    (alpha : DoublePtr) (a : DoublePtr) (lda : IntPtr) (b : DoublePtr) (ldb : IntPtr)
    (beta : DoublePtr) (c : DoublePtr) (ldc : IntPtr)
    : Mem :=
  if builtinAvailable env accelerate_dgemm_threshold then
    dgemm_ mem transa transb m n k alpha a lda b ldb beta c ldc
  else
    dgemm_LEGACY mem transa transb m n k alpha a lda b ldb beta c ldc

/-- Threshold version in the `__builtin_available(macos 13.3, *)` guard of `accelerate_cgemm`. -/
def accelerate_cgemm_threshold : Nat × Nat := (13, 3)

/-- Signature shared by the `cgemm_` and `cgemm$LEGACY` entry points. -/
abbrev CgemmFn : Type := Mem → CharPtr → CharPtr → IntPtr → IntPtr → IntPtr → CplxPtr → CplxPtr → IntPtr → CplxPtr → IntPtr → CplxPtr → CplxPtr → IntPtr → Mem

/-- Embedding of `accelerate_cgemm`: dispatch on the capability check, then
one call forwarding every argument. -/
def accelerate_cgemm (env : Env) (cgemm_ cgemm_LEGACY : CgemmFn) (mem : Mem)
    (transa : CharPtr) (transb : CharPtr) (m : IntPtr) (n : IntPtr) (k : IntPtr)
    (alpha : CplxPtr) (a : CplxPtr) (lda : IntPtr) (b : CplxPtr) (ldb : IntPtr)
    (beta : CplxPtr) (c : CplxPtr) (ldc : IntPtr)
    : Mem :=
  if builtinAvailable env accelerate_cgemm_threshold then
    cgemm_ mem transa transb m n k alpha a lda b ldb beta c ldc
  else
    cgemm_LEGACY mem transa transb m n k alpha a lda b ldb beta c ldc

/-- Threshold version in the `__builtin_available(macos 13.3, *)` guard of `accelerate_zgemm`. -/
def accelerate_zgemm_threshold : Nat × Nat := (13, 3)

/-- Signature shared by the `zgemm_` and `zgemm$LEGACY` entry points. -/
abbrev ZgemmFn : Type := Mem → CharPtr → CharPtr → IntPtr → IntPtr → IntPtr → DCplxPtr → DCplxPtr → IntPtr → DCplxPtr → IntPtr → DCplxPtr → DCplxPtr → IntPtr → Mem

/-- Embedding of `accelerate_zgemm`: dispatch on the capability check, then
one call forwarding every argument. -/
def accelerate_zgemm (env : Env) (zgemm_ zgemm_LEGACY : ZgemmFn) (mem : Mem)
    (transa : CharPtr) (transb : CharPtr) (m : IntPtr) (n : IntPtr) (k : IntPtr)
    (alpha : DCplxPtr) (a : DCplxPtr) (lda : IntPtr) (b : DCplxPtr) (ldb : IntPtr)
    (beta : DCplxPtr) (c : DCplxPtr) (ldc : IntPtr)
    : Mem :=
  if builtinAvailable env accelerate_zgemm_threshold then
    zgemm_ mem transa transb m n k alpha a lda b ldb beta c ldc
  else
    zgemm_LEGACY mem transa transb m n k alpha a lda b ldb beta c ldc

/-- The exported wrapper functions of accelerate_wrapper.c, in source order. -/
def exportedRoutines : List String :=
  ["accelerate_sgeev", "accelerate_dgeev", "accelerate_cgeev",
   "accelerate_zgeev", "accelerate_ssyevd", "accelerate_dsyevd",
   "accelerate_cheevd", "accelerate_zheevd", "accelerate_sgelsd",
   "accelerate_dgelsd", "accelerate_cgelsd", "accelerate_zgelsd",
   "accelerate_dgeqrf", "accelerate_zgeqrf", "accelerate_dorgqr",
   "accelerate_zungqr", "accelerate_sgesv", "accelerate_dgesv",
   "accelerate_cgesv", "accelerate_zgesv", "accelerate_sgetrf",
   "accelerate_dgetrf", "accelerate_cgetrf", "accelerate_zgetrf",
   "accelerate_spotrf", "accelerate_dpotrf", "accelerate_cpotrf",
   "accelerate_zpotrf", "accelerate_sgesdd", "accelerate_dgesdd",
   "accelerate_cgesdd", "accelerate_zgesdd", "accelerate_spotrs",
   "accelerate_dpotrs", "accelerate_cpotrs", "accelerate_zpotrs",
   "accelerate_spotri", "accelerate_dpotri", "accelerate_cpotri",
   "accelerate_zpotri", "accelerate_scopy", "accelerate_dcopy",
   "accelerate_ccopy", "accelerate_zcopy", "accelerate_sdot",
   "accelerate_ddot", "accelerate_cdotu", "accelerate_zdotu",
   "accelerate_cdotc", "accelerate_zdotc", "accelerate_sgemm",
   "accelerate_dgemm", "accelerate_cgemm", "accelerate_zgemm"
  ]

/-- A stand-in `sgeev` entry point that leaves memory unchanged, for the
concrete witnesses below. -/
def sgeevNoop : SgeevFn := fun mem _ _ _ _ _ _ _ _ _ _ _ _ _ _ => mem

/-- C1: for every wrapped routine, a single call evaluates the capability
predicate; when it is true the modern-named entry point is invoked with the
caller's arguments unmodified and in the same order, and when it is false
the legacy-named entry point is invoked with the identical arguments
unmodified and in the same order. -/
theorem dispatch_selects_by_capability_and_forwards_arguments :
    (∀ (env : Env) (fm fl : SgeevFn) (mem : Mem)
        (jobvl : CharPtr) (jobvr : CharPtr) (n : IntPtr) (a : FloatArr) (lda : IntPtr)
        (wr : FloatArr) (wi : FloatArr) (vl : FloatArr) (ldvl : IntPtr) (vr : FloatArr)
        (ldvr : IntPtr) (work : FloatArr) (lwork : IntArr) (info : IntPtr),
      (builtinAvailable env accelerate_sgeev_threshold = true →
          accelerate_sgeev env fm fl mem jobvl jobvr n a lda wr wi vl ldvl vr ldvr work lwork info =
            fm mem jobvl jobvr n a lda wr wi vl ldvl vr ldvr work lwork info) ∧
      (builtinAvailable env accelerate_sgeev_threshold = false →
          accelerate_sgeev env fm fl mem jobvl jobvr n a lda wr wi vl ldvl vr ldvr work lwork info =
            fl mem jobvl jobvr n a lda wr wi vl ldvl vr ldvr work lwork info)) ∧
    (∀ (env : Env) (fm fl : DgeevFn) (mem : Mem)
        (jobvl : CharPtr) (jobvr : CharPtr) (n : IntPtr) (a : DoubleArr) (lda : IntPtr)
        (wr : DoubleArr) (wi : DoubleArr) (vl : DoubleArr) (ldvl : IntPtr) (vr : DoubleArr)
        (ldvr : IntPtr) (work : DoubleArr) (lwork : IntArr) (info : IntPtr),
      (builtinAvailable env accelerate_dgeev_threshold = true →
          accelerate_dgeev env fm fl mem jobvl jobvr n a lda wr wi vl ldvl vr ldvr work lwork info =
            fm mem jobvl jobvr n a lda wr wi vl ldvl vr ldvr work lwork info) ∧
      (builtinAvailable env accelerate_dgeev_threshold = false →
          accelerate_dgeev env fm fl mem jobvl jobvr n a lda wr wi vl ldvl vr ldvr work lwork info =
            fl mem jobvl jobvr n a lda wr wi vl ldvl vr ldvr work lwork info)) ∧
    (∀ (env : Env) (fm fl : CgeevFn) (mem : Mem)
        (jobvl : CharPtr) (jobvr : CharPtr) (n : IntPtr) (a : CplxArr) (lda : IntPtr)
        (w : CplxArr) (vl : CplxArr) (ldvl : IntPtr) (vr : CplxArr) (ldvr : IntPtr)
        (work : CplxArr) (lwork : IntPtr) (rwork : FloatArr) (info : IntPtr),
      (builtinAvailable env accelerate_cgeev_threshold = true →
          accelerate_cgeev env fm fl mem jobvl jobvr n a lda w vl ldvl vr ldvr work lwork rwork info =
            fm mem jobvl jobvr n a lda w vl ldvl vr ldvr work lwork rwork info) ∧
      (builtinAvailable env accelerate_cgeev_threshold = false →
          accelerate_cgeev env fm fl mem jobvl jobvr n a lda w vl ldvl vr ldvr work lwork rwork info =
            fl mem jobvl jobvr n a lda w vl ldvl vr ldvr work lwork rwork info)) ∧
    (∀ (env : Env) (fm fl : ZgeevFn) (mem : Mem)
        (jobvl : CharPtr) (jobvr : CharPtr) (n : IntPtr) (a : DCplxArr) (lda : IntPtr)
        (w : DCplxArr) (vl : DCplxArr) (ldvl : IntPtr) (vr : DCplxArr) (ldvr : IntPtr)
        (work : DCplxArr) (lwork : IntPtr) (rwork : DoubleArr) (info : IntPtr),
      (builtinAvailable env accelerate_zgeev_threshold = true →
          accelerate_zgeev env fm fl mem jobvl jobvr n a lda w vl ldvl vr ldvr work lwork rwork info =
            fm mem jobvl jobvr n a lda w vl ldvl vr ldvr work lwork rwork info) ∧
      (builtinAvailable env accelerate_zgeev_threshold = false →
          accelerate_zgeev env fm fl mem jobvl jobvr n a lda w vl ldvl vr ldvr work lwork rwork info =
            fl mem jobvl jobvr n a lda w vl ldvl vr ldvr work lwork rwork info)) ∧
    (∀ (env : Env) (fm fl : SsyevdFn) (mem : Mem)
        (jobz : CharPtr) (uplo : CharPtr) (n : IntPtr) (a : FloatArr) (lda : IntPtr)
        (w : FloatArr) (work : FloatArr) (lwork : IntPtr) (iwork : IntArr) (liwork : IntPtr)
        (info : IntPtr),
      (builtinAvailable env accelerate_ssyevd_threshold = true →
          accelerate_ssyevd env fm fl mem jobz uplo n a lda w work lwork iwork liwork info =
            fm mem jobz uplo n a lda w work lwork iwork liwork info) ∧
      (builtinAvailable env accelerate_ssyevd_threshold = false →
          accelerate_ssyevd env fm fl mem jobz uplo n a lda w work lwork iwork liwork info =
            fl mem jobz uplo n a lda w work lwork iwork liwork info)) ∧
    (∀ (env : Env) (fm fl : DsyevdFn) (mem : Mem)
        (jobz : CharPtr) (uplo : CharPtr) (n : IntPtr) (a : DoubleArr) (lda : IntPtr)
        (w : DoubleArr) (work : DoubleArr) (lwork : IntPtr) (iwork : IntArr) (liwork : IntPtr)
        (info : IntPtr),
      (builtinAvailable env accelerate_dsyevd_threshold = true →
          accelerate_dsyevd env fm fl mem jobz uplo n a lda w work lwork iwork liwork info =
            fm mem jobz uplo n a lda w work lwork iwork liwork info) ∧
      (builtinAvailable env accelerate_dsyevd_threshold = false →
          accelerate_dsyevd env fm fl mem jobz uplo n a lda w work lwork iwork liwork info =
            fl mem jobz uplo n a lda w work lwork iwork liwork info)) ∧
    (∀ (env : Env) (fm fl : CheevdFn) (mem : Mem)
        (jobz : CharPtr) (uplo : CharPtr) (n : IntPtr) (a : CplxArr) (lda : IntPtr)
        (w : FloatArr) (work : CplxArr) (lwork : IntPtr) (rwork : FloatArr) (lrwork : IntPtr)
        (iwork : IntArr) (liwork : IntPtr) (info : IntPtr),
      (builtinAvailable env accelerate_cheevd_threshold = true →
          accelerate_cheevd env fm fl mem jobz uplo n a lda w work lwork rwork lrwork iwork liwork info =
            fm mem jobz uplo n a lda w work lwork rwork lrwork iwork liwork info) ∧
      (builtinAvailable env accelerate_cheevd_threshold = false →
          accelerate_cheevd env fm fl mem jobz uplo n a lda w work lwork rwork lrwork iwork liwork info =
            fl mem jobz uplo n a lda w work lwork rwork lrwork iwork liwork info)) ∧
    (∀ (env : Env) (fm fl : ZheevdFn) (mem : Mem)
        (jobz : CharPtr) (uplo : CharPtr) (n : IntPtr) (a : DCplxArr) (lda : IntPtr)
        (w : DoubleArr) (work : DCplxArr) (lwork : IntPtr) (rwork : DoubleArr) (lrwork : IntPtr)
        (iwork : IntArr) (liwork : IntPtr) (info : IntPtr),
      (builtinAvailable env accelerate_zheevd_threshold = true →
          accelerate_zheevd env fm fl mem jobz uplo n a lda w work lwork rwork lrwork iwork liwork info =
            fm mem jobz uplo n a lda w work lwork rwork lrwork iwork liwork info) ∧
      (builtinAvailable env accelerate_zheevd_threshold = false →
          accelerate_zheevd env fm fl mem jobz uplo n a lda w work lwork rwork lrwork iwork liwork info =
            fl mem jobz uplo n a lda w work lwork rwork lrwork iwork liwork info)) ∧
    (∀ (env : Env) (fm fl : SgelsdFn) (mem : Mem)
        (m : IntPtr) (n : IntPtr) (nrhs : IntPtr) (a : FloatArr) (lda : IntPtr)
        (b : FloatArr) (ldb : IntPtr) (s : FloatArr) (rcond : FloatPtr) (rank : IntPtr)
        (work : FloatArr) (lwork : IntPtr) (iwork : IntArr) (info : IntPtr),
      (builtinAvailable env accelerate_sgelsd_threshold = true →
          accelerate_sgelsd env fm fl mem m n nrhs a lda b ldb s rcond rank work lwork iwork info =
            fm mem m n nrhs a lda b ldb s rcond rank work lwork iwork info) ∧
      (builtinAvailable env accelerate_sgelsd_threshold = false →
          accelerate_sgelsd env fm fl mem m n nrhs a lda b ldb s rcond rank work lwork iwork info =
            fl mem m n nrhs a lda b ldb s rcond rank work lwork iwork info)) ∧
    (∀ (env : Env) (fm fl : DgelsdFn) (mem : Mem)
        (m : IntPtr) (n : IntPtr) (nrhs : IntPtr) (a : DoubleArr) (lda : IntPtr)
        (b : DoubleArr) (ldb : IntPtr) (s : DoubleArr) (rcond : DoublePtr) (rank : IntPtr)
        (work : DoubleArr) (lwork : IntPtr) (iwork : IntArr) (info : IntPtr),
      (builtinAvailable env accelerate_dgelsd_threshold = true →
          accelerate_dgelsd env fm fl mem m n nrhs a lda b ldb s rcond rank work lwork iwork info =
            fm mem m n nrhs a lda b ldb s rcond rank work lwork iwork info) ∧
      (builtinAvailable env accelerate_dgelsd_threshold = false →
          accelerate_dgelsd env fm fl mem m n nrhs a lda b ldb s rcond rank work lwork iwork info =
            fl mem m n nrhs a lda b ldb s rcond rank work lwork iwork info)) ∧
    (∀ (env : Env) (fm fl : CgelsdFn) (mem : Mem)
        (m : IntPtr) (n : IntPtr) (nrhs : IntPtr) (a : CplxArr) (lda : IntPtr)
        (b : CplxArr) (ldb : IntPtr) (s : FloatArr) (rcond : FloatPtr) (rank : IntPtr)
        (work : CplxArr) (lwork : IntPtr) (rwork : FloatArr) (iwork : IntArr) (info : IntPtr),
      (builtinAvailable env accelerate_cgelsd_threshold = true →
          accelerate_cgelsd env fm fl mem m n nrhs a lda b ldb s rcond rank work lwork rwork iwork info =
            fm mem m n nrhs a lda b ldb s rcond rank work lwork rwork iwork info) ∧
      (builtinAvailable env accelerate_cgelsd_threshold = false →
          accelerate_cgelsd env fm fl mem m n nrhs a lda b ldb s rcond rank work lwork rwork iwork info =
            fl mem m n nrhs a lda b ldb s rcond rank work lwork rwork iwork info)) ∧
    (∀ (env : Env) (fm fl : ZgelsdFn) (mem : Mem)
        (m : IntPtr) (n : IntPtr) (nrhs : IntPtr) (a : FDCplxArr) (lda : IntPtr)
        (b : FDCplxArr) (ldb : IntPtr) (s : DoubleArr) (rcond : DoublePtr) (rank : IntPtr)
        (work : FDCplxArr) (lwork : IntPtr) (rwork : DoubleArr) (iwork : IntArr) (info : IntPtr),
      (builtinAvailable env accelerate_zgelsd_threshold = true →
          accelerate_zgelsd env fm fl mem m n nrhs a lda b ldb s rcond rank work lwork rwork iwork info =
            fm mem m n nrhs a lda b ldb s rcond rank work lwork rwork iwork info) ∧
      (builtinAvailable env accelerate_zgelsd_threshold = false →
          accelerate_zgelsd env fm fl mem m n nrhs a lda b ldb s rcond rank work lwork rwork iwork info =
            fl mem m n nrhs a lda b ldb s rcond rank work lwork rwork iwork info)) ∧
    (∀ (env : Env) (fm fl : DgeqrfFn) (mem : Mem)
        (m : IntPtr) (n : IntPtr) (a : DoubleArr) (lda : IntPtr) (tau : DoubleArr)
        (work : DoubleArr) (lwork : IntPtr) (info : IntPtr),
      (builtinAvailable env accelerate_dgeqrf_threshold = true →
          accelerate_dgeqrf env fm fl mem m n a lda tau work lwork info =
            fm mem m n a lda tau work lwork info) ∧
      (builtinAvailable env accelerate_dgeqrf_threshold = false →
          accelerate_dgeqrf env fm fl mem m n a lda tau work lwork info =
            fl mem m n a lda tau work lwork info)) ∧
    (∀ (env : Env) (fm fl : ZgeqrfFn) (mem : Mem)
        (m : IntPtr) (n : IntPtr) (a : DCplxArr) (lda : IntPtr) (tau : DCplxArr)
        (work : DCplxArr) (lwork : IntPtr) (info : IntPtr),
      (builtinAvailable env accelerate_zgeqrf_threshold = true →
          accelerate_zgeqrf env fm fl mem m n a lda tau work lwork info =
            fm mem m n a lda tau work lwork info) ∧
      (builtinAvailable env accelerate_zgeqrf_threshold = false →
          accelerate_zgeqrf env fm fl mem m n a lda tau work lwork info =
            fl mem m n a lda tau work lwork info)) ∧
    (∀ (env : Env) (fm fl : DorgqrFn) (mem : Mem)
        (m : IntPtr) (n : IntPtr) (k : IntPtr) (a : DoubleArr) (lda : IntPtr)
        (tau : DoubleArr) (work : DoubleArr) (lwork : IntPtr) (info : IntPtr),
      (builtinAvailable env accelerate_dorgqr_threshold = true →
          accelerate_dorgqr env fm fl mem m n k a lda tau work lwork info =
            fm mem m n k a lda tau work lwork info) ∧
      (builtinAvailable env accelerate_dorgqr_threshold = false →
          accelerate_dorgqr env fm fl mem m n k a lda tau work lwork info =
            fl mem m n k a lda tau work lwork info)) ∧
    (∀ (env : Env) (fm fl : ZungqrFn) (mem : Mem)
        (m : IntPtr) (n : IntPtr) (k : IntPtr) (a : DCplxArr) (lda : IntPtr)
        (tau : DCplxArr) (work : DCplxArr) (lwork : IntPtr) (info : IntPtr),
      (builtinAvailable env accelerate_zungqr_threshold = true →
          accelerate_zungqr env fm fl mem m n k a lda tau work lwork info =
            fm mem m n k a lda tau work lwork info) ∧
      (builtinAvailable env accelerate_zungqr_threshold = false →
          accelerate_zungqr env fm fl mem m n k a lda tau work lwork info =
            fl mem m n k a lda tau work lwork info)) ∧
    (∀ (env : Env) (fm fl : SgesvFn) (mem : Mem)
        (n : IntPtr) (nrhs : IntPtr) (a : FloatArr) (lda : IntPtr) (ipiv : IntArr)
        (b : FloatArr) (ldb : IntPtr) (info : IntPtr),
      (builtinAvailable env accelerate_sgesv_threshold = true →
          accelerate_sgesv env fm fl mem n nrhs a lda ipiv b ldb info =
            fm mem n nrhs a lda ipiv b ldb info) ∧
      (builtinAvailable env accelerate_sgesv_threshold = false →
          accelerate_sgesv env fm fl mem n nrhs a lda ipiv b ldb info =
            fl mem n nrhs a lda ipiv b ldb info)) ∧
    (∀ (env : Env) (fm fl : DgesvFn) (mem : Mem)
        (n : IntPtr) (nrhs : IntPtr) (a : DoubleArr) (lda : IntPtr) (ipiv : IntArr)
        (b : DoubleArr) (ldb : IntPtr) (info : IntPtr),
      (builtinAvailable env accelerate_dgesv_threshold = true →
          accelerate_dgesv env fm fl mem n nrhs a lda ipiv b ldb info =
            fm mem n nrhs a lda ipiv b ldb info) ∧
      (builtinAvailable env accelerate_dgesv_threshold = false →
          accelerate_dgesv env fm fl mem n nrhs a lda ipiv b ldb info =
            fl mem n nrhs a lda ipiv b ldb info)) ∧
    (∀ (env : Env) (fm fl : CgesvFn) (mem : Mem)
        (n : IntPtr) (nrhs : IntPtr) (a : CplxArr) (lda : IntPtr) (ipiv : IntArr)
        (b : CplxArr) (ldb : IntPtr) (info : IntPtr),
      (builtinAvailable env accelerate_cgesv_threshold = true →
          accelerate_cgesv env fm fl mem n nrhs a lda ipiv b ldb info =
            fm mem n nrhs a lda ipiv b ldb info) ∧
      (builtinAvailable env accelerate_cgesv_threshold = false →
          accelerate_cgesv env fm fl mem n nrhs a lda ipiv b ldb info =
            fl mem n nrhs a lda ipiv b ldb info)) ∧
    (∀ (env : Env) (fm fl : ZgesvFn) (mem : Mem)
        (n : IntPtr) (nrhs : IntPtr) (a : DCplxArr) (lda : IntPtr) (ipiv : IntArr)
        (b : DCplxArr) (ldb : IntPtr) (info : IntPtr),
      (builtinAvailable env accelerate_zgesv_threshold = true →
          accelerate_zgesv env fm fl mem n nrhs a lda ipiv b ldb info =
            fm mem n nrhs a lda ipiv b ldb info) ∧
      (builtinAvailable env accelerate_zgesv_threshold = false →
          accelerate_zgesv env fm fl mem n nrhs a lda ipiv b ldb info =
            fl mem n nrhs a lda ipiv b ldb info)) ∧
    (∀ (env : Env) (fm fl : SgetrfFn) (mem : Mem)
        (m : IntPtr) (n : IntPtr) (a : FloatArr) (lda : IntPtr) (ipiv : IntArr)
        (info : IntPtr),
      (builtinAvailable env accelerate_sgetrf_threshold = true →
          accelerate_sgetrf env fm fl mem m n a lda ipiv info =
            ((fm mem m n a lda ipiv info).1, none)) ∧
      (builtinAvailable env accelerate_sgetrf_threshold = false →
          accelerate_sgetrf env fm fl mem m n a lda ipiv info =
            ((fl mem m n a lda ipiv info).1, none))) ∧
    (∀ (env : Env) (fm fl : DgetrfFn) (mem : Mem)
        (m : IntPtr) (n : IntPtr) (a : DoubleArr) (lda : IntPtr) (ipiv : IntArr)
        (info : IntPtr),
      (builtinAvailable env accelerate_dgetrf_threshold = true →
          accelerate_dgetrf env fm fl mem m n a lda ipiv info =
            ((fm mem m n a lda ipiv info).1, none)) ∧
      (builtinAvailable env accelerate_dgetrf_threshold = false →
          accelerate_dgetrf env fm fl mem m n a lda ipiv info =
            ((fl mem m n a lda ipiv info).1, none))) ∧
    (∀ (env : Env) (fm fl : CgetrfFn) (mem : Mem)
        (m : IntPtr) (n : IntPtr) (a : CplxArr) (lda : IntPtr) (ipiv : IntArr)
        (info : IntPtr),
      (builtinAvailable env accelerate_cgetrf_threshold = true →
          accelerate_cgetrf env fm fl mem m n a lda ipiv info =
            ((fm mem m n a lda ipiv info).1, none)) ∧
      (builtinAvailable env accelerate_cgetrf_threshold = false →
          accelerate_cgetrf env fm fl mem m n a lda ipiv info =
            ((fl mem m n a lda ipiv info).1, none))) ∧
    (∀ (env : Env) (fm fl : ZgetrfFn) (mem : Mem)
        (m : IntPtr) (n : IntPtr) (a : DCplxArr) (lda : IntPtr) (ipiv : IntArr)
        (info : IntPtr),
      (builtinAvailable env accelerate_zgetrf_threshold = true →
          accelerate_zgetrf env fm fl mem m n a lda ipiv info =
            ((fm mem m n a lda ipiv info).1, none)) ∧
      (builtinAvailable env accelerate_zgetrf_threshold = false →
          accelerate_zgetrf env fm fl mem m n a lda ipiv info =
            ((fl mem m n a lda ipiv info).1, none))) ∧
    (∀ (env : Env) (fm fl : SpotrfFn) (mem : Mem)
        (uplo : CharPtr) (n : IntPtr) (a : FloatArr) (lda : IntPtr) (info : IntPtr),
      (builtinAvailable env accelerate_spotrf_threshold = true →
          accelerate_spotrf env fm fl mem uplo n a lda info =
            fm mem uplo n a lda info) ∧
      (builtinAvailable env accelerate_spotrf_threshold = false →
          accelerate_spotrf env fm fl mem uplo n a lda info =
            fl mem uplo n a lda info)) ∧
    (∀ (env : Env) (fm fl : DpotrfFn) (mem : Mem)
        (uplo : CharPtr) (n : IntPtr) (a : DoubleArr) (lda : IntPtr) (info : IntPtr),
      (builtinAvailable env accelerate_dpotrf_threshold = true →
          accelerate_dpotrf env fm fl mem uplo n a lda info =
            fm mem uplo n a lda info) ∧
      (builtinAvailable env accelerate_dpotrf_threshold = false →
          accelerate_dpotrf env fm fl mem uplo n a lda info =
            fl mem uplo n a lda info)) ∧
    (∀ (env : Env) (fm fl : CpotrfFn) (mem : Mem)
        (uplo : CharPtr) (n : IntPtr) (a : CplxArr) (lda : IntPtr) (info : IntPtr),
      (builtinAvailable env accelerate_cpotrf_threshold = true →
          accelerate_cpotrf env fm fl mem uplo n a lda info =
            fm mem uplo n a lda info) ∧
      (builtinAvailable env accelerate_cpotrf_threshold = false →
          accelerate_cpotrf env fm fl mem uplo n a lda info =
            fl mem uplo n a lda info)) ∧
    (∀ (env : Env) (fm fl : ZpotrfFn) (mem : Mem)
        (uplo : CharPtr) (n : IntPtr) (a : DCplxArr) (lda : IntPtr) (info : IntPtr),
      (builtinAvailable env accelerate_zpotrf_threshold = true →
          accelerate_zpotrf env fm fl mem uplo n a lda info =
            fm mem uplo n a lda info) ∧
      (builtinAvailable env accelerate_zpotrf_threshold = false →
          accelerate_zpotrf env fm fl mem uplo n a lda info =
            fl mem uplo n a lda info)) ∧
    (∀ (env : Env) (fm fl : SgesddFn) (mem : Mem)
        (jobz : CharPtr) (m : IntPtr) (n : IntPtr) (a : FloatArr) (lda : IntPtr)
        (s : FloatArr) (u : FloatArr) (ldu : IntPtr) (vt : FloatArr) (ldvt : IntPtr)
        (work : FloatArr) (lwork : IntPtr) (iwork : IntArr) (info : IntPtr),
      (builtinAvailable env accelerate_sgesdd_threshold = true →
          accelerate_sgesdd env fm fl mem jobz m n a lda s u ldu vt ldvt work lwork iwork info =
            fm mem jobz m n a lda s u ldu vt ldvt work lwork iwork info) ∧
      (builtinAvailable env accelerate_sgesdd_threshold = false →
          accelerate_sgesdd env fm fl mem jobz m n a lda s u ldu vt ldvt work lwork iwork info =
            fl mem jobz m n a lda s u ldu vt ldvt work lwork iwork info)) ∧
    (∀ (env : Env) (fm fl : DgesddFn) (mem : Mem)
        (jobz : CharPtr) (m : IntPtr) (n : IntPtr) (a : DoubleArr) (lda : IntPtr)
        (s : DoubleArr) (u : DoubleArr) (ldu : IntPtr) (vt : DoubleArr) (ldvt : IntPtr)
        (work : DoubleArr) (lwork : IntPtr) (iwork : IntArr) (info : IntPtr),
      (builtinAvailable env accelerate_dgesdd_threshold = true →
          accelerate_dgesdd env fm fl mem jobz m n a lda s u ldu vt ldvt work lwork iwork info =
            fm mem jobz m n a lda s u ldu vt ldvt work lwork iwork info) ∧
      (builtinAvailable env accelerate_dgesdd_threshold = false →
          accelerate_dgesdd env fm fl mem jobz m n a lda s u ldu vt ldvt work lwork iwork info =
            fl mem jobz m n a lda s u ldu vt ldvt work lwork iwork info)) ∧
    (∀ (env : Env) (fm fl : CgesddFn) (mem : Mem)
        (jobz : CharPtr) (m : IntPtr) (n : IntPtr) (a : CplxArr) (lda : IntPtr)
        (s : FloatArr) (u : CplxArr) (ldu : IntPtr) (vt : CplxArr) (ldvt : IntPtr)
        (work : CplxArr) (lwork : IntPtr) (rwork : FloatArr) (iwork : IntArr) (info : IntPtr),
      (builtinAvailable env accelerate_cgesdd_threshold = true →
          accelerate_cgesdd env fm fl mem jobz m n a lda s u ldu vt ldvt work lwork rwork iwork info =
            fm mem jobz m n a lda s u ldu vt ldvt work lwork rwork iwork info) ∧
      (builtinAvailable env accelerate_cgesdd_threshold = false →
          accelerate_cgesdd env fm fl mem jobz m n a lda s u ldu vt ldvt work lwork rwork iwork info =
            fl mem jobz m n a lda s u ldu vt ldvt work lwork rwork iwork info)) ∧
    (∀ (env : Env) (fm fl : ZgesddFn) (mem : Mem)
        (jobz : CharPtr) (m : IntPtr) (n : IntPtr) (a : DCplxArr) (lda : IntPtr)
        (s : DoubleArr) (u : DCplxArr) (ldu : IntPtr) (vt : DCplxArr) (ldvt : IntPtr)
        (work : DCplxArr) (lwork : IntPtr) (rwork : DoubleArr) (iwork : IntArr) (info : IntPtr),
      (builtinAvailable env accelerate_zgesdd_threshold = true →
          accelerate_zgesdd env fm fl mem jobz m n a lda s u ldu vt ldvt work lwork rwork iwork info =
            fm mem jobz m n a lda s u ldu vt ldvt work lwork rwork iwork info) ∧
      (builtinAvailable env accelerate_zgesdd_threshold = false →
          accelerate_zgesdd env fm fl mem jobz m n a lda s u ldu vt ldvt work lwork rwork iwork info =
            fl mem jobz m n a lda s u ldu vt ldvt work lwork rwork iwork info)) ∧
    (∀ (env : Env) (fm fl : SpotrsFn) (mem : Mem)
        (uplo : CharPtr) (n : IntPtr) (nrhs : IntPtr) (a : FloatArr) (lda : IntPtr)
        (b : FloatArr) (ldb : IntPtr) (info : IntPtr),
      (builtinAvailable env accelerate_spotrs_threshold = true →
          accelerate_spotrs env fm fl mem uplo n nrhs a lda b ldb info =
            fm mem uplo n nrhs a lda b ldb info) ∧
      (builtinAvailable env accelerate_spotrs_threshold = false →
          accelerate_spotrs env fm fl mem uplo n nrhs a lda b ldb info =
            fl mem uplo n nrhs a lda b ldb info)) ∧
    (∀ (env : Env) (fm fl : DpotrsFn) (mem : Mem)
        (uplo : CharPtr) (n : IntPtr) (nrhs : IntPtr) (a : DoubleArr) (lda : IntPtr)
        (b : DoubleArr) (ldb : IntPtr) (info : IntPtr),
      (builtinAvailable env accelerate_dpotrs_threshold = true →
          accelerate_dpotrs env fm fl mem uplo n nrhs a lda b ldb info =
            fm mem uplo n nrhs a lda b ldb info) ∧
      (builtinAvailable env accelerate_dpotrs_threshold = false →
          accelerate_dpotrs env fm fl mem uplo n nrhs a lda b ldb info =
            fl mem uplo n nrhs a lda b ldb info)) ∧
    (∀ (env : Env) (fm fl : CpotrsFn) (mem : Mem)
        (uplo : CharPtr) (n : IntPtr) (nrhs : IntPtr) (a : CplxArr) (lda : IntPtr)
        (b : CplxArr) (ldb : IntPtr) (info : IntPtr),
      (builtinAvailable env accelerate_cpotrs_threshold = true →
          accelerate_cpotrs env fm fl mem uplo n nrhs a lda b ldb info =
            fm mem uplo n nrhs a lda b ldb info) ∧
      (builtinAvailable env accelerate_cpotrs_threshold = false →
          accelerate_cpotrs env fm fl mem uplo n nrhs a lda b ldb info =
            fl mem uplo n nrhs a lda b ldb info)) ∧
    (∀ (env : Env) (fm fl : ZpotrsFn) (mem : Mem)
        (uplo : CharPtr) (n : IntPtr) (nrhs : IntPtr) (a : DCplxArr) (lda : IntPtr)
        (b : DCplxArr) (ldb : IntPtr) (info : IntPtr),
      (builtinAvailable env accelerate_zpotrs_threshold = true →
          accelerate_zpotrs env fm fl mem uplo n nrhs a lda b ldb info =
            fm mem uplo n nrhs a lda b ldb info) ∧
      (builtinAvailable env accelerate_zpotrs_threshold = false →
          accelerate_zpotrs env fm fl mem uplo n nrhs a lda b ldb info =
            fl mem uplo n nrhs a lda b ldb info)) ∧
    (∀ (env : Env) (fm fl : SpotriFn) (mem : Mem)
        (uplo : CharPtr) (n : IntPtr) (a : FloatArr) (lda : IntPtr) (info : IntPtr),
      (builtinAvailable env accelerate_spotri_threshold = true →
          accelerate_spotri env fm fl mem uplo n a lda info =
            fm mem uplo n a lda info) ∧
      (builtinAvailable env accelerate_spotri_threshold = false →
          accelerate_spotri env fm fl mem uplo n a lda info =
            fl mem uplo n a lda info)) ∧
    (∀ (env : Env) (fm fl : DpotriFn) (mem : Mem)
        (uplo : CharPtr) (n : IntPtr) (a : DoubleArr) (lda : IntPtr) (info : IntPtr),
      (builtinAvailable env accelerate_dpotri_threshold = true →
          accelerate_dpotri env fm fl mem uplo n a lda info =
            fm mem uplo n a lda info) ∧
      (builtinAvailable env accelerate_dpotri_threshold = false →
          accelerate_dpotri env fm fl mem uplo n a lda info =
            fl mem uplo n a lda info)) ∧
    (∀ (env : Env) (fm fl : CpotriFn) (mem : Mem)
        (uplo : CharPtr) (n : IntPtr) (a : CplxArr) (lda : IntPtr) (info : IntPtr),
      (builtinAvailable env accelerate_cpotri_threshold = true →
          accelerate_cpotri env fm fl mem uplo n a lda info =
            fm mem uplo n a lda info) ∧
      (builtinAvailable env accelerate_cpotri_threshold = false →
          accelerate_cpotri env fm fl mem uplo n a lda info =
            fl mem uplo n a lda info)) ∧
    (∀ (env : Env) (fm fl : ZpotriFn) (mem : Mem)
        (uplo : CharPtr) (n : IntPtr) (a : DCplxArr) (lda : IntPtr) (info : IntPtr),
      (builtinAvailable env accelerate_zpotri_threshold = true →
          accelerate_zpotri env fm fl mem uplo n a lda info =
            fm mem uplo n a lda info) ∧
      (builtinAvailable env accelerate_zpotri_threshold = false →
          accelerate_zpotri env fm fl mem uplo n a lda info =
            fl mem uplo n a lda info)) ∧
    (∀ (env : Env) (fm fl : ScopyFn) (mem : Mem)
        (n : IntPtr) (sx : FloatPtr) (incx : IntPtr) (sy : FloatPtr) (incy : IntPtr),
      (builtinAvailable env accelerate_scopy_threshold = true →
          accelerate_scopy env fm fl mem n sx incx sy incy =
            ((fm mem n sx incx sy incy).1, none)) ∧
      (builtinAvailable env accelerate_scopy_threshold = false →
          accelerate_scopy env fm fl mem n sx incx sy incy =
            ((fl mem n sx incx sy incy).1, none))) ∧
    (∀ (env : Env) (fm fl : DcopyFn) (mem : Mem)
        (n : IntPtr) (sx : DoublePtr) (incx : IntPtr) (sy : DoublePtr) (incy : IntPtr),
      (builtinAvailable env accelerate_dcopy_threshold = true →
          accelerate_dcopy env fm fl mem n sx incx sy incy =
            ((fm mem n sx incx sy incy).1, none)) ∧
      (builtinAvailable env accelerate_dcopy_threshold = false →
          accelerate_dcopy env fm fl mem n sx incx sy incy =
            ((fl mem n sx incx sy incy).1, none))) ∧
    (∀ (env : Env) (fm fl : CcopyFn) (mem : Mem)
        (n : IntPtr) (sx : CplxPtr) (incx : IntPtr) (sy : CplxPtr) (incy : IntPtr),
      (builtinAvailable env accelerate_ccopy_threshold = true →
          accelerate_ccopy env fm fl mem n sx incx sy incy =
            ((fm mem n sx incx sy incy).1, none)) ∧
      (builtinAvailable env accelerate_ccopy_threshold = false →
          accelerate_ccopy env fm fl mem n sx incx sy incy =
            ((fl mem n sx incx sy incy).1, none))) ∧
    (∀ (env : Env) (fm fl : ZcopyFn) (mem : Mem)
        (n : IntPtr) (sx : DCplxPtr) (incx : IntPtr) (sy : DCplxPtr) (incy : IntPtr),
      (builtinAvailable env accelerate_zcopy_threshold = true →
          accelerate_zcopy env fm fl mem n sx incx sy incy =
            ((fm mem n sx incx sy incy).1, none)) ∧
      (builtinAvailable env accelerate_zcopy_threshold = false →
          accelerate_zcopy env fm fl mem n sx incx sy incy =
            ((fl mem n sx incx sy incy).1, none))) ∧
    (∀ (env : Env) (fm fl : SdotFn) (mem : Mem)
        (n : IntPtr) (sx : FloatPtr) (incx : IntPtr) (sy : FloatPtr) (incy : IntPtr),
      (builtinAvailable env accelerate_sdot_threshold = true →
          accelerate_sdot env fm fl mem n sx incx sy incy =
            ((fm mem n sx incx sy incy).1, none)) ∧
      (builtinAvailable env accelerate_sdot_threshold = false →
          accelerate_sdot env fm fl mem n sx incx sy incy =
            ((fl mem n sx incx sy incy).1, none))) ∧
    (∀ (env : Env) (fm fl : DdotFn) (mem : Mem)
        (n : IntPtr) (sx : DoublePtr) (incx : IntPtr) (sy : DoublePtr) (incy : IntPtr),
      (builtinAvailable env accelerate_ddot_threshold = true →
          accelerate_ddot env fm fl mem n sx incx sy incy =
            ((fm mem n sx incx sy incy).1, none)) ∧
      (builtinAvailable env accelerate_ddot_threshold = false →
          accelerate_ddot env fm fl mem n sx incx sy incy =
            ((fl mem n sx incx sy incy).1, none))) ∧
    (∀ (env : Env) (fm fl : CdotuFn) (mem : Mem)
        (ret : CplxPtr) (n : IntPtr) (sx : CplxPtr) (incx : IntPtr) (sy : CplxPtr)
        (incy : IntPtr),
      (builtinAvailable env accelerate_cdotu_threshold = true →
          accelerate_cdotu env fm fl mem ret n sx incx sy incy =
            fm mem ret n sx incx sy incy) ∧
      (builtinAvailable env accelerate_cdotu_threshold = false →
          accelerate_cdotu env fm fl mem ret n sx incx sy incy =
            fl mem ret n sx incx sy incy)) ∧
    (∀ (env : Env) (fm fl : ZdotuFn) (mem : Mem)
        (ret : DCplxPtr) (n : IntPtr) (sx : DCplxPtr) (incx : IntPtr) (sy : DCplxPtr)
        (incy : IntPtr),
      (builtinAvailable env accelerate_zdotu_threshold = true →
          accelerate_zdotu env fm fl mem ret n sx incx sy incy =
            fm mem ret n sx incx sy incy) ∧
      (builtinAvailable env accelerate_zdotu_threshold = false →
          accelerate_zdotu env fm fl mem ret n sx incx sy incy =
            fl mem ret n sx incx sy incy)) ∧
    (∀ (env : Env) (fm fl : CdotcFn) (mem : Mem)
        (ret : CplxPtr) (n : IntPtr) (sx : CplxPtr) (incx : IntPtr) (sy : CplxPtr)
        (incy : IntPtr),
      (builtinAvailable env accelerate_cdotc_threshold = true →
          accelerate_cdotc env fm fl mem ret n sx incx sy incy =
            fm mem ret n sx incx sy incy) ∧
      (builtinAvailable env accelerate_cdotc_threshold = false →
          accelerate_cdotc env fm fl mem ret n sx incx sy incy =
            fl mem ret n sx incx sy incy)) ∧
    (∀ (env : Env) (fm fl : ZdotcFn) (mem : Mem)
        (ret : DCplxPtr) (n : IntPtr) (sx : DCplxPtr) (incx : IntPtr) (sy : DCplxPtr)
        (incy : IntPtr),
      (builtinAvailable env accelerate_zdotc_threshold = true →
          accelerate_zdotc env fm fl mem ret n sx incx sy incy =
            fm mem ret n sx incx sy incy) ∧
      (builtinAvailable env accelerate_zdotc_threshold = false →
          accelerate_zdotc env fm fl mem ret n sx incx sy incy =
            fl mem ret n sx incx sy incy)) ∧
    (∀ (env : Env) (fm fl : SgemmFn) (mem : Mem)
        (transa : CharPtr) (transb : CharPtr) (m : IntPtr) (n : IntPtr) (k : IntPtr)
        (alpha : FloatPtr) (a : FloatPtr) (lda : IntPtr) (b : FloatPtr) (ldb : IntPtr)
        (beta : FloatPtr) (c : FloatPtr) (ldc : IntPtr),
      (builtinAvailable env accelerate_sgemm_threshold = true →
          accelerate_sgemm env fm fl mem transa transb m n k alpha a lda b ldb beta c ldc =
            fm mem transa transb m n k alpha a lda b ldb beta c ldc) ∧
      (builtinAvailable env accelerate_sgemm_threshold = false →
          accelerate_sgemm env fm fl mem transa transb m n k alpha a lda b ldb beta c ldc =
            fl mem transa transb m n k alpha a lda b ldb beta c ldc)) ∧
    (∀ (env : Env) (fm fl : DgemmFn) (mem : Mem)
        (transa : CharPtr) (transb : CharPtr) (m : IntPtr) (n : IntPtr) (k : IntPtr)
        (alpha : DoublePtr) (a : DoublePtr) (lda : IntPtr) (b : DoublePtr) (ldb : IntPtr)
        (beta : DoublePtr) (c : DoublePtr) (ldc : IntPtr),
      (builtinAvailable env accelerate_dgemm_threshold = true →
          accelerate_dgemm env fm fl mem transa transb m n k alpha a lda b ldb beta c ldc =
            fm mem transa transb m n k alpha a lda b ldb beta c ldc) ∧
      (builtinAvailable env accelerate_dgemm_threshold = false →
          accelerate_dgemm env fm fl mem transa transb m n k alpha a lda b ldb beta c ldc =
            fl mem transa transb m n k alpha a lda b ldb beta c ldc)) ∧
    (∀ (env : Env) (fm fl : CgemmFn) (mem : Mem)
        (transa : CharPtr) (transb : CharPtr) (m : IntPtr) (n : IntPtr) (k : IntPtr)
        (alpha : CplxPtr) (a : CplxPtr) (lda : IntPtr) (b : CplxPtr) (ldb : IntPtr)
        (beta : CplxPtr) (c : CplxPtr) (ldc : IntPtr),
      (builtinAvailable env accelerate_cgemm_threshold = true →
          accelerate_cgemm env fm fl mem transa transb m n k alpha a lda b ldb beta c ldc =
            fm mem transa transb m n k alpha a lda b ldb beta c ldc) ∧
      (builtinAvailable env accelerate_cgemm_threshold = false →
          accelerate_cgemm env fm fl mem transa transb m n k alpha a lda b ldb beta c ldc =
            fl mem transa transb m n k alpha a lda b ldb beta c ldc)) ∧
    (∀ (env : Env) (fm fl : ZgemmFn) (mem : Mem)
        (transa : CharPtr) (transb : CharPtr) (m : IntPtr) (n : IntPtr) (k : IntPtr)
        (alpha : DCplxPtr) (a : DCplxPtr) (lda : IntPtr) (b : DCplxPtr) (ldb : IntPtr)
        (beta : DCplxPtr) (c : DCplxPtr) (ldc : IntPtr),
      (builtinAvailable env accelerate_zgemm_threshold = true →
          accelerate_zgemm env fm fl mem transa transb m n k alpha a lda b ldb beta c ldc =
            fm mem transa transb m n k alpha a lda b ldb beta c ldc) ∧
      (builtinAvailable env accelerate_zgemm_threshold = false →
          accelerate_zgemm env fm fl mem transa transb m n k alpha a lda b ldb beta c ldc =
            fl mem transa transb m n k alpha a lda b ldb beta c ldc)) :=
  ⟨
    fun env fm fl mem jobvl jobvr n a lda wr wi vl ldvl vr ldvr work lwork info =>
      ⟨fun h => by simp [accelerate_sgeev, h], fun h => by simp [accelerate_sgeev, h]⟩,
    fun env fm fl mem jobvl jobvr n a lda wr wi vl ldvl vr ldvr work lwork info =>
      ⟨fun h => by simp [accelerate_dgeev, h], fun h => by simp [accelerate_dgeev, h]⟩,
    fun env fm fl mem jobvl jobvr n a lda w vl ldvl vr ldvr work lwork rwork info =>
      ⟨fun h => by simp [accelerate_cgeev, h], fun h => by simp [accelerate_cgeev, h]⟩,
    fun env fm fl mem jobvl jobvr n a lda w vl ldvl vr ldvr work lwork rwork info =>
      ⟨fun h => by simp [accelerate_zgeev, h], fun h => by simp [accelerate_zgeev, h]⟩,
    fun env fm fl mem jobz uplo n a lda w work lwork iwork liwork info =>
      ⟨fun h => by simp [accelerate_ssyevd, h], fun h => by simp [accelerate_ssyevd, h]⟩,
    fun env fm fl mem jobz uplo n a lda w work lwork iwork liwork info =>
      ⟨fun h => by simp [accelerate_dsyevd, h], fun h => by simp [accelerate_dsyevd, h]⟩,
    fun env fm fl mem jobz uplo n a lda w work lwork rwork lrwork iwork liwork info =>
      ⟨fun h => by simp [accelerate_cheevd, h], fun h => by simp [accelerate_cheevd, h]⟩,
    fun env fm fl mem jobz uplo n a lda w work lwork rwork lrwork iwork liwork info =>
      ⟨fun h => by simp [accelerate_zheevd, h], fun h => by simp [accelerate_zheevd, h]⟩,
    fun env fm fl mem m n nrhs a lda b ldb s rcond rank work lwork iwork info =>
      ⟨fun h => by simp [accelerate_sgelsd, h], fun h => by simp [accelerate_sgelsd, h]⟩,
    fun env fm fl mem m n nrhs a lda b ldb s rcond rank work lwork iwork info =>
      ⟨fun h => by simp [accelerate_dgelsd, h], fun h => by simp [accelerate_dgelsd, h]⟩,
    fun env fm fl mem m n nrhs a lda b ldb s rcond rank work lwork rwork iwork info =>
      ⟨fun h => by simp [accelerate_cgelsd, h], fun h => by simp [accelerate_cgelsd, h]⟩,
    fun env fm fl mem m n nrhs a lda b ldb s rcond rank work lwork rwork iwork info =>
      ⟨fun h => by simp [accelerate_zgelsd, h], fun h => by simp [accelerate_zgelsd, h]⟩,
    fun env fm fl mem m n a lda tau work lwork info =>
      ⟨fun h => by simp [accelerate_dgeqrf, h], fun h => by simp [accelerate_dgeqrf, h]⟩,
    fun env fm fl mem m n a lda tau work lwork info =>
      ⟨fun h => by simp [accelerate_zgeqrf, h], fun h => by simp [accelerate_zgeqrf, h]⟩,
    fun env fm fl mem m n k a lda tau work lwork info =>
      ⟨fun h => by simp [accelerate_dorgqr, h], fun h => by simp [accelerate_dorgqr, h]⟩,
    fun env fm fl mem m n k a lda tau work lwork info =>
      ⟨fun h => by simp [accelerate_zungqr, h], fun h => by simp [accelerate_zungqr, h]⟩,
    fun env fm fl mem n nrhs a lda ipiv b ldb info =>
      ⟨fun h => by simp [accelerate_sgesv, h], fun h => by simp [accelerate_sgesv, h]⟩,
    fun env fm fl mem n nrhs a lda ipiv b ldb info =>
      ⟨fun h => by simp [accelerate_dgesv, h], fun h => by simp [accelerate_dgesv, h]⟩,
    fun env fm fl mem n nrhs a lda ipiv b ldb info =>
      ⟨fun h => by simp [accelerate_cgesv, h], fun h => by simp [accelerate_cgesv, h]⟩,
    fun env fm fl mem n nrhs a lda ipiv b ldb info =>
      ⟨fun h => by simp [accelerate_zgesv, h], fun h => by simp [accelerate_zgesv, h]⟩,
    fun env fm fl mem m n a lda ipiv info =>
      ⟨fun h => by simp [accelerate_sgetrf, h], fun h => by simp [accelerate_sgetrf, h]⟩,
    fun env fm fl mem m n a lda ipiv info =>
      ⟨fun h => by simp [accelerate_dgetrf, h], fun h => by simp [accelerate_dgetrf, h]⟩,
    fun env fm fl mem m n a lda ipiv info =>
      ⟨fun h => by simp [accelerate_cgetrf, h], fun h => by simp [accelerate_cgetrf, h]⟩,
    fun env fm fl mem m n a lda ipiv info =>
      ⟨fun h => by simp [accelerate_zgetrf, h], fun h => by simp [accelerate_zgetrf, h]⟩,
    fun env fm fl mem uplo n a lda info =>
      ⟨fun h => by simp [accelerate_spotrf, h], fun h => by simp [accelerate_spotrf, h]⟩,
    fun env fm fl mem uplo n a lda info =>
      ⟨fun h => by simp [accelerate_dpotrf, h], fun h => by simp [accelerate_dpotrf, h]⟩,
    fun env fm fl mem uplo n a lda info =>
      ⟨fun h => by simp [accelerate_cpotrf, h], fun h => by simp [accelerate_cpotrf, h]⟩,
    fun env fm fl mem uplo n a lda info =>
      ⟨fun h => by simp [accelerate_zpotrf, h], fun h => by simp [accelerate_zpotrf, h]⟩,
    fun env fm fl mem jobz m n a lda s u ldu vt ldvt work lwork iwork info =>
      ⟨fun h => by simp [accelerate_sgesdd, h], fun h => by simp [accelerate_sgesdd, h]⟩,
    fun env fm fl mem jobz m n a lda s u ldu vt ldvt work lwork iwork info =>
      ⟨fun h => by simp [accelerate_dgesdd, h], fun h => by simp [accelerate_dgesdd, h]⟩,
    fun env fm fl mem jobz m n a lda s u ldu vt ldvt work lwork rwork iwork info =>
      ⟨fun h => by simp [accelerate_cgesdd, h], fun h => by simp [accelerate_cgesdd, h]⟩,
    fun env fm fl mem jobz m n a lda s u ldu vt ldvt work lwork rwork iwork info =>
      ⟨fun h => by simp [accelerate_zgesdd, h], fun h => by simp [accelerate_zgesdd, h]⟩,
    fun env fm fl mem uplo n nrhs a lda b ldb info =>
      ⟨fun h => by simp [accelerate_spotrs, h], fun h => by simp [accelerate_spotrs, h]⟩,
    fun env fm fl mem uplo n nrhs a lda b ldb info =>
      ⟨fun h => by simp [accelerate_dpotrs, h], fun h => by simp [accelerate_dpotrs, h]⟩,
    fun env fm fl mem uplo n nrhs a lda b ldb info =>
      ⟨fun h => by simp [accelerate_cpotrs, h], fun h => by simp [accelerate_cpotrs, h]⟩,
    fun env fm fl mem uplo n nrhs a lda b ldb info =>
      ⟨fun h => by simp [accelerate_zpotrs, h], fun h => by simp [accelerate_zpotrs, h]⟩,
    fun env fm fl mem uplo n a lda info =>
      ⟨fun h => by simp [accelerate_spotri, h], fun h => by simp [accelerate_spotri, h]⟩,
    fun env fm fl mem uplo n a lda info =>
      ⟨fun h => by simp [accelerate_dpotri, h], fun h => by simp [accelerate_dpotri, h]⟩,
    fun env fm fl mem uplo n a lda info =>
      ⟨fun h => by simp [accelerate_cpotri, h], fun h => by simp [accelerate_cpotri, h]⟩,
    fun env fm fl mem uplo n a lda info =>
      ⟨fun h => by simp [accelerate_zpotri, h], fun h => by simp [accelerate_zpotri, h]⟩,
    fun env fm fl mem n sx incx sy incy =>
      ⟨fun h => by simp [accelerate_scopy, h], fun h => by simp [accelerate_scopy, h]⟩,
    fun env fm fl mem n sx incx sy incy =>
      ⟨fun h => by simp [accelerate_dcopy, h], fun h => by simp [accelerate_dcopy, h]⟩,
    fun env fm fl mem n sx incx sy incy =>
      ⟨fun h => by simp [accelerate_ccopy, h], fun h => by simp [accelerate_ccopy, h]⟩,
    fun env fm fl mem n sx incx sy incy =>
      ⟨fun h => by simp [accelerate_zcopy, h], fun h => by simp [accelerate_zcopy, h]⟩,
    fun env fm fl mem n sx incx sy incy =>
      ⟨fun h => by simp [accelerate_sdot, h], fun h => by simp [accelerate_sdot, h]⟩,
    fun env fm fl mem n sx incx sy incy =>
      ⟨fun h => by simp [accelerate_ddot, h], fun h => by simp [accelerate_ddot, h]⟩,
    fun env fm fl mem ret n sx incx sy incy =>
      ⟨fun h => by simp [accelerate_cdotu, h], fun h => by simp [accelerate_cdotu, h]⟩,
    fun env fm fl mem ret n sx incx sy incy =>
      ⟨fun h => by simp [accelerate_zdotu, h], fun h => by simp [accelerate_zdotu, h]⟩,
    fun env fm fl mem ret n sx incx sy incy =>
      ⟨fun h => by simp [accelerate_cdotc, h], fun h => by simp [accelerate_cdotc, h]⟩,
    fun env fm fl mem ret n sx incx sy incy =>
      ⟨fun h => by simp [accelerate_zdotc, h], fun h => by simp [accelerate_zdotc, h]⟩,
    fun env fm fl mem transa transb m n k alpha a lda b ldb beta c ldc =>
      ⟨fun h => by simp [accelerate_sgemm, h], fun h => by simp [accelerate_sgemm, h]⟩,
    fun env fm fl mem transa transb m n k alpha a lda b ldb beta c ldc =>
      ⟨fun h => by simp [accelerate_dgemm, h], fun h => by simp [accelerate_dgemm, h]⟩,
    fun env fm fl mem transa transb m n k alpha a lda b ldb beta c ldc =>
      ⟨fun h => by simp [accelerate_cgemm, h], fun h => by simp [accelerate_cgemm, h]⟩,
    fun env fm fl mem transa transb m n k alpha a lda b ldb beta c ldc =>
      ⟨fun h => by simp [accelerate_zgemm, h], fun h => by simp [accelerate_zgemm, h]⟩
  ⟩

/-- Witness for C1: on host version 14.0 the capability predicate holds and
`accelerate_sgeev` resolves to its modern entry point. -/
theorem dispatch_selects_modern_witness :
    builtinAvailable ⟨14, 0⟩ accelerate_sgeev_threshold = true ∧
    accelerate_sgeev ⟨14, 0⟩ sgeevNoop sgeevNoop mem0 ⟨0⟩ ⟨0⟩ ⟨0⟩ ⟨0⟩ ⟨0⟩ ⟨0⟩ ⟨0⟩ ⟨0⟩ ⟨0⟩ ⟨0⟩ ⟨0⟩ ⟨0⟩ ⟨0⟩ ⟨0⟩ =
      sgeevNoop mem0 ⟨0⟩ ⟨0⟩ ⟨0⟩ ⟨0⟩ ⟨0⟩ ⟨0⟩ ⟨0⟩ ⟨0⟩ ⟨0⟩ ⟨0⟩ ⟨0⟩ ⟨0⟩ ⟨0⟩ ⟨0⟩ :=
  ⟨by decide,
    (dispatch_selects_by_capability_and_forwards_arguments.1 ⟨14, 0⟩ sgeevNoop sgeevNoop mem0
        ⟨0⟩ ⟨0⟩ ⟨0⟩ ⟨0⟩ ⟨0⟩ ⟨0⟩ ⟨0⟩ ⟨0⟩ ⟨0⟩ ⟨0⟩ ⟨0⟩ ⟨0⟩ ⟨0⟩ ⟨0⟩).1 (by decide)⟩

/-- C2 (refuted by the code): `accelerate_sdot` is declared to return `float`
but its body contains no return statement, so the value returned by the
selected entry point is discarded and the caller receives no defined value.
Here the modern entry point is a stand-in returning the sentinel 42, the
capability predicate holds, yet the wrapper's return value is `none` rather
than the sentinel.  The same shape refutes the claim for `ddot`, the
`getrf` family and the `copy` family. -/
theorem sdot_return_value_dropped :
    (accelerate_sdot ⟨14, 0⟩ (fun m0 _ _ _ _ _ => (m0, CFloat.mk 42))
        (fun m0 _ _ _ _ _ => (m0, CFloat.mk 7)) mem0 ⟨0⟩ ⟨0⟩ ⟨0⟩ ⟨0⟩ ⟨0⟩).2 = none ∧
    builtinAvailable ⟨14, 0⟩ accelerate_sdot_threshold = true :=
  ⟨rfl, by decide⟩

/-- C3: for any single call to any wrapped routine, exactly one of the two
entry points executes.  With stand-in entry points that count their
invocations in cells 0 and 1, one call adds exactly one to the combined
count (never zero, never two), and the count of at least one side is
untouched (never both). -/
theorem exactly_one_entry_point_executes_per_call :
    (∀ (env : Env) (mem : Mem)
        (jobvl : CharPtr) (jobvr : CharPtr) (n : IntPtr) (a : FloatArr) (lda : IntPtr)
        (wr : FloatArr) (wi : FloatArr) (vl : FloatArr) (ldvl : IntPtr) (vr : FloatArr)
        (ldvr : IntPtr) (work : FloatArr) (lwork : IntArr) (info : IntPtr),
      (accelerate_sgeev env (fun m0 _ _ _ _ _ _ _ _ _ _ _ _ _ _ => bumpCell 0 m0) (fun m0 _ _ _ _ _ _ _ _ _ _ _ _ _ _ => bumpCell 1 m0) mem jobvl jobvr n a lda wr wi vl ldvl vr ldvr work lwork info) 0 +
        (accelerate_sgeev env (fun m0 _ _ _ _ _ _ _ _ _ _ _ _ _ _ => bumpCell 0 m0) (fun m0 _ _ _ _ _ _ _ _ _ _ _ _ _ _ => bumpCell 1 m0) mem jobvl jobvr n a lda wr wi vl ldvl vr ldvr work lwork info) 1 =
        mem 0 + mem 1 + 1 ∧
      ((accelerate_sgeev env (fun m0 _ _ _ _ _ _ _ _ _ _ _ _ _ _ => bumpCell 0 m0) (fun m0 _ _ _ _ _ _ _ _ _ _ _ _ _ _ => bumpCell 1 m0) mem jobvl jobvr n a lda wr wi vl ldvl vr ldvr work lwork info) 0 = mem 0 ∨
        (accelerate_sgeev env (fun m0 _ _ _ _ _ _ _ _ _ _ _ _ _ _ => bumpCell 0 m0) (fun m0 _ _ _ _ _ _ _ _ _ _ _ _ _ _ => bumpCell 1 m0) mem jobvl jobvr n a lda wr wi vl ldvl vr ldvr work lwork info) 1 = mem 1)) ∧
    (∀ (env : Env) (mem : Mem)
        (jobvl : CharPtr) (jobvr : CharPtr) (n : IntPtr) (a : DoubleArr) (lda : IntPtr)
        (wr : DoubleArr) (wi : DoubleArr) (vl : DoubleArr) (ldvl : IntPtr) (vr : DoubleArr)
        (ldvr : IntPtr) (work : DoubleArr) (lwork : IntArr) (info : IntPtr),
      (accelerate_dgeev env (fun m0 _ _ _ _ _ _ _ _ _ _ _ _ _ _ => bumpCell 0 m0) (fun m0 _ _ _ _ _ _ _ _ _ _ _ _ _ _ => bumpCell 1 m0) mem jobvl jobvr n a lda wr wi vl ldvl vr ldvr work lwork info) 0 +
        (accelerate_dgeev env (fun m0 _ _ _ _ _ _ _ _ _ _ _ _ _ _ => bumpCell 0 m0) (fun m0 _ _ _ _ _ _ _ _ _ _ _ _ _ _ => bumpCell 1 m0) mem jobvl jobvr n a lda wr wi vl ldvl vr ldvr work lwork info) 1 =
        mem 0 + mem 1 + 1 ∧
      ((accelerate_dgeev env (fun m0 _ _ _ _ _ _ _ _ _ _ _ _ _ _ => bumpCell 0 m0) (fun m0 _ _ _ _ _ _ _ _ _ _ _ _ _ _ => bumpCell 1 m0) mem jobvl jobvr n a lda wr wi vl ldvl vr ldvr work lwork info) 0 = mem 0 ∨
        (accelerate_dgeev env (fun m0 _ _ _ _ _ _ _ _ _ _ _ _ _ _ => bumpCell 0 m0) (fun m0 _ _ _ _ _ _ _ _ _ _ _ _ _ _ => bumpCell 1 m0) mem jobvl jobvr n a lda wr wi vl ldvl vr ldvr work lwork info) 1 = mem 1)) ∧
    (∀ (env : Env) (mem : Mem)
        (jobvl : CharPtr) (jobvr : CharPtr) (n : IntPtr) (a : CplxArr) (lda : IntPtr)
        (w : CplxArr) (vl : CplxArr) (ldvl : IntPtr) (vr : CplxArr) (ldvr : IntPtr)
        (work : CplxArr) (lwork : IntPtr) (rwork : FloatArr) (info : IntPtr),
      (accelerate_cgeev env (fun m0 _ _ _ _ _ _ _ _ _ _ _ _ _ _ => bumpCell 0 m0) (fun m0 _ _ _ _ _ _ _ _ _ _ _ _ _ _ => bumpCell 1 m0) mem jobvl jobvr n a lda w vl ldvl vr ldvr work lwork rwork info) 0 +
        (accelerate_cgeev env (fun m0 _ _ _ _ _ _ _ _ _ _ _ _ _ _ => bumpCell 0 m0) (fun m0 _ _ _ _ _ _ _ _ _ _ _ _ _ _ => bumpCell 1 m0) mem jobvl jobvr n a lda w vl ldvl vr ldvr work lwork rwork info) 1 =
        mem 0 + mem 1 + 1 ∧
      ((accelerate_cgeev env (fun m0 _ _ _ _ _ _ _ _ _ _ _ _ _ _ => bumpCell 0 m0) (fun m0 _ _ _ _ _ _ _ _ _ _ _ _ _ _ => bumpCell 1 m0) mem jobvl jobvr n a lda w vl ldvl vr ldvr work lwork rwork info) 0 = mem 0 ∨
        (accelerate_cgeev env (fun m0 _ _ _ _ _ _ _ _ _ _ _ _ _ _ => bumpCell 0 m0) (fun m0 _ _ _ _ _ _ _ _ _ _ _ _ _ _ => bumpCell 1 m0) mem jobvl jobvr n a lda w vl ldvl vr ldvr work lwork rwork info) 1 = mem 1)) ∧
    (∀ (env : Env) (mem : Mem)
        (jobvl : CharPtr) (jobvr : CharPtr) (n : IntPtr) (a : DCplxArr) (lda : IntPtr)
        (w : DCplxArr) (vl : DCplxArr) (ldvl : IntPtr) (vr : DCplxArr) (ldvr : IntPtr)
        (work : DCplxArr) (lwork : IntPtr) (rwork : DoubleArr) (info : IntPtr),
      (accelerate_zgeev env (fun m0 _ _ _ _ _ _ _ _ _ _ _ _ _ _ => bumpCell 0 m0) (fun m0 _ _ _ _ _ _ _ _ _ _ _ _ _ _ => bumpCell 1 m0) mem jobvl jobvr n a lda w vl ldvl vr ldvr work lwork rwork info) 0 +
        (accelerate_zgeev env (fun m0 _ _ _ _ _ _ _ _ _ _ _ _ _ _ => bumpCell 0 m0) (fun m0 _ _ _ _ _ _ _ _ _ _ _ _ _ _ => bumpCell 1 m0) mem jobvl jobvr n a lda w vl ldvl vr ldvr work lwork rwork info) 1 =
        mem 0 + mem 1 + 1 ∧
      ((accelerate_zgeev env (fun m0 _ _ _ _ _ _ _ _ _ _ _ _ _ _ => bumpCell 0 m0) (fun m0 _ _ _ _ _ _ _ _ _ _ _ _ _ _ => bumpCell 1 m0) mem jobvl jobvr n a lda w vl ldvl vr ldvr work lwork rwork info) 0 = mem 0 ∨
        (accelerate_zgeev env (fun m0 _ _ _ _ _ _ _ _ _ _ _ _ _ _ => bumpCell 0 m0) (fun m0 _ _ _ _ _ _ _ _ _ _ _ _ _ _ => bumpCell 1 m0) mem jobvl jobvr n a lda w vl ldvl vr ldvr work lwork rwork info) 1 = mem 1)) ∧
    (∀ (env : Env) (mem : Mem)
        (jobz : CharPtr) (uplo : CharPtr) (n : IntPtr) (a : FloatArr) (lda : IntPtr)
        (w : FloatArr) (work : FloatArr) (lwork : IntPtr) (iwork : IntArr) (liwork : IntPtr)
        (info : IntPtr),
      (accelerate_ssyevd env (fun m0 _ _ _ _ _ _ _ _ _ _ _ => bumpCell 0 m0) (fun m0 _ _ _ _ _ _ _ _ _ _ _ => bumpCell 1 m0) mem jobz uplo n a lda w work lwork iwork liwork info) 0 +
        (accelerate_ssyevd env (fun m0 _ _ _ _ _ _ _ _ _ _ _ => bumpCell 0 m0) (fun m0 _ _ _ _ _ _ _ _ _ _ _ => bumpCell 1 m0) mem jobz uplo n a lda w work lwork iwork liwork info) 1 =
        mem 0 + mem 1 + 1 ∧
      ((accelerate_ssyevd env (fun m0 _ _ _ _ _ _ _ _ _ _ _ => bumpCell 0 m0) (fun m0 _ _ _ _ _ _ _ _ _ _ _ => bumpCell 1 m0) mem jobz uplo n a lda w work lwork iwork liwork info) 0 = mem 0 ∨
        (accelerate_ssyevd env (fun m0 _ _ _ _ _ _ _ _ _ _ _ => bumpCell 0 m0) (fun m0 _ _ _ _ _ _ _ _ _ _ _ => bumpCell 1 m0) mem jobz uplo n a lda w work lwork iwork liwork info) 1 = mem 1)) ∧
    (∀ (env : Env) (mem : Mem)
        (jobz : CharPtr) (uplo : CharPtr) (n : IntPtr) (a : DoubleArr) (lda : IntPtr)
        (w : DoubleArr) (work : DoubleArr) (lwork : IntPtr) (iwork : IntArr) (liwork : IntPtr)
        (info : IntPtr),
      (accelerate_dsyevd env (fun m0 _ _ _ _ _ _ _ _ _ _ _ => bumpCell 0 m0) (fun m0 _ _ _ _ _ _ _ _ _ _ _ => bumpCell 1 m0) mem jobz uplo n a lda w work lwork iwork liwork info) 0 +
        (accelerate_dsyevd env (fun m0 _ _ _ _ _ _ _ _ _ _ _ => bumpCell 0 m0) (fun m0 _ _ _ _ _ _ _ _ _ _ _ => bumpCell 1 m0) mem jobz uplo n a lda w work lwork iwork liwork info) 1 =
        mem 0 + mem 1 + 1 ∧
      ((accelerate_dsyevd env (fun m0 _ _ _ _ _ _ _ _ _ _ _ => bumpCell 0 m0) (fun m0 _ _ _ _ _ _ _ _ _ _ _ => bumpCell 1 m0) mem jobz uplo n a lda w work lwork iwork liwork info) 0 = mem 0 ∨
        (accelerate_dsyevd env (fun m0 _ _ _ _ _ _ _ _ _ _ _ => bumpCell 0 m0) (fun m0 _ _ _ _ _ _ _ _ _ _ _ => bumpCell 1 m0) mem jobz uplo n a lda w work lwork iwork liwork info) 1 = mem 1)) ∧
    (∀ (env : Env) (mem : Mem)
        (jobz : CharPtr) (uplo : CharPtr) (n : IntPtr) (a : CplxArr) (lda : IntPtr)
        (w : FloatArr) (work : CplxArr) (lwork : IntPtr) (rwork : FloatArr) (lrwork : IntPtr)
        (iwork : IntArr) (liwork : IntPtr) (info : IntPtr),
      (accelerate_cheevd env (fun m0 _ _ _ _ _ _ _ _ _ _ _ _ _ => bumpCell 0 m0) (fun m0 _ _ _ _ _ _ _ _ _ _ _ _ _ => bumpCell 1 m0) mem jobz uplo n a lda w work lwork rwork lrwork iwork liwork info) 0 +
        (accelerate_cheevd env (fun m0 _ _ _ _ _ _ _ _ _ _ _ _ _ => bumpCell 0 m0) (fun m0 _ _ _ _ _ _ _ _ _ _ _ _ _ => bumpCell 1 m0) mem jobz uplo n a lda w work lwork rwork lrwork iwork liwork info) 1 =
        mem 0 + mem 1 + 1 ∧
      ((accelerate_cheevd env (fun m0 _ _ _ _ _ _ _ _ _ _ _ _ _ => bumpCell 0 m0) (fun m0 _ _ _ _ _ _ _ _ _ _ _ _ _ => bumpCell 1 m0) mem jobz uplo n a lda w work lwork rwork lrwork iwork liwork info) 0 = mem 0 ∨
        (accelerate_cheevd env (fun m0 _ _ _ _ _ _ _ _ _ _ _ _ _ => bumpCell 0 m0) (fun m0 _ _ _ _ _ _ _ _ _ _ _ _ _ => bumpCell 1 m0) mem jobz uplo n a lda w work lwork rwork lrwork iwork liwork info) 1 = mem 1)) ∧
    (∀ (env : Env) (mem : Mem)
        (jobz : CharPtr) (uplo : CharPtr) (n : IntPtr) (a : DCplxArr) (lda : IntPtr)
        (w : DoubleArr) (work : DCplxArr) (lwork : IntPtr) (rwork : DoubleArr) (lrwork : IntPtr)
        (iwork : IntArr) (liwork : IntPtr) (info : IntPtr),
      (accelerate_zheevd env (fun m0 _ _ _ _ _ _ _ _ _ _ _ _ _ => bumpCell 0 m0) (fun m0 _ _ _ _ _ _ _ _ _ _ _ _ _ => bumpCell 1 m0) mem jobz uplo n a lda w work lwork rwork lrwork iwork liwork info) 0 +
        (accelerate_zheevd env (fun m0 _ _ _ _ _ _ _ _ _ _ _ _ _ => bumpCell 0 m0) (fun m0 _ _ _ _ _ _ _ _ _ _ _ _ _ => bumpCell 1 m0) mem jobz uplo n a lda w work lwork rwork lrwork iwork liwork info) 1 =
        mem 0 + mem 1 + 1 ∧
      ((accelerate_zheevd env (fun m0 _ _ _ _ _ _ _ _ _ _ _ _ _ => bumpCell 0 m0) (fun m0 _ _ _ _ _ _ _ _ _ _ _ _ _ => bumpCell 1 m0) mem jobz uplo n a lda w work lwork rwork lrwork iwork liwork info) 0 = mem 0 ∨
        (accelerate_zheevd env (fun m0 _ _ _ _ _ _ _ _ _ _ _ _ _ => bumpCell 0 m0) (fun m0 _ _ _ _ _ _ _ _ _ _ _ _ _ => bumpCell 1 m0) mem jobz uplo n a lda w work lwork rwork lrwork iwork liwork info) 1 = mem 1)) ∧
    (∀ (env : Env) (mem : Mem)
        (m : IntPtr) (n : IntPtr) (nrhs : IntPtr) (a : FloatArr) (lda : IntPtr)
        (b : FloatArr) (ldb : IntPtr) (s : FloatArr) (rcond : FloatPtr) (rank : IntPtr)
        (work : FloatArr) (lwork : IntPtr) (iwork : IntArr) (info : IntPtr),
      (accelerate_sgelsd env (fun m0 _ _ _ _ _ _ _ _ _ _ _ _ _ _ => bumpCell 0 m0) (fun m0 _ _ _ _ _ _ _ _ _ _ _ _ _ _ => bumpCell 1 m0) mem m n nrhs a lda b ldb s rcond rank work lwork iwork info) 0 +
        (accelerate_sgelsd env (fun m0 _ _ _ _ _ _ _ _ _ _ _ _ _ _ => bumpCell 0 m0) (fun m0 _ _ _ _ _ _ _ _ _ _ _ _ _ _ => bumpCell 1 m0) mem m n nrhs a lda b ldb s rcond rank work lwork iwork info) 1 =
        mem 0 + mem 1 + 1 ∧
      ((accelerate_sgelsd env (fun m0 _ _ _ _ _ _ _ _ _ _ _ _ _ _ => bumpCell 0 m0) (fun m0 _ _ _ _ _ _ _ _ _ _ _ _ _ _ => bumpCell 1 m0) mem m n nrhs a lda b ldb s rcond rank work lwork iwork info) 0 = mem 0 ∨
        (accelerate_sgelsd env (fun m0 _ _ _ _ _ _ _ _ _ _ _ _ _ _ => bumpCell 0 m0) (fun m0 _ _ _ _ _ _ _ _ _ _ _ _ _ _ => bumpCell 1 m0) mem m n nrhs a lda b ldb s rcond rank work lwork iwork info) 1 = mem 1)) ∧
    (∀ (env : Env) (mem : Mem)
        (m : IntPtr) (n : IntPtr) (nrhs : IntPtr) (a : DoubleArr) (lda : IntPtr)
        (b : DoubleArr) (ldb : IntPtr) (s : DoubleArr) (rcond : DoublePtr) (rank : IntPtr)
        (work : DoubleArr) (lwork : IntPtr) (iwork : IntArr) (info : IntPtr),
      (accelerate_dgelsd env (fun m0 _ _ _ _ _ _ _ _ _ _ _ _ _ _ => bumpCell 0 m0) (fun m0 _ _ _ _ _ _ _ _ _ _ _ _ _ _ => bumpCell 1 m0) mem m n nrhs a lda b ldb s rcond rank work lwork iwork info) 0 +
        (accelerate_dgelsd env (fun m0 _ _ _ _ _ _ _ _ _ _ _ _ _ _ => bumpCell 0 m0) (fun m0 _ _ _ _ _ _ _ _ _ _ _ _ _ _ => bumpCell 1 m0) mem m n nrhs a lda b ldb s rcond rank work lwork iwork info) 1 =
        mem 0 + mem 1 + 1 ∧
      ((accelerate_dgelsd env (fun m0 _ _ _ _ _ _ _ _ _ _ _ _ _ _ => bumpCell 0 m0) (fun m0 _ _ _ _ _ _ _ _ _ _ _ _ _ _ => bumpCell 1 m0) mem m n nrhs a lda b ldb s rcond rank work lwork iwork info) 0 = mem 0 ∨
        (accelerate_dgelsd env (fun m0 _ _ _ _ _ _ _ _ _ _ _ _ _ _ => bumpCell 0 m0) (fun m0 _ _ _ _ _ _ _ _ _ _ _ _ _ _ => bumpCell 1 m0) mem m n nrhs a lda b ldb s rcond rank work lwork iwork info) 1 = mem 1)) ∧
    (∀ (env : Env) (mem : Mem)
        (m : IntPtr) (n : IntPtr) (nrhs : IntPtr) (a : CplxArr) (lda : IntPtr)
        (b : CplxArr) (ldb : IntPtr) (s : FloatArr) (rcond : FloatPtr) (rank : IntPtr)
        (work : CplxArr) (lwork : IntPtr) (rwork : FloatArr) (iwork : IntArr) (info : IntPtr),
      (accelerate_cgelsd env (fun m0 _ _ _ _ _ _ _ _ _ _ _ _ _ _ _ => bumpCell 0 m0) (fun m0 _ _ _ _ _ _ _ _ _ _ _ _ _ _ _ => bumpCell 1 m0) mem m n nrhs a lda b ldb s rcond rank work lwork rwork iwork info) 0 +
        (accelerate_cgelsd env (fun m0 _ _ _ _ _ _ _ _ _ _ _ _ _ _ _ => bumpCell 0 m0) (fun m0 _ _ _ _ _ _ _ _ _ _ _ _ _ _ _ => bumpCell 1 m0) mem m n nrhs a lda b ldb s rcond rank work lwork rwork iwork info) 1 =
        mem 0 + mem 1 + 1 ∧
      ((accelerate_cgelsd env (fun m0 _ _ _ _ _ _ _ _ _ _ _ _ _ _ _ => bumpCell 0 m0) (fun m0 _ _ _ _ _ _ _ _ _ _ _ _ _ _ _ => bumpCell 1 m0) mem m n nrhs a lda b ldb s rcond rank work lwork rwork iwork info) 0 = mem 0 ∨
        (accelerate_cgelsd env (fun m0 _ _ _ _ _ _ _ _ _ _ _ _ _ _ _ => bumpCell 0 m0) (fun m0 _ _ _ _ _ _ _ _ _ _ _ _ _ _ _ => bumpCell 1 m0) mem m n nrhs a lda b ldb s rcond rank work lwork rwork iwork info) 1 = mem 1)) ∧
    (∀ (env : Env) (mem : Mem)
        (m : IntPtr) (n : IntPtr) (nrhs : IntPtr) (a : FDCplxArr) (lda : IntPtr)
        (b : FDCplxArr) (ldb : IntPtr) (s : DoubleArr) (rcond : DoublePtr) (rank : IntPtr)
        (work : FDCplxArr) (lwork : IntPtr) (rwork : DoubleArr) (iwork : IntArr) (info : IntPtr),
      (accelerate_zgelsd env (fun m0 _ _ _ _ _ _ _ _ _ _ _ _ _ _ _ => bumpCell 0 m0) (fun m0 _ _ _ _ _ _ _ _ _ _ _ _ _ _ _ => bumpCell 1 m0) mem m n nrhs a lda b ldb s rcond rank work lwork rwork iwork info) 0 +
        (accelerate_zgelsd env (fun m0 _ _ _ _ _ _ _ _ _ _ _ _ _ _ _ => bumpCell 0 m0) (fun m0 _ _ _ _ _ _ _ _ _ _ _ _ _ _ _ => bumpCell 1 m0) mem m n nrhs a lda b ldb s rcond rank work lwork rwork iwork info) 1 =
        mem 0 + mem 1 + 1 ∧
      ((accelerate_zgelsd env (fun m0 _ _ _ _ _ _ _ _ _ _ _ _ _ _ _ => bumpCell 0 m0) (fun m0 _ _ _ _ _ _ _ _ _ _ _ _ _ _ _ => bumpCell 1 m0) mem m n nrhs a lda b ldb s rcond rank work lwork rwork iwork info) 0 = mem 0 ∨
        (accelerate_zgelsd env (fun m0 _ _ _ _ _ _ _ _ _ _ _ _ _ _ _ => bumpCell 0 m0) (fun m0 _ _ _ _ _ _ _ _ _ _ _ _ _ _ _ => bumpCell 1 m0) mem m n nrhs a lda b ldb s rcond rank work lwork rwork iwork info) 1 = mem 1)) ∧
    (∀ (env : Env) (mem : Mem)
        (m : IntPtr) (n : IntPtr) (a : DoubleArr) (lda : IntPtr) (tau : DoubleArr)
        (work : DoubleArr) (lwork : IntPtr) (info : IntPtr),
      (accelerate_dgeqrf env (fun m0 _ _ _ _ _ _ _ _ => bumpCell 0 m0) (fun m0 _ _ _ _ _ _ _ _ => bumpCell 1 m0) mem m n a lda tau work lwork info) 0 +
        (accelerate_dgeqrf env (fun m0 _ _ _ _ _ _ _ _ => bumpCell 0 m0) (fun m0 _ _ _ _ _ _ _ _ => bumpCell 1 m0) mem m n a lda tau work lwork info) 1 =
        mem 0 + mem 1 + 1 ∧
      ((accelerate_dgeqrf env (fun m0 _ _ _ _ _ _ _ _ => bumpCell 0 m0) (fun m0 _ _ _ _ _ _ _ _ => bumpCell 1 m0) mem m n a lda tau work lwork info) 0 = mem 0 ∨
        (accelerate_dgeqrf env (fun m0 _ _ _ _ _ _ _ _ => bumpCell 0 m0) (fun m0 _ _ _ _ _ _ _ _ => bumpCell 1 m0) mem m n a lda tau work lwork info) 1 = mem 1)) ∧
    (∀ (env : Env) (mem : Mem)
        (m : IntPtr) (n : IntPtr) (a : DCplxArr) (lda : IntPtr) (tau : DCplxArr)
        (work : DCplxArr) (lwork : IntPtr) (info : IntPtr),
      (accelerate_zgeqrf env (fun m0 _ _ _ _ _ _ _ _ => bumpCell 0 m0) (fun m0 _ _ _ _ _ _ _ _ => bumpCell 1 m0) mem m n a lda tau work lwork info) 0 +
        (accelerate_zgeqrf env (fun m0 _ _ _ _ _ _ _ _ => bumpCell 0 m0) (fun m0 _ _ _ _ _ _ _ _ => bumpCell 1 m0) mem m n a lda tau work lwork info) 1 =
        mem 0 + mem 1 + 1 ∧
      ((accelerate_zgeqrf env (fun m0 _ _ _ _ _ _ _ _ => bumpCell 0 m0) (fun m0 _ _ _ _ _ _ _ _ => bumpCell 1 m0) mem m n a lda tau work lwork info) 0 = mem 0 ∨
        (accelerate_zgeqrf env (fun m0 _ _ _ _ _ _ _ _ => bumpCell 0 m0) (fun m0 _ _ _ _ _ _ _ _ => bumpCell 1 m0) mem m n a lda tau work lwork info) 1 = mem 1)) ∧
    (∀ (env : Env) (mem : Mem)
        (m : IntPtr) (n : IntPtr) (k : IntPtr) (a : DoubleArr) (lda : IntPtr)
        (tau : DoubleArr) (work : DoubleArr) (lwork : IntPtr) (info : IntPtr),
      (accelerate_dorgqr env (fun m0 _ _ _ _ _ _ _ _ _ => bumpCell 0 m0) (fun m0 _ _ _ _ _ _ _ _ _ => bumpCell 1 m0) mem m n k a lda tau work lwork info) 0 +
        (accelerate_dorgqr env (fun m0 _ _ _ _ _ _ _ _ _ => bumpCell 0 m0) (fun m0 _ _ _ _ _ _ _ _ _ => bumpCell 1 m0) mem m n k a lda tau work lwork info) 1 =
        mem 0 + mem 1 + 1 ∧
      ((accelerate_dorgqr env (fun m0 _ _ _ _ _ _ _ _ _ => bumpCell 0 m0) (fun m0 _ _ _ _ _ _ _ _ _ => bumpCell 1 m0) mem m n k a lda tau work lwork info) 0 = mem 0 ∨
        (accelerate_dorgqr env (fun m0 _ _ _ _ _ _ _ _ _ => bumpCell 0 m0) (fun m0 _ _ _ _ _ _ _ _ _ => bumpCell 1 m0) mem m n k a lda tau work lwork info) 1 = mem 1)) ∧
    (∀ (env : Env) (mem : Mem)
        (m : IntPtr) (n : IntPtr) (k : IntPtr) (a : DCplxArr) (lda : IntPtr)
        (tau : DCplxArr) (work : DCplxArr) (lwork : IntPtr) (info : IntPtr),
      (accelerate_zungqr env (fun m0 _ _ _ _ _ _ _ _ _ => bumpCell 0 m0) (fun m0 _ _ _ _ _ _ _ _ _ => bumpCell 1 m0) mem m n k a lda tau work lwork info) 0 +
        (accelerate_zungqr env (fun m0 _ _ _ _ _ _ _ _ _ => bumpCell 0 m0) (fun m0 _ _ _ _ _ _ _ _ _ => bumpCell 1 m0) mem m n k a lda tau work lwork info) 1 =
        mem 0 + mem 1 + 1 ∧
      ((accelerate_zungqr env (fun m0 _ _ _ _ _ _ _ _ _ => bumpCell 0 m0) (fun m0 _ _ _ _ _ _ _ _ _ => bumpCell 1 m0) mem m n k a lda tau work lwork info) 0 = mem 0 ∨
        (accelerate_zungqr env (fun m0 _ _ _ _ _ _ _ _ _ => bumpCell 0 m0) (fun m0 _ _ _ _ _ _ _ _ _ => bumpCell 1 m0) mem m n k a lda tau work lwork info) 1 = mem 1)) ∧
    (∀ (env : Env) (mem : Mem)
        (n : IntPtr) (nrhs : IntPtr) (a : FloatArr) (lda : IntPtr) (ipiv : IntArr)
        (b : FloatArr) (ldb : IntPtr) (info : IntPtr),
      (accelerate_sgesv env (fun m0 _ _ _ _ _ _ _ _ => bumpCell 0 m0) (fun m0 _ _ _ _ _ _ _ _ => bumpCell 1 m0) mem n nrhs a lda ipiv b ldb info) 0 +
        (accelerate_sgesv env (fun m0 _ _ _ _ _ _ _ _ => bumpCell 0 m0) (fun m0 _ _ _ _ _ _ _ _ => bumpCell 1 m0) mem n nrhs a lda ipiv b ldb info) 1 =
        mem 0 + mem 1 + 1 ∧
      ((accelerate_sgesv env (fun m0 _ _ _ _ _ _ _ _ => bumpCell 0 m0) (fun m0 _ _ _ _ _ _ _ _ => bumpCell 1 m0) mem n nrhs a lda ipiv b ldb info) 0 = mem 0 ∨
        (accelerate_sgesv env (fun m0 _ _ _ _ _ _ _ _ => bumpCell 0 m0) (fun m0 _ _ _ _ _ _ _ _ => bumpCell 1 m0) mem n nrhs a lda ipiv b ldb info) 1 = mem 1)) ∧
    (∀ (env : Env) (mem : Mem)
        (n : IntPtr) (nrhs : IntPtr) (a : DoubleArr) (lda : IntPtr) (ipiv : IntArr)
        (b : DoubleArr) (ldb : IntPtr) (info : IntPtr),
      (accelerate_dgesv env (fun m0 _ _ _ _ _ _ _ _ => bumpCell 0 m0) (fun m0 _ _ _ _ _ _ _ _ => bumpCell 1 m0) mem n nrhs a lda ipiv b ldb info) 0 +
        (accelerate_dgesv env (fun m0 _ _ _ _ _ _ _ _ => bumpCell 0 m0) (fun m0 _ _ _ _ _ _ _ _ => bumpCell 1 m0) mem n nrhs a lda ipiv b ldb info) 1 =
        mem 0 + mem 1 + 1 ∧
      ((accelerate_dgesv env (fun m0 _ _ _ _ _ _ _ _ => bumpCell 0 m0) (fun m0 _ _ _ _ _ _ _ _ => bumpCell 1 m0) mem n nrhs a lda ipiv b ldb info) 0 = mem 0 ∨
        (accelerate_dgesv env (fun m0 _ _ _ _ _ _ _ _ => bumpCell 0 m0) (fun m0 _ _ _ _ _ _ _ _ => bumpCell 1 m0) mem n nrhs a lda ipiv b ldb info) 1 = mem 1)) ∧
    (∀ (env : Env) (mem : Mem)
        (n : IntPtr) (nrhs : IntPtr) (a : CplxArr) (lda : IntPtr) (ipiv : IntArr)
        (b : CplxArr) (ldb : IntPtr) (info : IntPtr),
      (accelerate_cgesv env (fun m0 _ _ _ _ _ _ _ _ => bumpCell 0 m0) (fun m0 _ _ _ _ _ _ _ _ => bumpCell 1 m0) mem n nrhs a lda ipiv b ldb info) 0 +
        (accelerate_cgesv env (fun m0 _ _ _ _ _ _ _ _ => bumpCell 0 m0) (fun m0 _ _ _ _ _ _ _ _ => bumpCell 1 m0) mem n nrhs a lda ipiv b ldb info) 1 =
        mem 0 + mem 1 + 1 ∧
      ((accelerate_cgesv env (fun m0 _ _ _ _ _ _ _ _ => bumpCell 0 m0) (fun m0 _ _ _ _ _ _ _ _ => bumpCell 1 m0) mem n nrhs a lda ipiv b ldb info) 0 = mem 0 ∨
        (accelerate_cgesv env (fun m0 _ _ _ _ _ _ _ _ => bumpCell 0 m0) (fun m0 _ _ _ _ _ _ _ _ => bumpCell 1 m0) mem n nrhs a lda ipiv b ldb info) 1 = mem 1)) ∧
    (∀ (env : Env) (mem : Mem)
        (n : IntPtr) (nrhs : IntPtr) (a : DCplxArr) (lda : IntPtr) (ipiv : IntArr)
        (b : DCplxArr) (ldb : IntPtr) (info : IntPtr),
      (accelerate_zgesv env (fun m0 _ _ _ _ _ _ _ _ => bumpCell 0 m0) (fun m0 _ _ _ _ _ _ _ _ => bumpCell 1 m0) mem n nrhs a lda ipiv b ldb info) 0 +
        (accelerate_zgesv env (fun m0 _ _ _ _ _ _ _ _ => bumpCell 0 m0) (fun m0 _ _ _ _ _ _ _ _ => bumpCell 1 m0) mem n nrhs a lda ipiv b ldb info) 1 =
        mem 0 + mem 1 + 1 ∧
      ((accelerate_zgesv env (fun m0 _ _ _ _ _ _ _ _ => bumpCell 0 m0) (fun m0 _ _ _ _ _ _ _ _ => bumpCell 1 m0) mem n nrhs a lda ipiv b ldb info) 0 = mem 0 ∨
        (accelerate_zgesv env (fun m0 _ _ _ _ _ _ _ _ => bumpCell 0 m0) (fun m0 _ _ _ _ _ _ _ _ => bumpCell 1 m0) mem n nrhs a lda ipiv b ldb info) 1 = mem 1)) ∧
    (∀ (env : Env) (mem : Mem)
        (m : IntPtr) (n : IntPtr) (a : FloatArr) (lda : IntPtr) (ipiv : IntArr)
        (info : IntPtr),
      (accelerate_sgetrf env (fun m0 _ _ _ _ _ _ => (bumpCell 0 m0, (0 : FortranInt))) (fun m0 _ _ _ _ _ _ => (bumpCell 1 m0, (0 : FortranInt))) mem m n a lda ipiv info).1 0 +
        (accelerate_sgetrf env (fun m0 _ _ _ _ _ _ => (bumpCell 0 m0, (0 : FortranInt))) (fun m0 _ _ _ _ _ _ => (bumpCell 1 m0, (0 : FortranInt))) mem m n a lda ipiv info).1 1 =
        mem 0 + mem 1 + 1 ∧
      ((accelerate_sgetrf env (fun m0 _ _ _ _ _ _ => (bumpCell 0 m0, (0 : FortranInt))) (fun m0 _ _ _ _ _ _ => (bumpCell 1 m0, (0 : FortranInt))) mem m n a lda ipiv info).1 0 = mem 0 ∨
        (accelerate_sgetrf env (fun m0 _ _ _ _ _ _ => (bumpCell 0 m0, (0 : FortranInt))) (fun m0 _ _ _ _ _ _ => (bumpCell 1 m0, (0 : FortranInt))) mem m n a lda ipiv info).1 1 = mem 1)) ∧
    (∀ (env : Env) (mem : Mem)
        (m : IntPtr) (n : IntPtr) (a : DoubleArr) (lda : IntPtr) (ipiv : IntArr)
        (info : IntPtr),
      (accelerate_dgetrf env (fun m0 _ _ _ _ _ _ => (bumpCell 0 m0, (0 : FortranInt))) (fun m0 _ _ _ _ _ _ => (bumpCell 1 m0, (0 : FortranInt))) mem m n a lda ipiv info).1 0 +
        (accelerate_dgetrf env (fun m0 _ _ _ _ _ _ => (bumpCell 0 m0, (0 : FortranInt))) (fun m0 _ _ _ _ _ _ => (bumpCell 1 m0, (0 : FortranInt))) mem m n a lda ipiv info).1 1 =
        mem 0 + mem 1 + 1 ∧
      ((accelerate_dgetrf env (fun m0 _ _ _ _ _ _ => (bumpCell 0 m0, (0 : FortranInt))) (fun m0 _ _ _ _ _ _ => (bumpCell 1 m0, (0 : FortranInt))) mem m n a lda ipiv info).1 0 = mem 0 ∨
        (accelerate_dgetrf env (fun m0 _ _ _ _ _ _ => (bumpCell 0 m0, (0 : FortranInt))) (fun m0 _ _ _ _ _ _ => (bumpCell 1 m0, (0 : FortranInt))) mem m n a lda ipiv info).1 1 = mem 1)) ∧
    (∀ (env : Env) (mem : Mem)
        (m : IntPtr) (n : IntPtr) (a : CplxArr) (lda : IntPtr) (ipiv : IntArr)
        (info : IntPtr),
      (accelerate_cgetrf env (fun m0 _ _ _ _ _ _ => (bumpCell 0 m0, (0 : FortranInt))) (fun m0 _ _ _ _ _ _ => (bumpCell 1 m0, (0 : FortranInt))) mem m n a lda ipiv info).1 0 +
        (accelerate_cgetrf env (fun m0 _ _ _ _ _ _ => (bumpCell 0 m0, (0 : FortranInt))) (fun m0 _ _ _ _ _ _ => (bumpCell 1 m0, (0 : FortranInt))) mem m n a lda ipiv info).1 1 =
        mem 0 + mem 1 + 1 ∧
      ((accelerate_cgetrf env (fun m0 _ _ _ _ _ _ => (bumpCell 0 m0, (0 : FortranInt))) (fun m0 _ _ _ _ _ _ => (bumpCell 1 m0, (0 : FortranInt))) mem m n a lda ipiv info).1 0 = mem 0 ∨
        (accelerate_cgetrf env (fun m0 _ _ _ _ _ _ => (bumpCell 0 m0, (0 : FortranInt))) (fun m0 _ _ _ _ _ _ => (bumpCell 1 m0, (0 : FortranInt))) mem m n a lda ipiv info).1 1 = mem 1)) ∧
    (∀ (env : Env) (mem : Mem)
        (m : IntPtr) (n : IntPtr) (a : DCplxArr) (lda : IntPtr) (ipiv : IntArr)
        (info : IntPtr),
      (accelerate_zgetrf env (fun m0 _ _ _ _ _ _ => (bumpCell 0 m0, (0 : FortranInt))) (fun m0 _ _ _ _ _ _ => (bumpCell 1 m0, (0 : FortranInt))) mem m n a lda ipiv info).1 0 +
        (accelerate_zgetrf env (fun m0 _ _ _ _ _ _ => (bumpCell 0 m0, (0 : FortranInt))) (fun m0 _ _ _ _ _ _ => (bumpCell 1 m0, (0 : FortranInt))) mem m n a lda ipiv info).1 1 =
        mem 0 + mem 1 + 1 ∧
      ((accelerate_zgetrf env (fun m0 _ _ _ _ _ _ => (bumpCell 0 m0, (0 : FortranInt))) (fun m0 _ _ _ _ _ _ => (bumpCell 1 m0, (0 : FortranInt))) mem m n a lda ipiv info).1 0 = mem 0 ∨
        (accelerate_zgetrf env (fun m0 _ _ _ _ _ _ => (bumpCell 0 m0, (0 : FortranInt))) (fun m0 _ _ _ _ _ _ => (bumpCell 1 m0, (0 : FortranInt))) mem m n a lda ipiv info).1 1 = mem 1)) ∧
    (∀ (env : Env) (mem : Mem)
        (uplo : CharPtr) (n : IntPtr) (a : FloatArr) (lda : IntPtr) (info : IntPtr),
      (accelerate_spotrf env (fun m0 _ _ _ _ _ => bumpCell 0 m0) (fun m0 _ _ _ _ _ => bumpCell 1 m0) mem uplo n a lda info) 0 +
        (accelerate_spotrf env (fun m0 _ _ _ _ _ => bumpCell 0 m0) (fun m0 _ _ _ _ _ => bumpCell 1 m0) mem uplo n a lda info) 1 =
        mem 0 + mem 1 + 1 ∧
      ((accelerate_spotrf env (fun m0 _ _ _ _ _ => bumpCell 0 m0) (fun m0 _ _ _ _ _ => bumpCell 1 m0) mem uplo n a lda info) 0 = mem 0 ∨
        (accelerate_spotrf env (fun m0 _ _ _ _ _ => bumpCell 0 m0) (fun m0 _ _ _ _ _ => bumpCell 1 m0) mem uplo n a lda info) 1 = mem 1)) ∧
    (∀ (env : Env) (mem : Mem)
        (uplo : CharPtr) (n : IntPtr) (a : DoubleArr) (lda : IntPtr) (info : IntPtr),
      (accelerate_dpotrf env (fun m0 _ _ _ _ _ => bumpCell 0 m0) (fun m0 _ _ _ _ _ => bumpCell 1 m0) mem uplo n a lda info) 0 +
        (accelerate_dpotrf env (fun m0 _ _ _ _ _ => bumpCell 0 m0) (fun m0 _ _ _ _ _ => bumpCell 1 m0) mem uplo n a lda info) 1 =
        mem 0 + mem 1 + 1 ∧
      ((accelerate_dpotrf env (fun m0 _ _ _ _ _ => bumpCell 0 m0) (fun m0 _ _ _ _ _ => bumpCell 1 m0) mem uplo n a lda info) 0 = mem 0 ∨
        (accelerate_dpotrf env (fun m0 _ _ _ _ _ => bumpCell 0 m0) (fun m0 _ _ _ _ _ => bumpCell 1 m0) mem uplo n a lda info) 1 = mem 1)) ∧
    (∀ (env : Env) (mem : Mem)
        (uplo : CharPtr) (n : IntPtr) (a : CplxArr) (lda : IntPtr) (info : IntPtr),
      (accelerate_cpotrf env (fun m0 _ _ _ _ _ => bumpCell 0 m0) (fun m0 _ _ _ _ _ => bumpCell 1 m0) mem uplo n a lda info) 0 +
        (accelerate_cpotrf env (fun m0 _ _ _ _ _ => bumpCell 0 m0) (fun m0 _ _ _ _ _ => bumpCell 1 m0) mem uplo n a lda info) 1 =
        mem 0 + mem 1 + 1 ∧
      ((accelerate_cpotrf env (fun m0 _ _ _ _ _ => bumpCell 0 m0) (fun m0 _ _ _ _ _ => bumpCell 1 m0) mem uplo n a lda info) 0 = mem 0 ∨
        (accelerate_cpotrf env (fun m0 _ _ _ _ _ => bumpCell 0 m0) (fun m0 _ _ _ _ _ => bumpCell 1 m0) mem uplo n a lda info) 1 = mem 1)) ∧
    (∀ (env : Env) (mem : Mem)
        (uplo : CharPtr) (n : IntPtr) (a : DCplxArr) (lda : IntPtr) (info : IntPtr),
      (accelerate_zpotrf env (fun m0 _ _ _ _ _ => bumpCell 0 m0) (fun m0 _ _ _ _ _ => bumpCell 1 m0) mem uplo n a lda info) 0 +
        (accelerate_zpotrf env (fun m0 _ _ _ _ _ => bumpCell 0 m0) (fun m0 _ _ _ _ _ => bumpCell 1 m0) mem uplo n a lda info) 1 =
        mem 0 + mem 1 + 1 ∧
      ((accelerate_zpotrf env (fun m0 _ _ _ _ _ => bumpCell 0 m0) (fun m0 _ _ _ _ _ => bumpCell 1 m0) mem uplo n a lda info) 0 = mem 0 ∨
        (accelerate_zpotrf env (fun m0 _ _ _ _ _ => bumpCell 0 m0) (fun m0 _ _ _ _ _ => bumpCell 1 m0) mem uplo n a lda info) 1 = mem 1)) ∧
    (∀ (env : Env) (mem : Mem)
        (jobz : CharPtr) (m : IntPtr) (n : IntPtr) (a : FloatArr) (lda : IntPtr)
        (s : FloatArr) (u : FloatArr) (ldu : IntPtr) (vt : FloatArr) (ldvt : IntPtr)
        (work : FloatArr) (lwork : IntPtr) (iwork : IntArr) (info : IntPtr),
      (accelerate_sgesdd env (fun m0 _ _ _ _ _ _ _ _ _ _ _ _ _ _ => bumpCell 0 m0) (fun m0 _ _ _ _ _ _ _ _ _ _ _ _ _ _ => bumpCell 1 m0) mem jobz m n a lda s u ldu vt ldvt work lwork iwork info) 0 +
        (accelerate_sgesdd env (fun m0 _ _ _ _ _ _ _ _ _ _ _ _ _ _ => bumpCell 0 m0) (fun m0 _ _ _ _ _ _ _ _ _ _ _ _ _ _ => bumpCell 1 m0) mem jobz m n a lda s u ldu vt ldvt work lwork iwork info) 1 =
        mem 0 + mem 1 + 1 ∧
      ((accelerate_sgesdd env (fun m0 _ _ _ _ _ _ _ _ _ _ _ _ _ _ => bumpCell 0 m0) (fun m0 _ _ _ _ _ _ _ _ _ _ _ _ _ _ => bumpCell 1 m0) mem jobz m n a lda s u ldu vt ldvt work lwork iwork info) 0 = mem 0 ∨
        (accelerate_sgesdd env (fun m0 _ _ _ _ _ _ _ _ _ _ _ _ _ _ => bumpCell 0 m0) (fun m0 _ _ _ _ _ _ _ _ _ _ _ _ _ _ => bumpCell 1 m0) mem jobz m n a lda s u ldu vt ldvt work lwork iwork info) 1 = mem 1)) ∧
    (∀ (env : Env) (mem : Mem)
        (jobz : CharPtr) (m : IntPtr) (n : IntPtr) (a : DoubleArr) (lda : IntPtr)
        (s : DoubleArr) (u : DoubleArr) (ldu : IntPtr) (vt : DoubleArr) (ldvt : IntPtr)
        (work : DoubleArr) (lwork : IntPtr) (iwork : IntArr) (info : IntPtr),
      (accelerate_dgesdd env (fun m0 _ _ _ _ _ _ _ _ _ _ _ _ _ _ => bumpCell 0 m0) (fun m0 _ _ _ _ _ _ _ _ _ _ _ _ _ _ => bumpCell 1 m0) mem jobz m n a lda s u ldu vt ldvt work lwork iwork info) 0 +
        (accelerate_dgesdd env (fun m0 _ _ _ _ _ _ _ _ _ _ _ _ _ _ => bumpCell 0 m0) (fun m0 _ _ _ _ _ _ _ _ _ _ _ _ _ _ => bumpCell 1 m0) mem jobz m n a lda s u ldu vt ldvt work lwork iwork info) 1 =
        mem 0 + mem 1 + 1 ∧
      ((accelerate_dgesdd env (fun m0 _ _ _ _ _ _ _ _ _ _ _ _ _ _ => bumpCell 0 m0) (fun m0 _ _ _ _ _ _ _ _ _ _ _ _ _ _ => bumpCell 1 m0) mem jobz m n a lda s u ldu vt ldvt work lwork iwork info) 0 = mem 0 ∨
        (accelerate_dgesdd env (fun m0 _ _ _ _ _ _ _ _ _ _ _ _ _ _ => bumpCell 0 m0) (fun m0 _ _ _ _ _ _ _ _ _ _ _ _ _ _ => bumpCell 1 m0) mem jobz m n a lda s u ldu vt ldvt work lwork iwork info) 1 = mem 1)) ∧
    (∀ (env : Env) (mem : Mem)
        (jobz : CharPtr) (m : IntPtr) (n : IntPtr) (a : CplxArr) (lda : IntPtr)
        (s : FloatArr) (u : CplxArr) (ldu : IntPtr) (vt : CplxArr) (ldvt : IntPtr)
        (work : CplxArr) (lwork : IntPtr) (rwork : FloatArr) (iwork : IntArr) (info : IntPtr),
      (accelerate_cgesdd env (fun m0 _ _ _ _ _ _ _ _ _ _ _ _ _ _ _ => bumpCell 0 m0) (fun m0 _ _ _ _ _ _ _ _ _ _ _ _ _ _ _ => bumpCell 1 m0) mem jobz m n a lda s u ldu vt ldvt work lwork rwork iwork info) 0 +
        (accelerate_cgesdd env (fun m0 _ _ _ _ _ _ _ _ _ _ _ _ _ _ _ => bumpCell 0 m0) (fun m0 _ _ _ _ _ _ _ _ _ _ _ _ _ _ _ => bumpCell 1 m0) mem jobz m n a lda s u ldu vt ldvt work lwork rwork iwork info) 1 =
        mem 0 + mem 1 + 1 ∧
      ((accelerate_cgesdd env (fun m0 _ _ _ _ _ _ _ _ _ _ _ _ _ _ _ => bumpCell 0 m0) (fun m0 _ _ _ _ _ _ _ _ _ _ _ _ _ _ _ => bumpCell 1 m0) mem jobz m n a lda s u ldu vt ldvt work lwork rwork iwork info) 0 = mem 0 ∨
        (accelerate_cgesdd env (fun m0 _ _ _ _ _ _ _ _ _ _ _ _ _ _ _ => bumpCell 0 m0) (fun m0 _ _ _ _ _ _ _ _ _ _ _ _ _ _ _ => bumpCell 1 m0) mem jobz m n a lda s u ldu vt ldvt work lwork rwork iwork info) 1 = mem 1)) ∧
    (∀ (env : Env) (mem : Mem)
        (jobz : CharPtr) (m : IntPtr) (n : IntPtr) (a : DCplxArr) (lda : IntPtr)
        (s : DoubleArr) (u : DCplxArr) (ldu : IntPtr) (vt : DCplxArr) (ldvt : IntPtr)
        (work : DCplxArr) (lwork : IntPtr) (rwork : DoubleArr) (iwork : IntArr) (info : IntPtr),
      (accelerate_zgesdd env (fun m0 _ _ _ _ _ _ _ _ _ _ _ _ _ _ _ => bumpCell 0 m0) (fun m0 _ _ _ _ _ _ _ _ _ _ _ _ _ _ _ => bumpCell 1 m0) mem jobz m n a lda s u ldu vt ldvt work lwork rwork iwork info) 0 +
        (accelerate_zgesdd env (fun m0 _ _ _ _ _ _ _ _ _ _ _ _ _ _ _ => bumpCell 0 m0) (fun m0 _ _ _ _ _ _ _ _ _ _ _ _ _ _ _ => bumpCell 1 m0) mem jobz m n a lda s u ldu vt ldvt work lwork rwork iwork info) 1 =
        mem 0 + mem 1 + 1 ∧
      ((accelerate_zgesdd env (fun m0 _ _ _ _ _ _ _ _ _ _ _ _ _ _ _ => bumpCell 0 m0) (fun m0 _ _ _ _ _ _ _ _ _ _ _ _ _ _ _ => bumpCell 1 m0) mem jobz m n a lda s u ldu vt ldvt work lwork rwork iwork info) 0 = mem 0 ∨
        (accelerate_zgesdd env (fun m0 _ _ _ _ _ _ _ _ _ _ _ _ _ _ _ => bumpCell 0 m0) (fun m0 _ _ _ _ _ _ _ _ _ _ _ _ _ _ _ => bumpCell 1 m0) mem jobz m n a lda s u ldu vt ldvt work lwork rwork iwork info) 1 = mem 1)) ∧
    (∀ (env : Env) (mem : Mem)
        (uplo : CharPtr) (n : IntPtr) (nrhs : IntPtr) (a : FloatArr) (lda : IntPtr)
        (b : FloatArr) (ldb : IntPtr) (info : IntPtr),
      (accelerate_spotrs env (fun m0 _ _ _ _ _ _ _ _ => bumpCell 0 m0) (fun m0 _ _ _ _ _ _ _ _ => bumpCell 1 m0) mem uplo n nrhs a lda b ldb info) 0 +
        (accelerate_spotrs env (fun m0 _ _ _ _ _ _ _ _ => bumpCell 0 m0) (fun m0 _ _ _ _ _ _ _ _ => bumpCell 1 m0) mem uplo n nrhs a lda b ldb info) 1 =
        mem 0 + mem 1 + 1 ∧
      ((accelerate_spotrs env (fun m0 _ _ _ _ _ _ _ _ => bumpCell 0 m0) (fun m0 _ _ _ _ _ _ _ _ => bumpCell 1 m0) mem uplo n nrhs a lda b ldb info) 0 = mem 0 ∨
        (accelerate_spotrs env (fun m0 _ _ _ _ _ _ _ _ => bumpCell 0 m0) (fun m0 _ _ _ _ _ _ _ _ => bumpCell 1 m0) mem uplo n nrhs a lda b ldb info) 1 = mem 1)) ∧
    (∀ (env : Env) (mem : Mem)
        (uplo : CharPtr) (n : IntPtr) (nrhs : IntPtr) (a : DoubleArr) (lda : IntPtr)
        (b : DoubleArr) (ldb : IntPtr) (info : IntPtr),
      (accelerate_dpotrs env (fun m0 _ _ _ _ _ _ _ _ => bumpCell 0 m0) (fun m0 _ _ _ _ _ _ _ _ => bumpCell 1 m0) mem uplo n nrhs a lda b ldb info) 0 +
        (accelerate_dpotrs env (fun m0 _ _ _ _ _ _ _ _ => bumpCell 0 m0) (fun m0 _ _ _ _ _ _ _ _ => bumpCell 1 m0) mem uplo n nrhs a lda b ldb info) 1 =
        mem 0 + mem 1 + 1 ∧
      ((accelerate_dpotrs env (fun m0 _ _ _ _ _ _ _ _ => bumpCell 0 m0) (fun m0 _ _ _ _ _ _ _ _ => bumpCell 1 m0) mem uplo n nrhs a lda b ldb info) 0 = mem 0 ∨
        (accelerate_dpotrs env (fun m0 _ _ _ _ _ _ _ _ => bumpCell 0 m0) (fun m0 _ _ _ _ _ _ _ _ => bumpCell 1 m0) mem uplo n nrhs a lda b ldb info) 1 = mem 1)) ∧
    (∀ (env : Env) (mem : Mem)
        (uplo : CharPtr) (n : IntPtr) (nrhs : IntPtr) (a : CplxArr) (lda : IntPtr)
        (b : CplxArr) (ldb : IntPtr) (info : IntPtr),
      (accelerate_cpotrs env (fun m0 _ _ _ _ _ _ _ _ => bumpCell 0 m0) (fun m0 _ _ _ _ _ _ _ _ => bumpCell 1 m0) mem uplo n nrhs a lda b ldb info) 0 +
        (accelerate_cpotrs env (fun m0 _ _ _ _ _ _ _ _ => bumpCell 0 m0) (fun m0 _ _ _ _ _ _ _ _ => bumpCell 1 m0) mem uplo n nrhs a lda b ldb info) 1 =
        mem 0 + mem 1 + 1 ∧
      ((accelerate_cpotrs env (fun m0 _ _ _ _ _ _ _ _ => bumpCell 0 m0) (fun m0 _ _ _ _ _ _ _ _ => bumpCell 1 m0) mem uplo n nrhs a lda b ldb info) 0 = mem 0 ∨
        (accelerate_cpotrs env (fun m0 _ _ _ _ _ _ _ _ => bumpCell 0 m0) (fun m0 _ _ _ _ _ _ _ _ => bumpCell 1 m0) mem uplo n nrhs a lda b ldb info) 1 = mem 1)) ∧
    (∀ (env : Env) (mem : Mem)
        (uplo : CharPtr) (n : IntPtr) (nrhs : IntPtr) (a : DCplxArr) (lda : IntPtr)
        (b : DCplxArr) (ldb : IntPtr) (info : IntPtr),
      (accelerate_zpotrs env (fun m0 _ _ _ _ _ _ _ _ => bumpCell 0 m0) (fun m0 _ _ _ _ _ _ _ _ => bumpCell 1 m0) mem uplo n nrhs a lda b ldb info) 0 +
        (accelerate_zpotrs env (fun m0 _ _ _ _ _ _ _ _ => bumpCell 0 m0) (fun m0 _ _ _ _ _ _ _ _ => bumpCell 1 m0) mem uplo n nrhs a lda b ldb info) 1 =
        mem 0 + mem 1 + 1 ∧
      ((accelerate_zpotrs env (fun m0 _ _ _ _ _ _ _ _ => bumpCell 0 m0) (fun m0 _ _ _ _ _ _ _ _ => bumpCell 1 m0) mem uplo n nrhs a lda b ldb info) 0 = mem 0 ∨
        (accelerate_zpotrs env (fun m0 _ _ _ _ _ _ _ _ => bumpCell 0 m0) (fun m0 _ _ _ _ _ _ _ _ => bumpCell 1 m0) mem uplo n nrhs a lda b ldb info) 1 = mem 1)) ∧
    (∀ (env : Env) (mem : Mem)
        (uplo : CharPtr) (n : IntPtr) (a : FloatArr) (lda : IntPtr) (info : IntPtr),
      (accelerate_spotri env (fun m0 _ _ _ _ _ => bumpCell 0 m0) (fun m0 _ _ _ _ _ => bumpCell 1 m0) mem uplo n a lda info) 0 +
        (accelerate_spotri env (fun m0 _ _ _ _ _ => bumpCell 0 m0) (fun m0 _ _ _ _ _ => bumpCell 1 m0) mem uplo n a lda info) 1 =
        mem 0 + mem 1 + 1 ∧
      ((accelerate_spotri env (fun m0 _ _ _ _ _ => bumpCell 0 m0) (fun m0 _ _ _ _ _ => bumpCell 1 m0) mem uplo n a lda info) 0 = mem 0 ∨
        (accelerate_spotri env (fun m0 _ _ _ _ _ => bumpCell 0 m0) (fun m0 _ _ _ _ _ => bumpCell 1 m0) mem uplo n a lda info) 1 = mem 1)) ∧
    (∀ (env : Env) (mem : Mem)
        (uplo : CharPtr) (n : IntPtr) (a : DoubleArr) (lda : IntPtr) (info : IntPtr),
      (accelerate_dpotri env (fun m0 _ _ _ _ _ => bumpCell 0 m0) (fun m0 _ _ _ _ _ => bumpCell 1 m0) mem uplo n a lda info) 0 +
        (accelerate_dpotri env (fun m0 _ _ _ _ _ => bumpCell 0 m0) (fun m0 _ _ _ _ _ => bumpCell 1 m0) mem uplo n a lda info) 1 =
        mem 0 + mem 1 + 1 ∧
      ((accelerate_dpotri env (fun m0 _ _ _ _ _ => bumpCell 0 m0) (fun m0 _ _ _ _ _ => bumpCell 1 m0) mem uplo n a lda info) 0 = mem 0 ∨
        (accelerate_dpotri env (fun m0 _ _ _ _ _ => bumpCell 0 m0) (fun m0 _ _ _ _ _ => bumpCell 1 m0) mem uplo n a lda info) 1 = mem 1)) ∧
    (∀ (env : Env) (mem : Mem)
        (uplo : CharPtr) (n : IntPtr) (a : CplxArr) (lda : IntPtr) (info : IntPtr),
      (accelerate_cpotri env (fun m0 _ _ _ _ _ => bumpCell 0 m0) (fun m0 _ _ _ _ _ => bumpCell 1 m0) mem uplo n a lda info) 0 +
        (accelerate_cpotri env (fun m0 _ _ _ _ _ => bumpCell 0 m0) (fun m0 _ _ _ _ _ => bumpCell 1 m0) mem uplo n a lda info) 1 =
        mem 0 + mem 1 + 1 ∧
      ((accelerate_cpotri env (fun m0 _ _ _ _ _ => bumpCell 0 m0) (fun m0 _ _ _ _ _ => bumpCell 1 m0) mem uplo n a lda info) 0 = mem 0 ∨
        (accelerate_cpotri env (fun m0 _ _ _ _ _ => bumpCell 0 m0) (fun m0 _ _ _ _ _ => bumpCell 1 m0) mem uplo n a lda info) 1 = mem 1)) ∧
    (∀ (env : Env) (mem : Mem)
        (uplo : CharPtr) (n : IntPtr) (a : DCplxArr) (lda : IntPtr) (info : IntPtr),
      (accelerate_zpotri env (fun m0 _ _ _ _ _ => bumpCell 0 m0) (fun m0 _ _ _ _ _ => bumpCell 1 m0) mem uplo n a lda info) 0 +
        (accelerate_zpotri env (fun m0 _ _ _ _ _ => bumpCell 0 m0) (fun m0 _ _ _ _ _ => bumpCell 1 m0) mem uplo n a lda info) 1 =
        mem 0 + mem 1 + 1 ∧
      ((accelerate_zpotri env (fun m0 _ _ _ _ _ => bumpCell 0 m0) (fun m0 _ _ _ _ _ => bumpCell 1 m0) mem uplo n a lda info) 0 = mem 0 ∨
        (accelerate_zpotri env (fun m0 _ _ _ _ _ => bumpCell 0 m0) (fun m0 _ _ _ _ _ => bumpCell 1 m0) mem uplo n a lda info) 1 = mem 1)) ∧
    (∀ (env : Env) (mem : Mem)
        (n : IntPtr) (sx : FloatPtr) (incx : IntPtr) (sy : FloatPtr) (incy : IntPtr),
      (accelerate_scopy env (fun m0 _ _ _ _ _ => (bumpCell 0 m0, (0 : FortranInt))) (fun m0 _ _ _ _ _ => (bumpCell 1 m0, (0 : FortranInt))) mem n sx incx sy incy).1 0 +
        (accelerate_scopy env (fun m0 _ _ _ _ _ => (bumpCell 0 m0, (0 : FortranInt))) (fun m0 _ _ _ _ _ => (bumpCell 1 m0, (0 : FortranInt))) mem n sx incx sy incy).1 1 =
        mem 0 + mem 1 + 1 ∧
      ((accelerate_scopy env (fun m0 _ _ _ _ _ => (bumpCell 0 m0, (0 : FortranInt))) (fun m0 _ _ _ _ _ => (bumpCell 1 m0, (0 : FortranInt))) mem n sx incx sy incy).1 0 = mem 0 ∨
        (accelerate_scopy env (fun m0 _ _ _ _ _ => (bumpCell 0 m0, (0 : FortranInt))) (fun m0 _ _ _ _ _ => (bumpCell 1 m0, (0 : FortranInt))) mem n sx incx sy incy).1 1 = mem 1)) ∧
    (∀ (env : Env) (mem : Mem)
        (n : IntPtr) (sx : DoublePtr) (incx : IntPtr) (sy : DoublePtr) (incy : IntPtr),
      (accelerate_dcopy env (fun m0 _ _ _ _ _ => (bumpCell 0 m0, (0 : FortranInt))) (fun m0 _ _ _ _ _ => (bumpCell 1 m0, (0 : FortranInt))) mem n sx incx sy incy).1 0 +
        (accelerate_dcopy env (fun m0 _ _ _ _ _ => (bumpCell 0 m0, (0 : FortranInt))) (fun m0 _ _ _ _ _ => (bumpCell 1 m0, (0 : FortranInt))) mem n sx incx sy incy).1 1 =
        mem 0 + mem 1 + 1 ∧
      ((accelerate_dcopy env (fun m0 _ _ _ _ _ => (bumpCell 0 m0, (0 : FortranInt))) (fun m0 _ _ _ _ _ => (bumpCell 1 m0, (0 : FortranInt))) mem n sx incx sy incy).1 0 = mem 0 ∨
        (accelerate_dcopy env (fun m0 _ _ _ _ _ => (bumpCell 0 m0, (0 : FortranInt))) (fun m0 _ _ _ _ _ => (bumpCell 1 m0, (0 : FortranInt))) mem n sx incx sy incy).1 1 = mem 1)) ∧
    (∀ (env : Env) (mem : Mem)
        (n : IntPtr) (sx : CplxPtr) (incx : IntPtr) (sy : CplxPtr) (incy : IntPtr),
      (accelerate_ccopy env (fun m0 _ _ _ _ _ => (bumpCell 0 m0, (0 : FortranInt))) (fun m0 _ _ _ _ _ => (bumpCell 1 m0, (0 : FortranInt))) mem n sx incx sy incy).1 0 +
        (accelerate_ccopy env (fun m0 _ _ _ _ _ => (bumpCell 0 m0, (0 : FortranInt))) (fun m0 _ _ _ _ _ => (bumpCell 1 m0, (0 : FortranInt))) mem n sx incx sy incy).1 1 =
        mem 0 + mem 1 + 1 ∧
      ((accelerate_ccopy env (fun m0 _ _ _ _ _ => (bumpCell 0 m0, (0 : FortranInt))) (fun m0 _ _ _ _ _ => (bumpCell 1 m0, (0 : FortranInt))) mem n sx incx sy incy).1 0 = mem 0 ∨
        (accelerate_ccopy env (fun m0 _ _ _ _ _ => (bumpCell 0 m0, (0 : FortranInt))) (fun m0 _ _ _ _ _ => (bumpCell 1 m0, (0 : FortranInt))) mem n sx incx sy incy).1 1 = mem 1)) ∧
    (∀ (env : Env) (mem : Mem)
        (n : IntPtr) (sx : DCplxPtr) (incx : IntPtr) (sy : DCplxPtr) (incy : IntPtr),
      (accelerate_zcopy env (fun m0 _ _ _ _ _ => (bumpCell 0 m0, (0 : FortranInt))) (fun m0 _ _ _ _ _ => (bumpCell 1 m0, (0 : FortranInt))) mem n sx incx sy incy).1 0 +
        (accelerate_zcopy env (fun m0 _ _ _ _ _ => (bumpCell 0 m0, (0 : FortranInt))) (fun m0 _ _ _ _ _ => (bumpCell 1 m0, (0 : FortranInt))) mem n sx incx sy incy).1 1 =
        mem 0 + mem 1 + 1 ∧
      ((accelerate_zcopy env (fun m0 _ _ _ _ _ => (bumpCell 0 m0, (0 : FortranInt))) (fun m0 _ _ _ _ _ => (bumpCell 1 m0, (0 : FortranInt))) mem n sx incx sy incy).1 0 = mem 0 ∨
        (accelerate_zcopy env (fun m0 _ _ _ _ _ => (bumpCell 0 m0, (0 : FortranInt))) (fun m0 _ _ _ _ _ => (bumpCell 1 m0, (0 : FortranInt))) mem n sx incx sy incy).1 1 = mem 1)) ∧
    (∀ (env : Env) (mem : Mem)
        (n : IntPtr) (sx : FloatPtr) (incx : IntPtr) (sy : FloatPtr) (incy : IntPtr),
      (accelerate_sdot env (fun m0 _ _ _ _ _ => (bumpCell 0 m0, (CFloat.mk 0))) (fun m0 _ _ _ _ _ => (bumpCell 1 m0, (CFloat.mk 0))) mem n sx incx sy incy).1 0 +
        (accelerate_sdot env (fun m0 _ _ _ _ _ => (bumpCell 0 m0, (CFloat.mk 0))) (fun m0 _ _ _ _ _ => (bumpCell 1 m0, (CFloat.mk 0))) mem n sx incx sy incy).1 1 =
        mem 0 + mem 1 + 1 ∧
      ((accelerate_sdot env (fun m0 _ _ _ _ _ => (bumpCell 0 m0, (CFloat.mk 0))) (fun m0 _ _ _ _ _ => (bumpCell 1 m0, (CFloat.mk 0))) mem n sx incx sy incy).1 0 = mem 0 ∨
        (accelerate_sdot env (fun m0 _ _ _ _ _ => (bumpCell 0 m0, (CFloat.mk 0))) (fun m0 _ _ _ _ _ => (bumpCell 1 m0, (CFloat.mk 0))) mem n sx incx sy incy).1 1 = mem 1)) ∧
    (∀ (env : Env) (mem : Mem)
        (n : IntPtr) (sx : DoublePtr) (incx : IntPtr) (sy : DoublePtr) (incy : IntPtr),
      (accelerate_ddot env (fun m0 _ _ _ _ _ => (bumpCell 0 m0, (CDouble.mk 0))) (fun m0 _ _ _ _ _ => (bumpCell 1 m0, (CDouble.mk 0))) mem n sx incx sy incy).1 0 +
        (accelerate_ddot env (fun m0 _ _ _ _ _ => (bumpCell 0 m0, (CDouble.mk 0))) (fun m0 _ _ _ _ _ => (bumpCell 1 m0, (CDouble.mk 0))) mem n sx incx sy incy).1 1 =
        mem 0 + mem 1 + 1 ∧
      ((accelerate_ddot env (fun m0 _ _ _ _ _ => (bumpCell 0 m0, (CDouble.mk 0))) (fun m0 _ _ _ _ _ => (bumpCell 1 m0, (CDouble.mk 0))) mem n sx incx sy incy).1 0 = mem 0 ∨
        (accelerate_ddot env (fun m0 _ _ _ _ _ => (bumpCell 0 m0, (CDouble.mk 0))) (fun m0 _ _ _ _ _ => (bumpCell 1 m0, (CDouble.mk 0))) mem n sx incx sy incy).1 1 = mem 1)) ∧
    (∀ (env : Env) (mem : Mem)
        (ret : CplxPtr) (n : IntPtr) (sx : CplxPtr) (incx : IntPtr) (sy : CplxPtr)
        (incy : IntPtr),
      (accelerate_cdotu env (fun m0 _ _ _ _ _ _ => bumpCell 0 m0) (fun m0 _ _ _ _ _ _ => bumpCell 1 m0) mem ret n sx incx sy incy) 0 +
        (accelerate_cdotu env (fun m0 _ _ _ _ _ _ => bumpCell 0 m0) (fun m0 _ _ _ _ _ _ => bumpCell 1 m0) mem ret n sx incx sy incy) 1 =
        mem 0 + mem 1 + 1 ∧
      ((accelerate_cdotu env (fun m0 _ _ _ _ _ _ => bumpCell 0 m0) (fun m0 _ _ _ _ _ _ => bumpCell 1 m0) mem ret n sx incx sy incy) 0 = mem 0 ∨
        (accelerate_cdotu env (fun m0 _ _ _ _ _ _ => bumpCell 0 m0) (fun m0 _ _ _ _ _ _ => bumpCell 1 m0) mem ret n sx incx sy incy) 1 = mem 1)) ∧
    (∀ (env : Env) (mem : Mem)
        (ret : DCplxPtr) (n : IntPtr) (sx : DCplxPtr) (incx : IntPtr) (sy : DCplxPtr)
        (incy : IntPtr),
      (accelerate_zdotu env (fun m0 _ _ _ _ _ _ => bumpCell 0 m0) (fun m0 _ _ _ _ _ _ => bumpCell 1 m0) mem ret n sx incx sy incy) 0 +
        (accelerate_zdotu env (fun m0 _ _ _ _ _ _ => bumpCell 0 m0) (fun m0 _ _ _ _ _ _ => bumpCell 1 m0) mem ret n sx incx sy incy) 1 =
        mem 0 + mem 1 + 1 ∧
      ((accelerate_zdotu env (fun m0 _ _ _ _ _ _ => bumpCell 0 m0) (fun m0 _ _ _ _ _ _ => bumpCell 1 m0) mem ret n sx incx sy incy) 0 = mem 0 ∨
        (accelerate_zdotu env (fun m0 _ _ _ _ _ _ => bumpCell 0 m0) (fun m0 _ _ _ _ _ _ => bumpCell 1 m0) mem ret n sx incx sy incy) 1 = mem 1)) ∧
    (∀ (env : Env) (mem : Mem)
        (ret : CplxPtr) (n : IntPtr) (sx : CplxPtr) (incx : IntPtr) (sy : CplxPtr)
        (incy : IntPtr),
      (accelerate_cdotc env (fun m0 _ _ _ _ _ _ => bumpCell 0 m0) (fun m0 _ _ _ _ _ _ => bumpCell 1 m0) mem ret n sx incx sy incy) 0 +
        (accelerate_cdotc env (fun m0 _ _ _ _ _ _ => bumpCell 0 m0) (fun m0 _ _ _ _ _ _ => bumpCell 1 m0) mem ret n sx incx sy incy) 1 =
        mem 0 + mem 1 + 1 ∧
      ((accelerate_cdotc env (fun m0 _ _ _ _ _ _ => bumpCell 0 m0) (fun m0 _ _ _ _ _ _ => bumpCell 1 m0) mem ret n sx incx sy incy) 0 = mem 0 ∨
        (accelerate_cdotc env (fun m0 _ _ _ _ _ _ => bumpCell 0 m0) (fun m0 _ _ _ _ _ _ => bumpCell 1 m0) mem ret n sx incx sy incy) 1 = mem 1)) ∧
    (∀ (env : Env) (mem : Mem)
        (ret : DCplxPtr) (n : IntPtr) (sx : DCplxPtr) (incx : IntPtr) (sy : DCplxPtr)
        (incy : IntPtr),
      (accelerate_zdotc env (fun m0 _ _ _ _ _ _ => bumpCell 0 m0) (fun m0 _ _ _ _ _ _ => bumpCell 1 m0) mem ret n sx incx sy incy) 0 +
        (accelerate_zdotc env (fun m0 _ _ _ _ _ _ => bumpCell 0 m0) (fun m0 _ _ _ _ _ _ => bumpCell 1 m0) mem ret n sx incx sy incy) 1 =
        mem 0 + mem 1 + 1 ∧
      ((accelerate_zdotc env (fun m0 _ _ _ _ _ _ => bumpCell 0 m0) (fun m0 _ _ _ _ _ _ => bumpCell 1 m0) mem ret n sx incx sy incy) 0 = mem 0 ∨
        (accelerate_zdotc env (fun m0 _ _ _ _ _ _ => bumpCell 0 m0) (fun m0 _ _ _ _ _ _ => bumpCell 1 m0) mem ret n sx incx sy incy) 1 = mem 1)) ∧
    (∀ (env : Env) (mem : Mem)
        (transa : CharPtr) (transb : CharPtr) (m : IntPtr) (n : IntPtr) (k : IntPtr)
        (alpha : FloatPtr) (a : FloatPtr) (lda : IntPtr) (b : FloatPtr) (ldb : IntPtr)
        (beta : FloatPtr) (c : FloatPtr) (ldc : IntPtr),
      (accelerate_sgemm env (fun m0 _ _ _ _ _ _ _ _ _ _ _ _ _ => bumpCell 0 m0) (fun m0 _ _ _ _ _ _ _ _ _ _ _ _ _ => bumpCell 1 m0) mem transa transb m n k alpha a lda b ldb beta c ldc) 0 +
        (accelerate_sgemm env (fun m0 _ _ _ _ _ _ _ _ _ _ _ _ _ => bumpCell 0 m0) (fun m0 _ _ _ _ _ _ _ _ _ _ _ _ _ => bumpCell 1 m0) mem transa transb m n k alpha a lda b ldb beta c ldc) 1 =
        mem 0 + mem 1 + 1 ∧
      ((accelerate_sgemm env (fun m0 _ _ _ _ _ _ _ _ _ _ _ _ _ => bumpCell 0 m0) (fun m0 _ _ _ _ _ _ _ _ _ _ _ _ _ => bumpCell 1 m0) mem transa transb m n k alpha a lda b ldb beta c ldc) 0 = mem 0 ∨
        (accelerate_sgemm env (fun m0 _ _ _ _ _ _ _ _ _ _ _ _ _ => bumpCell 0 m0) (fun m0 _ _ _ _ _ _ _ _ _ _ _ _ _ => bumpCell 1 m0) mem transa transb m n k alpha a lda b ldb beta c ldc) 1 = mem 1)) ∧
    (∀ (env : Env) (mem : Mem)
        (transa : CharPtr) (transb : CharPtr) (m : IntPtr) (n : IntPtr) (k : IntPtr)
        (alpha : DoublePtr) (a : DoublePtr) (lda : IntPtr) (b : DoublePtr) (ldb : IntPtr)
        (beta : DoublePtr) (c : DoublePtr) (ldc : IntPtr),
      (accelerate_dgemm env (fun m0 _ _ _ _ _ _ _ _ _ _ _ _ _ => bumpCell 0 m0) (fun m0 _ _ _ _ _ _ _ _ _ _ _ _ _ => bumpCell 1 m0) mem transa transb m n k alpha a lda b ldb beta c ldc) 0 +
        (accelerate_dgemm env (fun m0 _ _ _ _ _ _ _ _ _ _ _ _ _ => bumpCell 0 m0) (fun m0 _ _ _ _ _ _ _ _ _ _ _ _ _ => bumpCell 1 m0) mem transa transb m n k alpha a lda b ldb beta c ldc) 1 =
        mem 0 + mem 1 + 1 ∧
      ((accelerate_dgemm env (fun m0 _ _ _ _ _ _ _ _ _ _ _ _ _ => bumpCell 0 m0) (fun m0 _ _ _ _ _ _ _ _ _ _ _ _ _ => bumpCell 1 m0) mem transa transb m n k alpha a lda b ldb beta c ldc) 0 = mem 0 ∨
        (accelerate_dgemm env (fun m0 _ _ _ _ _ _ _ _ _ _ _ _ _ => bumpCell 0 m0) (fun m0 _ _ _ _ _ _ _ _ _ _ _ _ _ => bumpCell 1 m0) mem transa transb m n k alpha a lda b ldb beta c ldc) 1 = mem 1)) ∧
    (∀ (env : Env) (mem : Mem)
        (transa : CharPtr) (transb : CharPtr) (m : IntPtr) (n : IntPtr) (k : IntPtr)
        (alpha : CplxPtr) (a : CplxPtr) (lda : IntPtr) (b : CplxPtr) (ldb : IntPtr)
        (beta : CplxPtr) (c : CplxPtr) (ldc : IntPtr),
      (accelerate_cgemm env (fun m0 _ _ _ _ _ _ _ _ _ _ _ _ _ => bumpCell 0 m0) (fun m0 _ _ _ _ _ _ _ _ _ _ _ _ _ => bumpCell 1 m0) mem transa transb m n k alpha a lda b ldb beta c ldc) 0 +
        (accelerate_cgemm env (fun m0 _ _ _ _ _ _ _ _ _ _ _ _ _ => bumpCell 0 m0) (fun m0 _ _ _ _ _ _ _ _ _ _ _ _ _ => bumpCell 1 m0) mem transa transb m n k alpha a lda b ldb beta c ldc) 1 =
        mem 0 + mem 1 + 1 ∧
      ((accelerate_cgemm env (fun m0 _ _ _ _ _ _ _ _ _ _ _ _ _ => bumpCell 0 m0) (fun m0 _ _ _ _ _ _ _ _ _ _ _ _ _ => bumpCell 1 m0) mem transa transb m n k alpha a lda b ldb beta c ldc) 0 = mem 0 ∨
        (accelerate_cgemm env (fun m0 _ _ _ _ _ _ _ _ _ _ _ _ _ => bumpCell 0 m0) (fun m0 _ _ _ _ _ _ _ _ _ _ _ _ _ => bumpCell 1 m0) mem transa transb m n k alpha a lda b ldb beta c ldc) 1 = mem 1)) ∧
    (∀ (env : Env) (mem : Mem)
        (transa : CharPtr) (transb : CharPtr) (m : IntPtr) (n : IntPtr) (k : IntPtr)
        (alpha : DCplxPtr) (a : DCplxPtr) (lda : IntPtr) (b : DCplxPtr) (ldb : IntPtr)
        (beta : DCplxPtr) (c : DCplxPtr) (ldc : IntPtr),
      (accelerate_zgemm env (fun m0 _ _ _ _ _ _ _ _ _ _ _ _ _ => bumpCell 0 m0) (fun m0 _ _ _ _ _ _ _ _ _ _ _ _ _ => bumpCell 1 m0) mem transa transb m n k alpha a lda b ldb beta c ldc) 0 +
        (accelerate_zgemm env (fun m0 _ _ _ _ _ _ _ _ _ _ _ _ _ => bumpCell 0 m0) (fun m0 _ _ _ _ _ _ _ _ _ _ _ _ _ => bumpCell 1 m0) mem transa transb m n k alpha a lda b ldb beta c ldc) 1 =
        mem 0 + mem 1 + 1 ∧
      ((accelerate_zgemm env (fun m0 _ _ _ _ _ _ _ _ _ _ _ _ _ => bumpCell 0 m0) (fun m0 _ _ _ _ _ _ _ _ _ _ _ _ _ => bumpCell 1 m0) mem transa transb m n k alpha a lda b ldb beta c ldc) 0 = mem 0 ∨
        (accelerate_zgemm env (fun m0 _ _ _ _ _ _ _ _ _ _ _ _ _ => bumpCell 0 m0) (fun m0 _ _ _ _ _ _ _ _ _ _ _ _ _ => bumpCell 1 m0) mem transa transb m n k alpha a lda b ldb beta c ldc) 1 = mem 1)) :=
  ⟨
    fun env mem jobvl jobvr n a lda wr wi vl ldvl vr ldvr work lwork info => by
      by_cases h : builtinAvailable env accelerate_sgeev_threshold = true <;>
        constructor <;> simp [accelerate_sgeev, bumpCell, h] <;> omega,
    fun env mem jobvl jobvr n a lda wr wi vl ldvl vr ldvr work lwork info => by
      by_cases h : builtinAvailable env accelerate_dgeev_threshold = true <;>
        constructor <;> simp [accelerate_dgeev, bumpCell, h] <;> omega,
    fun env mem jobvl jobvr n a lda w vl ldvl vr ldvr work lwork rwork info => by
      by_cases h : builtinAvailable env accelerate_cgeev_threshold = true <;>
        constructor <;> simp [accelerate_cgeev, bumpCell, h] <;> omega,
    fun env mem jobvl jobvr n a lda w vl ldvl vr ldvr work lwork rwork info => by
      by_cases h : builtinAvailable env accelerate_zgeev_threshold = true <;>
        constructor <;> simp [accelerate_zgeev, bumpCell, h] <;> omega,
    fun env mem jobz uplo n a lda w work lwork iwork liwork info => by
      by_cases h : builtinAvailable env accelerate_ssyevd_threshold = true <;>
        constructor <;> simp [accelerate_ssyevd, bumpCell, h] <;> omega,
    fun env mem jobz uplo n a lda w work lwork iwork liwork info => by
      by_cases h : builtinAvailable env accelerate_dsyevd_threshold = true <;>
        constructor <;> simp [accelerate_dsyevd, bumpCell, h] <;> omega,
    fun env mem jobz uplo n a lda w work lwork rwork lrwork iwork liwork info => by
      by_cases h : builtinAvailable env accelerate_cheevd_threshold = true <;>
        constructor <;> simp [accelerate_cheevd, bumpCell, h] <;> omega,
    fun env mem jobz uplo n a lda w work lwork rwork lrwork iwork liwork info => by
      by_cases h : builtinAvailable env accelerate_zheevd_threshold = true <;>
        constructor <;> simp [accelerate_zheevd, bumpCell, h] <;> omega,
    fun env mem m n nrhs a lda b ldb s rcond rank work lwork iwork info => by
      by_cases h : builtinAvailable env accelerate_sgelsd_threshold = true <;>
        constructor <;> simp [accelerate_sgelsd, bumpCell, h] <;> omega,
    fun env mem m n nrhs a lda b ldb s rcond rank work lwork iwork info => by
      by_cases h : builtinAvailable env accelerate_dgelsd_threshold = true <;>
        constructor <;> simp [accelerate_dgelsd, bumpCell, h] <;> omega,
    fun env mem m n nrhs a lda b ldb s rcond rank work lwork rwork iwork info => by
      by_cases h : builtinAvailable env accelerate_cgelsd_threshold = true <;>
        constructor <;> simp [accelerate_cgelsd, bumpCell, h] <;> omega,
    fun env mem m n nrhs a lda b ldb s rcond rank work lwork rwork iwork info => by
      by_cases h : builtinAvailable env accelerate_zgelsd_threshold = true <;>
        constructor <;> simp [accelerate_zgelsd, bumpCell, h] <;> omega,
    fun env mem m n a lda tau work lwork info => by
      by_cases h : builtinAvailable env accelerate_dgeqrf_threshold = true <;>
        constructor <;> simp [accelerate_dgeqrf, bumpCell, h] <;> omega,
    fun env mem m n a lda tau work lwork info => by
      by_cases h : builtinAvailable env accelerate_zgeqrf_threshold = true <;>
        constructor <;> simp [accelerate_zgeqrf, bumpCell, h] <;> omega,
    fun env mem m n k a lda tau work lwork info => by
      by_cases h : builtinAvailable env accelerate_dorgqr_threshold = true <;>
        constructor <;> simp [accelerate_dorgqr, bumpCell, h] <;> omega,
    fun env mem m n k a lda tau work lwork info => by
      by_cases h : builtinAvailable env accelerate_zungqr_threshold = true <;>
        constructor <;> simp [accelerate_zungqr, bumpCell, h] <;> omega,
    fun env mem n nrhs a lda ipiv b ldb info => by
      by_cases h : builtinAvailable env accelerate_sgesv_threshold = true <;>
        constructor <;> simp [accelerate_sgesv, bumpCell, h] <;> omega,
    fun env mem n nrhs a lda ipiv b ldb info => by
      by_cases h : builtinAvailable env accelerate_dgesv_threshold = true <;>
        constructor <;> simp [accelerate_dgesv, bumpCell, h] <;> omega,
    fun env mem n nrhs a lda ipiv b ldb info => by
      by_cases h : builtinAvailable env accelerate_cgesv_threshold = true <;>
        constructor <;> simp [accelerate_cgesv, bumpCell, h] <;> omega,
    fun env mem n nrhs a lda ipiv b ldb info => by
      by_cases h : builtinAvailable env accelerate_zgesv_threshold = true <;>
        constructor <;> simp [accelerate_zgesv, bumpCell, h] <;> omega,
    fun env mem m n a lda ipiv info => by
      by_cases h : builtinAvailable env accelerate_sgetrf_threshold = true <;>
        constructor <;> simp [accelerate_sgetrf, bumpCell, h] <;> omega,
    fun env mem m n a lda ipiv info => by
      by_cases h : builtinAvailable env accelerate_dgetrf_threshold = true <;>
        constructor <;> simp [accelerate_dgetrf, bumpCell, h] <;> omega,
    fun env mem m n a lda ipiv info => by
      by_cases h : builtinAvailable env accelerate_cgetrf_threshold = true <;>
        constructor <;> simp [accelerate_cgetrf, bumpCell, h] <;> omega,
    fun env mem m n a lda ipiv info => by
      by_cases h : builtinAvailable env accelerate_zgetrf_threshold = true <;>
        constructor <;> simp [accelerate_zgetrf, bumpCell, h] <;> omega,
    fun env mem uplo n a lda info => by
      by_cases h : builtinAvailable env accelerate_spotrf_threshold = true <;>
        constructor <;> simp [accelerate_spotrf, bumpCell, h] <;> omega,
    fun env mem uplo n a lda info => by
      by_cases h : builtinAvailable env accelerate_dpotrf_threshold = true <;>
        constructor <;> simp [accelerate_dpotrf, bumpCell, h] <;> omega,
    fun env mem uplo n a lda info => by
      by_cases h : builtinAvailable env accelerate_cpotrf_threshold = true <;>
        constructor <;> simp [accelerate_cpotrf, bumpCell, h] <;> omega,
    fun env mem uplo n a lda info => by
      by_cases h : builtinAvailable env accelerate_zpotrf_threshold = true <;>
        constructor <;> simp [accelerate_zpotrf, bumpCell, h] <;> omega,
    fun env mem jobz m n a lda s u ldu vt ldvt work lwork iwork info => by
      by_cases h : builtinAvailable env accelerate_sgesdd_threshold = true <;>
        constructor <;> simp [accelerate_sgesdd, bumpCell, h] <;> omega,
    fun env mem jobz m n a lda s u ldu vt ldvt work lwork iwork info => by
      by_cases h : builtinAvailable env accelerate_dgesdd_threshold = true <;>
        constructor <;> simp [accelerate_dgesdd, bumpCell, h] <;> omega,
    fun env mem jobz m n a lda s u ldu vt ldvt work lwork rwork iwork info => by
      by_cases h : builtinAvailable env accelerate_cgesdd_threshold = true <;>
        constructor <;> simp [accelerate_cgesdd, bumpCell, h] <;> omega,
    fun env mem jobz m n a lda s u ldu vt ldvt work lwork rwork iwork info => by
      by_cases h : builtinAvailable env accelerate_zgesdd_threshold = true <;>
        constructor <;> simp [accelerate_zgesdd, bumpCell, h] <;> omega,
    fun env mem uplo n nrhs a lda b ldb info => by
      by_cases h : builtinAvailable env accelerate_spotrs_threshold = true <;>
        constructor <;> simp [accelerate_spotrs, bumpCell, h] <;> omega,
    fun env mem uplo n nrhs a lda b ldb info => by
      by_cases h : builtinAvailable env accelerate_dpotrs_threshold = true <;>
        constructor <;> simp [accelerate_dpotrs, bumpCell, h] <;> omega,
    fun env mem uplo n nrhs a lda b ldb info => by
      by_cases h : builtinAvailable env accelerate_cpotrs_threshold = true <;>
        constructor <;> simp [accelerate_cpotrs, bumpCell, h] <;> omega,
    fun env mem uplo n nrhs a lda b ldb info => by
      by_cases h : builtinAvailable env accelerate_zpotrs_threshold = true <;>
        constructor <;> simp [accelerate_zpotrs, bumpCell, h] <;> omega,
    fun env mem uplo n a lda info => by
      by_cases h : builtinAvailable env accelerate_spotri_threshold = true <;>
        constructor <;> simp [accelerate_spotri, bumpCell, h] <;> omega,
    fun env mem uplo n a lda info => by
      by_cases h : builtinAvailable env accelerate_dpotri_threshold = true <;>
        constructor <;> simp [accelerate_dpotri, bumpCell, h] <;> omega,
    fun env mem uplo n a lda info => by
      by_cases h : builtinAvailable env accelerate_cpotri_threshold = true <;>
        constructor <;> simp [accelerate_cpotri, bumpCell, h] <;> omega,
    fun env mem uplo n a lda info => by
      by_cases h : builtinAvailable env accelerate_zpotri_threshold = true <;>
        constructor <;> simp [accelerate_zpotri, bumpCell, h] <;> omega,
    fun env mem n sx incx sy incy => by
      by_cases h : builtinAvailable env accelerate_scopy_threshold = true <;>
        constructor <;> simp [accelerate_scopy, bumpCell, h] <;> omega,
    fun env mem n sx incx sy incy => by
      by_cases h : builtinAvailable env accelerate_dcopy_threshold = true <;>
        constructor <;> simp [accelerate_dcopy, bumpCell, h] <;> omega,
    fun env mem n sx incx sy incy => by
      by_cases h : builtinAvailable env accelerate_ccopy_threshold = true <;>
        constructor <;> simp [accelerate_ccopy, bumpCell, h] <;> omega,
    fun env mem n sx incx sy incy => by
      by_cases h : builtinAvailable env accelerate_zcopy_threshold = true <;>
        constructor <;> simp [accelerate_zcopy, bumpCell, h] <;> omega,
    fun env mem n sx incx sy incy => by
      by_cases h : builtinAvailable env accelerate_sdot_threshold = true <;>
        constructor <;> simp [accelerate_sdot, bumpCell, h] <;> omega,
    fun env mem n sx incx sy incy => by
      by_cases h : builtinAvailable env accelerate_ddot_threshold = true <;>
        constructor <;> simp [accelerate_ddot, bumpCell, h] <;> omega,
    fun env mem ret n sx incx sy incy => by
      by_cases h : builtinAvailable env accelerate_cdotu_threshold = true <;>
        constructor <;> simp [accelerate_cdotu, bumpCell, h] <;> omega,
    fun env mem ret n sx incx sy incy => by
      by_cases h : builtinAvailable env accelerate_zdotu_threshold = true <;>
        constructor <;> simp [accelerate_zdotu, bumpCell, h] <;> omega,
    fun env mem ret n sx incx sy incy => by
      by_cases h : builtinAvailable env accelerate_cdotc_threshold = true <;>
        constructor <;> simp [accelerate_cdotc, bumpCell, h] <;> omega,
    fun env mem ret n sx incx sy incy => by
      by_cases h : builtinAvailable env accelerate_zdotc_threshold = true <;>
        constructor <;> simp [accelerate_zdotc, bumpCell, h] <;> omega,
    fun env mem transa transb m n k alpha a lda b ldb beta c ldc => by
      by_cases h : builtinAvailable env accelerate_sgemm_threshold = true <;>
        constructor <;> simp [accelerate_sgemm, bumpCell, h] <;> omega,
    fun env mem transa transb m n k alpha a lda b ldb beta c ldc => by
      by_cases h : builtinAvailable env accelerate_dgemm_threshold = true <;>
        constructor <;> simp [accelerate_dgemm, bumpCell, h] <;> omega,
    fun env mem transa transb m n k alpha a lda b ldb beta c ldc => by
      by_cases h : builtinAvailable env accelerate_cgemm_threshold = true <;>
        constructor <;> simp [accelerate_cgemm, bumpCell, h] <;> omega,
    fun env mem transa transb m n k alpha a lda b ldb beta c ldc => by
      by_cases h : builtinAvailable env accelerate_zgemm_threshold = true <;>
        constructor <;> simp [accelerate_zgemm, bumpCell, h] <;> omega
  ⟩

/-- C4: every one of the exported wrappers gates on one and the same fixed
threshold version, macOS 13.3, not a per-routine value. -/
theorem all_wrappers_share_macos_13_3_threshold :
    accelerate_sgeev_threshold = (13, 3) ∧
    accelerate_dgeev_threshold = (13, 3) ∧
    accelerate_cgeev_threshold = (13, 3) ∧
    accelerate_zgeev_threshold = (13, 3) ∧
    accelerate_ssyevd_threshold = (13, 3) ∧
    accelerate_dsyevd_threshold = (13, 3) ∧
    accelerate_cheevd_threshold = (13, 3) ∧
    accelerate_zheevd_threshold = (13, 3) ∧
    accelerate_sgelsd_threshold = (13, 3) ∧
    accelerate_dgelsd_threshold = (13, 3) ∧
    accelerate_cgelsd_threshold = (13, 3) ∧
    accelerate_zgelsd_threshold = (13, 3) ∧
    accelerate_dgeqrf_threshold = (13, 3) ∧
    accelerate_zgeqrf_threshold = (13, 3) ∧
    accelerate_dorgqr_threshold = (13, 3) ∧
    accelerate_zungqr_threshold = (13, 3) ∧
    accelerate_sgesv_threshold = (13, 3) ∧
    accelerate_dgesv_threshold = (13, 3) ∧
    accelerate_cgesv_threshold = (13, 3) ∧
    accelerate_zgesv_threshold = (13, 3) ∧
    accelerate_sgetrf_threshold = (13, 3) ∧
    accelerate_dgetrf_threshold = (13, 3) ∧
    accelerate_cgetrf_threshold = (13, 3) ∧
    accelerate_zgetrf_threshold = (13, 3) ∧
    accelerate_spotrf_threshold = (13, 3) ∧
    accelerate_dpotrf_threshold = (13, 3) ∧
    accelerate_cpotrf_threshold = (13, 3) ∧
    accelerate_zpotrf_threshold = (13, 3) ∧
    accelerate_sgesdd_threshold = (13, 3) ∧
    accelerate_dgesdd_threshold = (13, 3) ∧
    accelerate_cgesdd_threshold = (13, 3) ∧
    accelerate_zgesdd_threshold = (13, 3) ∧
    accelerate_spotrs_threshold = (13, 3) ∧
    accelerate_dpotrs_threshold = (13, 3) ∧
    accelerate_cpotrs_threshold = (13, 3) ∧
    accelerate_zpotrs_threshold = (13, 3) ∧
    accelerate_spotri_threshold = (13, 3) ∧
    accelerate_dpotri_threshold = (13, 3) ∧
    accelerate_cpotri_threshold = (13, 3) ∧
    accelerate_zpotri_threshold = (13, 3) ∧
    accelerate_scopy_threshold = (13, 3) ∧
    accelerate_dcopy_threshold = (13, 3) ∧
    accelerate_ccopy_threshold = (13, 3) ∧
    accelerate_zcopy_threshold = (13, 3) ∧
    accelerate_sdot_threshold = (13, 3) ∧
    accelerate_ddot_threshold = (13, 3) ∧
    accelerate_cdotu_threshold = (13, 3) ∧
    accelerate_zdotu_threshold = (13, 3) ∧
    accelerate_cdotc_threshold = (13, 3) ∧
    accelerate_zdotc_threshold = (13, 3) ∧
    accelerate_sgemm_threshold = (13, 3) ∧
    accelerate_dgemm_threshold = (13, 3) ∧
    accelerate_cgemm_threshold = (13, 3) ∧
    accelerate_zgemm_threshold = (13, 3) :=
  ⟨rfl, rfl, rfl, rfl, rfl, rfl, rfl, rfl, rfl, rfl, rfl, rfl, rfl, rfl, rfl, rfl, rfl, rfl, rfl, rfl, rfl, rfl, rfl, rfl, rfl, rfl, rfl, rfl, rfl, rfl, rfl, rfl, rfl, rfl, rfl, rfl, rfl, rfl, rfl, rfl, rfl, rfl, rfl, rfl, rfl, rfl, rfl, rfl, rfl, rfl, rfl, rfl, rfl, rfl⟩

/-- C5: dispatch is deterministic and independent of the numerical
arguments: under the same capability condition, two calls with arbitrary
different arguments select the same branch (observed through stand-in
entry points that record only which branch ran). -/
theorem branch_selection_independent_of_arguments :
    (∀ (env : Env) (mem : Mem)
        (jobvl : CharPtr) (jobvr : CharPtr) (n : IntPtr) (a : FloatArr) (lda : IntPtr)
        (wr : FloatArr) (wi : FloatArr) (vl : FloatArr) (ldvl : IntPtr) (vr : FloatArr)
        (ldvr : IntPtr) (work : FloatArr) (lwork : IntArr) (info : IntPtr)
        (jobvl2 : CharPtr) (jobvr2 : CharPtr) (n2 : IntPtr) (a2 : FloatArr) (lda2 : IntPtr)
        (wr2 : FloatArr) (wi2 : FloatArr) (vl2 : FloatArr) (ldvl2 : IntPtr) (vr2 : FloatArr)
        (ldvr2 : IntPtr) (work2 : FloatArr) (lwork2 : IntArr) (info2 : IntPtr),
      accelerate_sgeev env (fun m0 _ _ _ _ _ _ _ _ _ _ _ _ _ _ => bumpCell 0 m0) (fun m0 _ _ _ _ _ _ _ _ _ _ _ _ _ _ => bumpCell 1 m0) mem jobvl jobvr n a lda wr wi vl ldvl vr ldvr work lwork info =
        accelerate_sgeev env (fun m0 _ _ _ _ _ _ _ _ _ _ _ _ _ _ => bumpCell 0 m0) (fun m0 _ _ _ _ _ _ _ _ _ _ _ _ _ _ => bumpCell 1 m0) mem jobvl2 jobvr2 n2 a2 lda2 wr2 wi2 vl2 ldvl2 vr2 ldvr2 work2 lwork2 info2) ∧
    (∀ (env : Env) (mem : Mem)
        (jobvl : CharPtr) (jobvr : CharPtr) (n : IntPtr) (a : DoubleArr) (lda : IntPtr)
        (wr : DoubleArr) (wi : DoubleArr) (vl : DoubleArr) (ldvl : IntPtr) (vr : DoubleArr)
        (ldvr : IntPtr) (work : DoubleArr) (lwork : IntArr) (info : IntPtr)
        (jobvl2 : CharPtr) (jobvr2 : CharPtr) (n2 : IntPtr) (a2 : DoubleArr) (lda2 : IntPtr)
        (wr2 : DoubleArr) (wi2 : DoubleArr) (vl2 : DoubleArr) (ldvl2 : IntPtr) (vr2 : DoubleArr)
        (ldvr2 : IntPtr) (work2 : DoubleArr) (lwork2 : IntArr) (info2 : IntPtr),
      accelerate_dgeev env (fun m0 _ _ _ _ _ _ _ _ _ _ _ _ _ _ => bumpCell 0 m0) (fun m0 _ _ _ _ _ _ _ _ _ _ _ _ _ _ => bumpCell 1 m0) mem jobvl jobvr n a lda wr wi vl ldvl vr ldvr work lwork info =
        accelerate_dgeev env (fun m0 _ _ _ _ _ _ _ _ _ _ _ _ _ _ => bumpCell 0 m0) (fun m0 _ _ _ _ _ _ _ _ _ _ _ _ _ _ => bumpCell 1 m0) mem jobvl2 jobvr2 n2 a2 lda2 wr2 wi2 vl2 ldvl2 vr2 ldvr2 work2 lwork2 info2) ∧
    (∀ (env : Env) (mem : Mem)
        (jobvl : CharPtr) (jobvr : CharPtr) (n : IntPtr) (a : CplxArr) (lda : IntPtr)
        (w : CplxArr) (vl : CplxArr) (ldvl : IntPtr) (vr : CplxArr) (ldvr : IntPtr)
        (work : CplxArr) (lwork : IntPtr) (rwork : FloatArr) (info : IntPtr)
        (jobvl2 : CharPtr) (jobvr2 : CharPtr) (n2 : IntPtr) (a2 : CplxArr) (lda2 : IntPtr)
        (w2 : CplxArr) (vl2 : CplxArr) (ldvl2 : IntPtr) (vr2 : CplxArr) (ldvr2 : IntPtr)
        (work2 : CplxArr) (lwork2 : IntPtr) (rwork2 : FloatArr) (info2 : IntPtr),
      accelerate_cgeev env (fun m0 _ _ _ _ _ _ _ _ _ _ _ _ _ _ => bumpCell 0 m0) (fun m0 _ _ _ _ _ _ _ _ _ _ _ _ _ _ => bumpCell 1 m0) mem jobvl jobvr n a lda w vl ldvl vr ldvr work lwork rwork info =
        accelerate_cgeev env (fun m0 _ _ _ _ _ _ _ _ _ _ _ _ _ _ => bumpCell 0 m0) (fun m0 _ _ _ _ _ _ _ _ _ _ _ _ _ _ => bumpCell 1 m0) mem jobvl2 jobvr2 n2 a2 lda2 w2 vl2 ldvl2 vr2 ldvr2 work2 lwork2 rwork2 info2) ∧
    (∀ (env : Env) (mem : Mem)
        (jobvl : CharPtr) (jobvr : CharPtr) (n : IntPtr) (a : DCplxArr) (lda : IntPtr)
        (w : DCplxArr) (vl : DCplxArr) (ldvl : IntPtr) (vr : DCplxArr) (ldvr : IntPtr)
        (work : DCplxArr) (lwork : IntPtr) (rwork : DoubleArr) (info : IntPtr)
        (jobvl2 : CharPtr) (jobvr2 : CharPtr) (n2 : IntPtr) (a2 : DCplxArr) (lda2 : IntPtr)
        (w2 : DCplxArr) (vl2 : DCplxArr) (ldvl2 : IntPtr) (vr2 : DCplxArr) (ldvr2 : IntPtr)
        (work2 : DCplxArr) (lwork2 : IntPtr) (rwork2 : DoubleArr) (info2 : IntPtr),
      accelerate_zgeev env (fun m0 _ _ _ _ _ _ _ _ _ _ _ _ _ _ => bumpCell 0 m0) (fun m0 _ _ _ _ _ _ _ _ _ _ _ _ _ _ => bumpCell 1 m0) mem jobvl jobvr n a lda w vl ldvl vr ldvr work lwork rwork info =
        accelerate_zgeev env (fun m0 _ _ _ _ _ _ _ _ _ _ _ _ _ _ => bumpCell 0 m0) (fun m0 _ _ _ _ _ _ _ _ _ _ _ _ _ _ => bumpCell 1 m0) mem jobvl2 jobvr2 n2 a2 lda2 w2 vl2 ldvl2 vr2 ldvr2 work2 lwork2 rwork2 info2) ∧
    (∀ (env : Env) (mem : Mem)
        (jobz : CharPtr) (uplo : CharPtr) (n : IntPtr) (a : FloatArr) (lda : IntPtr)
        (w : FloatArr) (work : FloatArr) (lwork : IntPtr) (iwork : IntArr) (liwork : IntPtr)
        (info : IntPtr)
        (jobz2 : CharPtr) (uplo2 : CharPtr) (n2 : IntPtr) (a2 : FloatArr) (lda2 : IntPtr)
        (w2 : FloatArr) (work2 : FloatArr) (lwork2 : IntPtr) (iwork2 : IntArr) (liwork2 : IntPtr)
        (info2 : IntPtr),
      accelerate_ssyevd env (fun m0 _ _ _ _ _ _ _ _ _ _ _ => bumpCell 0 m0) (fun m0 _ _ _ _ _ _ _ _ _ _ _ => bumpCell 1 m0) mem jobz uplo n a lda w work lwork iwork liwork info =
        accelerate_ssyevd env (fun m0 _ _ _ _ _ _ _ _ _ _ _ => bumpCell 0 m0) (fun m0 _ _ _ _ _ _ _ _ _ _ _ => bumpCell 1 m0) mem jobz2 uplo2 n2 a2 lda2 w2 work2 lwork2 iwork2 liwork2 info2) ∧
    (∀ (env : Env) (mem : Mem)
        (jobz : CharPtr) (uplo : CharPtr) (n : IntPtr) (a : DoubleArr) (lda : IntPtr)
        (w : DoubleArr) (work : DoubleArr) (lwork : IntPtr) (iwork : IntArr) (liwork : IntPtr)
        (info : IntPtr)
        (jobz2 : CharPtr) (uplo2 : CharPtr) (n2 : IntPtr) (a2 : DoubleArr) (lda2 : IntPtr)
        (w2 : DoubleArr) (work2 : DoubleArr) (lwork2 : IntPtr) (iwork2 : IntArr) (liwork2 : IntPtr)
        (info2 : IntPtr),
      accelerate_dsyevd env (fun m0 _ _ _ _ _ _ _ _ _ _ _ => bumpCell 0 m0) (fun m0 _ _ _ _ _ _ _ _ _ _ _ => bumpCell 1 m0) mem jobz uplo n a lda w work lwork iwork liwork info =
        accelerate_dsyevd env (fun m0 _ _ _ _ _ _ _ _ _ _ _ => bumpCell 0 m0) (fun m0 _ _ _ _ _ _ _ _ _ _ _ => bumpCell 1 m0) mem jobz2 uplo2 n2 a2 lda2 w2 work2 lwork2 iwork2 liwork2 info2) ∧
    (∀ (env : Env) (mem : Mem)
        (jobz : CharPtr) (uplo : CharPtr) (n : IntPtr) (a : CplxArr) (lda : IntPtr)
        (w : FloatArr) (work : CplxArr) (lwork : IntPtr) (rwork : FloatArr) (lrwork : IntPtr)
        (iwork : IntArr) (liwork : IntPtr) (info : IntPtr)
        (jobz2 : CharPtr) (uplo2 : CharPtr) (n2 : IntPtr) (a2 : CplxArr) (lda2 : IntPtr)
        (w2 : FloatArr) (work2 : CplxArr) (lwork2 : IntPtr) (rwork2 : FloatArr) (lrwork2 : IntPtr)
        (iwork2 : IntArr) (liwork2 : IntPtr) (info2 : IntPtr),
      accelerate_cheevd env (fun m0 _ _ _ _ _ _ _ _ _ _ _ _ _ => bumpCell 0 m0) (fun m0 _ _ _ _ _ _ _ _ _ _ _ _ _ => bumpCell 1 m0) mem jobz uplo n a lda w work lwork rwork lrwork iwork liwork info =
        accelerate_cheevd env (fun m0 _ _ _ _ _ _ _ _ _ _ _ _ _ => bumpCell 0 m0) (fun m0 _ _ _ _ _ _ _ _ _ _ _ _ _ => bumpCell 1 m0) mem jobz2 uplo2 n2 a2 lda2 w2 work2 lwork2 rwork2 lrwork2 iwork2 liwork2 info2) ∧
    (∀ (env : Env) (mem : Mem)
        (jobz : CharPtr) (uplo : CharPtr) (n : IntPtr) (a : DCplxArr) (lda : IntPtr)
        (w : DoubleArr) (work : DCplxArr) (lwork : IntPtr) (rwork : DoubleArr) (lrwork : IntPtr)
        (iwork : IntArr) (liwork : IntPtr) (info : IntPtr)
        (jobz2 : CharPtr) (uplo2 : CharPtr) (n2 : IntPtr) (a2 : DCplxArr) (lda2 : IntPtr)
        (w2 : DoubleArr) (work2 : DCplxArr) (lwork2 : IntPtr) (rwork2 : DoubleArr) (lrwork2 : IntPtr)
        (iwork2 : IntArr) (liwork2 : IntPtr) (info2 : IntPtr),
      accelerate_zheevd env (fun m0 _ _ _ _ _ _ _ _ _ _ _ _ _ => bumpCell 0 m0) (fun m0 _ _ _ _ _ _ _ _ _ _ _ _ _ => bumpCell 1 m0) mem jobz uplo n a lda w work lwork rwork lrwork iwork liwork info =
        accelerate_zheevd env (fun m0 _ _ _ _ _ _ _ _ _ _ _ _ _ => bumpCell 0 m0) (fun m0 _ _ _ _ _ _ _ _ _ _ _ _ _ => bumpCell 1 m0) mem jobz2 uplo2 n2 a2 lda2 w2 work2 lwork2 rwork2 lrwork2 iwork2 liwork2 info2) ∧
    (∀ (env : Env) (mem : Mem)
        (m : IntPtr) (n : IntPtr) (nrhs : IntPtr) (a : FloatArr) (lda : IntPtr)
        (b : FloatArr) (ldb : IntPtr) (s : FloatArr) (rcond : FloatPtr) (rank : IntPtr)
        (work : FloatArr) (lwork : IntPtr) (iwork : IntArr) (info : IntPtr)
        (m2 : IntPtr) (n2 : IntPtr) (nrhs2 : IntPtr) (a2 : FloatArr) (lda2 : IntPtr)
        (b2 : FloatArr) (ldb2 : IntPtr) (s2 : FloatArr) (rcond2 : FloatPtr) (rank2 : IntPtr)
        (work2 : FloatArr) (lwork2 : IntPtr) (iwork2 : IntArr) (info2 : IntPtr),
      accelerate_sgelsd env (fun m0 _ _ _ _ _ _ _ _ _ _ _ _ _ _ => bumpCell 0 m0) (fun m0 _ _ _ _ _ _ _ _ _ _ _ _ _ _ => bumpCell 1 m0) mem m n nrhs a lda b ldb s rcond rank work lwork iwork info =
        accelerate_sgelsd env (fun m0 _ _ _ _ _ _ _ _ _ _ _ _ _ _ => bumpCell 0 m0) (fun m0 _ _ _ _ _ _ _ _ _ _ _ _ _ _ => bumpCell 1 m0) mem m2 n2 nrhs2 a2 lda2 b2 ldb2 s2 rcond2 rank2 work2 lwork2 iwork2 info2) ∧
    (∀ (env : Env) (mem : Mem)
        (m : IntPtr) (n : IntPtr) (nrhs : IntPtr) (a : DoubleArr) (lda : IntPtr)
        (b : DoubleArr) (ldb : IntPtr) (s : DoubleArr) (rcond : DoublePtr) (rank : IntPtr)
        (work : DoubleArr) (lwork : IntPtr) (iwork : IntArr) (info : IntPtr)
        (m2 : IntPtr) (n2 : IntPtr) (nrhs2 : IntPtr) (a2 : DoubleArr) (lda2 : IntPtr)
        (b2 : DoubleArr) (ldb2 : IntPtr) (s2 : DoubleArr) (rcond2 : DoublePtr) (rank2 : IntPtr)
        (work2 : DoubleArr) (lwork2 : IntPtr) (iwork2 : IntArr) (info2 : IntPtr),
      accelerate_dgelsd env (fun m0 _ _ _ _ _ _ _ _ _ _ _ _ _ _ => bumpCell 0 m0) (fun m0 _ _ _ _ _ _ _ _ _ _ _ _ _ _ => bumpCell 1 m0) mem m n nrhs a lda b ldb s rcond rank work lwork iwork info =
        accelerate_dgelsd env (fun m0 _ _ _ _ _ _ _ _ _ _ _ _ _ _ => bumpCell 0 m0) (fun m0 _ _ _ _ _ _ _ _ _ _ _ _ _ _ => bumpCell 1 m0) mem m2 n2 nrhs2 a2 lda2 b2 ldb2 s2 rcond2 rank2 work2 lwork2 iwork2 info2) ∧
    (∀ (env : Env) (mem : Mem)
        (m : IntPtr) (n : IntPtr) (nrhs : IntPtr) (a : CplxArr) (lda : IntPtr)
        (b : CplxArr) (ldb : IntPtr) (s : FloatArr) (rcond : FloatPtr) (rank : IntPtr)
        (work : CplxArr) (lwork : IntPtr) (rwork : FloatArr) (iwork : IntArr) (info : IntPtr)
        (m2 : IntPtr) (n2 : IntPtr) (nrhs2 : IntPtr) (a2 : CplxArr) (lda2 : IntPtr)
        (b2 : CplxArr) (ldb2 : IntPtr) (s2 : FloatArr) (rcond2 : FloatPtr) (rank2 : IntPtr)
        (work2 : CplxArr) (lwork2 : IntPtr) (rwork2 : FloatArr) (iwork2 : IntArr) (info2 : IntPtr),
      accelerate_cgelsd env (fun m0 _ _ _ _ _ _ _ _ _ _ _ _ _ _ _ => bumpCell 0 m0) (fun m0 _ _ _ _ _ _ _ _ _ _ _ _ _ _ _ => bumpCell 1 m0) mem m n nrhs a lda b ldb s rcond rank work lwork rwork iwork info =
        accelerate_cgelsd env (fun m0 _ _ _ _ _ _ _ _ _ _ _ _ _ _ _ => bumpCell 0 m0) (fun m0 _ _ _ _ _ _ _ _ _ _ _ _ _ _ _ => bumpCell 1 m0) mem m2 n2 nrhs2 a2 lda2 b2 ldb2 s2 rcond2 rank2 work2 lwork2 rwork2 iwork2 info2) ∧
    (∀ (env : Env) (mem : Mem)
        (m : IntPtr) (n : IntPtr) (nrhs : IntPtr) (a : FDCplxArr) (lda : IntPtr)
        (b : FDCplxArr) (ldb : IntPtr) (s : DoubleArr) (rcond : DoublePtr) (rank : IntPtr)
        (work : FDCplxArr) (lwork : IntPtr) (rwork : DoubleArr) (iwork : IntArr) (info : IntPtr)
        (m2 : IntPtr) (n2 : IntPtr) (nrhs2 : IntPtr) (a2 : FDCplxArr) (lda2 : IntPtr)
        (b2 : FDCplxArr) (ldb2 : IntPtr) (s2 : DoubleArr) (rcond2 : DoublePtr) (rank2 : IntPtr)
        (work2 : FDCplxArr) (lwork2 : IntPtr) (rwork2 : DoubleArr) (iwork2 : IntArr) (info2 : IntPtr),
      accelerate_zgelsd env (fun m0 _ _ _ _ _ _ _ _ _ _ _ _ _ _ _ => bumpCell 0 m0) (fun m0 _ _ _ _ _ _ _ _ _ _ _ _ _ _ _ => bumpCell 1 m0) mem m n nrhs a lda b ldb s rcond rank work lwork rwork iwork info =
        accelerate_zgelsd env (fun m0 _ _ _ _ _ _ _ _ _ _ _ _ _ _ _ => bumpCell 0 m0) (fun m0 _ _ _ _ _ _ _ _ _ _ _ _ _ _ _ => bumpCell 1 m0) mem m2 n2 nrhs2 a2 lda2 b2 ldb2 s2 rcond2 rank2 work2 lwork2 rwork2 iwork2 info2) ∧
    (∀ (env : Env) (mem : Mem)
        (m : IntPtr) (n : IntPtr) (a : DoubleArr) (lda : IntPtr) (tau : DoubleArr)
        (work : DoubleArr) (lwork : IntPtr) (info : IntPtr)
        (m2 : IntPtr) (n2 : IntPtr) (a2 : DoubleArr) (lda2 : IntPtr) (tau2 : DoubleArr)
        (work2 : DoubleArr) (lwork2 : IntPtr) (info2 : IntPtr),
      accelerate_dgeqrf env (fun m0 _ _ _ _ _ _ _ _ => bumpCell 0 m0) (fun m0 _ _ _ _ _ _ _ _ => bumpCell 1 m0) mem m n a lda tau work lwork info =
        accelerate_dgeqrf env (fun m0 _ _ _ _ _ _ _ _ => bumpCell 0 m0) (fun m0 _ _ _ _ _ _ _ _ => bumpCell 1 m0) mem m2 n2 a2 lda2 tau2 work2 lwork2 info2) ∧
    (∀ (env : Env) (mem : Mem)
        (m : IntPtr) (n : IntPtr) (a : DCplxArr) (lda : IntPtr) (tau : DCplxArr)
        (work : DCplxArr) (lwork : IntPtr) (info : IntPtr)
        (m2 : IntPtr) (n2 : IntPtr) (a2 : DCplxArr) (lda2 : IntPtr) (tau2 : DCplxArr)
        (work2 : DCplxArr) (lwork2 : IntPtr) (info2 : IntPtr),
      accelerate_zgeqrf env (fun m0 _ _ _ _ _ _ _ _ => bumpCell 0 m0) (fun m0 _ _ _ _ _ _ _ _ => bumpCell 1 m0) mem m n a lda tau work lwork info =
        accelerate_zgeqrf env (fun m0 _ _ _ _ _ _ _ _ => bumpCell 0 m0) (fun m0 _ _ _ _ _ _ _ _ => bumpCell 1 m0) mem m2 n2 a2 lda2 tau2 work2 lwork2 info2) ∧
    (∀ (env : Env) (mem : Mem)
        (m : IntPtr) (n : IntPtr) (k : IntPtr) (a : DoubleArr) (lda : IntPtr)
        (tau : DoubleArr) (work : DoubleArr) (lwork : IntPtr) (info : IntPtr)
        (m2 : IntPtr) (n2 : IntPtr) (k2 : IntPtr) (a2 : DoubleArr) (lda2 : IntPtr)
        (tau2 : DoubleArr) (work2 : DoubleArr) (lwork2 : IntPtr) (info2 : IntPtr),
      accelerate_dorgqr env (fun m0 _ _ _ _ _ _ _ _ _ => bumpCell 0 m0) (fun m0 _ _ _ _ _ _ _ _ _ => bumpCell 1 m0) mem m n k a lda tau work lwork info =
        accelerate_dorgqr env (fun m0 _ _ _ _ _ _ _ _ _ => bumpCell 0 m0) (fun m0 _ _ _ _ _ _ _ _ _ => bumpCell 1 m0) mem m2 n2 k2 a2 lda2 tau2 work2 lwork2 info2) ∧
    (∀ (env : Env) (mem : Mem)
        (m : IntPtr) (n : IntPtr) (k : IntPtr) (a : DCplxArr) (lda : IntPtr)
        (tau : DCplxArr) (work : DCplxArr) (lwork : IntPtr) (info : IntPtr)
        (m2 : IntPtr) (n2 : IntPtr) (k2 : IntPtr) (a2 : DCplxArr) (lda2 : IntPtr)
        (tau2 : DCplxArr) (work2 : DCplxArr) (lwork2 : IntPtr) (info2 : IntPtr),
      accelerate_zungqr env (fun m0 _ _ _ _ _ _ _ _ _ => bumpCell 0 m0) (fun m0 _ _ _ _ _ _ _ _ _ => bumpCell 1 m0) mem m n k a lda tau work lwork info =
        accelerate_zungqr env (fun m0 _ _ _ _ _ _ _ _ _ => bumpCell 0 m0) (fun m0 _ _ _ _ _ _ _ _ _ => bumpCell 1 m0) mem m2 n2 k2 a2 lda2 tau2 work2 lwork2 info2) ∧
    (∀ (env : Env) (mem : Mem)
        (n : IntPtr) (nrhs : IntPtr) (a : FloatArr) (lda : IntPtr) (ipiv : IntArr)
        (b : FloatArr) (ldb : IntPtr) (info : IntPtr)
        (n2 : IntPtr) (nrhs2 : IntPtr) (a2 : FloatArr) (lda2 : IntPtr) (ipiv2 : IntArr)
        (b2 : FloatArr) (ldb2 : IntPtr) (info2 : IntPtr),
      accelerate_sgesv env (fun m0 _ _ _ _ _ _ _ _ => bumpCell 0 m0) (fun m0 _ _ _ _ _ _ _ _ => bumpCell 1 m0) mem n nrhs a lda ipiv b ldb info =
        accelerate_sgesv env (fun m0 _ _ _ _ _ _ _ _ => bumpCell 0 m0) (fun m0 _ _ _ _ _ _ _ _ => bumpCell 1 m0) mem n2 nrhs2 a2 lda2 ipiv2 b2 ldb2 info2) ∧
    (∀ (env : Env) (mem : Mem)
        (n : IntPtr) (nrhs : IntPtr) (a : DoubleArr) (lda : IntPtr) (ipiv : IntArr)
        (b : DoubleArr) (ldb : IntPtr) (info : IntPtr)
        (n2 : IntPtr) (nrhs2 : IntPtr) (a2 : DoubleArr) (lda2 : IntPtr) (ipiv2 : IntArr)
        (b2 : DoubleArr) (ldb2 : IntPtr) (info2 : IntPtr),
      accelerate_dgesv env (fun m0 _ _ _ _ _ _ _ _ => bumpCell 0 m0) (fun m0 _ _ _ _ _ _ _ _ => bumpCell 1 m0) mem n nrhs a lda ipiv b ldb info =
        accelerate_dgesv env (fun m0 _ _ _ _ _ _ _ _ => bumpCell 0 m0) (fun m0 _ _ _ _ _ _ _ _ => bumpCell 1 m0) mem n2 nrhs2 a2 lda2 ipiv2 b2 ldb2 info2) ∧
    (∀ (env : Env) (mem : Mem)
        (n : IntPtr) (nrhs : IntPtr) (a : CplxArr) (lda : IntPtr) (ipiv : IntArr)
        (b : CplxArr) (ldb : IntPtr) (info : IntPtr)
        (n2 : IntPtr) (nrhs2 : IntPtr) (a2 : CplxArr) (lda2 : IntPtr) (ipiv2 : IntArr)
        (b2 : CplxArr) (ldb2 : IntPtr) (info2 : IntPtr),
      accelerate_cgesv env (fun m0 _ _ _ _ _ _ _ _ => bumpCell 0 m0) (fun m0 _ _ _ _ _ _ _ _ => bumpCell 1 m0) mem n nrhs a lda ipiv b ldb info =
        accelerate_cgesv env (fun m0 _ _ _ _ _ _ _ _ => bumpCell 0 m0) (fun m0 _ _ _ _ _ _ _ _ => bumpCell 1 m0) mem n2 nrhs2 a2 lda2 ipiv2 b2 ldb2 info2) ∧
    (∀ (env : Env) (mem : Mem)
        (n : IntPtr) (nrhs : IntPtr) (a : DCplxArr) (lda : IntPtr) (ipiv : IntArr)
        (b : DCplxArr) (ldb : IntPtr) (info : IntPtr)
        (n2 : IntPtr) (nrhs2 : IntPtr) (a2 : DCplxArr) (lda2 : IntPtr) (ipiv2 : IntArr)
        (b2 : DCplxArr) (ldb2 : IntPtr) (info2 : IntPtr),
      accelerate_zgesv env (fun m0 _ _ _ _ _ _ _ _ => bumpCell 0 m0) (fun m0 _ _ _ _ _ _ _ _ => bumpCell 1 m0) mem n nrhs a lda ipiv b ldb info =
        accelerate_zgesv env (fun m0 _ _ _ _ _ _ _ _ => bumpCell 0 m0) (fun m0 _ _ _ _ _ _ _ _ => bumpCell 1 m0) mem n2 nrhs2 a2 lda2 ipiv2 b2 ldb2 info2) ∧
    (∀ (env : Env) (mem : Mem)
        (m : IntPtr) (n : IntPtr) (a : FloatArr) (lda : IntPtr) (ipiv : IntArr)
        (info : IntPtr)
        (m2 : IntPtr) (n2 : IntPtr) (a2 : FloatArr) (lda2 : IntPtr) (ipiv2 : IntArr)
        (info2 : IntPtr),
      accelerate_sgetrf env (fun m0 _ _ _ _ _ _ => (bumpCell 0 m0, (0 : FortranInt))) (fun m0 _ _ _ _ _ _ => (bumpCell 1 m0, (0 : FortranInt))) mem m n a lda ipiv info =
        accelerate_sgetrf env (fun m0 _ _ _ _ _ _ => (bumpCell 0 m0, (0 : FortranInt))) (fun m0 _ _ _ _ _ _ => (bumpCell 1 m0, (0 : FortranInt))) mem m2 n2 a2 lda2 ipiv2 info2) ∧
    (∀ (env : Env) (mem : Mem)
        (m : IntPtr) (n : IntPtr) (a : DoubleArr) (lda : IntPtr) (ipiv : IntArr)
        (info : IntPtr)
        (m2 : IntPtr) (n2 : IntPtr) (a2 : DoubleArr) (lda2 : IntPtr) (ipiv2 : IntArr)
        (info2 : IntPtr),
      accelerate_dgetrf env (fun m0 _ _ _ _ _ _ => (bumpCell 0 m0, (0 : FortranInt))) (fun m0 _ _ _ _ _ _ => (bumpCell 1 m0, (0 : FortranInt))) mem m n a lda ipiv info =
        accelerate_dgetrf env (fun m0 _ _ _ _ _ _ => (bumpCell 0 m0, (0 : FortranInt))) (fun m0 _ _ _ _ _ _ => (bumpCell 1 m0, (0 : FortranInt))) mem m2 n2 a2 lda2 ipiv2 info2) ∧
    (∀ (env : Env) (mem : Mem)
        (m : IntPtr) (n : IntPtr) (a : CplxArr) (lda : IntPtr) (ipiv : IntArr)
        (info : IntPtr)
        (m2 : IntPtr) (n2 : IntPtr) (a2 : CplxArr) (lda2 : IntPtr) (ipiv2 : IntArr)
        (info2 : IntPtr),
      accelerate_cgetrf env (fun m0 _ _ _ _ _ _ => (bumpCell 0 m0, (0 : FortranInt))) (fun m0 _ _ _ _ _ _ => (bumpCell 1 m0, (0 : FortranInt))) mem m n a lda ipiv info =
        accelerate_cgetrf env (fun m0 _ _ _ _ _ _ => (bumpCell 0 m0, (0 : FortranInt))) (fun m0 _ _ _ _ _ _ => (bumpCell 1 m0, (0 : FortranInt))) mem m2 n2 a2 lda2 ipiv2 info2) ∧
    (∀ (env : Env) (mem : Mem)
        (m : IntPtr) (n : IntPtr) (a : DCplxArr) (lda : IntPtr) (ipiv : IntArr)
        (info : IntPtr)
        (m2 : IntPtr) (n2 : IntPtr) (a2 : DCplxArr) (lda2 : IntPtr) (ipiv2 : IntArr)
        (info2 : IntPtr),
      accelerate_zgetrf env (fun m0 _ _ _ _ _ _ => (bumpCell 0 m0, (0 : FortranInt))) (fun m0 _ _ _ _ _ _ => (bumpCell 1 m0, (0 : FortranInt))) mem m n a lda ipiv info =
        accelerate_zgetrf env (fun m0 _ _ _ _ _ _ => (bumpCell 0 m0, (0 : FortranInt))) (fun m0 _ _ _ _ _ _ => (bumpCell 1 m0, (0 : FortranInt))) mem m2 n2 a2 lda2 ipiv2 info2) ∧
    (∀ (env : Env) (mem : Mem)
        (uplo : CharPtr) (n : IntPtr) (a : FloatArr) (lda : IntPtr) (info : IntPtr)
        (uplo2 : CharPtr) (n2 : IntPtr) (a2 : FloatArr) (lda2 : IntPtr) (info2 : IntPtr),
      accelerate_spotrf env (fun m0 _ _ _ _ _ => bumpCell 0 m0) (fun m0 _ _ _ _ _ => bumpCell 1 m0) mem uplo n a lda info =
        accelerate_spotrf env (fun m0 _ _ _ _ _ => bumpCell 0 m0) (fun m0 _ _ _ _ _ => bumpCell 1 m0) mem uplo2 n2 a2 lda2 info2) ∧
    (∀ (env : Env) (mem : Mem)
        (uplo : CharPtr) (n : IntPtr) (a : DoubleArr) (lda : IntPtr) (info : IntPtr)
        (uplo2 : CharPtr) (n2 : IntPtr) (a2 : DoubleArr) (lda2 : IntPtr) (info2 : IntPtr),
      accelerate_dpotrf env (fun m0 _ _ _ _ _ => bumpCell 0 m0) (fun m0 _ _ _ _ _ => bumpCell 1 m0) mem uplo n a lda info =
        accelerate_dpotrf env (fun m0 _ _ _ _ _ => bumpCell 0 m0) (fun m0 _ _ _ _ _ => bumpCell 1 m0) mem uplo2 n2 a2 lda2 info2) ∧
    (∀ (env : Env) (mem : Mem)
        (uplo : CharPtr) (n : IntPtr) (a : CplxArr) (lda : IntPtr) (info : IntPtr)
        (uplo2 : CharPtr) (n2 : IntPtr) (a2 : CplxArr) (lda2 : IntPtr) (info2 : IntPtr),
      accelerate_cpotrf env (fun m0 _ _ _ _ _ => bumpCell 0 m0) (fun m0 _ _ _ _ _ => bumpCell 1 m0) mem uplo n a lda info =
        accelerate_cpotrf env (fun m0 _ _ _ _ _ => bumpCell 0 m0) (fun m0 _ _ _ _ _ => bumpCell 1 m0) mem uplo2 n2 a2 lda2 info2) ∧
    (∀ (env : Env) (mem : Mem)
        (uplo : CharPtr) (n : IntPtr) (a : DCplxArr) (lda : IntPtr) (info : IntPtr)
        (uplo2 : CharPtr) (n2 : IntPtr) (a2 : DCplxArr) (lda2 : IntPtr) (info2 : IntPtr),
      accelerate_zpotrf env (fun m0 _ _ _ _ _ => bumpCell 0 m0) (fun m0 _ _ _ _ _ => bumpCell 1 m0) mem uplo n a lda info =
        accelerate_zpotrf env (fun m0 _ _ _ _ _ => bumpCell 0 m0) (fun m0 _ _ _ _ _ => bumpCell 1 m0) mem uplo2 n2 a2 lda2 info2) ∧
    (∀ (env : Env) (mem : Mem)
        (jobz : CharPtr) (m : IntPtr) (n : IntPtr) (a : FloatArr) (lda : IntPtr)
        (s : FloatArr) (u : FloatArr) (ldu : IntPtr) (vt : FloatArr) (ldvt : IntPtr)
        (work : FloatArr) (lwork : IntPtr) (iwork : IntArr) (info : IntPtr)
        (jobz2 : CharPtr) (m2 : IntPtr) (n2 : IntPtr) (a2 : FloatArr) (lda2 : IntPtr)
        (s2 : FloatArr) (u2 : FloatArr) (ldu2 : IntPtr) (vt2 : FloatArr) (ldvt2 : IntPtr)
        (work2 : FloatArr) (lwork2 : IntPtr) (iwork2 : IntArr) (info2 : IntPtr),
      accelerate_sgesdd env (fun m0 _ _ _ _ _ _ _ _ _ _ _ _ _ _ => bumpCell 0 m0) (fun m0 _ _ _ _ _ _ _ _ _ _ _ _ _ _ => bumpCell 1 m0) mem jobz m n a lda s u ldu vt ldvt work lwork iwork info =
        accelerate_sgesdd env (fun m0 _ _ _ _ _ _ _ _ _ _ _ _ _ _ => bumpCell 0 m0) (fun m0 _ _ _ _ _ _ _ _ _ _ _ _ _ _ => bumpCell 1 m0) mem jobz2 m2 n2 a2 lda2 s2 u2 ldu2 vt2 ldvt2 work2 lwork2 iwork2 info2) ∧
    (∀ (env : Env) (mem : Mem)
        (jobz : CharPtr) (m : IntPtr) (n : IntPtr) (a : DoubleArr) (lda : IntPtr)
        (s : DoubleArr) (u : DoubleArr) (ldu : IntPtr) (vt : DoubleArr) (ldvt : IntPtr)
        (work : DoubleArr) (lwork : IntPtr) (iwork : IntArr) (info : IntPtr)
        (jobz2 : CharPtr) (m2 : IntPtr) (n2 : IntPtr) (a2 : DoubleArr) (lda2 : IntPtr)
        (s2 : DoubleArr) (u2 : DoubleArr) (ldu2 : IntPtr) (vt2 : DoubleArr) (ldvt2 : IntPtr)
        (work2 : DoubleArr) (lwork2 : IntPtr) (iwork2 : IntArr) (info2 : IntPtr),
      accelerate_dgesdd env (fun m0 _ _ _ _ _ _ _ _ _ _ _ _ _ _ => bumpCell 0 m0) (fun m0 _ _ _ _ _ _ _ _ _ _ _ _ _ _ => bumpCell 1 m0) mem jobz m n a lda s u ldu vt ldvt work lwork iwork info =
        accelerate_dgesdd env (fun m0 _ _ _ _ _ _ _ _ _ _ _ _ _ _ => bumpCell 0 m0) (fun m0 _ _ _ _ _ _ _ _ _ _ _ _ _ _ => bumpCell 1 m0) mem jobz2 m2 n2 a2 lda2 s2 u2 ldu2 vt2 ldvt2 work2 lwork2 iwork2 info2) ∧
    (∀ (env : Env) (mem : Mem)
        (jobz : CharPtr) (m : IntPtr) (n : IntPtr) (a : CplxArr) (lda : IntPtr)
        (s : FloatArr) (u : CplxArr) (ldu : IntPtr) (vt : CplxArr) (ldvt : IntPtr)
        (work : CplxArr) (lwork : IntPtr) (rwork : FloatArr) (iwork : IntArr) (info : IntPtr)
        (jobz2 : CharPtr) (m2 : IntPtr) (n2 : IntPtr) (a2 : CplxArr) (lda2 : IntPtr)
        (s2 : FloatArr) (u2 : CplxArr) (ldu2 : IntPtr) (vt2 : CplxArr) (ldvt2 : IntPtr)
        (work2 : CplxArr) (lwork2 : IntPtr) (rwork2 : FloatArr) (iwork2 : IntArr) (info2 : IntPtr),
      accelerate_cgesdd env (fun m0 _ _ _ _ _ _ _ _ _ _ _ _ _ _ _ => bumpCell 0 m0) (fun m0 _ _ _ _ _ _ _ _ _ _ _ _ _ _ _ => bumpCell 1 m0) mem jobz m n a lda s u ldu vt ldvt work lwork rwork iwork info =
        accelerate_cgesdd env (fun m0 _ _ _ _ _ _ _ _ _ _ _ _ _ _ _ => bumpCell 0 m0) (fun m0 _ _ _ _ _ _ _ _ _ _ _ _ _ _ _ => bumpCell 1 m0) mem jobz2 m2 n2 a2 lda2 s2 u2 ldu2 vt2 ldvt2 work2 lwork2 rwork2 iwork2 info2) ∧
    (∀ (env : Env) (mem : Mem)
        (jobz : CharPtr) (m : IntPtr) (n : IntPtr) (a : DCplxArr) (lda : IntPtr)
        (s : DoubleArr) (u : DCplxArr) (ldu : IntPtr) (vt : DCplxArr) (ldvt : IntPtr)
        (work : DCplxArr) (lwork : IntPtr) (rwork : DoubleArr) (iwork : IntArr) (info : IntPtr)
        (jobz2 : CharPtr) (m2 : IntPtr) (n2 : IntPtr) (a2 : DCplxArr) (lda2 : IntPtr)
        (s2 : DoubleArr) (u2 : DCplxArr) (ldu2 : IntPtr) (vt2 : DCplxArr) (ldvt2 : IntPtr)
        (work2 : DCplxArr) (lwork2 : IntPtr) (rwork2 : DoubleArr) (iwork2 : IntArr) (info2 : IntPtr),
      accelerate_zgesdd env (fun m0 _ _ _ _ _ _ _ _ _ _ _ _ _ _ _ => bumpCell 0 m0) (fun m0 _ _ _ _ _ _ _ _ _ _ _ _ _ _ _ => bumpCell 1 m0) mem jobz m n a lda s u ldu vt ldvt work lwork rwork iwork info =
        accelerate_zgesdd env (fun m0 _ _ _ _ _ _ _ _ _ _ _ _ _ _ _ => bumpCell 0 m0) (fun m0 _ _ _ _ _ _ _ _ _ _ _ _ _ _ _ => bumpCell 1 m0) mem jobz2 m2 n2 a2 lda2 s2 u2 ldu2 vt2 ldvt2 work2 lwork2 rwork2 iwork2 info2) ∧
    (∀ (env : Env) (mem : Mem)
        (uplo : CharPtr) (n : IntPtr) (nrhs : IntPtr) (a : FloatArr) (lda : IntPtr)
        (b : FloatArr) (ldb : IntPtr) (info : IntPtr)
        (uplo2 : CharPtr) (n2 : IntPtr) (nrhs2 : IntPtr) (a2 : FloatArr) (lda2 : IntPtr)
        (b2 : FloatArr) (ldb2 : IntPtr) (info2 : IntPtr),
      accelerate_spotrs env (fun m0 _ _ _ _ _ _ _ _ => bumpCell 0 m0) (fun m0 _ _ _ _ _ _ _ _ => bumpCell 1 m0) mem uplo n nrhs a lda b ldb info =
        accelerate_spotrs env (fun m0 _ _ _ _ _ _ _ _ => bumpCell 0 m0) (fun m0 _ _ _ _ _ _ _ _ => bumpCell 1 m0) mem uplo2 n2 nrhs2 a2 lda2 b2 ldb2 info2) ∧
    (∀ (env : Env) (mem : Mem)
        (uplo : CharPtr) (n : IntPtr) (nrhs : IntPtr) (a : DoubleArr) (lda : IntPtr)
        (b : DoubleArr) (ldb : IntPtr) (info : IntPtr)
        (uplo2 : CharPtr) (n2 : IntPtr) (nrhs2 : IntPtr) (a2 : DoubleArr) (lda2 : IntPtr)
        (b2 : DoubleArr) (ldb2 : IntPtr) (info2 : IntPtr),
      accelerate_dpotrs env (fun m0 _ _ _ _ _ _ _ _ => bumpCell 0 m0) (fun m0 _ _ _ _ _ _ _ _ => bumpCell 1 m0) mem uplo n nrhs a lda b ldb info =
        accelerate_dpotrs env (fun m0 _ _ _ _ _ _ _ _ => bumpCell 0 m0) (fun m0 _ _ _ _ _ _ _ _ => bumpCell 1 m0) mem uplo2 n2 nrhs2 a2 lda2 b2 ldb2 info2) ∧
    (∀ (env : Env) (mem : Mem)
        (uplo : CharPtr) (n : IntPtr) (nrhs : IntPtr) (a : CplxArr) (lda : IntPtr)
        (b : CplxArr) (ldb : IntPtr) (info : IntPtr)
        (uplo2 : CharPtr) (n2 : IntPtr) (nrhs2 : IntPtr) (a2 : CplxArr) (lda2 : IntPtr)
        (b2 : CplxArr) (ldb2 : IntPtr) (info2 : IntPtr),
      accelerate_cpotrs env (fun m0 _ _ _ _ _ _ _ _ => bumpCell 0 m0) (fun m0 _ _ _ _ _ _ _ _ => bumpCell 1 m0) mem uplo n nrhs a lda b ldb info =
        accelerate_cpotrs env (fun m0 _ _ _ _ _ _ _ _ => bumpCell 0 m0) (fun m0 _ _ _ _ _ _ _ _ => bumpCell 1 m0) mem uplo2 n2 nrhs2 a2 lda2 b2 ldb2 info2) ∧
    (∀ (env : Env) (mem : Mem)
        (uplo : CharPtr) (n : IntPtr) (nrhs : IntPtr) (a : DCplxArr) (lda : IntPtr)
        (b : DCplxArr) (ldb : IntPtr) (info : IntPtr)
        (uplo2 : CharPtr) (n2 : IntPtr) (nrhs2 : IntPtr) (a2 : DCplxArr) (lda2 : IntPtr)
        (b2 : DCplxArr) (ldb2 : IntPtr) (info2 : IntPtr),
      accelerate_zpotrs env (fun m0 _ _ _ _ _ _ _ _ => bumpCell 0 m0) (fun m0 _ _ _ _ _ _ _ _ => bumpCell 1 m0) mem uplo n nrhs a lda b ldb info =
        accelerate_zpotrs env (fun m0 _ _ _ _ _ _ _ _ => bumpCell 0 m0) (fun m0 _ _ _ _ _ _ _ _ => bumpCell 1 m0) mem uplo2 n2 nrhs2 a2 lda2 b2 ldb2 info2) ∧
    (∀ (env : Env) (mem : Mem)
        (uplo : CharPtr) (n : IntPtr) (a : FloatArr) (lda : IntPtr) (info : IntPtr)
        (uplo2 : CharPtr) (n2 : IntPtr) (a2 : FloatArr) (lda2 : IntPtr) (info2 : IntPtr),
      accelerate_spotri env (fun m0 _ _ _ _ _ => bumpCell 0 m0) (fun m0 _ _ _ _ _ => bumpCell 1 m0) mem uplo n a lda info =
        accelerate_spotri env (fun m0 _ _ _ _ _ => bumpCell 0 m0) (fun m0 _ _ _ _ _ => bumpCell 1 m0) mem uplo2 n2 a2 lda2 info2) ∧
    (∀ (env : Env) (mem : Mem)
        (uplo : CharPtr) (n : IntPtr) (a : DoubleArr) (lda : IntPtr) (info : IntPtr)
        (uplo2 : CharPtr) (n2 : IntPtr) (a2 : DoubleArr) (lda2 : IntPtr) (info2 : IntPtr),
      accelerate_dpotri env (fun m0 _ _ _ _ _ => bumpCell 0 m0) (fun m0 _ _ _ _ _ => bumpCell 1 m0) mem uplo n a lda info =
        accelerate_dpotri env (fun m0 _ _ _ _ _ => bumpCell 0 m0) (fun m0 _ _ _ _ _ => bumpCell 1 m0) mem uplo2 n2 a2 lda2 info2) ∧
    (∀ (env : Env) (mem : Mem)
        (uplo : CharPtr) (n : IntPtr) (a : CplxArr) (lda : IntPtr) (info : IntPtr)
        (uplo2 : CharPtr) (n2 : IntPtr) (a2 : CplxArr) (lda2 : IntPtr) (info2 : IntPtr),
      accelerate_cpotri env (fun m0 _ _ _ _ _ => bumpCell 0 m0) (fun m0 _ _ _ _ _ => bumpCell 1 m0) mem uplo n a lda info =
        accelerate_cpotri env (fun m0 _ _ _ _ _ => bumpCell 0 m0) (fun m0 _ _ _ _ _ => bumpCell 1 m0) mem uplo2 n2 a2 lda2 info2) ∧
    (∀ (env : Env) (mem : Mem)
        (uplo : CharPtr) (n : IntPtr) (a : DCplxArr) (lda : IntPtr) (info : IntPtr)
        (uplo2 : CharPtr) (n2 : IntPtr) (a2 : DCplxArr) (lda2 : IntPtr) (info2 : IntPtr),
      accelerate_zpotri env (fun m0 _ _ _ _ _ => bumpCell 0 m0) (fun m0 _ _ _ _ _ => bumpCell 1 m0) mem uplo n a lda info =
        accelerate_zpotri env (fun m0 _ _ _ _ _ => bumpCell 0 m0) (fun m0 _ _ _ _ _ => bumpCell 1 m0) mem uplo2 n2 a2 lda2 info2) ∧
    (∀ (env : Env) (mem : Mem)
        (n : IntPtr) (sx : FloatPtr) (incx : IntPtr) (sy : FloatPtr) (incy : IntPtr)
        (n2 : IntPtr) (sx2 : FloatPtr) (incx2 : IntPtr) (sy2 : FloatPtr) (incy2 : IntPtr),
      accelerate_scopy env (fun m0 _ _ _ _ _ => (bumpCell 0 m0, (0 : FortranInt))) (fun m0 _ _ _ _ _ => (bumpCell 1 m0, (0 : FortranInt))) mem n sx incx sy incy =
        accelerate_scopy env (fun m0 _ _ _ _ _ => (bumpCell 0 m0, (0 : FortranInt))) (fun m0 _ _ _ _ _ => (bumpCell 1 m0, (0 : FortranInt))) mem n2 sx2 incx2 sy2 incy2) ∧
    (∀ (env : Env) (mem : Mem)
        (n : IntPtr) (sx : DoublePtr) (incx : IntPtr) (sy : DoublePtr) (incy : IntPtr)
        (n2 : IntPtr) (sx2 : DoublePtr) (incx2 : IntPtr) (sy2 : DoublePtr) (incy2 : IntPtr),
      accelerate_dcopy env (fun m0 _ _ _ _ _ => (bumpCell 0 m0, (0 : FortranInt))) (fun m0 _ _ _ _ _ => (bumpCell 1 m0, (0 : FortranInt))) mem n sx incx sy incy =
        accelerate_dcopy env (fun m0 _ _ _ _ _ => (bumpCell 0 m0, (0 : FortranInt))) (fun m0 _ _ _ _ _ => (bumpCell 1 m0, (0 : FortranInt))) mem n2 sx2 incx2 sy2 incy2) ∧
    (∀ (env : Env) (mem : Mem)
        (n : IntPtr) (sx : CplxPtr) (incx : IntPtr) (sy : CplxPtr) (incy : IntPtr)
        (n2 : IntPtr) (sx2 : CplxPtr) (incx2 : IntPtr) (sy2 : CplxPtr) (incy2 : IntPtr),
      accelerate_ccopy env (fun m0 _ _ _ _ _ => (bumpCell 0 m0, (0 : FortranInt))) (fun m0 _ _ _ _ _ => (bumpCell 1 m0, (0 : FortranInt))) mem n sx incx sy incy =
        accelerate_ccopy env (fun m0 _ _ _ _ _ => (bumpCell 0 m0, (0 : FortranInt))) (fun m0 _ _ _ _ _ => (bumpCell 1 m0, (0 : FortranInt))) mem n2 sx2 incx2 sy2 incy2) ∧
    (∀ (env : Env) (mem : Mem)
        (n : IntPtr) (sx : DCplxPtr) (incx : IntPtr) (sy : DCplxPtr) (incy : IntPtr)
        (n2 : IntPtr) (sx2 : DCplxPtr) (incx2 : IntPtr) (sy2 : DCplxPtr) (incy2 : IntPtr),
      accelerate_zcopy env (fun m0 _ _ _ _ _ => (bumpCell 0 m0, (0 : FortranInt))) (fun m0 _ _ _ _ _ => (bumpCell 1 m0, (0 : FortranInt))) mem n sx incx sy incy =
        accelerate_zcopy env (fun m0 _ _ _ _ _ => (bumpCell 0 m0, (0 : FortranInt))) (fun m0 _ _ _ _ _ => (bumpCell 1 m0, (0 : FortranInt))) mem n2 sx2 incx2 sy2 incy2) ∧
    (∀ (env : Env) (mem : Mem)
        (n : IntPtr) (sx : FloatPtr) (incx : IntPtr) (sy : FloatPtr) (incy : IntPtr)
        (n2 : IntPtr) (sx2 : FloatPtr) (incx2 : IntPtr) (sy2 : FloatPtr) (incy2 : IntPtr),
      accelerate_sdot env (fun m0 _ _ _ _ _ => (bumpCell 0 m0, (CFloat.mk 0))) (fun m0 _ _ _ _ _ => (bumpCell 1 m0, (CFloat.mk 0))) mem n sx incx sy incy =
        accelerate_sdot env (fun m0 _ _ _ _ _ => (bumpCell 0 m0, (CFloat.mk 0))) (fun m0 _ _ _ _ _ => (bumpCell 1 m0, (CFloat.mk 0))) mem n2 sx2 incx2 sy2 incy2) ∧
    (∀ (env : Env) (mem : Mem)
        (n : IntPtr) (sx : DoublePtr) (incx : IntPtr) (sy : DoublePtr) (incy : IntPtr)
        (n2 : IntPtr) (sx2 : DoublePtr) (incx2 : IntPtr) (sy2 : DoublePtr) (incy2 : IntPtr),
      accelerate_ddot env (fun m0 _ _ _ _ _ => (bumpCell 0 m0, (CDouble.mk 0))) (fun m0 _ _ _ _ _ => (bumpCell 1 m0, (CDouble.mk 0))) mem n sx incx sy incy =
        accelerate_ddot env (fun m0 _ _ _ _ _ => (bumpCell 0 m0, (CDouble.mk 0))) (fun m0 _ _ _ _ _ => (bumpCell 1 m0, (CDouble.mk 0))) mem n2 sx2 incx2 sy2 incy2) ∧
    (∀ (env : Env) (mem : Mem)
        (ret : CplxPtr) (n : IntPtr) (sx : CplxPtr) (incx : IntPtr) (sy : CplxPtr)
        (incy : IntPtr)
        (ret2 : CplxPtr) (n2 : IntPtr) (sx2 : CplxPtr) (incx2 : IntPtr) (sy2 : CplxPtr)
        (incy2 : IntPtr),
      accelerate_cdotu env (fun m0 _ _ _ _ _ _ => bumpCell 0 m0) (fun m0 _ _ _ _ _ _ => bumpCell 1 m0) mem ret n sx incx sy incy =
        accelerate_cdotu env (fun m0 _ _ _ _ _ _ => bumpCell 0 m0) (fun m0 _ _ _ _ _ _ => bumpCell 1 m0) mem ret2 n2 sx2 incx2 sy2 incy2) ∧
    (∀ (env : Env) (mem : Mem)
        (ret : DCplxPtr) (n : IntPtr) (sx : DCplxPtr) (incx : IntPtr) (sy : DCplxPtr)
        (incy : IntPtr)
        (ret2 : DCplxPtr) (n2 : IntPtr) (sx2 : DCplxPtr) (incx2 : IntPtr) (sy2 : DCplxPtr)
        (incy2 : IntPtr),
      accelerate_zdotu env (fun m0 _ _ _ _ _ _ => bumpCell 0 m0) (fun m0 _ _ _ _ _ _ => bumpCell 1 m0) mem ret n sx incx sy incy =
        accelerate_zdotu env (fun m0 _ _ _ _ _ _ => bumpCell 0 m0) (fun m0 _ _ _ _ _ _ => bumpCell 1 m0) mem ret2 n2 sx2 incx2 sy2 incy2) ∧
    (∀ (env : Env) (mem : Mem)
        (ret : CplxPtr) (n : IntPtr) (sx : CplxPtr) (incx : IntPtr) (sy : CplxPtr)
        (incy : IntPtr)
        (ret2 : CplxPtr) (n2 : IntPtr) (sx2 : CplxPtr) (incx2 : IntPtr) (sy2 : CplxPtr)
        (incy2 : IntPtr),
      accelerate_cdotc env (fun m0 _ _ _ _ _ _ => bumpCell 0 m0) (fun m0 _ _ _ _ _ _ => bumpCell 1 m0) mem ret n sx incx sy incy =
        accelerate_cdotc env (fun m0 _ _ _ _ _ _ => bumpCell 0 m0) (fun m0 _ _ _ _ _ _ => bumpCell 1 m0) mem ret2 n2 sx2 incx2 sy2 incy2) ∧
    (∀ (env : Env) (mem : Mem)
        (ret : DCplxPtr) (n : IntPtr) (sx : DCplxPtr) (incx : IntPtr) (sy : DCplxPtr)
        (incy : IntPtr)
        (ret2 : DCplxPtr) (n2 : IntPtr) (sx2 : DCplxPtr) (incx2 : IntPtr) (sy2 : DCplxPtr)
        (incy2 : IntPtr),
      accelerate_zdotc env (fun m0 _ _ _ _ _ _ => bumpCell 0 m0) (fun m0 _ _ _ _ _ _ => bumpCell 1 m0) mem ret n sx incx sy incy =
        accelerate_zdotc env (fun m0 _ _ _ _ _ _ => bumpCell 0 m0) (fun m0 _ _ _ _ _ _ => bumpCell 1 m0) mem ret2 n2 sx2 incx2 sy2 incy2) ∧
    (∀ (env : Env) (mem : Mem)
        (transa : CharPtr) (transb : CharPtr) (m : IntPtr) (n : IntPtr) (k : IntPtr)
        (alpha : FloatPtr) (a : FloatPtr) (lda : IntPtr) (b : FloatPtr) (ldb : IntPtr)
        (beta : FloatPtr) (c : FloatPtr) (ldc : IntPtr)
        (transa2 : CharPtr) (transb2 : CharPtr) (m2 : IntPtr) (n2 : IntPtr) (k2 : IntPtr)
        (alpha2 : FloatPtr) (a2 : FloatPtr) (lda2 : IntPtr) (b2 : FloatPtr) (ldb2 : IntPtr)
        (beta2 : FloatPtr) (c2 : FloatPtr) (ldc2 : IntPtr),
      accelerate_sgemm env (fun m0 _ _ _ _ _ _ _ _ _ _ _ _ _ => bumpCell 0 m0) (fun m0 _ _ _ _ _ _ _ _ _ _ _ _ _ => bumpCell 1 m0) mem transa transb m n k alpha a lda b ldb beta c ldc =
        accelerate_sgemm env (fun m0 _ _ _ _ _ _ _ _ _ _ _ _ _ => bumpCell 0 m0) (fun m0 _ _ _ _ _ _ _ _ _ _ _ _ _ => bumpCell 1 m0) mem transa2 transb2 m2 n2 k2 alpha2 a2 lda2 b2 ldb2 beta2 c2 ldc2) ∧
    (∀ (env : Env) (mem : Mem)
        (transa : CharPtr) (transb : CharPtr) (m : IntPtr) (n : IntPtr) (k : IntPtr)
        (alpha : DoublePtr) (a : DoublePtr) (lda : IntPtr) (b : DoublePtr) (ldb : IntPtr)
        (beta : DoublePtr) (c : DoublePtr) (ldc : IntPtr)
        (transa2 : CharPtr) (transb2 : CharPtr) (m2 : IntPtr) (n2 : IntPtr) (k2 : IntPtr)
        (alpha2 : DoublePtr) (a2 : DoublePtr) (lda2 : IntPtr) (b2 : DoublePtr) (ldb2 : IntPtr)
        (beta2 : DoublePtr) (c2 : DoublePtr) (ldc2 : IntPtr),
      accelerate_dgemm env (fun m0 _ _ _ _ _ _ _ _ _ _ _ _ _ => bumpCell 0 m0) (fun m0 _ _ _ _ _ _ _ _ _ _ _ _ _ => bumpCell 1 m0) mem transa transb m n k alpha a lda b ldb beta c ldc =
        accelerate_dgemm env (fun m0 _ _ _ _ _ _ _ _ _ _ _ _ _ => bumpCell 0 m0) (fun m0 _ _ _ _ _ _ _ _ _ _ _ _ _ => bumpCell 1 m0) mem transa2 transb2 m2 n2 k2 alpha2 a2 lda2 b2 ldb2 beta2 c2 ldc2) ∧
    (∀ (env : Env) (mem : Mem)
        (transa : CharPtr) (transb : CharPtr) (m : IntPtr) (n : IntPtr) (k : IntPtr)
        (alpha : CplxPtr) (a : CplxPtr) (lda : IntPtr) (b : CplxPtr) (ldb : IntPtr)
        (beta : CplxPtr) (c : CplxPtr) (ldc : IntPtr)
        (transa2 : CharPtr) (transb2 : CharPtr) (m2 : IntPtr) (n2 : IntPtr) (k2 : IntPtr)
        (alpha2 : CplxPtr) (a2 : CplxPtr) (lda2 : IntPtr) (b2 : CplxPtr) (ldb2 : IntPtr)
        (beta2 : CplxPtr) (c2 : CplxPtr) (ldc2 : IntPtr),
      accelerate_cgemm env (fun m0 _ _ _ _ _ _ _ _ _ _ _ _ _ => bumpCell 0 m0) (fun m0 _ _ _ _ _ _ _ _ _ _ _ _ _ => bumpCell 1 m0) mem transa transb m n k alpha a lda b ldb beta c ldc =
        accelerate_cgemm env (fun m0 _ _ _ _ _ _ _ _ _ _ _ _ _ => bumpCell 0 m0) (fun m0 _ _ _ _ _ _ _ _ _ _ _ _ _ => bumpCell 1 m0) mem transa2 transb2 m2 n2 k2 alpha2 a2 lda2 b2 ldb2 beta2 c2 ldc2) ∧
    (∀ (env : Env) (mem : Mem)
        (transa : CharPtr) (transb : CharPtr) (m : IntPtr) (n : IntPtr) (k : IntPtr)
        (alpha : DCplxPtr) (a : DCplxPtr) (lda : IntPtr) (b : DCplxPtr) (ldb : IntPtr)
        (beta : DCplxPtr) (c : DCplxPtr) (ldc : IntPtr)
        (transa2 : CharPtr) (transb2 : CharPtr) (m2 : IntPtr) (n2 : IntPtr) (k2 : IntPtr)
        (alpha2 : DCplxPtr) (a2 : DCplxPtr) (lda2 : IntPtr) (b2 : DCplxPtr) (ldb2 : IntPtr)
        (beta2 : DCplxPtr) (c2 : DCplxPtr) (ldc2 : IntPtr),
      accelerate_zgemm env (fun m0 _ _ _ _ _ _ _ _ _ _ _ _ _ => bumpCell 0 m0) (fun m0 _ _ _ _ _ _ _ _ _ _ _ _ _ => bumpCell 1 m0) mem transa transb m n k alpha a lda b ldb beta c ldc =
        accelerate_zgemm env (fun m0 _ _ _ _ _ _ _ _ _ _ _ _ _ => bumpCell 0 m0) (fun m0 _ _ _ _ _ _ _ _ _ _ _ _ _ => bumpCell 1 m0) mem transa2 transb2 m2 n2 k2 alpha2 a2 lda2 b2 ldb2 beta2 c2 ldc2) :=
  ⟨
    fun env mem jobvl jobvr n a lda wr wi vl ldvl vr ldvr work lwork info jobvl2 jobvr2 n2 a2 lda2 wr2 wi2 vl2 ldvl2 vr2 ldvr2 work2 lwork2 info2 => by
      by_cases h : builtinAvailable env accelerate_sgeev_threshold = true <;>
        simp [accelerate_sgeev, h],
    fun env mem jobvl jobvr n a lda wr wi vl ldvl vr ldvr work lwork info jobvl2 jobvr2 n2 a2 lda2 wr2 wi2 vl2 ldvl2 vr2 ldvr2 work2 lwork2 info2 => by
      by_cases h : builtinAvailable env accelerate_dgeev_threshold = true <;>
        simp [accelerate_dgeev, h],
    fun env mem jobvl jobvr n a lda w vl ldvl vr ldvr work lwork rwork info jobvl2 jobvr2 n2 a2 lda2 w2 vl2 ldvl2 vr2 ldvr2 work2 lwork2 rwork2 info2 => by
      by_cases h : builtinAvailable env accelerate_cgeev_threshold = true <;>
        simp [accelerate_cgeev, h],
    fun env mem jobvl jobvr n a lda w vl ldvl vr ldvr work lwork rwork info jobvl2 jobvr2 n2 a2 lda2 w2 vl2 ldvl2 vr2 ldvr2 work2 lwork2 rwork2 info2 => by
      by_cases h : builtinAvailable env accelerate_zgeev_threshold = true <;>
        simp [accelerate_zgeev, h],
    fun env mem jobz uplo n a lda w work lwork iwork liwork info jobz2 uplo2 n2 a2 lda2 w2 work2 lwork2 iwork2 liwork2 info2 => by
      by_cases h : builtinAvailable env accelerate_ssyevd_threshold = true <;>
        simp [accelerate_ssyevd, h],
    fun env mem jobz uplo n a lda w work lwork iwork liwork info jobz2 uplo2 n2 a2 lda2 w2 work2 lwork2 iwork2 liwork2 info2 => by
      by_cases h : builtinAvailable env accelerate_dsyevd_threshold = true <;>
        simp [accelerate_dsyevd, h],
    fun env mem jobz uplo n a lda w work lwork rwork lrwork iwork liwork info jobz2 uplo2 n2 a2 lda2 w2 work2 lwork2 rwork2 lrwork2 iwork2 liwork2 info2 => by
      by_cases h : builtinAvailable env accelerate_cheevd_threshold = true <;>
        simp [accelerate_cheevd, h],
    fun env mem jobz uplo n a lda w work lwork rwork lrwork iwork liwork info jobz2 uplo2 n2 a2 lda2 w2 work2 lwork2 rwork2 lrwork2 iwork2 liwork2 info2 => by
      by_cases h : builtinAvailable env accelerate_zheevd_threshold = true <;>
        simp [accelerate_zheevd, h],
    fun env mem m n nrhs a lda b ldb s rcond rank work lwork iwork info m2 n2 nrhs2 a2 lda2 b2 ldb2 s2 rcond2 rank2 work2 lwork2 iwork2 info2 => by
      by_cases h : builtinAvailable env accelerate_sgelsd_threshold = true <;>
        simp [accelerate_sgelsd, h],
    fun env mem m n nrhs a lda b ldb s rcond rank work lwork iwork info m2 n2 nrhs2 a2 lda2 b2 ldb2 s2 rcond2 rank2 work2 lwork2 iwork2 info2 => by
      by_cases h : builtinAvailable env accelerate_dgelsd_threshold = true <;>
        simp [accelerate_dgelsd, h],
    fun env mem m n nrhs a lda b ldb s rcond rank work lwork rwork iwork info m2 n2 nrhs2 a2 lda2 b2 ldb2 s2 rcond2 rank2 work2 lwork2 rwork2 iwork2 info2 => by
      by_cases h : builtinAvailable env accelerate_cgelsd_threshold = true <;>
        simp [accelerate_cgelsd, h],
    fun env mem m n nrhs a lda b ldb s rcond rank work lwork rwork iwork info m2 n2 nrhs2 a2 lda2 b2 ldb2 s2 rcond2 rank2 work2 lwork2 rwork2 iwork2 info2 => by
      by_cases h : builtinAvailable env accelerate_zgelsd_threshold = true <;>
        simp [accelerate_zgelsd, h],
    fun env mem m n a lda tau work lwork info m2 n2 a2 lda2 tau2 work2 lwork2 info2 => by
      by_cases h : builtinAvailable env accelerate_dgeqrf_threshold = true <;>
        simp [accelerate_dgeqrf, h],
    fun env mem m n a lda tau work lwork info m2 n2 a2 lda2 tau2 work2 lwork2 info2 => by
      by_cases h : builtinAvailable env accelerate_zgeqrf_threshold = true <;>
        simp [accelerate_zgeqrf, h],
    fun env mem m n k a lda tau work lwork info m2 n2 k2 a2 lda2 tau2 work2 lwork2 info2 => by
      by_cases h : builtinAvailable env accelerate_dorgqr_threshold = true <;>
        simp [accelerate_dorgqr, h],
    fun env mem m n k a lda tau work lwork info m2 n2 k2 a2 lda2 tau2 work2 lwork2 info2 => by
      by_cases h : builtinAvailable env accelerate_zungqr_threshold = true <;>
        simp [accelerate_zungqr, h],
    fun env mem n nrhs a lda ipiv b ldb info n2 nrhs2 a2 lda2 ipiv2 b2 ldb2 info2 => by
      by_cases h : builtinAvailable env accelerate_sgesv_threshold = true <;>
        simp [accelerate_sgesv, h],
    fun env mem n nrhs a lda ipiv b ldb info n2 nrhs2 a2 lda2 ipiv2 b2 ldb2 info2 => by
      by_cases h : builtinAvailable env accelerate_dgesv_threshold = true <;>
        simp [accelerate_dgesv, h],
    fun env mem n nrhs a lda ipiv b ldb info n2 nrhs2 a2 lda2 ipiv2 b2 ldb2 info2 => by
      by_cases h : builtinAvailable env accelerate_cgesv_threshold = true <;>
        simp [accelerate_cgesv, h],
    fun env mem n nrhs a lda ipiv b ldb info n2 nrhs2 a2 lda2 ipiv2 b2 ldb2 info2 => by
      by_cases h : builtinAvailable env accelerate_zgesv_threshold = true <;>
        simp [accelerate_zgesv, h],
    fun env mem m n a lda ipiv info m2 n2 a2 lda2 ipiv2 info2 => by
      by_cases h : builtinAvailable env accelerate_sgetrf_threshold = true <;>
        simp [accelerate_sgetrf, h],
    fun env mem m n a lda ipiv info m2 n2 a2 lda2 ipiv2 info2 => by
      by_cases h : builtinAvailable env accelerate_dgetrf_threshold = true <;>
        simp [accelerate_dgetrf, h],
    fun env mem m n a lda ipiv info m2 n2 a2 lda2 ipiv2 info2 => by
      by_cases h : builtinAvailable env accelerate_cgetrf_threshold = true <;>
        simp [accelerate_cgetrf, h],
    fun env mem m n a lda ipiv info m2 n2 a2 lda2 ipiv2 info2 => by
      by_cases h : builtinAvailable env accelerate_zgetrf_threshold = true <;>
        simp [accelerate_zgetrf, h],
    fun env mem uplo n a lda info uplo2 n2 a2 lda2 info2 => by
      by_cases h : builtinAvailable env accelerate_spotrf_threshold = true <;>
        simp [accelerate_spotrf, h],
    fun env mem uplo n a lda info uplo2 n2 a2 lda2 info2 => by
      by_cases h : builtinAvailable env accelerate_dpotrf_threshold = true <;>
        simp [accelerate_dpotrf, h],
    fun env mem uplo n a lda info uplo2 n2 a2 lda2 info2 => by
      by_cases h : builtinAvailable env accelerate_cpotrf_threshold = true <;>
        simp [accelerate_cpotrf, h],
    fun env mem uplo n a lda info uplo2 n2 a2 lda2 info2 => by
      by_cases h : builtinAvailable env accelerate_zpotrf_threshold = true <;>
        simp [accelerate_zpotrf, h],
    fun env mem jobz m n a lda s u ldu vt ldvt work lwork iwork info jobz2 m2 n2 a2 lda2 s2 u2 ldu2 vt2 ldvt2 work2 lwork2 iwork2 info2 => by
      by_cases h : builtinAvailable env accelerate_sgesdd_threshold = true <;>
        simp [accelerate_sgesdd, h],
    fun env mem jobz m n a lda s u ldu vt ldvt work lwork iwork info jobz2 m2 n2 a2 lda2 s2 u2 ldu2 vt2 ldvt2 work2 lwork2 iwork2 info2 => by
      by_cases h : builtinAvailable env accelerate_dgesdd_threshold = true <;>
        simp [accelerate_dgesdd, h],
    fun env mem jobz m n a lda s u ldu vt ldvt work lwork rwork iwork info jobz2 m2 n2 a2 lda2 s2 u2 ldu2 vt2 ldvt2 work2 lwork2 rwork2 iwork2 info2 => by
      by_cases h : builtinAvailable env accelerate_cgesdd_threshold = true <;>
        simp [accelerate_cgesdd, h],
    fun env mem jobz m n a lda s u ldu vt ldvt work lwork rwork iwork info jobz2 m2 n2 a2 lda2 s2 u2 ldu2 vt2 ldvt2 work2 lwork2 rwork2 iwork2 info2 => by
      by_cases h : builtinAvailable env accelerate_zgesdd_threshold = true <;>
        simp [accelerate_zgesdd, h],
    fun env mem uplo n nrhs a lda b ldb info uplo2 n2 nrhs2 a2 lda2 b2 ldb2 info2 => by
      by_cases h : builtinAvailable env accelerate_spotrs_threshold = true <;>
        simp [accelerate_spotrs, h],
    fun env mem uplo n nrhs a lda b ldb info uplo2 n2 nrhs2 a2 lda2 b2 ldb2 info2 => by
      by_cases h : builtinAvailable env accelerate_dpotrs_threshold = true <;>
        simp [accelerate_dpotrs, h],
    fun env mem uplo n nrhs a lda b ldb info uplo2 n2 nrhs2 a2 lda2 b2 ldb2 info2 => by
      by_cases h : builtinAvailable env accelerate_cpotrs_threshold = true <;>
        simp [accelerate_cpotrs, h],
    fun env mem uplo n nrhs a lda b ldb info uplo2 n2 nrhs2 a2 lda2 b2 ldb2 info2 => by
      by_cases h : builtinAvailable env accelerate_zpotrs_threshold = true <;>
        simp [accelerate_zpotrs, h],
    fun env mem uplo n a lda info uplo2 n2 a2 lda2 info2 => by
      by_cases h : builtinAvailable env accelerate_spotri_threshold = true <;>
        simp [accelerate_spotri, h],
    fun env mem uplo n a lda info uplo2 n2 a2 lda2 info2 => by
      by_cases h : builtinAvailable env accelerate_dpotri_threshold = true <;>
        simp [accelerate_dpotri, h],
    fun env mem uplo n a lda info uplo2 n2 a2 lda2 info2 => by
      by_cases h : builtinAvailable env accelerate_cpotri_threshold = true <;>
        simp [accelerate_cpotri, h],
    fun env mem uplo n a lda info uplo2 n2 a2 lda2 info2 => by
      by_cases h : builtinAvailable env accelerate_zpotri_threshold = true <;>
        simp [accelerate_zpotri, h],
    fun env mem n sx incx sy incy n2 sx2 incx2 sy2 incy2 => by
      by_cases h : builtinAvailable env accelerate_scopy_threshold = true <;>
        simp [accelerate_scopy, h],
    fun env mem n sx incx sy incy n2 sx2 incx2 sy2 incy2 => by
      by_cases h : builtinAvailable env accelerate_dcopy_threshold = true <;>
        simp [accelerate_dcopy, h],
    fun env mem n sx incx sy incy n2 sx2 incx2 sy2 incy2 => by
      by_cases h : builtinAvailable env accelerate_ccopy_threshold = true <;>
        simp [accelerate_ccopy, h],
    fun env mem n sx incx sy incy n2 sx2 incx2 sy2 incy2 => by
      by_cases h : builtinAvailable env accelerate_zcopy_threshold = true <;>
        simp [accelerate_zcopy, h],
    fun env mem n sx incx sy incy n2 sx2 incx2 sy2 incy2 => by
      by_cases h : builtinAvailable env accelerate_sdot_threshold = true <;>
        simp [accelerate_sdot, h],
    fun env mem n sx incx sy incy n2 sx2 incx2 sy2 incy2 => by
      by_cases h : builtinAvailable env accelerate_ddot_threshold = true <;>
        simp [accelerate_ddot, h],
    fun env mem ret n sx incx sy incy ret2 n2 sx2 incx2 sy2 incy2 => by
      by_cases h : builtinAvailable env accelerate_cdotu_threshold = true <;>
        simp [accelerate_cdotu, h],
    fun env mem ret n sx incx sy incy ret2 n2 sx2 incx2 sy2 incy2 => by
      by_cases h : builtinAvailable env accelerate_zdotu_threshold = true <;>
        simp [accelerate_zdotu, h],
    fun env mem ret n sx incx sy incy ret2 n2 sx2 incx2 sy2 incy2 => by
      by_cases h : builtinAvailable env accelerate_cdotc_threshold = true <;>
        simp [accelerate_cdotc, h],
    fun env mem ret n sx incx sy incy ret2 n2 sx2 incx2 sy2 incy2 => by
      by_cases h : builtinAvailable env accelerate_zdotc_threshold = true <;>
        simp [accelerate_zdotc, h],
    fun env mem transa transb m n k alpha a lda b ldb beta c ldc transa2 transb2 m2 n2 k2 alpha2 a2 lda2 b2 ldb2 beta2 c2 ldc2 => by
      by_cases h : builtinAvailable env accelerate_sgemm_threshold = true <;>
        simp [accelerate_sgemm, h],
    fun env mem transa transb m n k alpha a lda b ldb beta c ldc transa2 transb2 m2 n2 k2 alpha2 a2 lda2 b2 ldb2 beta2 c2 ldc2 => by
      by_cases h : builtinAvailable env accelerate_dgemm_threshold = true <;>
        simp [accelerate_dgemm, h],
    fun env mem transa transb m n k alpha a lda b ldb beta c ldc transa2 transb2 m2 n2 k2 alpha2 a2 lda2 b2 ldb2 beta2 c2 ldc2 => by
      by_cases h : builtinAvailable env accelerate_cgemm_threshold = true <;>
        simp [accelerate_cgemm, h],
    fun env mem transa transb m n k alpha a lda b ldb beta c ldc transa2 transb2 m2 n2 k2 alpha2 a2 lda2 b2 ldb2 beta2 c2 ldc2 => by
      by_cases h : builtinAvailable env accelerate_zgemm_threshold = true <;>
        simp [accelerate_zgemm, h]
  ⟩

/-- C6: the routing layer is a pure pass-through that cannot fail: the
memory (hence every status/output cell) the caller observes is exactly the
memory produced by the one selected entry point, and with entry points
that write nothing the router leaves memory untouched — it originates,
inspects, translates and recovers from nothing. -/
theorem router_is_pure_passthrough :
    (∀ (env : Env) (fm fl : SgeevFn) (mem : Mem)
        (jobvl : CharPtr) (jobvr : CharPtr) (n : IntPtr) (a : FloatArr) (lda : IntPtr)
        (wr : FloatArr) (wi : FloatArr) (vl : FloatArr) (ldvl : IntPtr) (vr : FloatArr)
        (ldvr : IntPtr) (work : FloatArr) (lwork : IntArr) (info : IntPtr),
      (accelerate_sgeev env fm fl mem jobvl jobvr n a lda wr wi vl ldvl vr ldvr work lwork info =
          fm mem jobvl jobvr n a lda wr wi vl ldvl vr ldvr work lwork info ∨
        accelerate_sgeev env fm fl mem jobvl jobvr n a lda wr wi vl ldvl vr ldvr work lwork info =
          fl mem jobvl jobvr n a lda wr wi vl ldvl vr ldvr work lwork info) ∧
      accelerate_sgeev env (fun m0 _ _ _ _ _ _ _ _ _ _ _ _ _ _ => m0) (fun m0 _ _ _ _ _ _ _ _ _ _ _ _ _ _ => m0) mem jobvl jobvr n a lda wr wi vl ldvl vr ldvr work lwork info =
        mem) ∧
    (∀ (env : Env) (fm fl : DgeevFn) (mem : Mem)
        (jobvl : CharPtr) (jobvr : CharPtr) (n : IntPtr) (a : DoubleArr) (lda : IntPtr)
        (wr : DoubleArr) (wi : DoubleArr) (vl : DoubleArr) (ldvl : IntPtr) (vr : DoubleArr)
        (ldvr : IntPtr) (work : DoubleArr) (lwork : IntArr) (info : IntPtr),
      (accelerate_dgeev env fm fl mem jobvl jobvr n a lda wr wi vl ldvl vr ldvr work lwork info =
          fm mem jobvl jobvr n a lda wr wi vl ldvl vr ldvr work lwork info ∨
        accelerate_dgeev env fm fl mem jobvl jobvr n a lda wr wi vl ldvl vr ldvr work lwork info =
          fl mem jobvl jobvr n a lda wr wi vl ldvl vr ldvr work lwork info) ∧
      accelerate_dgeev env (fun m0 _ _ _ _ _ _ _ _ _ _ _ _ _ _ => m0) (fun m0 _ _ _ _ _ _ _ _ _ _ _ _ _ _ => m0) mem jobvl jobvr n a lda wr wi vl ldvl vr ldvr work lwork info =
        mem) ∧
    (∀ (env : Env) (fm fl : CgeevFn) (mem : Mem)
        (jobvl : CharPtr) (jobvr : CharPtr) (n : IntPtr) (a : CplxArr) (lda : IntPtr)
        (w : CplxArr) (vl : CplxArr) (ldvl : IntPtr) (vr : CplxArr) (ldvr : IntPtr)
        (work : CplxArr) (lwork : IntPtr) (rwork : FloatArr) (info : IntPtr),
      (accelerate_cgeev env fm fl mem jobvl jobvr n a lda w vl ldvl vr ldvr work lwork rwork info =
          fm mem jobvl jobvr n a lda w vl ldvl vr ldvr work lwork rwork info ∨
        accelerate_cgeev env fm fl mem jobvl jobvr n a lda w vl ldvl vr ldvr work lwork rwork info =
          fl mem jobvl jobvr n a lda w vl ldvl vr ldvr work lwork rwork info) ∧
      accelerate_cgeev env (fun m0 _ _ _ _ _ _ _ _ _ _ _ _ _ _ => m0) (fun m0 _ _ _ _ _ _ _ _ _ _ _ _ _ _ => m0) mem jobvl jobvr n a lda w vl ldvl vr ldvr work lwork rwork info =
        mem) ∧
    (∀ (env : Env) (fm fl : ZgeevFn) (mem : Mem)
        (jobvl : CharPtr) (jobvr : CharPtr) (n : IntPtr) (a : DCplxArr) (lda : IntPtr)
        (w : DCplxArr) (vl : DCplxArr) (ldvl : IntPtr) (vr : DCplxArr) (ldvr : IntPtr)
        (work : DCplxArr) (lwork : IntPtr) (rwork : DoubleArr) (info : IntPtr),
      (accelerate_zgeev env fm fl mem jobvl jobvr n a lda w vl ldvl vr ldvr work lwork rwork info =
          fm mem jobvl jobvr n a lda w vl ldvl vr ldvr work lwork rwork info ∨
        accelerate_zgeev env fm fl mem jobvl jobvr n a lda w vl ldvl vr ldvr work lwork rwork info =
          fl mem jobvl jobvr n a lda w vl ldvl vr ldvr work lwork rwork info) ∧
      accelerate_zgeev env (fun m0 _ _ _ _ _ _ _ _ _ _ _ _ _ _ => m0) (fun m0 _ _ _ _ _ _ _ _ _ _ _ _ _ _ => m0) mem jobvl jobvr n a lda w vl ldvl vr ldvr work lwork rwork info =
        mem) ∧
    (∀ (env : Env) (fm fl : SsyevdFn) (mem : Mem)
        (jobz : CharPtr) (uplo : CharPtr) (n : IntPtr) (a : FloatArr) (lda : IntPtr)
        (w : FloatArr) (work : FloatArr) (lwork : IntPtr) (iwork : IntArr) (liwork : IntPtr)
        (info : IntPtr),
      (accelerate_ssyevd env fm fl mem jobz uplo n a lda w work lwork iwork liwork info =
          fm mem jobz uplo n a lda w work lwork iwork liwork info ∨
        accelerate_ssyevd env fm fl mem jobz uplo n a lda w work lwork iwork liwork info =
          fl mem jobz uplo n a lda w work lwork iwork liwork info) ∧
      accelerate_ssyevd env (fun m0 _ _ _ _ _ _ _ _ _ _ _ => m0) (fun m0 _ _ _ _ _ _ _ _ _ _ _ => m0) mem jobz uplo n a lda w work lwork iwork liwork info =
        mem) ∧
    (∀ (env : Env) (fm fl : DsyevdFn) (mem : Mem)
        (jobz : CharPtr) (uplo : CharPtr) (n : IntPtr) (a : DoubleArr) (lda : IntPtr)
        (w : DoubleArr) (work : DoubleArr) (lwork : IntPtr) (iwork : IntArr) (liwork : IntPtr)
        (info : IntPtr),
      (accelerate_dsyevd env fm fl mem jobz uplo n a lda w work lwork iwork liwork info =
          fm mem jobz uplo n a lda w work lwork iwork liwork info ∨
        accelerate_dsyevd env fm fl mem jobz uplo n a lda w work lwork iwork liwork info =
          fl mem jobz uplo n a lda w work lwork iwork liwork info) ∧
      accelerate_dsyevd env (fun m0 _ _ _ _ _ _ _ _ _ _ _ => m0) (fun m0 _ _ _ _ _ _ _ _ _ _ _ => m0) mem jobz uplo n a lda w work lwork iwork liwork info =
        mem) ∧
    (∀ (env : Env) (fm fl : CheevdFn) (mem : Mem)
        (jobz : CharPtr) (uplo : CharPtr) (n : IntPtr) (a : CplxArr) (lda : IntPtr)
        (w : FloatArr) (work : CplxArr) (lwork : IntPtr) (rwork : FloatArr) (lrwork : IntPtr)
        (iwork : IntArr) (liwork : IntPtr) (info : IntPtr),
      (accelerate_cheevd env fm fl mem jobz uplo n a lda w work lwork rwork lrwork iwork liwork info =
          fm mem jobz uplo n a lda w work lwork rwork lrwork iwork liwork info ∨
        accelerate_cheevd env fm fl mem jobz uplo n a lda w work lwork rwork lrwork iwork liwork info =
          fl mem jobz uplo n a lda w work lwork rwork lrwork iwork liwork info) ∧
      accelerate_cheevd env (fun m0 _ _ _ _ _ _ _ _ _ _ _ _ _ => m0) (fun m0 _ _ _ _ _ _ _ _ _ _ _ _ _ => m0) mem jobz uplo n a lda w work lwork rwork lrwork iwork liwork info =
        mem) ∧
    (∀ (env : Env) (fm fl : ZheevdFn) (mem : Mem)
        (jobz : CharPtr) (uplo : CharPtr) (n : IntPtr) (a : DCplxArr) (lda : IntPtr)
        (w : DoubleArr) (work : DCplxArr) (lwork : IntPtr) (rwork : DoubleArr) (lrwork : IntPtr)
        (iwork : IntArr) (liwork : IntPtr) (info : IntPtr),
      (accelerate_zheevd env fm fl mem jobz uplo n a lda w work lwork rwork lrwork iwork liwork info =
          fm mem jobz uplo n a lda w work lwork rwork lrwork iwork liwork info ∨
        accelerate_zheevd env fm fl mem jobz uplo n a lda w work lwork rwork lrwork iwork liwork info =
          fl mem jobz uplo n a lda w work lwork rwork lrwork iwork liwork info) ∧
      accelerate_zheevd env (fun m0 _ _ _ _ _ _ _ _ _ _ _ _ _ => m0) (fun m0 _ _ _ _ _ _ _ _ _ _ _ _ _ => m0) mem jobz uplo n a lda w work lwork rwork lrwork iwork liwork info =
        mem) ∧
    (∀ (env : Env) (fm fl : SgelsdFn) (mem : Mem)
        (m : IntPtr) (n : IntPtr) (nrhs : IntPtr) (a : FloatArr) (lda : IntPtr)
        (b : FloatArr) (ldb : IntPtr) (s : FloatArr) (rcond : FloatPtr) (rank : IntPtr)
        (work : FloatArr) (lwork : IntPtr) (iwork : IntArr) (info : IntPtr),
      (accelerate_sgelsd env fm fl mem m n nrhs a lda b ldb s rcond rank work lwork iwork info =
          fm mem m n nrhs a lda b ldb s rcond rank work lwork iwork info ∨
        accelerate_sgelsd env fm fl mem m n nrhs a lda b ldb s rcond rank work lwork iwork info =
          fl mem m n nrhs a lda b ldb s rcond rank work lwork iwork info) ∧
      accelerate_sgelsd env (fun m0 _ _ _ _ _ _ _ _ _ _ _ _ _ _ => m0) (fun m0 _ _ _ _ _ _ _ _ _ _ _ _ _ _ => m0) mem m n nrhs a lda b ldb s rcond rank work lwork iwork info =
        mem) ∧
    (∀ (env : Env) (fm fl : DgelsdFn) (mem : Mem)
        (m : IntPtr) (n : IntPtr) (nrhs : IntPtr) (a : DoubleArr) (lda : IntPtr)
        (b : DoubleArr) (ldb : IntPtr) (s : DoubleArr) (rcond : DoublePtr) (rank : IntPtr)
        (work : DoubleArr) (lwork : IntPtr) (iwork : IntArr) (info : IntPtr),
      (accelerate_dgelsd env fm fl mem m n nrhs a lda b ldb s rcond rank work lwork iwork info =
          fm mem m n nrhs a lda b ldb s rcond rank work lwork iwork info ∨
        accelerate_dgelsd env fm fl mem m n nrhs a lda b ldb s rcond rank work lwork iwork info =
          fl mem m n nrhs a lda b ldb s rcond rank work lwork iwork info) ∧
      accelerate_dgelsd env (fun m0 _ _ _ _ _ _ _ _ _ _ _ _ _ _ => m0) (fun m0 _ _ _ _ _ _ _ _ _ _ _ _ _ _ => m0) mem m n nrhs a lda b ldb s rcond rank work lwork iwork info =
        mem) ∧
    (∀ (env : Env) (fm fl : CgelsdFn) (mem : Mem)
        (m : IntPtr) (n : IntPtr) (nrhs : IntPtr) (a : CplxArr) (lda : IntPtr)
        (b : CplxArr) (ldb : IntPtr) (s : FloatArr) (rcond : FloatPtr) (rank : IntPtr)
        (work : CplxArr) (lwork : IntPtr) (rwork : FloatArr) (iwork : IntArr) (info : IntPtr),
      (accelerate_cgelsd env fm fl mem m n nrhs a lda b ldb s rcond rank work lwork rwork iwork info =
          fm mem m n nrhs a lda b ldb s rcond rank work lwork rwork iwork info ∨
        accelerate_cgelsd env fm fl mem m n nrhs a lda b ldb s rcond rank work lwork rwork iwork info =
          fl mem m n nrhs a lda b ldb s rcond rank work lwork rwork iwork info) ∧
      accelerate_cgelsd env (fun m0 _ _ _ _ _ _ _ _ _ _ _ _ _ _ _ => m0) (fun m0 _ _ _ _ _ _ _ _ _ _ _ _ _ _ _ => m0) mem m n nrhs a lda b ldb s rcond rank work lwork rwork iwork info =
        mem) ∧
    (∀ (env : Env) (fm fl : ZgelsdFn) (mem : Mem)
        (m : IntPtr) (n : IntPtr) (nrhs : IntPtr) (a : FDCplxArr) (lda : IntPtr)
        (b : FDCplxArr) (ldb : IntPtr) (s : DoubleArr) (rcond : DoublePtr) (rank : IntPtr)
        (work : FDCplxArr) (lwork : IntPtr) (rwork : DoubleArr) (iwork : IntArr) (info : IntPtr),
      (accelerate_zgelsd env fm fl mem m n nrhs a lda b ldb s rcond rank work lwork rwork iwork info =
          fm mem m n nrhs a lda b ldb s rcond rank work lwork rwork iwork info ∨
        accelerate_zgelsd env fm fl mem m n nrhs a lda b ldb s rcond rank work lwork rwork iwork info =
          fl mem m n nrhs a lda b ldb s rcond rank work lwork rwork iwork info) ∧
      accelerate_zgelsd env (fun m0 _ _ _ _ _ _ _ _ _ _ _ _ _ _ _ => m0) (fun m0 _ _ _ _ _ _ _ _ _ _ _ _ _ _ _ => m0) mem m n nrhs a lda b ldb s rcond rank work lwork rwork iwork info =
        mem) ∧
    (∀ (env : Env) (fm fl : DgeqrfFn) (mem : Mem)
        (m : IntPtr) (n : IntPtr) (a : DoubleArr) (lda : IntPtr) (tau : DoubleArr)
        (work : DoubleArr) (lwork : IntPtr) (info : IntPtr),
      (accelerate_dgeqrf env fm fl mem m n a lda tau work lwork info =
          fm mem m n a lda tau work lwork info ∨
        accelerate_dgeqrf env fm fl mem m n a lda tau work lwork info =
          fl mem m n a lda tau work lwork info) ∧
      accelerate_dgeqrf env (fun m0 _ _ _ _ _ _ _ _ => m0) (fun m0 _ _ _ _ _ _ _ _ => m0) mem m n a lda tau work lwork info =
        mem) ∧
    (∀ (env : Env) (fm fl : ZgeqrfFn) (mem : Mem)
        (m : IntPtr) (n : IntPtr) (a : DCplxArr) (lda : IntPtr) (tau : DCplxArr)
        (work : DCplxArr) (lwork : IntPtr) (info : IntPtr),
      (accelerate_zgeqrf env fm fl mem m n a lda tau work lwork info =
          fm mem m n a lda tau work lwork info ∨
        accelerate_zgeqrf env fm fl mem m n a lda tau work lwork info =
          fl mem m n a lda tau work lwork info) ∧
      accelerate_zgeqrf env (fun m0 _ _ _ _ _ _ _ _ => m0) (fun m0 _ _ _ _ _ _ _ _ => m0) mem m n a lda tau work lwork info =
        mem) ∧
    (∀ (env : Env) (fm fl : DorgqrFn) (mem : Mem)
        (m : IntPtr) (n : IntPtr) (k : IntPtr) (a : DoubleArr) (lda : IntPtr)
        (tau : DoubleArr) (work : DoubleArr) (lwork : IntPtr) (info : IntPtr),
      (accelerate_dorgqr env fm fl mem m n k a lda tau work lwork info =
          fm mem m n k a lda tau work lwork info ∨
        accelerate_dorgqr env fm fl mem m n k a lda tau work lwork info =
          fl mem m n k a lda tau work lwork info) ∧
      accelerate_dorgqr env (fun m0 _ _ _ _ _ _ _ _ _ => m0) (fun m0 _ _ _ _ _ _ _ _ _ => m0) mem m n k a lda tau work lwork info =
        mem) ∧
    (∀ (env : Env) (fm fl : ZungqrFn) (mem : Mem)
        (m : IntPtr) (n : IntPtr) (k : IntPtr) (a : DCplxArr) (lda : IntPtr)
        (tau : DCplxArr) (work : DCplxArr) (lwork : IntPtr) (info : IntPtr),
      (accelerate_zungqr env fm fl mem m n k a lda tau work lwork info =
          fm mem m n k a lda tau work lwork info ∨
        accelerate_zungqr env fm fl mem m n k a lda tau work lwork info =
          fl mem m n k a lda tau work lwork info) ∧
      accelerate_zungqr env (fun m0 _ _ _ _ _ _ _ _ _ => m0) (fun m0 _ _ _ _ _ _ _ _ _ => m0) mem m n k a lda tau work lwork info =
        mem) ∧
    (∀ (env : Env) (fm fl : SgesvFn) (mem : Mem)
        (n : IntPtr) (nrhs : IntPtr) (a : FloatArr) (lda : IntPtr) (ipiv : IntArr)
        (b : FloatArr) (ldb : IntPtr) (info : IntPtr),
      (accelerate_sgesv env fm fl mem n nrhs a lda ipiv b ldb info =
          fm mem n nrhs a lda ipiv b ldb info ∨
        accelerate_sgesv env fm fl mem n nrhs a lda ipiv b ldb info =
          fl mem n nrhs a lda ipiv b ldb info) ∧
      accelerate_sgesv env (fun m0 _ _ _ _ _ _ _ _ => m0) (fun m0 _ _ _ _ _ _ _ _ => m0) mem n nrhs a lda ipiv b ldb info =
        mem) ∧
    (∀ (env : Env) (fm fl : DgesvFn) (mem : Mem)
        (n : IntPtr) (nrhs : IntPtr) (a : DoubleArr) (lda : IntPtr) (ipiv : IntArr)
        (b : DoubleArr) (ldb : IntPtr) (info : IntPtr),
      (accelerate_dgesv env fm fl mem n nrhs a lda ipiv b ldb info =
          fm mem n nrhs a lda ipiv b ldb info ∨
        accelerate_dgesv env fm fl mem n nrhs a lda ipiv b ldb info =
          fl mem n nrhs a lda ipiv b ldb info) ∧
      accelerate_dgesv env (fun m0 _ _ _ _ _ _ _ _ => m0) (fun m0 _ _ _ _ _ _ _ _ => m0) mem n nrhs a lda ipiv b ldb info =
        mem) ∧
    (∀ (env : Env) (fm fl : CgesvFn) (mem : Mem)
        (n : IntPtr) (nrhs : IntPtr) (a : CplxArr) (lda : IntPtr) (ipiv : IntArr)
        (b : CplxArr) (ldb : IntPtr) (info : IntPtr),
      (accelerate_cgesv env fm fl mem n nrhs a lda ipiv b ldb info =
          fm mem n nrhs a lda ipiv b ldb info ∨
        accelerate_cgesv env fm fl mem n nrhs a lda ipiv b ldb info =
          fl mem n nrhs a lda ipiv b ldb info) ∧
      accelerate_cgesv env (fun m0 _ _ _ _ _ _ _ _ => m0) (fun m0 _ _ _ _ _ _ _ _ => m0) mem n nrhs a lda ipiv b ldb info =
        mem) ∧
    (∀ (env : Env) (fm fl : ZgesvFn) (mem : Mem)
        (n : IntPtr) (nrhs : IntPtr) (a : DCplxArr) (lda : IntPtr) (ipiv : IntArr)
        (b : DCplxArr) (ldb : IntPtr) (info : IntPtr),
      (accelerate_zgesv env fm fl mem n nrhs a lda ipiv b ldb info =
          fm mem n nrhs a lda ipiv b ldb info ∨
        accelerate_zgesv env fm fl mem n nrhs a lda ipiv b ldb info =
          fl mem n nrhs a lda ipiv b ldb info) ∧
      accelerate_zgesv env (fun m0 _ _ _ _ _ _ _ _ => m0) (fun m0 _ _ _ _ _ _ _ _ => m0) mem n nrhs a lda ipiv b ldb info =
        mem) ∧
    (∀ (env : Env) (fm fl : SgetrfFn) (mem : Mem)
        (m : IntPtr) (n : IntPtr) (a : FloatArr) (lda : IntPtr) (ipiv : IntArr)
        (info : IntPtr),
      ((accelerate_sgetrf env fm fl mem m n a lda ipiv info).1 =
          (fm mem m n a lda ipiv info).1 ∨
        (accelerate_sgetrf env fm fl mem m n a lda ipiv info).1 =
          (fl mem m n a lda ipiv info).1) ∧
      (accelerate_sgetrf env (fun m0 _ _ _ _ _ _ => (m0, (0 : FortranInt))) (fun m0 _ _ _ _ _ _ => (m0, (0 : FortranInt))) mem m n a lda ipiv info).1 =
        mem) ∧
    (∀ (env : Env) (fm fl : DgetrfFn) (mem : Mem)
        (m : IntPtr) (n : IntPtr) (a : DoubleArr) (lda : IntPtr) (ipiv : IntArr)
        (info : IntPtr),
      ((accelerate_dgetrf env fm fl mem m n a lda ipiv info).1 =
          (fm mem m n a lda ipiv info).1 ∨
        (accelerate_dgetrf env fm fl mem m n a lda ipiv info).1 =
          (fl mem m n a lda ipiv info).1) ∧
      (accelerate_dgetrf env (fun m0 _ _ _ _ _ _ => (m0, (0 : FortranInt))) (fun m0 _ _ _ _ _ _ => (m0, (0 : FortranInt))) mem m n a lda ipiv info).1 =
        mem) ∧
    (∀ (env : Env) (fm fl : CgetrfFn) (mem : Mem)
        (m : IntPtr) (n : IntPtr) (a : CplxArr) (lda : IntPtr) (ipiv : IntArr)
        (info : IntPtr),
      ((accelerate_cgetrf env fm fl mem m n a lda ipiv info).1 =
          (fm mem m n a lda ipiv info).1 ∨
        (accelerate_cgetrf env fm fl mem m n a lda ipiv info).1 =
          (fl mem m n a lda ipiv info).1) ∧
      (accelerate_cgetrf env (fun m0 _ _ _ _ _ _ => (m0, (0 : FortranInt))) (fun m0 _ _ _ _ _ _ => (m0, (0 : FortranInt))) mem m n a lda ipiv info).1 =
        mem) ∧
    (∀ (env : Env) (fm fl : ZgetrfFn) (mem : Mem)
        (m : IntPtr) (n : IntPtr) (a : DCplxArr) (lda : IntPtr) (ipiv : IntArr)
        (info : IntPtr),
      ((accelerate_zgetrf env fm fl mem m n a lda ipiv info).1 =
          (fm mem m n a lda ipiv info).1 ∨
        (accelerate_zgetrf env fm fl mem m n a lda ipiv info).1 =
          (fl mem m n a lda ipiv info).1) ∧
      (accelerate_zgetrf env (fun m0 _ _ _ _ _ _ => (m0, (0 : FortranInt))) (fun m0 _ _ _ _ _ _ => (m0, (0 : FortranInt))) mem m n a lda ipiv info).1 =
        mem) ∧
    (∀ (env : Env) (fm fl : SpotrfFn) (mem : Mem)
        (uplo : CharPtr) (n : IntPtr) (a : FloatArr) (lda : IntPtr) (info : IntPtr),
      (accelerate_spotrf env fm fl mem uplo n a lda info =
          fm mem uplo n a lda info ∨
        accelerate_spotrf env fm fl mem uplo n a lda info =
          fl mem uplo n a lda info) ∧
      accelerate_spotrf env (fun m0 _ _ _ _ _ => m0) (fun m0 _ _ _ _ _ => m0) mem uplo n a lda info =
        mem) ∧
    (∀ (env : Env) (fm fl : DpotrfFn) (mem : Mem)
        (uplo : CharPtr) (n : IntPtr) (a : DoubleArr) (lda : IntPtr) (info : IntPtr),
      (accelerate_dpotrf env fm fl mem uplo n a lda info =
          fm mem uplo n a lda info ∨
        accelerate_dpotrf env fm fl mem uplo n a lda info =
          fl mem uplo n a lda info) ∧
      accelerate_dpotrf env (fun m0 _ _ _ _ _ => m0) (fun m0 _ _ _ _ _ => m0) mem uplo n a lda info =
        mem) ∧
    (∀ (env : Env) (fm fl : CpotrfFn) (mem : Mem)
        (uplo : CharPtr) (n : IntPtr) (a : CplxArr) (lda : IntPtr) (info : IntPtr),
      (accelerate_cpotrf env fm fl mem uplo n a lda info =
          fm mem uplo n a lda info ∨
        accelerate_cpotrf env fm fl mem uplo n a lda info =
          fl mem uplo n a lda info) ∧
      accelerate_cpotrf env (fun m0 _ _ _ _ _ => m0) (fun m0 _ _ _ _ _ => m0) mem uplo n a lda info =
        mem) ∧
    (∀ (env : Env) (fm fl : ZpotrfFn) (mem : Mem)
        (uplo : CharPtr) (n : IntPtr) (a : DCplxArr) (lda : IntPtr) (info : IntPtr),
      (accelerate_zpotrf env fm fl mem uplo n a lda info =
          fm mem uplo n a lda info ∨
        accelerate_zpotrf env fm fl mem uplo n a lda info =
          fl mem uplo n a lda info) ∧
      accelerate_zpotrf env (fun m0 _ _ _ _ _ => m0) (fun m0 _ _ _ _ _ => m0) mem uplo n a lda info =
        mem) ∧
    (∀ (env : Env) (fm fl : SgesddFn) (mem : Mem)
        (jobz : CharPtr) (m : IntPtr) (n : IntPtr) (a : FloatArr) (lda : IntPtr)
        (s : FloatArr) (u : FloatArr) (ldu : IntPtr) (vt : FloatArr) (ldvt : IntPtr)
        (work : FloatArr) (lwork : IntPtr) (iwork : IntArr) (info : IntPtr),
      (accelerate_sgesdd env fm fl mem jobz m n a lda s u ldu vt ldvt work lwork iwork info =
          fm mem jobz m n a lda s u ldu vt ldvt work lwork iwork info ∨
        accelerate_sgesdd env fm fl mem jobz m n a lda s u ldu vt ldvt work lwork iwork info =
          fl mem jobz m n a lda s u ldu vt ldvt work lwork iwork info) ∧
      accelerate_sgesdd env (fun m0 _ _ _ _ _ _ _ _ _ _ _ _ _ _ => m0) (fun m0 _ _ _ _ _ _ _ _ _ _ _ _ _ _ => m0) mem jobz m n a lda s u ldu vt ldvt work lwork iwork info =
        mem) ∧
    (∀ (env : Env) (fm fl : DgesddFn) (mem : Mem)
        (jobz : CharPtr) (m : IntPtr) (n : IntPtr) (a : DoubleArr) (lda : IntPtr)
        (s : DoubleArr) (u : DoubleArr) (ldu : IntPtr) (vt : DoubleArr) (ldvt : IntPtr)
        (work : DoubleArr) (lwork : IntPtr) (iwork : IntArr) (info : IntPtr),
      (accelerate_dgesdd env fm fl mem jobz m n a lda s u ldu vt ldvt work lwork iwork info =
          fm mem jobz m n a lda s u ldu vt ldvt work lwork iwork info ∨
        accelerate_dgesdd env fm fl mem jobz m n a lda s u ldu vt ldvt work lwork iwork info =
          fl mem jobz m n a lda s u ldu vt ldvt work lwork iwork info) ∧
      accelerate_dgesdd env (fun m0 _ _ _ _ _ _ _ _ _ _ _ _ _ _ => m0) (fun m0 _ _ _ _ _ _ _ _ _ _ _ _ _ _ => m0) mem jobz m n a lda s u ldu vt ldvt work lwork iwork info =
        mem) ∧
    (∀ (env : Env) (fm fl : CgesddFn) (mem : Mem)
        (jobz : CharPtr) (m : IntPtr) (n : IntPtr) (a : CplxArr) (lda : IntPtr)
        (s : FloatArr) (u : CplxArr) (ldu : IntPtr) (vt : CplxArr) (ldvt : IntPtr)
        (work : CplxArr) (lwork : IntPtr) (rwork : FloatArr) (iwork : IntArr) (info : IntPtr),
      (accelerate_cgesdd env fm fl mem jobz m n a lda s u ldu vt ldvt work lwork rwork iwork info =
          fm mem jobz m n a lda s u ldu vt ldvt work lwork rwork iwork info ∨
        accelerate_cgesdd env fm fl mem jobz m n a lda s u ldu vt ldvt work lwork rwork iwork info =
          fl mem jobz m n a lda s u ldu vt ldvt work lwork rwork iwork info) ∧
      accelerate_cgesdd env (fun m0 _ _ _ _ _ _ _ _ _ _ _ _ _ _ _ => m0) (fun m0 _ _ _ _ _ _ _ _ _ _ _ _ _ _ _ => m0) mem jobz m n a lda s u ldu vt ldvt work lwork rwork iwork info =
        mem) ∧
    (∀ (env : Env) (fm fl : ZgesddFn) (mem : Mem)
        (jobz : CharPtr) (m : IntPtr) (n : IntPtr) (a : DCplxArr) (lda : IntPtr)
        (s : DoubleArr) (u : DCplxArr) (ldu : IntPtr) (vt : DCplxArr) (ldvt : IntPtr)
        (work : DCplxArr) (lwork : IntPtr) (rwork : DoubleArr) (iwork : IntArr) (info : IntPtr),
      (accelerate_zgesdd env fm fl mem jobz m n a lda s u ldu vt ldvt work lwork rwork iwork info =
          fm mem jobz m n a lda s u ldu vt ldvt work lwork rwork iwork info ∨
        accelerate_zgesdd env fm fl mem jobz m n a lda s u ldu vt ldvt work lwork rwork iwork info =
          fl mem jobz m n a lda s u ldu vt ldvt work lwork rwork iwork info) ∧
      accelerate_zgesdd env (fun m0 _ _ _ _ _ _ _ _ _ _ _ _ _ _ _ => m0) (fun m0 _ _ _ _ _ _ _ _ _ _ _ _ _ _ _ => m0) mem jobz m n a lda s u ldu vt ldvt work lwork rwork iwork info =
        mem) ∧
    (∀ (env : Env) (fm fl : SpotrsFn) (mem : Mem)
        (uplo : CharPtr) (n : IntPtr) (nrhs : IntPtr) (a : FloatArr) (lda : IntPtr)
        (b : FloatArr) (ldb : IntPtr) (info : IntPtr),
      (accelerate_spotrs env fm fl mem uplo n nrhs a lda b ldb info =
          fm mem uplo n nrhs a lda b ldb info ∨
        accelerate_spotrs env fm fl mem uplo n nrhs a lda b ldb info =
          fl mem uplo n nrhs a lda b ldb info) ∧
      accelerate_spotrs env (fun m0 _ _ _ _ _ _ _ _ => m0) (fun m0 _ _ _ _ _ _ _ _ => m0) mem uplo n nrhs a lda b ldb info =
        mem) ∧
    (∀ (env : Env) (fm fl : DpotrsFn) (mem : Mem)
        (uplo : CharPtr) (n : IntPtr) (nrhs : IntPtr) (a : DoubleArr) (lda : IntPtr)
        (b : DoubleArr) (ldb : IntPtr) (info : IntPtr),
      (accelerate_dpotrs env fm fl mem uplo n nrhs a lda b ldb info =
          fm mem uplo n nrhs a lda b ldb info ∨
        accelerate_dpotrs env fm fl mem uplo n nrhs a lda b ldb info =
          fl mem uplo n nrhs a lda b ldb info) ∧
      accelerate_dpotrs env (fun m0 _ _ _ _ _ _ _ _ => m0) (fun m0 _ _ _ _ _ _ _ _ => m0) mem uplo n nrhs a lda b ldb info =
        mem) ∧
    (∀ (env : Env) (fm fl : CpotrsFn) (mem : Mem)
        (uplo : CharPtr) (n : IntPtr) (nrhs : IntPtr) (a : CplxArr) (lda : IntPtr)
        (b : CplxArr) (ldb : IntPtr) (info : IntPtr),
      (accelerate_cpotrs env fm fl mem uplo n nrhs a lda b ldb info =
          fm mem uplo n nrhs a lda b ldb info ∨
        accelerate_cpotrs env fm fl mem uplo n nrhs a lda b ldb info =
          fl mem uplo n nrhs a lda b ldb info) ∧
      accelerate_cpotrs env (fun m0 _ _ _ _ _ _ _ _ => m0) (fun m0 _ _ _ _ _ _ _ _ => m0) mem uplo n nrhs a lda b ldb info =
        mem) ∧
    (∀ (env : Env) (fm fl : ZpotrsFn) (mem : Mem)
        (uplo : CharPtr) (n : IntPtr) (nrhs : IntPtr) (a : DCplxArr) (lda : IntPtr)
        (b : DCplxArr) (ldb : IntPtr) (info : IntPtr),
      (accelerate_zpotrs env fm fl mem uplo n nrhs a lda b ldb info =
          fm mem uplo n nrhs a lda b ldb info ∨
        accelerate_zpotrs env fm fl mem uplo n nrhs a lda b ldb info =
          fl mem uplo n nrhs a lda b ldb info) ∧
      accelerate_zpotrs env (fun m0 _ _ _ _ _ _ _ _ => m0) (fun m0 _ _ _ _ _ _ _ _ => m0) mem uplo n nrhs a lda b ldb info =
        mem) ∧
    (∀ (env : Env) (fm fl : SpotriFn) (mem : Mem)
        (uplo : CharPtr) (n : IntPtr) (a : FloatArr) (lda : IntPtr) (info : IntPtr),
      (accelerate_spotri env fm fl mem uplo n a lda info =
          fm mem uplo n a lda info ∨
        accelerate_spotri env fm fl mem uplo n a lda info =
          fl mem uplo n a lda info) ∧
      accelerate_spotri env (fun m0 _ _ _ _ _ => m0) (fun m0 _ _ _ _ _ => m0) mem uplo n a lda info =
        mem) ∧
    (∀ (env : Env) (fm fl : DpotriFn) (mem : Mem)
        (uplo : CharPtr) (n : IntPtr) (a : DoubleArr) (lda : IntPtr) (info : IntPtr),
      (accelerate_dpotri env fm fl mem uplo n a lda info =
          fm mem uplo n a lda info ∨
        accelerate_dpotri env fm fl mem uplo n a lda info =
          fl mem uplo n a lda info) ∧
      accelerate_dpotri env (fun m0 _ _ _ _ _ => m0) (fun m0 _ _ _ _ _ => m0) mem uplo n a lda info =
        mem) ∧
    (∀ (env : Env) (fm fl : CpotriFn) (mem : Mem)
        (uplo : CharPtr) (n : IntPtr) (a : CplxArr) (lda : IntPtr) (info : IntPtr),
      (accelerate_cpotri env fm fl mem uplo n a lda info =
          fm mem uplo n a lda info ∨
        accelerate_cpotri env fm fl mem uplo n a lda info =
          fl mem uplo n a lda info) ∧
      accelerate_cpotri env (fun m0 _ _ _ _ _ => m0) (fun m0 _ _ _ _ _ => m0) mem uplo n a lda info =
        mem) ∧
    (∀ (env : Env) (fm fl : ZpotriFn) (mem : Mem)
        (uplo : CharPtr) (n : IntPtr) (a : DCplxArr) (lda : IntPtr) (info : IntPtr),
      (accelerate_zpotri env fm fl mem uplo n a lda info =
          fm mem uplo n a lda info ∨
        accelerate_zpotri env fm fl mem uplo n a lda info =
          fl mem uplo n a lda info) ∧
      accelerate_zpotri env (fun m0 _ _ _ _ _ => m0) (fun m0 _ _ _ _ _ => m0) mem uplo n a lda info =
        mem) ∧
    (∀ (env : Env) (fm fl : ScopyFn) (mem : Mem)
        (n : IntPtr) (sx : FloatPtr) (incx : IntPtr) (sy : FloatPtr) (incy : IntPtr),
      ((accelerate_scopy env fm fl mem n sx incx sy incy).1 =
          (fm mem n sx incx sy incy).1 ∨
        (accelerate_scopy env fm fl mem n sx incx sy incy).1 =
          (fl mem n sx incx sy incy).1) ∧
      (accelerate_scopy env (fun m0 _ _ _ _ _ => (m0, (0 : FortranInt))) (fun m0 _ _ _ _ _ => (m0, (0 : FortranInt))) mem n sx incx sy incy).1 =
        mem) ∧
    (∀ (env : Env) (fm fl : DcopyFn) (mem : Mem)
        (n : IntPtr) (sx : DoublePtr) (incx : IntPtr) (sy : DoublePtr) (incy : IntPtr),
      ((accelerate_dcopy env fm fl mem n sx incx sy incy).1 =
          (fm mem n sx incx sy incy).1 ∨
        (accelerate_dcopy env fm fl mem n sx incx sy incy).1 =
          (fl mem n sx incx sy incy).1) ∧
      (accelerate_dcopy env (fun m0 _ _ _ _ _ => (m0, (0 : FortranInt))) (fun m0 _ _ _ _ _ => (m0, (0 : FortranInt))) mem n sx incx sy incy).1 =
        mem) ∧
    (∀ (env : Env) (fm fl : CcopyFn) (mem : Mem)
        (n : IntPtr) (sx : CplxPtr) (incx : IntPtr) (sy : CplxPtr) (incy : IntPtr),
      ((accelerate_ccopy env fm fl mem n sx incx sy incy).1 =
          (fm mem n sx incx sy incy).1 ∨
        (accelerate_ccopy env fm fl mem n sx incx sy incy).1 =
          (fl mem n sx incx sy incy).1) ∧
      (accelerate_ccopy env (fun m0 _ _ _ _ _ => (m0, (0 : FortranInt))) (fun m0 _ _ _ _ _ => (m0, (0 : FortranInt))) mem n sx incx sy incy).1 =
        mem) ∧
    (∀ (env : Env) (fm fl : ZcopyFn) (mem : Mem)
        (n : IntPtr) (sx : DCplxPtr) (incx : IntPtr) (sy : DCplxPtr) (incy : IntPtr),
      ((accelerate_zcopy env fm fl mem n sx incx sy incy).1 =
          (fm mem n sx incx sy incy).1 ∨
        (accelerate_zcopy env fm fl mem n sx incx sy incy).1 =
          (fl mem n sx incx sy incy).1) ∧
      (accelerate_zcopy env (fun m0 _ _ _ _ _ => (m0, (0 : FortranInt))) (fun m0 _ _ _ _ _ => (m0, (0 : FortranInt))) mem n sx incx sy incy).1 =
        mem) ∧
    (∀ (env : Env) (fm fl : SdotFn) (mem : Mem)
        (n : IntPtr) (sx : FloatPtr) (incx : IntPtr) (sy : FloatPtr) (incy : IntPtr),
      ((accelerate_sdot env fm fl mem n sx incx sy incy).1 =
          (fm mem n sx incx sy incy).1 ∨
        (accelerate_sdot env fm fl mem n sx incx sy incy).1 =
          (fl mem n sx incx sy incy).1) ∧
      (accelerate_sdot env (fun m0 _ _ _ _ _ => (m0, (CFloat.mk 0))) (fun m0 _ _ _ _ _ => (m0, (CFloat.mk 0))) mem n sx incx sy incy).1 =
        mem) ∧
    (∀ (env : Env) (fm fl : DdotFn) (mem : Mem)
        (n : IntPtr) (sx : DoublePtr) (incx : IntPtr) (sy : DoublePtr) (incy : IntPtr),
      ((accelerate_ddot env fm fl mem n sx incx sy incy).1 =
          (fm mem n sx incx sy incy).1 ∨
        (accelerate_ddot env fm fl mem n sx incx sy incy).1 =
          (fl mem n sx incx sy incy).1) ∧
      (accelerate_ddot env (fun m0 _ _ _ _ _ => (m0, (CDouble.mk 0))) (fun m0 _ _ _ _ _ => (m0, (CDouble.mk 0))) mem n sx incx sy incy).1 =
        mem) ∧
    (∀ (env : Env) (fm fl : CdotuFn) (mem : Mem)
        (ret : CplxPtr) (n : IntPtr) (sx : CplxPtr) (incx : IntPtr) (sy : CplxPtr)
        (incy : IntPtr),
      (accelerate_cdotu env fm fl mem ret n sx incx sy incy =
          fm mem ret n sx incx sy incy ∨
        accelerate_cdotu env fm fl mem ret n sx incx sy incy =
          fl mem ret n sx incx sy incy) ∧
      accelerate_cdotu env (fun m0 _ _ _ _ _ _ => m0) (fun m0 _ _ _ _ _ _ => m0) mem ret n sx incx sy incy =
        mem) ∧
    (∀ (env : Env) (fm fl : ZdotuFn) (mem : Mem)
        (ret : DCplxPtr) (n : IntPtr) (sx : DCplxPtr) (incx : IntPtr) (sy : DCplxPtr)
        (incy : IntPtr),
      (accelerate_zdotu env fm fl mem ret n sx incx sy incy =
          fm mem ret n sx incx sy incy ∨
        accelerate_zdotu env fm fl mem ret n sx incx sy incy =
          fl mem ret n sx incx sy incy) ∧
      accelerate_zdotu env (fun m0 _ _ _ _ _ _ => m0) (fun m0 _ _ _ _ _ _ => m0) mem ret n sx incx sy incy =
        mem) ∧
    (∀ (env : Env) (fm fl : CdotcFn) (mem : Mem)
        (ret : CplxPtr) (n : IntPtr) (sx : CplxPtr) (incx : IntPtr) (sy : CplxPtr)
        (incy : IntPtr),
      (accelerate_cdotc env fm fl mem ret n sx incx sy incy =
          fm mem ret n sx incx sy incy ∨
        accelerate_cdotc env fm fl mem ret n sx incx sy incy =
          fl mem ret n sx incx sy incy) ∧
      accelerate_cdotc env (fun m0 _ _ _ _ _ _ => m0) (fun m0 _ _ _ _ _ _ => m0) mem ret n sx incx sy incy =
        mem) ∧
    (∀ (env : Env) (fm fl : ZdotcFn) (mem : Mem)
        (ret : DCplxPtr) (n : IntPtr) (sx : DCplxPtr) (incx : IntPtr) (sy : DCplxPtr)
        (incy : IntPtr),
      (accelerate_zdotc env fm fl mem ret n sx incx sy incy =
          fm mem ret n sx incx sy incy ∨
        accelerate_zdotc env fm fl mem ret n sx incx sy incy =
          fl mem ret n sx incx sy incy) ∧
      accelerate_zdotc env (fun m0 _ _ _ _ _ _ => m0) (fun m0 _ _ _ _ _ _ => m0) mem ret n sx incx sy incy =
        mem) ∧
    (∀ (env : Env) (fm fl : SgemmFn) (mem : Mem)
        (transa : CharPtr) (transb : CharPtr) (m : IntPtr) (n : IntPtr) (k : IntPtr)
        (alpha : FloatPtr) (a : FloatPtr) (lda : IntPtr) (b : FloatPtr) (ldb : IntPtr)
        (beta : FloatPtr) (c : FloatPtr) (ldc : IntPtr),
      (accelerate_sgemm env fm fl mem transa transb m n k alpha a lda b ldb beta c ldc =
          fm mem transa transb m n k alpha a lda b ldb beta c ldc ∨
        accelerate_sgemm env fm fl mem transa transb m n k alpha a lda b ldb beta c ldc =
          fl mem transa transb m n k alpha a lda b ldb beta c ldc) ∧
      accelerate_sgemm env (fun m0 _ _ _ _ _ _ _ _ _ _ _ _ _ => m0) (fun m0 _ _ _ _ _ _ _ _ _ _ _ _ _ => m0) mem transa transb m n k alpha a lda b ldb beta c ldc =
        mem) ∧
    (∀ (env : Env) (fm fl : DgemmFn) (mem : Mem)
        (transa : CharPtr) (transb : CharPtr) (m : IntPtr) (n : IntPtr) (k : IntPtr)
        (alpha : DoublePtr) (a : DoublePtr) (lda : IntPtr) (b : DoublePtr) (ldb : IntPtr)
        (beta : DoublePtr) (c : DoublePtr) (ldc : IntPtr),
      (accelerate_dgemm env fm fl mem transa transb m n k alpha a lda b ldb beta c ldc =
          fm mem transa transb m n k alpha a lda b ldb beta c ldc ∨
        accelerate_dgemm env fm fl mem transa transb m n k alpha a lda b ldb beta c ldc =
          fl mem transa transb m n k alpha a lda b ldb beta c ldc) ∧
      accelerate_dgemm env (fun m0 _ _ _ _ _ _ _ _ _ _ _ _ _ => m0) (fun m0 _ _ _ _ _ _ _ _ _ _ _ _ _ => m0) mem transa transb m n k alpha a lda b ldb beta c ldc =
        mem) ∧
    (∀ (env : Env) (fm fl : CgemmFn) (mem : Mem)
        (transa : CharPtr) (transb : CharPtr) (m : IntPtr) (n : IntPtr) (k : IntPtr)
        (alpha : CplxPtr) (a : CplxPtr) (lda : IntPtr) (b : CplxPtr) (ldb : IntPtr)
        (beta : CplxPtr) (c : CplxPtr) (ldc : IntPtr),
      (accelerate_cgemm env fm fl mem transa transb m n k alpha a lda b ldb beta c ldc =
          fm mem transa transb m n k alpha a lda b ldb beta c ldc ∨
        accelerate_cgemm env fm fl mem transa transb m n k alpha a lda b ldb beta c ldc =
          fl mem transa transb m n k alpha a lda b ldb beta c ldc) ∧
      accelerate_cgemm env (fun m0 _ _ _ _ _ _ _ _ _ _ _ _ _ => m0) (fun m0 _ _ _ _ _ _ _ _ _ _ _ _ _ => m0) mem transa transb m n k alpha a lda b ldb beta c ldc =
        mem) ∧
    (∀ (env : Env) (fm fl : ZgemmFn) (mem : Mem)
        (transa : CharPtr) (transb : CharPtr) (m : IntPtr) (n : IntPtr) (k : IntPtr)
        (alpha : DCplxPtr) (a : DCplxPtr) (lda : IntPtr) (b : DCplxPtr) (ldb : IntPtr)
        (beta : DCplxPtr) (c : DCplxPtr) (ldc : IntPtr),
      (accelerate_zgemm env fm fl mem transa transb m n k alpha a lda b ldb beta c ldc =
          fm mem transa transb m n k alpha a lda b ldb beta c ldc ∨
        accelerate_zgemm env fm fl mem transa transb m n k alpha a lda b ldb beta c ldc =
          fl mem transa transb m n k alpha a lda b ldb beta c ldc) ∧
      accelerate_zgemm env (fun m0 _ _ _ _ _ _ _ _ _ _ _ _ _ => m0) (fun m0 _ _ _ _ _ _ _ _ _ _ _ _ _ => m0) mem transa transb m n k alpha a lda b ldb beta c ldc =
        mem) :=
  ⟨
    fun env fm fl mem jobvl jobvr n a lda wr wi vl ldvl vr ldvr work lwork info => by
      by_cases h : builtinAvailable env accelerate_sgeev_threshold = true <;>
        simp [accelerate_sgeev, h],
    fun env fm fl mem jobvl jobvr n a lda wr wi vl ldvl vr ldvr work lwork info => by
      by_cases h : builtinAvailable env accelerate_dgeev_threshold = true <;>
        simp [accelerate_dgeev, h],
    fun env fm fl mem jobvl jobvr n a lda w vl ldvl vr ldvr work lwork rwork info => by
      by_cases h : builtinAvailable env accelerate_cgeev_threshold = true <;>
        simp [accelerate_cgeev, h],
    fun env fm fl mem jobvl jobvr n a lda w vl ldvl vr ldvr work lwork rwork info => by
      by_cases h : builtinAvailable env accelerate_zgeev_threshold = true <;>
        simp [accelerate_zgeev, h],
    fun env fm fl mem jobz uplo n a lda w work lwork iwork liwork info => by
      by_cases h : builtinAvailable env accelerate_ssyevd_threshold = true <;>
        simp [accelerate_ssyevd, h],
    fun env fm fl mem jobz uplo n a lda w work lwork iwork liwork info => by
      by_cases h : builtinAvailable env accelerate_dsyevd_threshold = true <;>
        simp [accelerate_dsyevd, h],
    fun env fm fl mem jobz uplo n a lda w work lwork rwork lrwork iwork liwork info => by
      by_cases h : builtinAvailable env accelerate_cheevd_threshold = true <;>
        simp [accelerate_cheevd, h],
    fun env fm fl mem jobz uplo n a lda w work lwork rwork lrwork iwork liwork info => by
      by_cases h : builtinAvailable env accelerate_zheevd_threshold = true <;>
        simp [accelerate_zheevd, h],
    fun env fm fl mem m n nrhs a lda b ldb s rcond rank work lwork iwork info => by
      by_cases h : builtinAvailable env accelerate_sgelsd_threshold = true <;>
        simp [accelerate_sgelsd, h],
    fun env fm fl mem m n nrhs a lda b ldb s rcond rank work lwork iwork info => by
      by_cases h : builtinAvailable env accelerate_dgelsd_threshold = true <;>
        simp [accelerate_dgelsd, h],
    fun env fm fl mem m n nrhs a lda b ldb s rcond rank work lwork rwork iwork info => by
      by_cases h : builtinAvailable env accelerate_cgelsd_threshold = true <;>
        simp [accelerate_cgelsd, h],
    fun env fm fl mem m n nrhs a lda b ldb s rcond rank work lwork rwork iwork info => by
      by_cases h : builtinAvailable env accelerate_zgelsd_threshold = true <;>
        simp [accelerate_zgelsd, h],
    fun env fm fl mem m n a lda tau work lwork info => by
      by_cases h : builtinAvailable env accelerate_dgeqrf_threshold = true <;>
        simp [accelerate_dgeqrf, h],
    fun env fm fl mem m n a lda tau work lwork info => by
      by_cases h : builtinAvailable env accelerate_zgeqrf_threshold = true <;>
        simp [accelerate_zgeqrf, h],
    fun env fm fl mem m n k a lda tau work lwork info => by
      by_cases h : builtinAvailable env accelerate_dorgqr_threshold = true <;>
        simp [accelerate_dorgqr, h],
    fun env fm fl mem m n k a lda tau work lwork info => by
      by_cases h : builtinAvailable env accelerate_zungqr_threshold = true <;>
        simp [accelerate_zungqr, h],
    fun env fm fl mem n nrhs a lda ipiv b ldb info => by
      by_cases h : builtinAvailable env accelerate_sgesv_threshold = true <;>
        simp [accelerate_sgesv, h],
    fun env fm fl mem n nrhs a lda ipiv b ldb info => by
      by_cases h : builtinAvailable env accelerate_dgesv_threshold = true <;>
        simp [accelerate_dgesv, h],
    fun env fm fl mem n nrhs a lda ipiv b ldb info => by
      by_cases h : builtinAvailable env accelerate_cgesv_threshold = true <;>
        simp [accelerate_cgesv, h],
    fun env fm fl mem n nrhs a lda ipiv b ldb info => by
      by_cases h : builtinAvailable env accelerate_zgesv_threshold = true <;>
        simp [accelerate_zgesv, h],
    fun env fm fl mem m n a lda ipiv info => by
      by_cases h : builtinAvailable env accelerate_sgetrf_threshold = true <;>
        simp [accelerate_sgetrf, h],
    fun env fm fl mem m n a lda ipiv info => by
      by_cases h : builtinAvailable env accelerate_dgetrf_threshold = true <;>
        simp [accelerate_dgetrf, h],
    fun env fm fl mem m n a lda ipiv info => by
      by_cases h : builtinAvailable env accelerate_cgetrf_threshold = true <;>
        simp [accelerate_cgetrf, h],
    fun env fm fl mem m n a lda ipiv info => by
      by_cases h : builtinAvailable env accelerate_zgetrf_threshold = true <;>
        simp [accelerate_zgetrf, h],
    fun env fm fl mem uplo n a lda info => by
      by_cases h : builtinAvailable env accelerate_spotrf_threshold = true <;>
        simp [accelerate_spotrf, h],
    fun env fm fl mem uplo n a lda info => by
      by_cases h : builtinAvailable env accelerate_dpotrf_threshold = true <;>
        simp [accelerate_dpotrf, h],
    fun env fm fl mem uplo n a lda info => by
      by_cases h : builtinAvailable env accelerate_cpotrf_threshold = true <;>
        simp [accelerate_cpotrf, h],
    fun env fm fl mem uplo n a lda info => by
      by_cases h : builtinAvailable env accelerate_zpotrf_threshold = true <;>
        simp [accelerate_zpotrf, h],
    fun env fm fl mem jobz m n a lda s u ldu vt ldvt work lwork iwork info => by
      by_cases h : builtinAvailable env accelerate_sgesdd_threshold = true <;>
        simp [accelerate_sgesdd, h],
    fun env fm fl mem jobz m n a lda s u ldu vt ldvt work lwork iwork info => by
      by_cases h : builtinAvailable env accelerate_dgesdd_threshold = true <;>
        simp [accelerate_dgesdd, h],
    fun env fm fl mem jobz m n a lda s u ldu vt ldvt work lwork rwork iwork info => by
      by_cases h : builtinAvailable env accelerate_cgesdd_threshold = true <;>
        simp [accelerate_cgesdd, h],
    fun env fm fl mem jobz m n a lda s u ldu vt ldvt work lwork rwork iwork info => by
      by_cases h : builtinAvailable env accelerate_zgesdd_threshold = true <;>
        simp [accelerate_zgesdd, h],
    fun env fm fl mem uplo n nrhs a lda b ldb info => by
      by_cases h : builtinAvailable env accelerate_spotrs_threshold = true <;>
        simp [accelerate_spotrs, h],
    fun env fm fl mem uplo n nrhs a lda b ldb info => by
      by_cases h : builtinAvailable env accelerate_dpotrs_threshold = true <;>
        simp [accelerate_dpotrs, h],
    fun env fm fl mem uplo n nrhs a lda b ldb info => by
      by_cases h : builtinAvailable env accelerate_cpotrs_threshold = true <;>
        simp [accelerate_cpotrs, h],
    fun env fm fl mem uplo n nrhs a lda b ldb info => by
      by_cases h : builtinAvailable env accelerate_zpotrs_threshold = true <;>
        simp [accelerate_zpotrs, h],
    fun env fm fl mem uplo n a lda info => by
      by_cases h : builtinAvailable env accelerate_spotri_threshold = true <;>
        simp [accelerate_spotri, h],
    fun env fm fl mem uplo n a lda info => by
      by_cases h : builtinAvailable env accelerate_dpotri_threshold = true <;>
        simp [accelerate_dpotri, h],
    fun env fm fl mem uplo n a lda info => by
      by_cases h : builtinAvailable env accelerate_cpotri_threshold = true <;>
        simp [accelerate_cpotri, h],
    fun env fm fl mem uplo n a lda info => by
      by_cases h : builtinAvailable env accelerate_zpotri_threshold = true <;>
        simp [accelerate_zpotri, h],
    fun env fm fl mem n sx incx sy incy => by
      by_cases h : builtinAvailable env accelerate_scopy_threshold = true <;>
        simp [accelerate_scopy, h],
    fun env fm fl mem n sx incx sy incy => by
      by_cases h : builtinAvailable env accelerate_dcopy_threshold = true <;>
        simp [accelerate_dcopy, h],
    fun env fm fl mem n sx incx sy incy => by
      by_cases h : builtinAvailable env accelerate_ccopy_threshold = true <;>
        simp [accelerate_ccopy, h],
    fun env fm fl mem n sx incx sy incy => by
      by_cases h : builtinAvailable env accelerate_zcopy_threshold = true <;>
        simp [accelerate_zcopy, h],
    fun env fm fl mem n sx incx sy incy => by
      by_cases h : builtinAvailable env accelerate_sdot_threshold = true <;>
        simp [accelerate_sdot, h],
    fun env fm fl mem n sx incx sy incy => by
      by_cases h : builtinAvailable env accelerate_ddot_threshold = true <;>
        simp [accelerate_ddot, h],
    fun env fm fl mem ret n sx incx sy incy => by
      by_cases h : builtinAvailable env accelerate_cdotu_threshold = true <;>
        simp [accelerate_cdotu, h],
    fun env fm fl mem ret n sx incx sy incy => by
      by_cases h : builtinAvailable env accelerate_zdotu_threshold = true <;>
        simp [accelerate_zdotu, h],
    fun env fm fl mem ret n sx incx sy incy => by
      by_cases h : builtinAvailable env accelerate_cdotc_threshold = true <;>
        simp [accelerate_cdotc, h],
    fun env fm fl mem ret n sx incx sy incy => by
      by_cases h : builtinAvailable env accelerate_zdotc_threshold = true <;>
        simp [accelerate_zdotc, h],
    fun env fm fl mem transa transb m n k alpha a lda b ldb beta c ldc => by
      by_cases h : builtinAvailable env accelerate_sgemm_threshold = true <;>
        simp [accelerate_sgemm, h],
    fun env fm fl mem transa transb m n k alpha a lda b ldb beta c ldc => by
      by_cases h : builtinAvailable env accelerate_dgemm_threshold = true <;>
        simp [accelerate_dgemm, h],
    fun env fm fl mem transa transb m n k alpha a lda b ldb beta c ldc => by
      by_cases h : builtinAvailable env accelerate_cgemm_threshold = true <;>
        simp [accelerate_cgemm, h],
    fun env fm fl mem transa transb m n k alpha a lda b ldb beta c ldc => by
      by_cases h : builtinAvailable env accelerate_zgemm_threshold = true <;>
        simp [accelerate_zgemm, h]
  ⟩

/-- C7: whenever the capability predicate evaluates false (including when
the modern symbol cannot be proven present), every wrapped routine takes
the legacy branch; and dispatch is always resolvable — every call is one
of the two branches. -/
theorem legacy_branch_is_default_fallback :
    (∀ (env : Env) (fm fl : SgeevFn) (mem : Mem)
        (jobvl : CharPtr) (jobvr : CharPtr) (n : IntPtr) (a : FloatArr) (lda : IntPtr)
        (wr : FloatArr) (wi : FloatArr) (vl : FloatArr) (ldvl : IntPtr) (vr : FloatArr)
        (ldvr : IntPtr) (work : FloatArr) (lwork : IntArr) (info : IntPtr),
      (builtinAvailable env accelerate_sgeev_threshold = false →
          accelerate_sgeev env fm fl mem jobvl jobvr n a lda wr wi vl ldvl vr ldvr work lwork info =
            fl mem jobvl jobvr n a lda wr wi vl ldvl vr ldvr work lwork info) ∧
      (accelerate_sgeev env fm fl mem jobvl jobvr n a lda wr wi vl ldvl vr ldvr work lwork info =
          fm mem jobvl jobvr n a lda wr wi vl ldvl vr ldvr work lwork info ∨
        accelerate_sgeev env fm fl mem jobvl jobvr n a lda wr wi vl ldvl vr ldvr work lwork info =
          fl mem jobvl jobvr n a lda wr wi vl ldvl vr ldvr work lwork info)) ∧
    (∀ (env : Env) (fm fl : DgeevFn) (mem : Mem)
        (jobvl : CharPtr) (jobvr : CharPtr) (n : IntPtr) (a : DoubleArr) (lda : IntPtr)
        (wr : DoubleArr) (wi : DoubleArr) (vl : DoubleArr) (ldvl : IntPtr) (vr : DoubleArr)
        (ldvr : IntPtr) (work : DoubleArr) (lwork : IntArr) (info : IntPtr),
      (builtinAvailable env accelerate_dgeev_threshold = false →
          accelerate_dgeev env fm fl mem jobvl jobvr n a lda wr wi vl ldvl vr ldvr work lwork info =
            fl mem jobvl jobvr n a lda wr wi vl ldvl vr ldvr work lwork info) ∧
      (accelerate_dgeev env fm fl mem jobvl jobvr n a lda wr wi vl ldvl vr ldvr work lwork info =
          fm mem jobvl jobvr n a lda wr wi vl ldvl vr ldvr work lwork info ∨
        accelerate_dgeev env fm fl mem jobvl jobvr n a lda wr wi vl ldvl vr ldvr work lwork info =
          fl mem jobvl jobvr n a lda wr wi vl ldvl vr ldvr work lwork info)) ∧
    (∀ (env : Env) (fm fl : CgeevFn) (mem : Mem)
        (jobvl : CharPtr) (jobvr : CharPtr) (n : IntPtr) (a : CplxArr) (lda : IntPtr)
        (w : CplxArr) (vl : CplxArr) (ldvl : IntPtr) (vr : CplxArr) (ldvr : IntPtr)
        (work : CplxArr) (lwork : IntPtr) (rwork : FloatArr) (info : IntPtr),
      (builtinAvailable env accelerate_cgeev_threshold = false →
          accelerate_cgeev env fm fl mem jobvl jobvr n a lda w vl ldvl vr ldvr work lwork rwork info =
            fl mem jobvl jobvr n a lda w vl ldvl vr ldvr work lwork rwork info) ∧
      (accelerate_cgeev env fm fl mem jobvl jobvr n a lda w vl ldvl vr ldvr work lwork rwork info =
          fm mem jobvl jobvr n a lda w vl ldvl vr ldvr work lwork rwork info ∨
        accelerate_cgeev env fm fl mem jobvl jobvr n a lda w vl ldvl vr ldvr work lwork rwork info =
          fl mem jobvl jobvr n a lda w vl ldvl vr ldvr work lwork rwork info)) ∧
    (∀ (env : Env) (fm fl : ZgeevFn) (mem : Mem)
        (jobvl : CharPtr) (jobvr : CharPtr) (n : IntPtr) (a : DCplxArr) (lda : IntPtr)
        (w : DCplxArr) (vl : DCplxArr) (ldvl : IntPtr) (vr : DCplxArr) (ldvr : IntPtr)
        (work : DCplxArr) (lwork : IntPtr) (rwork : DoubleArr) (info : IntPtr),
      (builtinAvailable env accelerate_zgeev_threshold = false →
          accelerate_zgeev env fm fl mem jobvl jobvr n a lda w vl ldvl vr ldvr work lwork rwork info =
            fl mem jobvl jobvr n a lda w vl ldvl vr ldvr work lwork rwork info) ∧
      (accelerate_zgeev env fm fl mem jobvl jobvr n a lda w vl ldvl vr ldvr work lwork rwork info =
          fm mem jobvl jobvr n a lda w vl ldvl vr ldvr work lwork rwork info ∨
        accelerate_zgeev env fm fl mem jobvl jobvr n a lda w vl ldvl vr ldvr work lwork rwork info =
          fl mem jobvl jobvr n a lda w vl ldvl vr ldvr work lwork rwork info)) ∧
    (∀ (env : Env) (fm fl : SsyevdFn) (mem : Mem)
        (jobz : CharPtr) (uplo : CharPtr) (n : IntPtr) (a : FloatArr) (lda : IntPtr)
        (w : FloatArr) (work : FloatArr) (lwork : IntPtr) (iwork : IntArr) (liwork : IntPtr)
        (info : IntPtr),
      (builtinAvailable env accelerate_ssyevd_threshold = false →
          accelerate_ssyevd env fm fl mem jobz uplo n a lda w work lwork iwork liwork info =
            fl mem jobz uplo n a lda w work lwork iwork liwork info) ∧
      (accelerate_ssyevd env fm fl mem jobz uplo n a lda w work lwork iwork liwork info =
          fm mem jobz uplo n a lda w work lwork iwork liwork info ∨
        accelerate_ssyevd env fm fl mem jobz uplo n a lda w work lwork iwork liwork info =
          fl mem jobz uplo n a lda w work lwork iwork liwork info)) ∧
    (∀ (env : Env) (fm fl : DsyevdFn) (mem : Mem)
        (jobz : CharPtr) (uplo : CharPtr) (n : IntPtr) (a : DoubleArr) (lda : IntPtr)
        (w : DoubleArr) (work : DoubleArr) (lwork : IntPtr) (iwork : IntArr) (liwork : IntPtr)
        (info : IntPtr),
      (builtinAvailable env accelerate_dsyevd_threshold = false →
          accelerate_dsyevd env fm fl mem jobz uplo n a lda w work lwork iwork liwork info =
            fl mem jobz uplo n a lda w work lwork iwork liwork info) ∧
      (accelerate_dsyevd env fm fl mem jobz uplo n a lda w work lwork iwork liwork info =
          fm mem jobz uplo n a lda w work lwork iwork liwork info ∨
        accelerate_dsyevd env fm fl mem jobz uplo n a lda w work lwork iwork liwork info =
          fl mem jobz uplo n a lda w work lwork iwork liwork info)) ∧
    (∀ (env : Env) (fm fl : CheevdFn) (mem : Mem)
        (jobz : CharPtr) (uplo : CharPtr) (n : IntPtr) (a : CplxArr) (lda : IntPtr)
        (w : FloatArr) (work : CplxArr) (lwork : IntPtr) (rwork : FloatArr) (lrwork : IntPtr)
        (iwork : IntArr) (liwork : IntPtr) (info : IntPtr),
      (builtinAvailable env accelerate_cheevd_threshold = false →
          accelerate_cheevd env fm fl mem jobz uplo n a lda w work lwork rwork lrwork iwork liwork info =
            fl mem jobz uplo n a lda w work lwork rwork lrwork iwork liwork info) ∧
      (accelerate_cheevd env fm fl mem jobz uplo n a lda w work lwork rwork lrwork iwork liwork info =
          fm mem jobz uplo n a lda w work lwork rwork lrwork iwork liwork info ∨
        accelerate_cheevd env fm fl mem jobz uplo n a lda w work lwork rwork lrwork iwork liwork info =
          fl mem jobz uplo n a lda w work lwork rwork lrwork iwork liwork info)) ∧
    (∀ (env : Env) (fm fl : ZheevdFn) (mem : Mem)
        (jobz : CharPtr) (uplo : CharPtr) (n : IntPtr) (a : DCplxArr) (lda : IntPtr)
        (w : DoubleArr) (work : DCplxArr) (lwork : IntPtr) (rwork : DoubleArr) (lrwork : IntPtr)
        (iwork : IntArr) (liwork : IntPtr) (info : IntPtr),
      (builtinAvailable env accelerate_zheevd_threshold = false →
          accelerate_zheevd env fm fl mem jobz uplo n a lda w work lwork rwork lrwork iwork liwork info =
            fl mem jobz uplo n a lda w work lwork rwork lrwork iwork liwork info) ∧
      (accelerate_zheevd env fm fl mem jobz uplo n a lda w work lwork rwork lrwork iwork liwork info =
          fm mem jobz uplo n a lda w work lwork rwork lrwork iwork liwork info ∨
        accelerate_zheevd env fm fl mem jobz uplo n a lda w work lwork rwork lrwork iwork liwork info =
          fl mem jobz uplo n a lda w work lwork rwork lrwork iwork liwork info)) ∧
    (∀ (env : Env) (fm fl : SgelsdFn) (mem : Mem)
        (m : IntPtr) (n : IntPtr) (nrhs : IntPtr) (a : FloatArr) (lda : IntPtr)
        (b : FloatArr) (ldb : IntPtr) (s : FloatArr) (rcond : FloatPtr) (rank : IntPtr)
        (work : FloatArr) (lwork : IntPtr) (iwork : IntArr) (info : IntPtr),
      (builtinAvailable env accelerate_sgelsd_threshold = false →
          accelerate_sgelsd env fm fl mem m n nrhs a lda b ldb s rcond rank work lwork iwork info =
            fl mem m n nrhs a lda b ldb s rcond rank work lwork iwork info) ∧
      (accelerate_sgelsd env fm fl mem m n nrhs a lda b ldb s rcond rank work lwork iwork info =
          fm mem m n nrhs a lda b ldb s rcond rank work lwork iwork info ∨
        accelerate_sgelsd env fm fl mem m n nrhs a lda b ldb s rcond rank work lwork iwork info =
          fl mem m n nrhs a lda b ldb s rcond rank work lwork iwork info)) ∧
    (∀ (env : Env) (fm fl : DgelsdFn) (mem : Mem)
        (m : IntPtr) (n : IntPtr) (nrhs : IntPtr) (a : DoubleArr) (lda : IntPtr)
        (b : DoubleArr) (ldb : IntPtr) (s : DoubleArr) (rcond : DoublePtr) (rank : IntPtr)
        (work : DoubleArr) (lwork : IntPtr) (iwork : IntArr) (info : IntPtr),
      (builtinAvailable env accelerate_dgelsd_threshold = false →
          accelerate_dgelsd env fm fl mem m n nrhs a lda b ldb s rcond rank work lwork iwork info =
            fl mem m n nrhs a lda b ldb s rcond rank work lwork iwork info) ∧
      (accelerate_dgelsd env fm fl mem m n nrhs a lda b ldb s rcond rank work lwork iwork info =
          fm mem m n nrhs a lda b ldb s rcond rank work lwork iwork info ∨
        accelerate_dgelsd env fm fl mem m n nrhs a lda b ldb s rcond rank work lwork iwork info =
          fl mem m n nrhs a lda b ldb s rcond rank work lwork iwork info)) ∧
    (∀ (env : Env) (fm fl : CgelsdFn) (mem : Mem)
        (m : IntPtr) (n : IntPtr) (nrhs : IntPtr) (a : CplxArr) (lda : IntPtr)
        (b : CplxArr) (ldb : IntPtr) (s : FloatArr) (rcond : FloatPtr) (rank : IntPtr)
        (work : CplxArr) (lwork : IntPtr) (rwork : FloatArr) (iwork : IntArr) (info : IntPtr),
      (builtinAvailable env accelerate_cgelsd_threshold = false →
          accelerate_cgelsd env fm fl mem m n nrhs a lda b ldb s rcond rank work lwork rwork iwork info =
            fl mem m n nrhs a lda b ldb s rcond rank work lwork rwork iwork info) ∧
      (accelerate_cgelsd env fm fl mem m n nrhs a lda b ldb s rcond rank work lwork rwork iwork info =
          fm mem m n nrhs a lda b ldb s rcond rank work lwork rwork iwork info ∨
        accelerate_cgelsd env fm fl mem m n nrhs a lda b ldb s rcond rank work lwork rwork iwork info =
          fl mem m n nrhs a lda b ldb s rcond rank work lwork rwork iwork info)) ∧
    (∀ (env : Env) (fm fl : ZgelsdFn) (mem : Mem)
        (m : IntPtr) (n : IntPtr) (nrhs : IntPtr) (a : FDCplxArr) (lda : IntPtr)
        (b : FDCplxArr) (ldb : IntPtr) (s : DoubleArr) (rcond : DoublePtr) (rank : IntPtr)
        (work : FDCplxArr) (lwork : IntPtr) (rwork : DoubleArr) (iwork : IntArr) (info : IntPtr),
      (builtinAvailable env accelerate_zgelsd_threshold = false →
          accelerate_zgelsd env fm fl mem m n nrhs a lda b ldb s rcond rank work lwork rwork iwork info =
            fl mem m n nrhs a lda b ldb s rcond rank work lwork rwork iwork info) ∧
      (accelerate_zgelsd env fm fl mem m n nrhs a lda b ldb s rcond rank work lwork rwork iwork info =
          fm mem m n nrhs a lda b ldb s rcond rank work lwork rwork iwork info ∨
        accelerate_zgelsd env fm fl mem m n nrhs a lda b ldb s rcond rank work lwork rwork iwork info =
          fl mem m n nrhs a lda b ldb s rcond rank work lwork rwork iwork info)) ∧
    (∀ (env : Env) (fm fl : DgeqrfFn) (mem : Mem)
        (m : IntPtr) (n : IntPtr) (a : DoubleArr) (lda : IntPtr) (tau : DoubleArr)
        (work : DoubleArr) (lwork : IntPtr) (info : IntPtr),
      (builtinAvailable env accelerate_dgeqrf_threshold = false →
          accelerate_dgeqrf env fm fl mem m n a lda tau work lwork info =
            fl mem m n a lda tau work lwork info) ∧
      (accelerate_dgeqrf env fm fl mem m n a lda tau work lwork info =
          fm mem m n a lda tau work lwork info ∨
        accelerate_dgeqrf env fm fl mem m n a lda tau work lwork info =
          fl mem m n a lda tau work lwork info)) ∧
    (∀ (env : Env) (fm fl : ZgeqrfFn) (mem : Mem)
        (m : IntPtr) (n : IntPtr) (a : DCplxArr) (lda : IntPtr) (tau : DCplxArr)
        (work : DCplxArr) (lwork : IntPtr) (info : IntPtr),
      (builtinAvailable env accelerate_zgeqrf_threshold = false →
          accelerate_zgeqrf env fm fl mem m n a lda tau work lwork info =
            fl mem m n a lda tau work lwork info) ∧
      (accelerate_zgeqrf env fm fl mem m n a lda tau work lwork info =
          fm mem m n a lda tau work lwork info ∨
        accelerate_zgeqrf env fm fl mem m n a lda tau work lwork info =
          fl mem m n a lda tau work lwork info)) ∧
    (∀ (env : Env) (fm fl : DorgqrFn) (mem : Mem)
        (m : IntPtr) (n : IntPtr) (k : IntPtr) (a : DoubleArr) (lda : IntPtr)
        (tau : DoubleArr) (work : DoubleArr) (lwork : IntPtr) (info : IntPtr),
      (builtinAvailable env accelerate_dorgqr_threshold = false →
          accelerate_dorgqr env fm fl mem m n k a lda tau work lwork info =
            fl mem m n k a lda tau work lwork info) ∧
      (accelerate_dorgqr env fm fl mem m n k a lda tau work lwork info =
          fm mem m n k a lda tau work lwork info ∨
        accelerate_dorgqr env fm fl mem m n k a lda tau work lwork info =
          fl mem m n k a lda tau work lwork info)) ∧
    (∀ (env : Env) (fm fl : ZungqrFn) (mem : Mem)
        (m : IntPtr) (n : IntPtr) (k : IntPtr) (a : DCplxArr) (lda : IntPtr)
        (tau : DCplxArr) (work : DCplxArr) (lwork : IntPtr) (info : IntPtr),
      (builtinAvailable env accelerate_zungqr_threshold = false →
          accelerate_zungqr env fm fl mem m n k a lda tau work lwork info =
            fl mem m n k a lda tau work lwork info) ∧
      (accelerate_zungqr env fm fl mem m n k a lda tau work lwork info =
          fm mem m n k a lda tau work lwork info ∨
        accelerate_zungqr env fm fl mem m n k a lda tau work lwork info =
          fl mem m n k a lda tau work lwork info)) ∧
    (∀ (env : Env) (fm fl : SgesvFn) (mem : Mem)
        (n : IntPtr) (nrhs : IntPtr) (a : FloatArr) (lda : IntPtr) (ipiv : IntArr)
        (b : FloatArr) (ldb : IntPtr) (info : IntPtr),
      (builtinAvailable env accelerate_sgesv_threshold = false →
          accelerate_sgesv env fm fl mem n nrhs a lda ipiv b ldb info =
            fl mem n nrhs a lda ipiv b ldb info) ∧
      (accelerate_sgesv env fm fl mem n nrhs a lda ipiv b ldb info =
          fm mem n nrhs a lda ipiv b ldb info ∨
        accelerate_sgesv env fm fl mem n nrhs a lda ipiv b ldb info =
          fl mem n nrhs a lda ipiv b ldb info)) ∧
    (∀ (env : Env) (fm fl : DgesvFn) (mem : Mem)
        (n : IntPtr) (nrhs : IntPtr) (a : DoubleArr) (lda : IntPtr) (ipiv : IntArr)
        (b : DoubleArr) (ldb : IntPtr) (info : IntPtr),
      (builtinAvailable env accelerate_dgesv_threshold = false →
          accelerate_dgesv env fm fl mem n nrhs a lda ipiv b ldb info =
            fl mem n nrhs a lda ipiv b ldb info) ∧
      (accelerate_dgesv env fm fl mem n nrhs a lda ipiv b ldb info =
          fm mem n nrhs a lda ipiv b ldb info ∨
        accelerate_dgesv env fm fl mem n nrhs a lda ipiv b ldb info =
          fl mem n nrhs a lda ipiv b ldb info)) ∧
    (∀ (env : Env) (fm fl : CgesvFn) (mem : Mem)
        (n : IntPtr) (nrhs : IntPtr) (a : CplxArr) (lda : IntPtr) (ipiv : IntArr)
        (b : CplxArr) (ldb : IntPtr) (info : IntPtr),
      (builtinAvailable env accelerate_cgesv_threshold = false →
          accelerate_cgesv env fm fl mem n nrhs a lda ipiv b ldb info =
            fl mem n nrhs a lda ipiv b ldb info) ∧
      (accelerate_cgesv env fm fl mem n nrhs a lda ipiv b ldb info =
          fm mem n nrhs a lda ipiv b ldb info ∨
        accelerate_cgesv env fm fl mem n nrhs a lda ipiv b ldb info =
          fl mem n nrhs a lda ipiv b ldb info)) ∧
    (∀ (env : Env) (fm fl : ZgesvFn) (mem : Mem)
        (n : IntPtr) (nrhs : IntPtr) (a : DCplxArr) (lda : IntPtr) (ipiv : IntArr)
        (b : DCplxArr) (ldb : IntPtr) (info : IntPtr),
      (builtinAvailable env accelerate_zgesv_threshold = false →
          accelerate_zgesv env fm fl mem n nrhs a lda ipiv b ldb info =
            fl mem n nrhs a lda ipiv b ldb info) ∧
      (accelerate_zgesv env fm fl mem n nrhs a lda ipiv b ldb info =
          fm mem n nrhs a lda ipiv b ldb info ∨
        accelerate_zgesv env fm fl mem n nrhs a lda ipiv b ldb info =
          fl mem n nrhs a lda ipiv b ldb info)) ∧
    (∀ (env : Env) (fm fl : SgetrfFn) (mem : Mem)
        (m : IntPtr) (n : IntPtr) (a : FloatArr) (lda : IntPtr) (ipiv : IntArr)
        (info : IntPtr),
      (builtinAvailable env accelerate_sgetrf_threshold = false →
          accelerate_sgetrf env fm fl mem m n a lda ipiv info =
            ((fl mem m n a lda ipiv info).1, none)) ∧
      (accelerate_sgetrf env fm fl mem m n a lda ipiv info =
          ((fm mem m n a lda ipiv info).1, none) ∨
        accelerate_sgetrf env fm fl mem m n a lda ipiv info =
          ((fl mem m n a lda ipiv info).1, none))) ∧
    (∀ (env : Env) (fm fl : DgetrfFn) (mem : Mem)
        (m : IntPtr) (n : IntPtr) (a : DoubleArr) (lda : IntPtr) (ipiv : IntArr)
        (info : IntPtr),
      (builtinAvailable env accelerate_dgetrf_threshold = false →
          accelerate_dgetrf env fm fl mem m n a lda ipiv info =
            ((fl mem m n a lda ipiv info).1, none)) ∧
      (accelerate_dgetrf env fm fl mem m n a lda ipiv info =
          ((fm mem m n a lda ipiv info).1, none) ∨
        accelerate_dgetrf env fm fl mem m n a lda ipiv info =
          ((fl mem m n a lda ipiv info).1, none))) ∧
    (∀ (env : Env) (fm fl : CgetrfFn) (mem : Mem)
        (m : IntPtr) (n : IntPtr) (a : CplxArr) (lda : IntPtr) (ipiv : IntArr)
        (info : IntPtr),
      (builtinAvailable env accelerate_cgetrf_threshold = false →
          accelerate_cgetrf env fm fl mem m n a lda ipiv info =
            ((fl mem m n a lda ipiv info).1, none)) ∧
      (accelerate_cgetrf env fm fl mem m n a lda ipiv info =
          ((fm mem m n a lda ipiv info).1, none) ∨
        accelerate_cgetrf env fm fl mem m n a lda ipiv info =
          ((fl mem m n a lda ipiv info).1, none))) ∧
    (∀ (env : Env) (fm fl : ZgetrfFn) (mem : Mem)
        (m : IntPtr) (n : IntPtr) (a : DCplxArr) (lda : IntPtr) (ipiv : IntArr)
        (info : IntPtr),
      (builtinAvailable env accelerate_zgetrf_threshold = false →
          accelerate_zgetrf env fm fl mem m n a lda ipiv info =
            ((fl mem m n a lda ipiv info).1, none)) ∧
      (accelerate_zgetrf env fm fl mem m n a lda ipiv info =
          ((fm mem m n a lda ipiv info).1, none) ∨
        accelerate_zgetrf env fm fl mem m n a lda ipiv info =
          ((fl mem m n a lda ipiv info).1, none))) ∧
    (∀ (env : Env) (fm fl : SpotrfFn) (mem : Mem)
        (uplo : CharPtr) (n : IntPtr) (a : FloatArr) (lda : IntPtr) (info : IntPtr),
      (builtinAvailable env accelerate_spotrf_threshold = false →
          accelerate_spotrf env fm fl mem uplo n a lda info =
            fl mem uplo n a lda info) ∧
      (accelerate_spotrf env fm fl mem uplo n a lda info =
          fm mem uplo n a lda info ∨
        accelerate_spotrf env fm fl mem uplo n a lda info =
          fl mem uplo n a lda info)) ∧
    (∀ (env : Env) (fm fl : DpotrfFn) (mem : Mem)
        (uplo : CharPtr) (n : IntPtr) (a : DoubleArr) (lda : IntPtr) (info : IntPtr),
      (builtinAvailable env accelerate_dpotrf_threshold = false →
          accelerate_dpotrf env fm fl mem uplo n a lda info =
            fl mem uplo n a lda info) ∧
      (accelerate_dpotrf env fm fl mem uplo n a lda info =
          fm mem uplo n a lda info ∨
        accelerate_dpotrf env fm fl mem uplo n a lda info =
          fl mem uplo n a lda info)) ∧
    (∀ (env : Env) (fm fl : CpotrfFn) (mem : Mem)
        (uplo : CharPtr) (n : IntPtr) (a : CplxArr) (lda : IntPtr) (info : IntPtr),
      (builtinAvailable env accelerate_cpotrf_threshold = false →
          accelerate_cpotrf env fm fl mem uplo n a lda info =
            fl mem uplo n a lda info) ∧
      (accelerate_cpotrf env fm fl mem uplo n a lda info =
          fm mem uplo n a lda info ∨
        accelerate_cpotrf env fm fl mem uplo n a lda info =
          fl mem uplo n a lda info)) ∧
    (∀ (env : Env) (fm fl : ZpotrfFn) (mem : Mem)
        (uplo : CharPtr) (n : IntPtr) (a : DCplxArr) (lda : IntPtr) (info : IntPtr),
      (builtinAvailable env accelerate_zpotrf_threshold = false →
          accelerate_zpotrf env fm fl mem uplo n a lda info =
            fl mem uplo n a lda info) ∧
      (accelerate_zpotrf env fm fl mem uplo n a lda info =
          fm mem uplo n a lda info ∨
        accelerate_zpotrf env fm fl mem uplo n a lda info =
          fl mem uplo n a lda info)) ∧
    (∀ (env : Env) (fm fl : SgesddFn) (mem : Mem)
        (jobz : CharPtr) (m : IntPtr) (n : IntPtr) (a : FloatArr) (lda : IntPtr)
        (s : FloatArr) (u : FloatArr) (ldu : IntPtr) (vt : FloatArr) (ldvt : IntPtr)
        (work : FloatArr) (lwork : IntPtr) (iwork : IntArr) (info : IntPtr),
      (builtinAvailable env accelerate_sgesdd_threshold = false →
          accelerate_sgesdd env fm fl mem jobz m n a lda s u ldu vt ldvt work lwork iwork info =
            fl mem jobz m n a lda s u ldu vt ldvt work lwork iwork info) ∧
      (accelerate_sgesdd env fm fl mem jobz m n a lda s u ldu vt ldvt work lwork iwork info =
          fm mem jobz m n a lda s u ldu vt ldvt work lwork iwork info ∨
        accelerate_sgesdd env fm fl mem jobz m n a lda s u ldu vt ldvt work lwork iwork info =
          fl mem jobz m n a lda s u ldu vt ldvt work lwork iwork info)) ∧
    (∀ (env : Env) (fm fl : DgesddFn) (mem : Mem)
        (jobz : CharPtr) (m : IntPtr) (n : IntPtr) (a : DoubleArr) (lda : IntPtr)
        (s : DoubleArr) (u : DoubleArr) (ldu : IntPtr) (vt : DoubleArr) (ldvt : IntPtr)
        (work : DoubleArr) (lwork : IntPtr) (iwork : IntArr) (info : IntPtr),
      (builtinAvailable env accelerate_dgesdd_threshold = false →
          accelerate_dgesdd env fm fl mem jobz m n a lda s u ldu vt ldvt work lwork iwork info =
            fl mem jobz m n a lda s u ldu vt ldvt work lwork iwork info) ∧
      (accelerate_dgesdd env fm fl mem jobz m n a lda s u ldu vt ldvt work lwork iwork info =
          fm mem jobz m n a lda s u ldu vt ldvt work lwork iwork info ∨
        accelerate_dgesdd env fm fl mem jobz m n a lda s u ldu vt ldvt work lwork iwork info =
          fl mem jobz m n a lda s u ldu vt ldvt work lwork iwork info)) ∧
    (∀ (env : Env) (fm fl : CgesddFn) (mem : Mem)
        (jobz : CharPtr) (m : IntPtr) (n : IntPtr) (a : CplxArr) (lda : IntPtr)
        (s : FloatArr) (u : CplxArr) (ldu : IntPtr) (vt : CplxArr) (ldvt : IntPtr)
        (work : CplxArr) (lwork : IntPtr) (rwork : FloatArr) (iwork : IntArr) (info : IntPtr),
      (builtinAvailable env accelerate_cgesdd_threshold = false →
          accelerate_cgesdd env fm fl mem jobz m n a lda s u ldu vt ldvt work lwork rwork iwork info =
            fl mem jobz m n a lda s u ldu vt ldvt work lwork rwork iwork info) ∧
      (accelerate_cgesdd env fm fl mem jobz m n a lda s u ldu vt ldvt work lwork rwork iwork info =
          fm mem jobz m n a lda s u ldu vt ldvt work lwork rwork iwork info ∨
        accelerate_cgesdd env fm fl mem jobz m n a lda s u ldu vt ldvt work lwork rwork iwork info =
          fl mem jobz m n a lda s u ldu vt ldvt work lwork rwork iwork info)) ∧
    (∀ (env : Env) (fm fl : ZgesddFn) (mem : Mem)
        (jobz : CharPtr) (m : IntPtr) (n : IntPtr) (a : DCplxArr) (lda : IntPtr)
        (s : DoubleArr) (u : DCplxArr) (ldu : IntPtr) (vt : DCplxArr) (ldvt : IntPtr)
        (work : DCplxArr) (lwork : IntPtr) (rwork : DoubleArr) (iwork : IntArr) (info : IntPtr),
      (builtinAvailable env accelerate_zgesdd_threshold = false →
          accelerate_zgesdd env fm fl mem jobz m n a lda s u ldu vt ldvt work lwork rwork iwork info =
            fl mem jobz m n a lda s u ldu vt ldvt work lwork rwork iwork info) ∧
      (accelerate_zgesdd env fm fl mem jobz m n a lda s u ldu vt ldvt work lwork rwork iwork info =
          fm mem jobz m n a lda s u ldu vt ldvt work lwork rwork iwork info ∨
        accelerate_zgesdd env fm fl mem jobz m n a lda s u ldu vt ldvt work lwork rwork iwork info =
          fl mem jobz m n a lda s u ldu vt ldvt work lwork rwork iwork info)) ∧
    (∀ (env : Env) (fm fl : SpotrsFn) (mem : Mem)
        (uplo : CharPtr) (n : IntPtr) (nrhs : IntPtr) (a : FloatArr) (lda : IntPtr)
        (b : FloatArr) (ldb : IntPtr) (info : IntPtr),
      (builtinAvailable env accelerate_spotrs_threshold = false →
          accelerate_spotrs env fm fl mem uplo n nrhs a lda b ldb info =
            fl mem uplo n nrhs a lda b ldb info) ∧
      (accelerate_spotrs env fm fl mem uplo n nrhs a lda b ldb info =
          fm mem uplo n nrhs a lda b ldb info ∨
        accelerate_spotrs env fm fl mem uplo n nrhs a lda b ldb info =
          fl mem uplo n nrhs a lda b ldb info)) ∧
    (∀ (env : Env) (fm fl : DpotrsFn) (mem : Mem)
        (uplo : CharPtr) (n : IntPtr) (nrhs : IntPtr) (a : DoubleArr) (lda : IntPtr)
        (b : DoubleArr) (ldb : IntPtr) (info : IntPtr),
      (builtinAvailable env accelerate_dpotrs_threshold = false →
          accelerate_dpotrs env fm fl mem uplo n nrhs a lda b ldb info =
            fl mem uplo n nrhs a lda b ldb info) ∧
      (accelerate_dpotrs env fm fl mem uplo n nrhs a lda b ldb info =
          fm mem uplo n nrhs a lda b ldb info ∨
        accelerate_dpotrs env fm fl mem uplo n nrhs a lda b ldb info =
          fl mem uplo n nrhs a lda b ldb info)) ∧
    (∀ (env : Env) (fm fl : CpotrsFn) (mem : Mem)
        (uplo : CharPtr) (n : IntPtr) (nrhs : IntPtr) (a : CplxArr) (lda : IntPtr)
        (b : CplxArr) (ldb : IntPtr) (info : IntPtr),
      (builtinAvailable env accelerate_cpotrs_threshold = false →
          accelerate_cpotrs env fm fl mem uplo n nrhs a lda b ldb info =
            fl mem uplo n nrhs a lda b ldb info) ∧
      (accelerate_cpotrs env fm fl mem uplo n nrhs a lda b ldb info =
          fm mem uplo n nrhs a lda b ldb info ∨
        accelerate_cpotrs env fm fl mem uplo n nrhs a lda b ldb info =
          fl mem uplo n nrhs a lda b ldb info)) ∧
    (∀ (env : Env) (fm fl : ZpotrsFn) (mem : Mem)
        (uplo : CharPtr) (n : IntPtr) (nrhs : IntPtr) (a : DCplxArr) (lda : IntPtr)
        (b : DCplxArr) (ldb : IntPtr) (info : IntPtr),
      (builtinAvailable env accelerate_zpotrs_threshold = false →
          accelerate_zpotrs env fm fl mem uplo n nrhs a lda b ldb info =
            fl mem uplo n nrhs a lda b ldb info) ∧
      (accelerate_zpotrs env fm fl mem uplo n nrhs a lda b ldb info =
          fm mem uplo n nrhs a lda b ldb info ∨
        accelerate_zpotrs env fm fl mem uplo n nrhs a lda b ldb info =
          fl mem uplo n nrhs a lda b ldb info)) ∧
    (∀ (env : Env) (fm fl : SpotriFn) (mem : Mem)
        (uplo : CharPtr) (n : IntPtr) (a : FloatArr) (lda : IntPtr) (info : IntPtr),
      (builtinAvailable env accelerate_spotri_threshold = false →
          accelerate_spotri env fm fl mem uplo n a lda info =
            fl mem uplo n a lda info) ∧
      (accelerate_spotri env fm fl mem uplo n a lda info =
          fm mem uplo n a lda info ∨
        accelerate_spotri env fm fl mem uplo n a lda info =
          fl mem uplo n a lda info)) ∧
    (∀ (env : Env) (fm fl : DpotriFn) (mem : Mem)
        (uplo : CharPtr) (n : IntPtr) (a : DoubleArr) (lda : IntPtr) (info : IntPtr),
      (builtinAvailable env accelerate_dpotri_threshold = false →
          accelerate_dpotri env fm fl mem uplo n a lda info =
            fl mem uplo n a lda info) ∧
      (accelerate_dpotri env fm fl mem uplo n a lda info =
          fm mem uplo n a lda info ∨
        accelerate_dpotri env fm fl mem uplo n a lda info =
          fl mem uplo n a lda info)) ∧
    (∀ (env : Env) (fm fl : CpotriFn) (mem : Mem)
        (uplo : CharPtr) (n : IntPtr) (a : CplxArr) (lda : IntPtr) (info : IntPtr),
      (builtinAvailable env accelerate_cpotri_threshold = false →
          accelerate_cpotri env fm fl mem uplo n a lda info =
            fl mem uplo n a lda info) ∧
      (accelerate_cpotri env fm fl mem uplo n a lda info =
          fm mem uplo n a lda info ∨
        accelerate_cpotri env fm fl mem uplo n a lda info =
          fl mem uplo n a lda info)) ∧
    (∀ (env : Env) (fm fl : ZpotriFn) (mem : Mem)
        (uplo : CharPtr) (n : IntPtr) (a : DCplxArr) (lda : IntPtr) (info : IntPtr),
      (builtinAvailable env accelerate_zpotri_threshold = false →
          accelerate_zpotri env fm fl mem uplo n a lda info =
            fl mem uplo n a lda info) ∧
      (accelerate_zpotri env fm fl mem uplo n a lda info =
          fm mem uplo n a lda info ∨
        accelerate_zpotri env fm fl mem uplo n a lda info =
          fl mem uplo n a lda info)) ∧
    (∀ (env : Env) (fm fl : ScopyFn) (mem : Mem)
        (n : IntPtr) (sx : FloatPtr) (incx : IntPtr) (sy : FloatPtr) (incy : IntPtr),
      (builtinAvailable env accelerate_scopy_threshold = false →
          accelerate_scopy env fm fl mem n sx incx sy incy =
            ((fl mem n sx incx sy incy).1, none)) ∧
      (accelerate_scopy env fm fl mem n sx incx sy incy =
          ((fm mem n sx incx sy incy).1, none) ∨
        accelerate_scopy env fm fl mem n sx incx sy incy =
          ((fl mem n sx incx sy incy).1, none))) ∧
    (∀ (env : Env) (fm fl : DcopyFn) (mem : Mem)
        (n : IntPtr) (sx : DoublePtr) (incx : IntPtr) (sy : DoublePtr) (incy : IntPtr),
      (builtinAvailable env accelerate_dcopy_threshold = false →
          accelerate_dcopy env fm fl mem n sx incx sy incy =
            ((fl mem n sx incx sy incy).1, none)) ∧
      (accelerate_dcopy env fm fl mem n sx incx sy incy =
          ((fm mem n sx incx sy incy).1, none) ∨
        accelerate_dcopy env fm fl mem n sx incx sy incy =
          ((fl mem n sx incx sy incy).1, none))) ∧
    (∀ (env : Env) (fm fl : CcopyFn) (mem : Mem)
        (n : IntPtr) (sx : CplxPtr) (incx : IntPtr) (sy : CplxPtr) (incy : IntPtr),
      (builtinAvailable env accelerate_ccopy_threshold = false →
          accelerate_ccopy env fm fl mem n sx incx sy incy =
            ((fl mem n sx incx sy incy).1, none)) ∧
      (accelerate_ccopy env fm fl mem n sx incx sy incy =
          ((fm mem n sx incx sy incy).1, none) ∨
        accelerate_ccopy env fm fl mem n sx incx sy incy =
          ((fl mem n sx incx sy incy).1, none))) ∧
    (∀ (env : Env) (fm fl : ZcopyFn) (mem : Mem)
        (n : IntPtr) (sx : DCplxPtr) (incx : IntPtr) (sy : DCplxPtr) (incy : IntPtr),
      (builtinAvailable env accelerate_zcopy_threshold = false →
          accelerate_zcopy env fm fl mem n sx incx sy incy =
            ((fl mem n sx incx sy incy).1, none)) ∧
      (accelerate_zcopy env fm fl mem n sx incx sy incy =
          ((fm mem n sx incx sy incy).1, none) ∨
        accelerate_zcopy env fm fl mem n sx incx sy incy =
          ((fl mem n sx incx sy incy).1, none))) ∧
    (∀ (env : Env) (fm fl : SdotFn) (mem : Mem)
        (n : IntPtr) (sx : FloatPtr) (incx : IntPtr) (sy : FloatPtr) (incy : IntPtr),
      (builtinAvailable env accelerate_sdot_threshold = false →
          accelerate_sdot env fm fl mem n sx incx sy incy =
            ((fl mem n sx incx sy incy).1, none)) ∧
      (accelerate_sdot env fm fl mem n sx incx sy incy =
          ((fm mem n sx incx sy incy).1, none) ∨
        accelerate_sdot env fm fl mem n sx incx sy incy =
          ((fl mem n sx incx sy incy).1, none))) ∧
    (∀ (env : Env) (fm fl : DdotFn) (mem : Mem)
        (n : IntPtr) (sx : DoublePtr) (incx : IntPtr) (sy : DoublePtr) (incy : IntPtr),
      (builtinAvailable env accelerate_ddot_threshold = false →
          accelerate_ddot env fm fl mem n sx incx sy incy =
            ((fl mem n sx incx sy incy).1, none)) ∧
      (accelerate_ddot env fm fl mem n sx incx sy incy =
          ((fm mem n sx incx sy incy).1, none) ∨
        accelerate_ddot env fm fl mem n sx incx sy incy =
          ((fl mem n sx incx sy incy).1, none))) ∧
    (∀ (env : Env) (fm fl : CdotuFn) (mem : Mem)
        (ret : CplxPtr) (n : IntPtr) (sx : CplxPtr) (incx : IntPtr) (sy : CplxPtr)
        (incy : IntPtr),
      (builtinAvailable env accelerate_cdotu_threshold = false →
          accelerate_cdotu env fm fl mem ret n sx incx sy incy =
            fl mem ret n sx incx sy incy) ∧
      (accelerate_cdotu env fm fl mem ret n sx incx sy incy =
          fm mem ret n sx incx sy incy ∨
        accelerate_cdotu env fm fl mem ret n sx incx sy incy =
          fl mem ret n sx incx sy incy)) ∧
    (∀ (env : Env) (fm fl : ZdotuFn) (mem : Mem)
        (ret : DCplxPtr) (n : IntPtr) (sx : DCplxPtr) (incx : IntPtr) (sy : DCplxPtr)
        (incy : IntPtr),
      (builtinAvailable env accelerate_zdotu_threshold = false →
          accelerate_zdotu env fm fl mem ret n sx incx sy incy =
            fl mem ret n sx incx sy incy) ∧
      (accelerate_zdotu env fm fl mem ret n sx incx sy incy =
          fm mem ret n sx incx sy incy ∨
        accelerate_zdotu env fm fl mem ret n sx incx sy incy =
          fl mem ret n sx incx sy incy)) ∧
    (∀ (env : Env) (fm fl : CdotcFn) (mem : Mem)
        (ret : CplxPtr) (n : IntPtr) (sx : CplxPtr) (incx : IntPtr) (sy : CplxPtr)
        (incy : IntPtr),
      (builtinAvailable env accelerate_cdotc_threshold = false →
          accelerate_cdotc env fm fl mem ret n sx incx sy incy =
            fl mem ret n sx incx sy incy) ∧
      (accelerate_cdotc env fm fl mem ret n sx incx sy incy =
          fm mem ret n sx incx sy incy ∨
        accelerate_cdotc env fm fl mem ret n sx incx sy incy =
          fl mem ret n sx incx sy incy)) ∧
    (∀ (env : Env) (fm fl : ZdotcFn) (mem : Mem)
        (ret : DCplxPtr) (n : IntPtr) (sx : DCplxPtr) (incx : IntPtr) (sy : DCplxPtr)
        (incy : IntPtr),
      (builtinAvailable env accelerate_zdotc_threshold = false →
          accelerate_zdotc env fm fl mem ret n sx incx sy incy =
            fl mem ret n sx incx sy incy) ∧
      (accelerate_zdotc env fm fl mem ret n sx incx sy incy =
          fm mem ret n sx incx sy incy ∨
        accelerate_zdotc env fm fl mem ret n sx incx sy incy =
          fl mem ret n sx incx sy incy)) ∧
    (∀ (env : Env) (fm fl : SgemmFn) (mem : Mem)
        (transa : CharPtr) (transb : CharPtr) (m : IntPtr) (n : IntPtr) (k : IntPtr)
        (alpha : FloatPtr) (a : FloatPtr) (lda : IntPtr) (b : FloatPtr) (ldb : IntPtr)
        (beta : FloatPtr) (c : FloatPtr) (ldc : IntPtr),
      (builtinAvailable env accelerate_sgemm_threshold = false →
          accelerate_sgemm env fm fl mem transa transb m n k alpha a lda b ldb beta c ldc =
            fl mem transa transb m n k alpha a lda b ldb beta c ldc) ∧
      (accelerate_sgemm env fm fl mem transa transb m n k alpha a lda b ldb beta c ldc =
          fm mem transa transb m n k alpha a lda b ldb beta c ldc ∨
        accelerate_sgemm env fm fl mem transa transb m n k alpha a lda b ldb beta c ldc =
          fl mem transa transb m n k alpha a lda b ldb beta c ldc)) ∧
    (∀ (env : Env) (fm fl : DgemmFn) (mem : Mem)
        (transa : CharPtr) (transb : CharPtr) (m : IntPtr) (n : IntPtr) (k : IntPtr)
        (alpha : DoublePtr) (a : DoublePtr) (lda : IntPtr) (b : DoublePtr) (ldb : IntPtr)
        (beta : DoublePtr) (c : DoublePtr) (ldc : IntPtr),
      (builtinAvailable env accelerate_dgemm_threshold = false →
          accelerate_dgemm env fm fl mem transa transb m n k alpha a lda b ldb beta c ldc =
            fl mem transa transb m n k alpha a lda b ldb beta c ldc) ∧
      (accelerate_dgemm env fm fl mem transa transb m n k alpha a lda b ldb beta c ldc =
          fm mem transa transb m n k alpha a lda b ldb beta c ldc ∨
        accelerate_dgemm env fm fl mem transa transb m n k alpha a lda b ldb beta c ldc =
          fl mem transa transb m n k alpha a lda b ldb beta c ldc)) ∧
    (∀ (env : Env) (fm fl : CgemmFn) (mem : Mem)
        (transa : CharPtr) (transb : CharPtr) (m : IntPtr) (n : IntPtr) (k : IntPtr)
        (alpha : CplxPtr) (a : CplxPtr) (lda : IntPtr) (b : CplxPtr) (ldb : IntPtr)
        (beta : CplxPtr) (c : CplxPtr) (ldc : IntPtr),
      (builtinAvailable env accelerate_cgemm_threshold = false →
          accelerate_cgemm env fm fl mem transa transb m n k alpha a lda b ldb beta c ldc =
            fl mem transa transb m n k alpha a lda b ldb beta c ldc) ∧
      (accelerate_cgemm env fm fl mem transa transb m n k alpha a lda b ldb beta c ldc =
          fm mem transa transb m n k alpha a lda b ldb beta c ldc ∨
        accelerate_cgemm env fm fl mem transa transb m n k alpha a lda b ldb beta c ldc =
          fl mem transa transb m n k alpha a lda b ldb beta c ldc)) ∧
    (∀ (env : Env) (fm fl : ZgemmFn) (mem : Mem)
        (transa : CharPtr) (transb : CharPtr) (m : IntPtr) (n : IntPtr) (k : IntPtr)
        (alpha : DCplxPtr) (a : DCplxPtr) (lda : IntPtr) (b : DCplxPtr) (ldb : IntPtr)
        (beta : DCplxPtr) (c : DCplxPtr) (ldc : IntPtr),
      (builtinAvailable env accelerate_zgemm_threshold = false →
          accelerate_zgemm env fm fl mem transa transb m n k alpha a lda b ldb beta c ldc =
            fl mem transa transb m n k alpha a lda b ldb beta c ldc) ∧
      (accelerate_zgemm env fm fl mem transa transb m n k alpha a lda b ldb beta c ldc =
          fm mem transa transb m n k alpha a lda b ldb beta c ldc ∨
        accelerate_zgemm env fm fl mem transa transb m n k alpha a lda b ldb beta c ldc =
          fl mem transa transb m n k alpha a lda b ldb beta c ldc)) :=
  ⟨
    fun env fm fl mem jobvl jobvr n a lda wr wi vl ldvl vr ldvr work lwork info =>
      ⟨fun h => by simp [accelerate_sgeev, h],
        by by_cases h : builtinAvailable env accelerate_sgeev_threshold = true <;>
          simp [accelerate_sgeev, h]⟩,
    fun env fm fl mem jobvl jobvr n a lda wr wi vl ldvl vr ldvr work lwork info =>
      ⟨fun h => by simp [accelerate_dgeev, h],
        by by_cases h : builtinAvailable env accelerate_dgeev_threshold = true <;>
          simp [accelerate_dgeev, h]⟩,
    fun env fm fl mem jobvl jobvr n a lda w vl ldvl vr ldvr work lwork rwork info =>
      ⟨fun h => by simp [accelerate_cgeev, h],
        by by_cases h : builtinAvailable env accelerate_cgeev_threshold = true <;>
          simp [accelerate_cgeev, h]⟩,
    fun env fm fl mem jobvl jobvr n a lda w vl ldvl vr ldvr work lwork rwork info =>
      ⟨fun h => by simp [accelerate_zgeev, h],
        by by_cases h : builtinAvailable env accelerate_zgeev_threshold = true <;>
          simp [accelerate_zgeev, h]⟩,
    fun env fm fl mem jobz uplo n a lda w work lwork iwork liwork info =>
      ⟨fun h => by simp [accelerate_ssyevd, h],
        by by_cases h : builtinAvailable env accelerate_ssyevd_threshold = true <;>
          simp [accelerate_ssyevd, h]⟩,
    fun env fm fl mem jobz uplo n a lda w work lwork iwork liwork info =>
      ⟨fun h => by simp [accelerate_dsyevd, h],
        by by_cases h : builtinAvailable env accelerate_dsyevd_threshold = true <;>
          simp [accelerate_dsyevd, h]⟩,
    fun env fm fl mem jobz uplo n a lda w work lwork rwork lrwork iwork liwork info =>
      ⟨fun h => by simp [accelerate_cheevd, h],
        by by_cases h : builtinAvailable env accelerate_cheevd_threshold = true <;>
          simp [accelerate_cheevd, h]⟩,
    fun env fm fl mem jobz uplo n a lda w work lwork rwork lrwork iwork liwork info =>
      ⟨fun h => by simp [accelerate_zheevd, h],
        by by_cases h : builtinAvailable env accelerate_zheevd_threshold = true <;>
          simp [accelerate_zheevd, h]⟩,
    fun env fm fl mem m n nrhs a lda b ldb s rcond rank work lwork iwork info =>
      ⟨fun h => by simp [accelerate_sgelsd, h],
        by by_cases h : builtinAvailable env accelerate_sgelsd_threshold = true <;>
          simp [accelerate_sgelsd, h]⟩,
    fun env fm fl mem m n nrhs a lda b ldb s rcond rank work lwork iwork info =>
      ⟨fun h => by simp [accelerate_dgelsd, h],
        by by_cases h : builtinAvailable env accelerate_dgelsd_threshold = true <;>
          simp [accelerate_dgelsd, h]⟩,
    fun env fm fl mem m n nrhs a lda b ldb s rcond rank work lwork rwork iwork info =>
      ⟨fun h => by simp [accelerate_cgelsd, h],
        by by_cases h : builtinAvailable env accelerate_cgelsd_threshold = true <;>
          simp [accelerate_cgelsd, h]⟩,
    fun env fm fl mem m n nrhs a lda b ldb s rcond rank work lwork rwork iwork info =>
      ⟨fun h => by simp [accelerate_zgelsd, h],
        by by_cases h : builtinAvailable env accelerate_zgelsd_threshold = true <;>
          simp [accelerate_zgelsd, h]⟩,
    fun env fm fl mem m n a lda tau work lwork info =>
      ⟨fun h => by simp [accelerate_dgeqrf, h],
        by by_cases h : builtinAvailable env accelerate_dgeqrf_threshold = true <;>
          simp [accelerate_dgeqrf, h]⟩,
    fun env fm fl mem m n a lda tau work lwork info =>
      ⟨fun h => by simp [accelerate_zgeqrf, h],
        by by_cases h : builtinAvailable env accelerate_zgeqrf_threshold = true <;>
          simp [accelerate_zgeqrf, h]⟩,
    fun env fm fl mem m n k a lda tau work lwork info =>
      ⟨fun h => by simp [accelerate_dorgqr, h],
        by by_cases h : builtinAvailable env accelerate_dorgqr_threshold = true <;>
          simp [accelerate_dorgqr, h]⟩,
    fun env fm fl mem m n k a lda tau work lwork info =>
      ⟨fun h => by simp [accelerate_zungqr, h],
        by by_cases h : builtinAvailable env accelerate_zungqr_threshold = true <;>
          simp [accelerate_zungqr, h]⟩,
    fun env fm fl mem n nrhs a lda ipiv b ldb info =>
      ⟨fun h => by simp [accelerate_sgesv, h],
        by by_cases h : builtinAvailable env accelerate_sgesv_threshold = true <;>
          simp [accelerate_sgesv, h]⟩,
    fun env fm fl mem n nrhs a lda ipiv b ldb info =>
      ⟨fun h => by simp [accelerate_dgesv, h],
        by by_cases h : builtinAvailable env accelerate_dgesv_threshold = true <;>
          simp [accelerate_dgesv, h]⟩,
    fun env fm fl mem n nrhs a lda ipiv b ldb info =>
      ⟨fun h => by simp [accelerate_cgesv, h],
        by by_cases h : builtinAvailable env accelerate_cgesv_threshold = true <;>
          simp [accelerate_cgesv, h]⟩,
    fun env fm fl mem n nrhs a lda ipiv b ldb info =>
      ⟨fun h => by simp [accelerate_zgesv, h],
        by by_cases h : builtinAvailable env accelerate_zgesv_threshold = true <;>
          simp [accelerate_zgesv, h]⟩,
    fun env fm fl mem m n a lda ipiv info =>
      ⟨fun h => by simp [accelerate_sgetrf, h],
        by by_cases h : builtinAvailable env accelerate_sgetrf_threshold = true <;>
          simp [accelerate_sgetrf, h]⟩,
    fun env fm fl mem m n a lda ipiv info =>
      ⟨fun h => by simp [accelerate_dgetrf, h],
        by by_cases h : builtinAvailable env accelerate_dgetrf_threshold = true <;>
          simp [accelerate_dgetrf, h]⟩,
    fun env fm fl mem m n a lda ipiv info =>
      ⟨fun h => by simp [accelerate_cgetrf, h],
        by by_cases h : builtinAvailable env accelerate_cgetrf_threshold = true <;>
          simp [accelerate_cgetrf, h]⟩,
    fun env fm fl mem m n a lda ipiv info =>
      ⟨fun h => by simp [accelerate_zgetrf, h],
        by by_cases h : builtinAvailable env accelerate_zgetrf_threshold = true <;>
          simp [accelerate_zgetrf, h]⟩,
    fun env fm fl mem uplo n a lda info =>
      ⟨fun h => by simp [accelerate_spotrf, h],
        by by_cases h : builtinAvailable env accelerate_spotrf_threshold = true <;>
          simp [accelerate_spotrf, h]⟩,
    fun env fm fl mem uplo n a lda info =>
      ⟨fun h => by simp [accelerate_dpotrf, h],
        by by_cases h : builtinAvailable env accelerate_dpotrf_threshold = true <;>
          simp [accelerate_dpotrf, h]⟩,
    fun env fm fl mem uplo n a lda info =>
      ⟨fun h => by simp [accelerate_cpotrf, h],
        by by_cases h : builtinAvailable env accelerate_cpotrf_threshold = true <;>
          simp [accelerate_cpotrf, h]⟩,
    fun env fm fl mem uplo n a lda info =>
      ⟨fun h => by simp [accelerate_zpotrf, h],
        by by_cases h : builtinAvailable env accelerate_zpotrf_threshold = true <;>
          simp [accelerate_zpotrf, h]⟩,
    fun env fm fl mem jobz m n a lda s u ldu vt ldvt work lwork iwork info =>
      ⟨fun h => by simp [accelerate_sgesdd, h],
        by by_cases h : builtinAvailable env accelerate_sgesdd_threshold = true <;>
          simp [accelerate_sgesdd, h]⟩,
    fun env fm fl mem jobz m n a lda s u ldu vt ldvt work lwork iwork info =>
      ⟨fun h => by simp [accelerate_dgesdd, h],
        by by_cases h : builtinAvailable env accelerate_dgesdd_threshold = true <;>
          simp [accelerate_dgesdd, h]⟩,
    fun env fm fl mem jobz m n a lda s u ldu vt ldvt work lwork rwork iwork info =>
      ⟨fun h => by simp [accelerate_cgesdd, h],
        by by_cases h : builtinAvailable env accelerate_cgesdd_threshold = true <;>
          simp [accelerate_cgesdd, h]⟩,
    fun env fm fl mem jobz m n a lda s u ldu vt ldvt work lwork rwork iwork info =>
      ⟨fun h => by simp [accelerate_zgesdd, h],
        by by_cases h : builtinAvailable env accelerate_zgesdd_threshold = true <;>
          simp [accelerate_zgesdd, h]⟩,
    fun env fm fl mem uplo n nrhs a lda b ldb info =>
      ⟨fun h => by simp [accelerate_spotrs, h],
        by by_cases h : builtinAvailable env accelerate_spotrs_threshold = true <;>
          simp [accelerate_spotrs, h]⟩,
    fun env fm fl mem uplo n nrhs a lda b ldb info =>
      ⟨fun h => by simp [accelerate_dpotrs, h],
        by by_cases h : builtinAvailable env accelerate_dpotrs_threshold = true <;>
          simp [accelerate_dpotrs, h]⟩,
    fun env fm fl mem uplo n nrhs a lda b ldb info =>
      ⟨fun h => by simp [accelerate_cpotrs, h],
        by by_cases h : builtinAvailable env accelerate_cpotrs_threshold = true <;>
          simp [accelerate_cpotrs, h]⟩,
    fun env fm fl mem uplo n nrhs a lda b ldb info =>
      ⟨fun h => by simp [accelerate_zpotrs, h],
        by by_cases h : builtinAvailable env accelerate_zpotrs_threshold = true <;>
          simp [accelerate_zpotrs, h]⟩,
    fun env fm fl mem uplo n a lda info =>
      ⟨fun h => by simp [accelerate_spotri, h],
        by by_cases h : builtinAvailable env accelerate_spotri_threshold = true <;>
          simp [accelerate_spotri, h]⟩,
    fun env fm fl mem uplo n a lda info =>
      ⟨fun h => by simp [accelerate_dpotri, h],
        by by_cases h : builtinAvailable env accelerate_dpotri_threshold = true <;>
          simp [accelerate_dpotri, h]⟩,
    fun env fm fl mem uplo n a lda info =>
      ⟨fun h => by simp [accelerate_cpotri, h],
        by by_cases h : builtinAvailable env accelerate_cpotri_threshold = true <;>
          simp [accelerate_cpotri, h]⟩,
    fun env fm fl mem uplo n a lda info =>
      ⟨fun h => by simp [accelerate_zpotri, h],
        by by_cases h : builtinAvailable env accelerate_zpotri_threshold = true <;>
          simp [accelerate_zpotri, h]⟩,
    fun env fm fl mem n sx incx sy incy =>
      ⟨fun h => by simp [accelerate_scopy, h],
        by by_cases h : builtinAvailable env accelerate_scopy_threshold = true <;>
          simp [accelerate_scopy, h]⟩,
    fun env fm fl mem n sx incx sy incy =>
      ⟨fun h => by simp [accelerate_dcopy, h],
        by by_cases h : builtinAvailable env accelerate_dcopy_threshold = true <;>
          simp [accelerate_dcopy, h]⟩,
    fun env fm fl mem n sx incx sy incy =>
      ⟨fun h => by simp [accelerate_ccopy, h],
        by by_cases h : builtinAvailable env accelerate_ccopy_threshold = true <;>
          simp [accelerate_ccopy, h]⟩,
    fun env fm fl mem n sx incx sy incy =>
      ⟨fun h => by simp [accelerate_zcopy, h],
        by by_cases h : builtinAvailable env accelerate_zcopy_threshold = true <;>
          simp [accelerate_zcopy, h]⟩,
    fun env fm fl mem n sx incx sy incy =>
      ⟨fun h => by simp [accelerate_sdot, h],
        by by_cases h : builtinAvailable env accelerate_sdot_threshold = true <;>
          simp [accelerate_sdot, h]⟩,
    fun env fm fl mem n sx incx sy incy =>
      ⟨fun h => by simp [accelerate_ddot, h],
        by by_cases h : builtinAvailable env accelerate_ddot_threshold = true <;>
          simp [accelerate_ddot, h]⟩,
    fun env fm fl mem ret n sx incx sy incy =>
      ⟨fun h => by simp [accelerate_cdotu, h],
        by by_cases h : builtinAvailable env accelerate_cdotu_threshold = true <;>
          simp [accelerate_cdotu, h]⟩,
    fun env fm fl mem ret n sx incx sy incy =>
      ⟨fun h => by simp [accelerate_zdotu, h],
        by by_cases h : builtinAvailable env accelerate_zdotu_threshold = true <;>
          simp [accelerate_zdotu, h]⟩,
    fun env fm fl mem ret n sx incx sy incy =>
      ⟨fun h => by simp [accelerate_cdotc, h],
        by by_cases h : builtinAvailable env accelerate_cdotc_threshold = true <;>
          simp [accelerate_cdotc, h]⟩,
    fun env fm fl mem ret n sx incx sy incy =>
      ⟨fun h => by simp [accelerate_zdotc, h],
        by by_cases h : builtinAvailable env accelerate_zdotc_threshold = true <;>
          simp [accelerate_zdotc, h]⟩,
    fun env fm fl mem transa transb m n k alpha a lda b ldb beta c ldc =>
      ⟨fun h => by simp [accelerate_sgemm, h],
        by by_cases h : builtinAvailable env accelerate_sgemm_threshold = true <;>
          simp [accelerate_sgemm, h]⟩,
    fun env fm fl mem transa transb m n k alpha a lda b ldb beta c ldc =>
      ⟨fun h => by simp [accelerate_dgemm, h],
        by by_cases h : builtinAvailable env accelerate_dgemm_threshold = true <;>
          simp [accelerate_dgemm, h]⟩,
    fun env fm fl mem transa transb m n k alpha a lda b ldb beta c ldc =>
      ⟨fun h => by simp [accelerate_cgemm, h],
        by by_cases h : builtinAvailable env accelerate_cgemm_threshold = true <;>
          simp [accelerate_cgemm, h]⟩,
    fun env fm fl mem transa transb m n k alpha a lda b ldb beta c ldc =>
      ⟨fun h => by simp [accelerate_zgemm, h],
        by by_cases h : builtinAvailable env accelerate_zgemm_threshold = true <;>
          simp [accelerate_zgemm, h]⟩
  ⟩

/-- Witness for C7: on host version 13.2 the capability predicate is false
and `accelerate_sgeev` resolves to its legacy entry point. -/
theorem legacy_fallback_witness :
    builtinAvailable ⟨13, 2⟩ accelerate_sgeev_threshold = false ∧
    accelerate_sgeev ⟨13, 2⟩ sgeevNoop sgeevNoop mem0 ⟨0⟩ ⟨0⟩ ⟨0⟩ ⟨0⟩ ⟨0⟩ ⟨0⟩ ⟨0⟩ ⟨0⟩ ⟨0⟩ ⟨0⟩ ⟨0⟩ ⟨0⟩ ⟨0⟩ ⟨0⟩ =
      sgeevNoop mem0 ⟨0⟩ ⟨0⟩ ⟨0⟩ ⟨0⟩ ⟨0⟩ ⟨0⟩ ⟨0⟩ ⟨0⟩ ⟨0⟩ ⟨0⟩ ⟨0⟩ ⟨0⟩ ⟨0⟩ ⟨0⟩ :=
  ⟨by decide,
    (legacy_branch_is_default_fallback.1 ⟨13, 2⟩ sgeevNoop sgeevNoop mem0
        ⟨0⟩ ⟨0⟩ ⟨0⟩ ⟨0⟩ ⟨0⟩ ⟨0⟩ ⟨0⟩ ⟨0⟩ ⟨0⟩ ⟨0⟩ ⟨0⟩ ⟨0⟩ ⟨0⟩ ⟨0⟩).1 (by decide)⟩

/-- C8: the router is stateless and writes nothing of its own: with entry
points that leave memory unchanged the caller's buffers are unchanged, and
in two successive calls each call's branch is governed by its own
evaluation of the capability predicate (counted by instrumented entry
points), i.e. the check is re-evaluated per call, not cached. -/
theorem router_stateless_writes_nothing_itself :
    ((∀ (env : Env) (mem : Mem)
        (jobvl : CharPtr) (jobvr : CharPtr) (n : IntPtr) (a : FloatArr) (lda : IntPtr)
        (wr : FloatArr) (wi : FloatArr) (vl : FloatArr) (ldvl : IntPtr) (vr : FloatArr)
        (ldvr : IntPtr) (work : FloatArr) (lwork : IntArr) (info : IntPtr),
      (accelerate_sgeev env (fun m0 _ _ _ _ _ _ _ _ _ _ _ _ _ _ => m0) (fun m0 _ _ _ _ _ _ _ _ _ _ _ _ _ _ => m0) mem jobvl jobvr n a lda wr wi vl ldvl vr ldvr work lwork info) =
        mem) ∧
     (∀ (env1 env2 : Env) (mem : Mem)
        (jobvl : CharPtr) (jobvr : CharPtr) (n : IntPtr) (a : FloatArr) (lda : IntPtr)
        (wr : FloatArr) (wi : FloatArr) (vl : FloatArr) (ldvl : IntPtr) (vr : FloatArr)
        (ldvr : IntPtr) (work : FloatArr) (lwork : IntArr) (info : IntPtr),
      (accelerate_sgeev env2 (fun m0 _ _ _ _ _ _ _ _ _ _ _ _ _ _ => bumpCell 0 m0) (fun m0 _ _ _ _ _ _ _ _ _ _ _ _ _ _ => bumpCell 1 m0) (accelerate_sgeev env1 (fun m0 _ _ _ _ _ _ _ _ _ _ _ _ _ _ => bumpCell 0 m0) (fun m0 _ _ _ _ _ _ _ _ _ _ _ _ _ _ => bumpCell 1 m0) mem jobvl jobvr n a lda wr wi vl ldvl vr ldvr work lwork info) jobvl jobvr n a lda wr wi vl ldvl vr ldvr work lwork info) 0 =
        mem 0 + (if builtinAvailable env1 accelerate_sgeev_threshold = true then (1 : Int) else 0) +
          (if builtinAvailable env2 accelerate_sgeev_threshold = true then (1 : Int) else 0) ∧
      (accelerate_sgeev env2 (fun m0 _ _ _ _ _ _ _ _ _ _ _ _ _ _ => bumpCell 0 m0) (fun m0 _ _ _ _ _ _ _ _ _ _ _ _ _ _ => bumpCell 1 m0) (accelerate_sgeev env1 (fun m0 _ _ _ _ _ _ _ _ _ _ _ _ _ _ => bumpCell 0 m0) (fun m0 _ _ _ _ _ _ _ _ _ _ _ _ _ _ => bumpCell 1 m0) mem jobvl jobvr n a lda wr wi vl ldvl vr ldvr work lwork info) jobvl jobvr n a lda wr wi vl ldvl vr ldvr work lwork info) 1 =
        mem 1 + (if builtinAvailable env1 accelerate_sgeev_threshold = true then (0 : Int) else 1) +
          (if builtinAvailable env2 accelerate_sgeev_threshold = true then (0 : Int) else 1))) ∧
    ((∀ (env : Env) (mem : Mem)
        (jobvl : CharPtr) (jobvr : CharPtr) (n : IntPtr) (a : DoubleArr) (lda : IntPtr)
        (wr : DoubleArr) (wi : DoubleArr) (vl : DoubleArr) (ldvl : IntPtr) (vr : DoubleArr)
        (ldvr : IntPtr) (work : DoubleArr) (lwork : IntArr) (info : IntPtr),
      (accelerate_dgeev env (fun m0 _ _ _ _ _ _ _ _ _ _ _ _ _ _ => m0) (fun m0 _ _ _ _ _ _ _ _ _ _ _ _ _ _ => m0) mem jobvl jobvr n a lda wr wi vl ldvl vr ldvr work lwork info) =
        mem) ∧
     (∀ (env1 env2 : Env) (mem : Mem)
        (jobvl : CharPtr) (jobvr : CharPtr) (n : IntPtr) (a : DoubleArr) (lda : IntPtr)
        (wr : DoubleArr) (wi : DoubleArr) (vl : DoubleArr) (ldvl : IntPtr) (vr : DoubleArr)
        (ldvr : IntPtr) (work : DoubleArr) (lwork : IntArr) (info : IntPtr),
      (accelerate_dgeev env2 (fun m0 _ _ _ _ _ _ _ _ _ _ _ _ _ _ => bumpCell 0 m0) (fun m0 _ _ _ _ _ _ _ _ _ _ _ _ _ _ => bumpCell 1 m0) (accelerate_dgeev env1 (fun m0 _ _ _ _ _ _ _ _ _ _ _ _ _ _ => bumpCell 0 m0) (fun m0 _ _ _ _ _ _ _ _ _ _ _ _ _ _ => bumpCell 1 m0) mem jobvl jobvr n a lda wr wi vl ldvl vr ldvr work lwork info) jobvl jobvr n a lda wr wi vl ldvl vr ldvr work lwork info) 0 =
        mem 0 + (if builtinAvailable env1 accelerate_dgeev_threshold = true then (1 : Int) else 0) +
          (if builtinAvailable env2 accelerate_dgeev_threshold = true then (1 : Int) else 0) ∧
      (accelerate_dgeev env2 (fun m0 _ _ _ _ _ _ _ _ _ _ _ _ _ _ => bumpCell 0 m0) (fun m0 _ _ _ _ _ _ _ _ _ _ _ _ _ _ => bumpCell 1 m0) (accelerate_dgeev env1 (fun m0 _ _ _ _ _ _ _ _ _ _ _ _ _ _ => bumpCell 0 m0) (fun m0 _ _ _ _ _ _ _ _ _ _ _ _ _ _ => bumpCell 1 m0) mem jobvl jobvr n a lda wr wi vl ldvl vr ldvr work lwork info) jobvl jobvr n a lda wr wi vl ldvl vr ldvr work lwork info) 1 =
        mem 1 + (if builtinAvailable env1 accelerate_dgeev_threshold = true then (0 : Int) else 1) +
          (if builtinAvailable env2 accelerate_dgeev_threshold = true then (0 : Int) else 1))) ∧
    ((∀ (env : Env) (mem : Mem)
        (jobvl : CharPtr) (jobvr : CharPtr) (n : IntPtr) (a : CplxArr) (lda : IntPtr)
        (w : CplxArr) (vl : CplxArr) (ldvl : IntPtr) (vr : CplxArr) (ldvr : IntPtr)
        (work : CplxArr) (lwork : IntPtr) (rwork : FloatArr) (info : IntPtr),
      (accelerate_cgeev env (fun m0 _ _ _ _ _ _ _ _ _ _ _ _ _ _ => m0) (fun m0 _ _ _ _ _ _ _ _ _ _ _ _ _ _ => m0) mem jobvl jobvr n a lda w vl ldvl vr ldvr work lwork rwork info) =
        mem) ∧
     (∀ (env1 env2 : Env) (mem : Mem)
        (jobvl : CharPtr) (jobvr : CharPtr) (n : IntPtr) (a : CplxArr) (lda : IntPtr)
        (w : CplxArr) (vl : CplxArr) (ldvl : IntPtr) (vr : CplxArr) (ldvr : IntPtr)
        (work : CplxArr) (lwork : IntPtr) (rwork : FloatArr) (info : IntPtr),
      (accelerate_cgeev env2 (fun m0 _ _ _ _ _ _ _ _ _ _ _ _ _ _ => bumpCell 0 m0) (fun m0 _ _ _ _ _ _ _ _ _ _ _ _ _ _ => bumpCell 1 m0) (accelerate_cgeev env1 (fun m0 _ _ _ _ _ _ _ _ _ _ _ _ _ _ => bumpCell 0 m0) (fun m0 _ _ _ _ _ _ _ _ _ _ _ _ _ _ => bumpCell 1 m0) mem jobvl jobvr n a lda w vl ldvl vr ldvr work lwork rwork info) jobvl jobvr n a lda w vl ldvl vr ldvr work lwork rwork info) 0 =
        mem 0 + (if builtinAvailable env1 accelerate_cgeev_threshold = true then (1 : Int) else 0) +
          (if builtinAvailable env2 accelerate_cgeev_threshold = true then (1 : Int) else 0) ∧
      (accelerate_cgeev env2 (fun m0 _ _ _ _ _ _ _ _ _ _ _ _ _ _ => bumpCell 0 m0) (fun m0 _ _ _ _ _ _ _ _ _ _ _ _ _ _ => bumpCell 1 m0) (accelerate_cgeev env1 (fun m0 _ _ _ _ _ _ _ _ _ _ _ _ _ _ => bumpCell 0 m0) (fun m0 _ _ _ _ _ _ _ _ _ _ _ _ _ _ => bumpCell 1 m0) mem jobvl jobvr n a lda w vl ldvl vr ldvr work lwork rwork info) jobvl jobvr n a lda w vl ldvl vr ldvr work lwork rwork info) 1 =
        mem 1 + (if builtinAvailable env1 accelerate_cgeev_threshold = true then (0 : Int) else 1) +
          (if builtinAvailable env2 accelerate_cgeev_threshold = true then (0 : Int) else 1))) ∧
    ((∀ (env : Env) (mem : Mem)
        (jobvl : CharPtr) (jobvr : CharPtr) (n : IntPtr) (a : DCplxArr) (lda : IntPtr)
        (w : DCplxArr) (vl : DCplxArr) (ldvl : IntPtr) (vr : DCplxArr) (ldvr : IntPtr)
        (work : DCplxArr) (lwork : IntPtr) (rwork : DoubleArr) (info : IntPtr),
      (accelerate_zgeev env (fun m0 _ _ _ _ _ _ _ _ _ _ _ _ _ _ => m0) (fun m0 _ _ _ _ _ _ _ _ _ _ _ _ _ _ => m0) mem jobvl jobvr n a lda w vl ldvl vr ldvr work lwork rwork info) =
        mem) ∧
     (∀ (env1 env2 : Env) (mem : Mem)
        (jobvl : CharPtr) (jobvr : CharPtr) (n : IntPtr) (a : DCplxArr) (lda : IntPtr)
        (w : DCplxArr) (vl : DCplxArr) (ldvl : IntPtr) (vr : DCplxArr) (ldvr : IntPtr)
        (work : DCplxArr) (lwork : IntPtr) (rwork : DoubleArr) (info : IntPtr),
      (accelerate_zgeev env2 (fun m0 _ _ _ _ _ _ _ _ _ _ _ _ _ _ => bumpCell 0 m0) (fun m0 _ _ _ _ _ _ _ _ _ _ _ _ _ _ => bumpCell 1 m0) (accelerate_zgeev env1 (fun m0 _ _ _ _ _ _ _ _ _ _ _ _ _ _ => bumpCell 0 m0) (fun m0 _ _ _ _ _ _ _ _ _ _ _ _ _ _ => bumpCell 1 m0) mem jobvl jobvr n a lda w vl ldvl vr ldvr work lwork rwork info) jobvl jobvr n a lda w vl ldvl vr ldvr work lwork rwork info) 0 =
        mem 0 + (if builtinAvailable env1 accelerate_zgeev_threshold = true then (1 : Int) else 0) +
          (if builtinAvailable env2 accelerate_zgeev_threshold = true then (1 : Int) else 0) ∧
      (accelerate_zgeev env2 (fun m0 _ _ _ _ _ _ _ _ _ _ _ _ _ _ => bumpCell 0 m0) (fun m0 _ _ _ _ _ _ _ _ _ _ _ _ _ _ => bumpCell 1 m0) (accelerate_zgeev env1 (fun m0 _ _ _ _ _ _ _ _ _ _ _ _ _ _ => bumpCell 0 m0) (fun m0 _ _ _ _ _ _ _ _ _ _ _ _ _ _ => bumpCell 1 m0) mem jobvl jobvr n a lda w vl ldvl vr ldvr work lwork rwork info) jobvl jobvr n a lda w vl ldvl vr ldvr work lwork rwork info) 1 =
        mem 1 + (if builtinAvailable env1 accelerate_zgeev_threshold = true then (0 : Int) else 1) +
          (if builtinAvailable env2 accelerate_zgeev_threshold = true then (0 : Int) else 1))) ∧
    ((∀ (env : Env) (mem : Mem)
        (jobz : CharPtr) (uplo : CharPtr) (n : IntPtr) (a : FloatArr) (lda : IntPtr)
        (w : FloatArr) (work : FloatArr) (lwork : IntPtr) (iwork : IntArr) (liwork : IntPtr)
        (info : IntPtr),
      (accelerate_ssyevd env (fun m0 _ _ _ _ _ _ _ _ _ _ _ => m0) (fun m0 _ _ _ _ _ _ _ _ _ _ _ => m0) mem jobz uplo n a lda w work lwork iwork liwork info) =
        mem) ∧
     (∀ (env1 env2 : Env) (mem : Mem)
        (jobz : CharPtr) (uplo : CharPtr) (n : IntPtr) (a : FloatArr) (lda : IntPtr)
        (w : FloatArr) (work : FloatArr) (lwork : IntPtr) (iwork : IntArr) (liwork : IntPtr)
        (info : IntPtr),
      (accelerate_ssyevd env2 (fun m0 _ _ _ _ _ _ _ _ _ _ _ => bumpCell 0 m0) (fun m0 _ _ _ _ _ _ _ _ _ _ _ => bumpCell 1 m0) (accelerate_ssyevd env1 (fun m0 _ _ _ _ _ _ _ _ _ _ _ => bumpCell 0 m0) (fun m0 _ _ _ _ _ _ _ _ _ _ _ => bumpCell 1 m0) mem jobz uplo n a lda w work lwork iwork liwork info) jobz uplo n a lda w work lwork iwork liwork info) 0 =
        mem 0 + (if builtinAvailable env1 accelerate_ssyevd_threshold = true then (1 : Int) else 0) +
          (if builtinAvailable env2 accelerate_ssyevd_threshold = true then (1 : Int) else 0) ∧
      (accelerate_ssyevd env2 (fun m0 _ _ _ _ _ _ _ _ _ _ _ => bumpCell 0 m0) (fun m0 _ _ _ _ _ _ _ _ _ _ _ => bumpCell 1 m0) (accelerate_ssyevd env1 (fun m0 _ _ _ _ _ _ _ _ _ _ _ => bumpCell 0 m0) (fun m0 _ _ _ _ _ _ _ _ _ _ _ => bumpCell 1 m0) mem jobz uplo n a lda w work lwork iwork liwork info) jobz uplo n a lda w work lwork iwork liwork info) 1 =
        mem 1 + (if builtinAvailable env1 accelerate_ssyevd_threshold = true then (0 : Int) else 1) +
          (if builtinAvailable env2 accelerate_ssyevd_threshold = true then (0 : Int) else 1))) ∧
    ((∀ (env : Env) (mem : Mem)
        (jobz : CharPtr) (uplo : CharPtr) (n : IntPtr) (a : DoubleArr) (lda : IntPtr)
        (w : DoubleArr) (work : DoubleArr) (lwork : IntPtr) (iwork : IntArr) (liwork : IntPtr)
        (info : IntPtr),
      (accelerate_dsyevd env (fun m0 _ _ _ _ _ _ _ _ _ _ _ => m0) (fun m0 _ _ _ _ _ _ _ _ _ _ _ => m0) mem jobz uplo n a lda w work lwork iwork liwork info) =
        mem) ∧
     (∀ (env1 env2 : Env) (mem : Mem)
        (jobz : CharPtr) (uplo : CharPtr) (n : IntPtr) (a : DoubleArr) (lda : IntPtr)
        (w : DoubleArr) (work : DoubleArr) (lwork : IntPtr) (iwork : IntArr) (liwork : IntPtr)
        (info : IntPtr),
      (accelerate_dsyevd env2 (fun m0 _ _ _ _ _ _ _ _ _ _ _ => bumpCell 0 m0) (fun m0 _ _ _ _ _ _ _ _ _ _ _ => bumpCell 1 m0) (accelerate_dsyevd env1 (fun m0 _ _ _ _ _ _ _ _ _ _ _ => bumpCell 0 m0) (fun m0 _ _ _ _ _ _ _ _ _ _ _ => bumpCell 1 m0) mem jobz uplo n a lda w work lwork iwork liwork info) jobz uplo n a lda w work lwork iwork liwork info) 0 =
        mem 0 + (if builtinAvailable env1 accelerate_dsyevd_threshold = true then (1 : Int) else 0) +
          (if builtinAvailable env2 accelerate_dsyevd_threshold = true then (1 : Int) else 0) ∧
      (accelerate_dsyevd env2 (fun m0 _ _ _ _ _ _ _ _ _ _ _ => bumpCell 0 m0) (fun m0 _ _ _ _ _ _ _ _ _ _ _ => bumpCell 1 m0) (accelerate_dsyevd env1 (fun m0 _ _ _ _ _ _ _ _ _ _ _ => bumpCell 0 m0) (fun m0 _ _ _ _ _ _ _ _ _ _ _ => bumpCell 1 m0) mem jobz uplo n a lda w work lwork iwork liwork info) jobz uplo n a lda w work lwork iwork liwork info) 1 =
        mem 1 + (if builtinAvailable env1 accelerate_dsyevd_threshold = true then (0 : Int) else 1) +
          (if builtinAvailable env2 accelerate_dsyevd_threshold = true then (0 : Int) else 1))) ∧
    ((∀ (env : Env) (mem : Mem)
        (jobz : CharPtr) (uplo : CharPtr) (n : IntPtr) (a : CplxArr) (lda : IntPtr)
        (w : FloatArr) (work : CplxArr) (lwork : IntPtr) (rwork : FloatArr) (lrwork : IntPtr)
        (iwork : IntArr) (liwork : IntPtr) (info : IntPtr),
      (accelerate_cheevd env (fun m0 _ _ _ _ _ _ _ _ _ _ _ _ _ => m0) (fun m0 _ _ _ _ _ _ _ _ _ _ _ _ _ => m0) mem jobz uplo n a lda w work lwork rwork lrwork iwork liwork info) =
        mem) ∧
     (∀ (env1 env2 : Env) (mem : Mem)
        (jobz : CharPtr) (uplo : CharPtr) (n : IntPtr) (a : CplxArr) (lda : IntPtr)
        (w : FloatArr) (work : CplxArr) (lwork : IntPtr) (rwork : FloatArr) (lrwork : IntPtr)
        (iwork : IntArr) (liwork : IntPtr) (info : IntPtr),
      (accelerate_cheevd env2 (fun m0 _ _ _ _ _ _ _ _ _ _ _ _ _ => bumpCell 0 m0) (fun m0 _ _ _ _ _ _ _ _ _ _ _ _ _ => bumpCell 1 m0) (accelerate_cheevd env1 (fun m0 _ _ _ _ _ _ _ _ _ _ _ _ _ => bumpCell 0 m0) (fun m0 _ _ _ _ _ _ _ _ _ _ _ _ _ => bumpCell 1 m0) mem jobz uplo n a lda w work lwork rwork lrwork iwork liwork info) jobz uplo n a lda w work lwork rwork lrwork iwork liwork info) 0 =
        mem 0 + (if builtinAvailable env1 accelerate_cheevd_threshold = true then (1 : Int) else 0) +
          (if builtinAvailable env2 accelerate_cheevd_threshold = true then (1 : Int) else 0) ∧
      (accelerate_cheevd env2 (fun m0 _ _ _ _ _ _ _ _ _ _ _ _ _ => bumpCell 0 m0) (fun m0 _ _ _ _ _ _ _ _ _ _ _ _ _ => bumpCell 1 m0) (accelerate_cheevd env1 (fun m0 _ _ _ _ _ _ _ _ _ _ _ _ _ => bumpCell 0 m0) (fun m0 _ _ _ _ _ _ _ _ _ _ _ _ _ => bumpCell 1 m0) mem jobz uplo n a lda w work lwork rwork lrwork iwork liwork info) jobz uplo n a lda w work lwork rwork lrwork iwork liwork info) 1 =
        mem 1 + (if builtinAvailable env1 accelerate_cheevd_threshold = true then (0 : Int) else 1) +
          (if builtinAvailable env2 accelerate_cheevd_threshold = true then (0 : Int) else 1))) ∧
    ((∀ (env : Env) (mem : Mem)
        (jobz : CharPtr) (uplo : CharPtr) (n : IntPtr) (a : DCplxArr) (lda : IntPtr)
        (w : DoubleArr) (work : DCplxArr) (lwork : IntPtr) (rwork : DoubleArr) (lrwork : IntPtr)
        (iwork : IntArr) (liwork : IntPtr) (info : IntPtr),
      (accelerate_zheevd env (fun m0 _ _ _ _ _ _ _ _ _ _ _ _ _ => m0) (fun m0 _ _ _ _ _ _ _ _ _ _ _ _ _ => m0) mem jobz uplo n a lda w work lwork rwork lrwork iwork liwork info) =
        mem) ∧
     (∀ (env1 env2 : Env) (mem : Mem)
        (jobz : CharPtr) (uplo : CharPtr) (n : IntPtr) (a : DCplxArr) (lda : IntPtr)
        (w : DoubleArr) (work : DCplxArr) (lwork : IntPtr) (rwork : DoubleArr) (lrwork : IntPtr)
        (iwork : IntArr) (liwork : IntPtr) (info : IntPtr),
      (accelerate_zheevd env2 (fun m0 _ _ _ _ _ _ _ _ _ _ _ _ _ => bumpCell 0 m0) (fun m0 _ _ _ _ _ _ _ _ _ _ _ _ _ => bumpCell 1 m0) (accelerate_zheevd env1 (fun m0 _ _ _ _ _ _ _ _ _ _ _ _ _ => bumpCell 0 m0) (fun m0 _ _ _ _ _ _ _ _ _ _ _ _ _ => bumpCell 1 m0) mem jobz uplo n a lda w work lwork rwork lrwork iwork liwork info) jobz uplo n a lda w work lwork rwork lrwork iwork liwork info) 0 =
        mem 0 + (if builtinAvailable env1 accelerate_zheevd_threshold = true then (1 : Int) else 0) +
          (if builtinAvailable env2 accelerate_zheevd_threshold = true then (1 : Int) else 0) ∧
      (accelerate_zheevd env2 (fun m0 _ _ _ _ _ _ _ _ _ _ _ _ _ => bumpCell 0 m0) (fun m0 _ _ _ _ _ _ _ _ _ _ _ _ _ => bumpCell 1 m0) (accelerate_zheevd env1 (fun m0 _ _ _ _ _ _ _ _ _ _ _ _ _ => bumpCell 0 m0) (fun m0 _ _ _ _ _ _ _ _ _ _ _ _ _ => bumpCell 1 m0) mem jobz uplo n a lda w work lwork rwork lrwork iwork liwork info) jobz uplo n a lda w work lwork rwork lrwork iwork liwork info) 1 =
        mem 1 + (if builtinAvailable env1 accelerate_zheevd_threshold = true then (0 : Int) else 1) +
          (if builtinAvailable env2 accelerate_zheevd_threshold = true then (0 : Int) else 1))) ∧
    ((∀ (env : Env) (mem : Mem)
        (m : IntPtr) (n : IntPtr) (nrhs : IntPtr) (a : FloatArr) (lda : IntPtr)
        (b : FloatArr) (ldb : IntPtr) (s : FloatArr) (rcond : FloatPtr) (rank : IntPtr)
        (work : FloatArr) (lwork : IntPtr) (iwork : IntArr) (info : IntPtr),
      (accelerate_sgelsd env (fun m0 _ _ _ _ _ _ _ _ _ _ _ _ _ _ => m0) (fun m0 _ _ _ _ _ _ _ _ _ _ _ _ _ _ => m0) mem m n nrhs a lda b ldb s rcond rank work lwork iwork info) =
        mem) ∧
     (∀ (env1 env2 : Env) (mem : Mem)
        (m : IntPtr) (n : IntPtr) (nrhs : IntPtr) (a : FloatArr) (lda : IntPtr)
        (b : FloatArr) (ldb : IntPtr) (s : FloatArr) (rcond : FloatPtr) (rank : IntPtr)
        (work : FloatArr) (lwork : IntPtr) (iwork : IntArr) (info : IntPtr),
      (accelerate_sgelsd env2 (fun m0 _ _ _ _ _ _ _ _ _ _ _ _ _ _ => bumpCell 0 m0) (fun m0 _ _ _ _ _ _ _ _ _ _ _ _ _ _ => bumpCell 1 m0) (accelerate_sgelsd env1 (fun m0 _ _ _ _ _ _ _ _ _ _ _ _ _ _ => bumpCell 0 m0) (fun m0 _ _ _ _ _ _ _ _ _ _ _ _ _ _ => bumpCell 1 m0) mem m n nrhs a lda b ldb s rcond rank work lwork iwork info) m n nrhs a lda b ldb s rcond rank work lwork iwork info) 0 =
        mem 0 + (if builtinAvailable env1 accelerate_sgelsd_threshold = true then (1 : Int) else 0) +
          (if builtinAvailable env2 accelerate_sgelsd_threshold = true then (1 : Int) else 0) ∧
      (accelerate_sgelsd env2 (fun m0 _ _ _ _ _ _ _ _ _ _ _ _ _ _ => bumpCell 0 m0) (fun m0 _ _ _ _ _ _ _ _ _ _ _ _ _ _ => bumpCell 1 m0) (accelerate_sgelsd env1 (fun m0 _ _ _ _ _ _ _ _ _ _ _ _ _ _ => bumpCell 0 m0) (fun m0 _ _ _ _ _ _ _ _ _ _ _ _ _ _ => bumpCell 1 m0) mem m n nrhs a lda b ldb s rcond rank work lwork iwork info) m n nrhs a lda b ldb s rcond rank work lwork iwork info) 1 =
        mem 1 + (if builtinAvailable env1 accelerate_sgelsd_threshold = true then (0 : Int) else 1) +
          (if builtinAvailable env2 accelerate_sgelsd_threshold = true then (0 : Int) else 1))) ∧
    ((∀ (env : Env) (mem : Mem)
        (m : IntPtr) (n : IntPtr) (nrhs : IntPtr) (a : DoubleArr) (lda : IntPtr)
        (b : DoubleArr) (ldb : IntPtr) (s : DoubleArr) (rcond : DoublePtr) (rank : IntPtr)
        (work : DoubleArr) (lwork : IntPtr) (iwork : IntArr) (info : IntPtr),
      (accelerate_dgelsd env (fun m0 _ _ _ _ _ _ _ _ _ _ _ _ _ _ => m0) (fun m0 _ _ _ _ _ _ _ _ _ _ _ _ _ _ => m0) mem m n nrhs a lda b ldb s rcond rank work lwork iwork info) =
        mem) ∧
     (∀ (env1 env2 : Env) (mem : Mem)
        (m : IntPtr) (n : IntPtr) (nrhs : IntPtr) (a : DoubleArr) (lda : IntPtr)
        (b : DoubleArr) (ldb : IntPtr) (s : DoubleArr) (rcond : DoublePtr) (rank : IntPtr)
        (work : DoubleArr) (lwork : IntPtr) (iwork : IntArr) (info : IntPtr),
      (accelerate_dgelsd env2 (fun m0 _ _ _ _ _ _ _ _ _ _ _ _ _ _ => bumpCell 0 m0) (fun m0 _ _ _ _ _ _ _ _ _ _ _ _ _ _ => bumpCell 1 m0) (accelerate_dgelsd env1 (fun m0 _ _ _ _ _ _ _ _ _ _ _ _ _ _ => bumpCell 0 m0) (fun m0 _ _ _ _ _ _ _ _ _ _ _ _ _ _ => bumpCell 1 m0) mem m n nrhs a lda b ldb s rcond rank work lwork iwork info) m n nrhs a lda b ldb s rcond rank work lwork iwork info) 0 =
        mem 0 + (if builtinAvailable env1 accelerate_dgelsd_threshold = true then (1 : Int) else 0) +
          (if builtinAvailable env2 accelerate_dgelsd_threshold = true then (1 : Int) else 0) ∧
      (accelerate_dgelsd env2 (fun m0 _ _ _ _ _ _ _ _ _ _ _ _ _ _ => bumpCell 0 m0) (fun m0 _ _ _ _ _ _ _ _ _ _ _ _ _ _ => bumpCell 1 m0) (accelerate_dgelsd env1 (fun m0 _ _ _ _ _ _ _ _ _ _ _ _ _ _ => bumpCell 0 m0) (fun m0 _ _ _ _ _ _ _ _ _ _ _ _ _ _ => bumpCell 1 m0) mem m n nrhs a lda b ldb s rcond rank work lwork iwork info) m n nrhs a lda b ldb s rcond rank work lwork iwork info) 1 =
        mem 1 + (if builtinAvailable env1 accelerate_dgelsd_threshold = true then (0 : Int) else 1) +
          (if builtinAvailable env2 accelerate_dgelsd_threshold = true then (0 : Int) else 1))) ∧
    ((∀ (env : Env) (mem : Mem)
        (m : IntPtr) (n : IntPtr) (nrhs : IntPtr) (a : CplxArr) (lda : IntPtr)
        (b : CplxArr) (ldb : IntPtr) (s : FloatArr) (rcond : FloatPtr) (rank : IntPtr)
        (work : CplxArr) (lwork : IntPtr) (rwork : FloatArr) (iwork : IntArr) (info : IntPtr),
      (accelerate_cgelsd env (fun m0 _ _ _ _ _ _ _ _ _ _ _ _ _ _ _ => m0) (fun m0 _ _ _ _ _ _ _ _ _ _ _ _ _ _ _ => m0) mem m n nrhs a lda b ldb s rcond rank work lwork rwork iwork info) =
        mem) ∧
     (∀ (env1 env2 : Env) (mem : Mem)
        (m : IntPtr) (n : IntPtr) (nrhs : IntPtr) (a : CplxArr) (lda : IntPtr)
        (b : CplxArr) (ldb : IntPtr) (s : FloatArr) (rcond : FloatPtr) (rank : IntPtr)
        (work : CplxArr) (lwork : IntPtr) (rwork : FloatArr) (iwork : IntArr) (info : IntPtr),
      (accelerate_cgelsd env2 (fun m0 _ _ _ _ _ _ _ _ _ _ _ _ _ _ _ => bumpCell 0 m0) (fun m0 _ _ _ _ _ _ _ _ _ _ _ _ _ _ _ => bumpCell 1 m0) (accelerate_cgelsd env1 (fun m0 _ _ _ _ _ _ _ _ _ _ _ _ _ _ _ => bumpCell 0 m0) (fun m0 _ _ _ _ _ _ _ _ _ _ _ _ _ _ _ => bumpCell 1 m0) mem m n nrhs a lda b ldb s rcond rank work lwork rwork iwork info) m n nrhs a lda b ldb s rcond rank work lwork rwork iwork info) 0 =
        mem 0 + (if builtinAvailable env1 accelerate_cgelsd_threshold = true then (1 : Int) else 0) +
          (if builtinAvailable env2 accelerate_cgelsd_threshold = true then (1 : Int) else 0) ∧
      (accelerate_cgelsd env2 (fun m0 _ _ _ _ _ _ _ _ _ _ _ _ _ _ _ => bumpCell 0 m0) (fun m0 _ _ _ _ _ _ _ _ _ _ _ _ _ _ _ => bumpCell 1 m0) (accelerate_cgelsd env1 (fun m0 _ _ _ _ _ _ _ _ _ _ _ _ _ _ _ => bumpCell 0 m0) (fun m0 _ _ _ _ _ _ _ _ _ _ _ _ _ _ _ => bumpCell 1 m0) mem m n nrhs a lda b ldb s rcond rank work lwork rwork iwork info) m n nrhs a lda b ldb s rcond rank work lwork rwork iwork info) 1 =
        mem 1 + (if builtinAvailable env1 accelerate_cgelsd_threshold = true then (0 : Int) else 1) +
          (if builtinAvailable env2 accelerate_cgelsd_threshold = true then (0 : Int) else 1))) ∧
    ((∀ (env : Env) (mem : Mem)
        (m : IntPtr) (n : IntPtr) (nrhs : IntPtr) (a : FDCplxArr) (lda : IntPtr)
        (b : FDCplxArr) (ldb : IntPtr) (s : DoubleArr) (rcond : DoublePtr) (rank : IntPtr)
        (work : FDCplxArr) (lwork : IntPtr) (rwork : DoubleArr) (iwork : IntArr) (info : IntPtr),
      (accelerate_zgelsd env (fun m0 _ _ _ _ _ _ _ _ _ _ _ _ _ _ _ => m0) (fun m0 _ _ _ _ _ _ _ _ _ _ _ _ _ _ _ => m0) mem m n nrhs a lda b ldb s rcond rank work lwork rwork iwork info) =
        mem) ∧
     (∀ (env1 env2 : Env) (mem : Mem)
        (m : IntPtr) (n : IntPtr) (nrhs : IntPtr) (a : FDCplxArr) (lda : IntPtr)
        (b : FDCplxArr) (ldb : IntPtr) (s : DoubleArr) (rcond : DoublePtr) (rank : IntPtr)
        (work : FDCplxArr) (lwork : IntPtr) (rwork : DoubleArr) (iwork : IntArr) (info : IntPtr),
      (accelerate_zgelsd env2 (fun m0 _ _ _ _ _ _ _ _ _ _ _ _ _ _ _ => bumpCell 0 m0) (fun m0 _ _ _ _ _ _ _ _ _ _ _ _ _ _ _ => bumpCell 1 m0) (accelerate_zgelsd env1 (fun m0 _ _ _ _ _ _ _ _ _ _ _ _ _ _ _ => bumpCell 0 m0) (fun m0 _ _ _ _ _ _ _ _ _ _ _ _ _ _ _ => bumpCell 1 m0) mem m n nrhs a lda b ldb s rcond rank work lwork rwork iwork info) m n nrhs a lda b ldb s rcond rank work lwork rwork iwork info) 0 =
        mem 0 + (if builtinAvailable env1 accelerate_zgelsd_threshold = true then (1 : Int) else 0) +
          (if builtinAvailable env2 accelerate_zgelsd_threshold = true then (1 : Int) else 0) ∧
      (accelerate_zgelsd env2 (fun m0 _ _ _ _ _ _ _ _ _ _ _ _ _ _ _ => bumpCell 0 m0) (fun m0 _ _ _ _ _ _ _ _ _ _ _ _ _ _ _ => bumpCell 1 m0) (accelerate_zgelsd env1 (fun m0 _ _ _ _ _ _ _ _ _ _ _ _ _ _ _ => bumpCell 0 m0) (fun m0 _ _ _ _ _ _ _ _ _ _ _ _ _ _ _ => bumpCell 1 m0) mem m n nrhs a lda b ldb s rcond rank work lwork rwork iwork info) m n nrhs a lda b ldb s rcond rank work lwork rwork iwork info) 1 =
        mem 1 + (if builtinAvailable env1 accelerate_zgelsd_threshold = true then (0 : Int) else 1) +
          (if builtinAvailable env2 accelerate_zgelsd_threshold = true then (0 : Int) else 1))) ∧
    ((∀ (env : Env) (mem : Mem)
        (m : IntPtr) (n : IntPtr) (a : DoubleArr) (lda : IntPtr) (tau : DoubleArr)
        (work : DoubleArr) (lwork : IntPtr) (info : IntPtr),
      (accelerate_dgeqrf env (fun m0 _ _ _ _ _ _ _ _ => m0) (fun m0 _ _ _ _ _ _ _ _ => m0) mem m n a lda tau work lwork info) =
        mem) ∧
     (∀ (env1 env2 : Env) (mem : Mem)
        (m : IntPtr) (n : IntPtr) (a : DoubleArr) (lda : IntPtr) (tau : DoubleArr)
        (work : DoubleArr) (lwork : IntPtr) (info : IntPtr),
      (accelerate_dgeqrf env2 (fun m0 _ _ _ _ _ _ _ _ => bumpCell 0 m0) (fun m0 _ _ _ _ _ _ _ _ => bumpCell 1 m0) (accelerate_dgeqrf env1 (fun m0 _ _ _ _ _ _ _ _ => bumpCell 0 m0) (fun m0 _ _ _ _ _ _ _ _ => bumpCell 1 m0) mem m n a lda tau work lwork info) m n a lda tau work lwork info) 0 =
        mem 0 + (if builtinAvailable env1 accelerate_dgeqrf_threshold = true then (1 : Int) else 0) +
          (if builtinAvailable env2 accelerate_dgeqrf_threshold = true then (1 : Int) else 0) ∧
      (accelerate_dgeqrf env2 (fun m0 _ _ _ _ _ _ _ _ => bumpCell 0 m0) (fun m0 _ _ _ _ _ _ _ _ => bumpCell 1 m0) (accelerate_dgeqrf env1 (fun m0 _ _ _ _ _ _ _ _ => bumpCell 0 m0) (fun m0 _ _ _ _ _ _ _ _ => bumpCell 1 m0) mem m n a lda tau work lwork info) m n a lda tau work lwork info) 1 =
        mem 1 + (if builtinAvailable env1 accelerate_dgeqrf_threshold = true then (0 : Int) else 1) +
          (if builtinAvailable env2 accelerate_dgeqrf_threshold = true then (0 : Int) else 1))) ∧
    ((∀ (env : Env) (mem : Mem)
        (m : IntPtr) (n : IntPtr) (a : DCplxArr) (lda : IntPtr) (tau : DCplxArr)
        (work : DCplxArr) (lwork : IntPtr) (info : IntPtr),
      (accelerate_zgeqrf env (fun m0 _ _ _ _ _ _ _ _ => m0) (fun m0 _ _ _ _ _ _ _ _ => m0) mem m n a lda tau work lwork info) =
        mem) ∧
     (∀ (env1 env2 : Env) (mem : Mem)
        (m : IntPtr) (n : IntPtr) (a : DCplxArr) (lda : IntPtr) (tau : DCplxArr)
        (work : DCplxArr) (lwork : IntPtr) (info : IntPtr),
      (accelerate_zgeqrf env2 (fun m0 _ _ _ _ _ _ _ _ => bumpCell 0 m0) (fun m0 _ _ _ _ _ _ _ _ => bumpCell 1 m0) (accelerate_zgeqrf env1 (fun m0 _ _ _ _ _ _ _ _ => bumpCell 0 m0) (fun m0 _ _ _ _ _ _ _ _ => bumpCell 1 m0) mem m n a lda tau work lwork info) m n a lda tau work lwork info) 0 =
        mem 0 + (if builtinAvailable env1 accelerate_zgeqrf_threshold = true then (1 : Int) else 0) +
          (if builtinAvailable env2 accelerate_zgeqrf_threshold = true then (1 : Int) else 0) ∧
      (accelerate_zgeqrf env2 (fun m0 _ _ _ _ _ _ _ _ => bumpCell 0 m0) (fun m0 _ _ _ _ _ _ _ _ => bumpCell 1 m0) (accelerate_zgeqrf env1 (fun m0 _ _ _ _ _ _ _ _ => bumpCell 0 m0) (fun m0 _ _ _ _ _ _ _ _ => bumpCell 1 m0) mem m n a lda tau work lwork info) m n a lda tau work lwork info) 1 =
        mem 1 + (if builtinAvailable env1 accelerate_zgeqrf_threshold = true then (0 : Int) else 1) +
          (if builtinAvailable env2 accelerate_zgeqrf_threshold = true then (0 : Int) else 1))) ∧
    ((∀ (env : Env) (mem : Mem)
        (m : IntPtr) (n : IntPtr) (k : IntPtr) (a : DoubleArr) (lda : IntPtr)
        (tau : DoubleArr) (work : DoubleArr) (lwork : IntPtr) (info : IntPtr),
      (accelerate_dorgqr env (fun m0 _ _ _ _ _ _ _ _ _ => m0) (fun m0 _ _ _ _ _ _ _ _ _ => m0) mem m n k a lda tau work lwork info) =
        mem) ∧
     (∀ (env1 env2 : Env) (mem : Mem)
        (m : IntPtr) (n : IntPtr) (k : IntPtr) (a : DoubleArr) (lda : IntPtr)
        (tau : DoubleArr) (work : DoubleArr) (lwork : IntPtr) (info : IntPtr),
      (accelerate_dorgqr env2 (fun m0 _ _ _ _ _ _ _ _ _ => bumpCell 0 m0) (fun m0 _ _ _ _ _ _ _ _ _ => bumpCell 1 m0) (accelerate_dorgqr env1 (fun m0 _ _ _ _ _ _ _ _ _ => bumpCell 0 m0) (fun m0 _ _ _ _ _ _ _ _ _ => bumpCell 1 m0) mem m n k a lda tau work lwork info) m n k a lda tau work lwork info) 0 =
        mem 0 + (if builtinAvailable env1 accelerate_dorgqr_threshold = true then (1 : Int) else 0) +
          (if builtinAvailable env2 accelerate_dorgqr_threshold = true then (1 : Int) else 0) ∧
      (accelerate_dorgqr env2 (fun m0 _ _ _ _ _ _ _ _ _ => bumpCell 0 m0) (fun m0 _ _ _ _ _ _ _ _ _ => bumpCell 1 m0) (accelerate_dorgqr env1 (fun m0 _ _ _ _ _ _ _ _ _ => bumpCell 0 m0) (fun m0 _ _ _ _ _ _ _ _ _ => bumpCell 1 m0) mem m n k a lda tau work lwork info) m n k a lda tau work lwork info) 1 =
        mem 1 + (if builtinAvailable env1 accelerate_dorgqr_threshold = true then (0 : Int) else 1) +
          (if builtinAvailable env2 accelerate_dorgqr_threshold = true then (0 : Int) else 1))) ∧
    ((∀ (env : Env) (mem : Mem)
        (m : IntPtr) (n : IntPtr) (k : IntPtr) (a : DCplxArr) (lda : IntPtr)
        (tau : DCplxArr) (work : DCplxArr) (lwork : IntPtr) (info : IntPtr),
      (accelerate_zungqr env (fun m0 _ _ _ _ _ _ _ _ _ => m0) (fun m0 _ _ _ _ _ _ _ _ _ => m0) mem m n k a lda tau work lwork info) =
        mem) ∧
     (∀ (env1 env2 : Env) (mem : Mem)
        (m : IntPtr) (n : IntPtr) (k : IntPtr) (a : DCplxArr) (lda : IntPtr)
        (tau : DCplxArr) (work : DCplxArr) (lwork : IntPtr) (info : IntPtr),
      (accelerate_zungqr env2 (fun m0 _ _ _ _ _ _ _ _ _ => bumpCell 0 m0) (fun m0 _ _ _ _ _ _ _ _ _ => bumpCell 1 m0) (accelerate_zungqr env1 (fun m0 _ _ _ _ _ _ _ _ _ => bumpCell 0 m0) (fun m0 _ _ _ _ _ _ _ _ _ => bumpCell 1 m0) mem m n k a lda tau work lwork info) m n k a lda tau work lwork info) 0 =
        mem 0 + (if builtinAvailable env1 accelerate_zungqr_threshold = true then (1 : Int) else 0) +
          (if builtinAvailable env2 accelerate_zungqr_threshold = true then (1 : Int) else 0) ∧
      (accelerate_zungqr env2 (fun m0 _ _ _ _ _ _ _ _ _ => bumpCell 0 m0) (fun m0 _ _ _ _ _ _ _ _ _ => bumpCell 1 m0) (accelerate_zungqr env1 (fun m0 _ _ _ _ _ _ _ _ _ => bumpCell 0 m0) (fun m0 _ _ _ _ _ _ _ _ _ => bumpCell 1 m0) mem m n k a lda tau work lwork info) m n k a lda tau work lwork info) 1 =
        mem 1 + (if builtinAvailable env1 accelerate_zungqr_threshold = true then (0 : Int) else 1) +
          (if builtinAvailable env2 accelerate_zungqr_threshold = true then (0 : Int) else 1))) ∧
    ((∀ (env : Env) (mem : Mem)
        (n : IntPtr) (nrhs : IntPtr) (a : FloatArr) (lda : IntPtr) (ipiv : IntArr)
        (b : FloatArr) (ldb : IntPtr) (info : IntPtr),
      (accelerate_sgesv env (fun m0 _ _ _ _ _ _ _ _ => m0) (fun m0 _ _ _ _ _ _ _ _ => m0) mem n nrhs a lda ipiv b ldb info) =
        mem) ∧
     (∀ (env1 env2 : Env) (mem : Mem)
        (n : IntPtr) (nrhs : IntPtr) (a : FloatArr) (lda : IntPtr) (ipiv : IntArr)
        (b : FloatArr) (ldb : IntPtr) (info : IntPtr),
      (accelerate_sgesv env2 (fun m0 _ _ _ _ _ _ _ _ => bumpCell 0 m0) (fun m0 _ _ _ _ _ _ _ _ => bumpCell 1 m0) (accelerate_sgesv env1 (fun m0 _ _ _ _ _ _ _ _ => bumpCell 0 m0) (fun m0 _ _ _ _ _ _ _ _ => bumpCell 1 m0) mem n nrhs a lda ipiv b ldb info) n nrhs a lda ipiv b ldb info) 0 =
        mem 0 + (if builtinAvailable env1 accelerate_sgesv_threshold = true then (1 : Int) else 0) +
          (if builtinAvailable env2 accelerate_sgesv_threshold = true then (1 : Int) else 0) ∧
      (accelerate_sgesv env2 (fun m0 _ _ _ _ _ _ _ _ => bumpCell 0 m0) (fun m0 _ _ _ _ _ _ _ _ => bumpCell 1 m0) (accelerate_sgesv env1 (fun m0 _ _ _ _ _ _ _ _ => bumpCell 0 m0) (fun m0 _ _ _ _ _ _ _ _ => bumpCell 1 m0) mem n nrhs a lda ipiv b ldb info) n nrhs a lda ipiv b ldb info) 1 =
        mem 1 + (if builtinAvailable env1 accelerate_sgesv_threshold = true then (0 : Int) else 1) +
          (if builtinAvailable env2 accelerate_sgesv_threshold = true then (0 : Int) else 1))) ∧
    ((∀ (env : Env) (mem : Mem)
        (n : IntPtr) (nrhs : IntPtr) (a : DoubleArr) (lda : IntPtr) (ipiv : IntArr)
        (b : DoubleArr) (ldb : IntPtr) (info : IntPtr),
      (accelerate_dgesv env (fun m0 _ _ _ _ _ _ _ _ => m0) (fun m0 _ _ _ _ _ _ _ _ => m0) mem n nrhs a lda ipiv b ldb info) =
        mem) ∧
     (∀ (env1 env2 : Env) (mem : Mem)
        (n : IntPtr) (nrhs : IntPtr) (a : DoubleArr) (lda : IntPtr) (ipiv : IntArr)
        (b : DoubleArr) (ldb : IntPtr) (info : IntPtr),
      (accelerate_dgesv env2 (fun m0 _ _ _ _ _ _ _ _ => bumpCell 0 m0) (fun m0 _ _ _ _ _ _ _ _ => bumpCell 1 m0) (accelerate_dgesv env1 (fun m0 _ _ _ _ _ _ _ _ => bumpCell 0 m0) (fun m0 _ _ _ _ _ _ _ _ => bumpCell 1 m0) mem n nrhs a lda ipiv b ldb info) n nrhs a lda ipiv b ldb info) 0 =
        mem 0 + (if builtinAvailable env1 accelerate_dgesv_threshold = true then (1 : Int) else 0) +
          (if builtinAvailable env2 accelerate_dgesv_threshold = true then (1 : Int) else 0) ∧
      (accelerate_dgesv env2 (fun m0 _ _ _ _ _ _ _ _ => bumpCell 0 m0) (fun m0 _ _ _ _ _ _ _ _ => bumpCell 1 m0) (accelerate_dgesv env1 (fun m0 _ _ _ _ _ _ _ _ => bumpCell 0 m0) (fun m0 _ _ _ _ _ _ _ _ => bumpCell 1 m0) mem n nrhs a lda ipiv b ldb info) n nrhs a lda ipiv b ldb info) 1 =
        mem 1 + (if builtinAvailable env1 accelerate_dgesv_threshold = true then (0 : Int) else 1) +
          (if builtinAvailable env2 accelerate_dgesv_threshold = true then (0 : Int) else 1))) ∧
    ((∀ (env : Env) (mem : Mem)
        (n : IntPtr) (nrhs : IntPtr) (a : CplxArr) (lda : IntPtr) (ipiv : IntArr)
        (b : CplxArr) (ldb : IntPtr) (info : IntPtr),
      (accelerate_cgesv env (fun m0 _ _ _ _ _ _ _ _ => m0) (fun m0 _ _ _ _ _ _ _ _ => m0) mem n nrhs a lda ipiv b ldb info) =
        mem) ∧
     (∀ (env1 env2 : Env) (mem : Mem)
        (n : IntPtr) (nrhs : IntPtr) (a : CplxArr) (lda : IntPtr) (ipiv : IntArr)
        (b : CplxArr) (ldb : IntPtr) (info : IntPtr),
      (accelerate_cgesv env2 (fun m0 _ _ _ _ _ _ _ _ => bumpCell 0 m0) (fun m0 _ _ _ _ _ _ _ _ => bumpCell 1 m0) (accelerate_cgesv env1 (fun m0 _ _ _ _ _ _ _ _ => bumpCell 0 m0) (fun m0 _ _ _ _ _ _ _ _ => bumpCell 1 m0) mem n nrhs a lda ipiv b ldb info) n nrhs a lda ipiv b ldb info) 0 =
        mem 0 + (if builtinAvailable env1 accelerate_cgesv_threshold = true then (1 : Int) else 0) +
          (if builtinAvailable env2 accelerate_cgesv_threshold = true then (1 : Int) else 0) ∧
      (accelerate_cgesv env2 (fun m0 _ _ _ _ _ _ _ _ => bumpCell 0 m0) (fun m0 _ _ _ _ _ _ _ _ => bumpCell 1 m0) (accelerate_cgesv env1 (fun m0 _ _ _ _ _ _ _ _ => bumpCell 0 m0) (fun m0 _ _ _ _ _ _ _ _ => bumpCell 1 m0) mem n nrhs a lda ipiv b ldb info) n nrhs a lda ipiv b ldb info) 1 =
        mem 1 + (if builtinAvailable env1 accelerate_cgesv_threshold = true then (0 : Int) else 1) +
          (if builtinAvailable env2 accelerate_cgesv_threshold = true then (0 : Int) else 1))) ∧
    ((∀ (env : Env) (mem : Mem)
        (n : IntPtr) (nrhs : IntPtr) (a : DCplxArr) (lda : IntPtr) (ipiv : IntArr)
        (b : DCplxArr) (ldb : IntPtr) (info : IntPtr),
      (accelerate_zgesv env (fun m0 _ _ _ _ _ _ _ _ => m0) (fun m0 _ _ _ _ _ _ _ _ => m0) mem n nrhs a lda ipiv b ldb info) =
        mem) ∧
     (∀ (env1 env2 : Env) (mem : Mem)
        (n : IntPtr) (nrhs : IntPtr) (a : DCplxArr) (lda : IntPtr) (ipiv : IntArr)
        (b : DCplxArr) (ldb : IntPtr) (info : IntPtr),
      (accelerate_zgesv env2 (fun m0 _ _ _ _ _ _ _ _ => bumpCell 0 m0) (fun m0 _ _ _ _ _ _ _ _ => bumpCell 1 m0) (accelerate_zgesv env1 (fun m0 _ _ _ _ _ _ _ _ => bumpCell 0 m0) (fun m0 _ _ _ _ _ _ _ _ => bumpCell 1 m0) mem n nrhs a lda ipiv b ldb info) n nrhs a lda ipiv b ldb info) 0 =
        mem 0 + (if builtinAvailable env1 accelerate_zgesv_threshold = true then (1 : Int) else 0) +
          (if builtinAvailable env2 accelerate_zgesv_threshold = true then (1 : Int) else 0) ∧
      (accelerate_zgesv env2 (fun m0 _ _ _ _ _ _ _ _ => bumpCell 0 m0) (fun m0 _ _ _ _ _ _ _ _ => bumpCell 1 m0) (accelerate_zgesv env1 (fun m0 _ _ _ _ _ _ _ _ => bumpCell 0 m0) (fun m0 _ _ _ _ _ _ _ _ => bumpCell 1 m0) mem n nrhs a lda ipiv b ldb info) n nrhs a lda ipiv b ldb info) 1 =
        mem 1 + (if builtinAvailable env1 accelerate_zgesv_threshold = true then (0 : Int) else 1) +
          (if builtinAvailable env2 accelerate_zgesv_threshold = true then (0 : Int) else 1))) ∧
    ((∀ (env : Env) (mem : Mem)
        (m : IntPtr) (n : IntPtr) (a : FloatArr) (lda : IntPtr) (ipiv : IntArr)
        (info : IntPtr),
      (accelerate_sgetrf env (fun m0 _ _ _ _ _ _ => (m0, (0 : FortranInt))) (fun m0 _ _ _ _ _ _ => (m0, (0 : FortranInt))) mem m n a lda ipiv info).1 =
        mem) ∧
     (∀ (env1 env2 : Env) (mem : Mem)
        (m : IntPtr) (n : IntPtr) (a : FloatArr) (lda : IntPtr) (ipiv : IntArr)
        (info : IntPtr),
      (accelerate_sgetrf env2 (fun m0 _ _ _ _ _ _ => (bumpCell 0 m0, (0 : FortranInt))) (fun m0 _ _ _ _ _ _ => (bumpCell 1 m0, (0 : FortranInt))) (accelerate_sgetrf env1 (fun m0 _ _ _ _ _ _ => (bumpCell 0 m0, (0 : FortranInt))) (fun m0 _ _ _ _ _ _ => (bumpCell 1 m0, (0 : FortranInt))) mem m n a lda ipiv info).1 m n a lda ipiv info).1 0 =
        mem 0 + (if builtinAvailable env1 accelerate_sgetrf_threshold = true then (1 : Int) else 0) +
          (if builtinAvailable env2 accelerate_sgetrf_threshold = true then (1 : Int) else 0) ∧
      (accelerate_sgetrf env2 (fun m0 _ _ _ _ _ _ => (bumpCell 0 m0, (0 : FortranInt))) (fun m0 _ _ _ _ _ _ => (bumpCell 1 m0, (0 : FortranInt))) (accelerate_sgetrf env1 (fun m0 _ _ _ _ _ _ => (bumpCell 0 m0, (0 : FortranInt))) (fun m0 _ _ _ _ _ _ => (bumpCell 1 m0, (0 : FortranInt))) mem m n a lda ipiv info).1 m n a lda ipiv info).1 1 =
        mem 1 + (if builtinAvailable env1 accelerate_sgetrf_threshold = true then (0 : Int) else 1) +
          (if builtinAvailable env2 accelerate_sgetrf_threshold = true then (0 : Int) else 1))) ∧
    ((∀ (env : Env) (mem : Mem)
        (m : IntPtr) (n : IntPtr) (a : DoubleArr) (lda : IntPtr) (ipiv : IntArr)
        (info : IntPtr),
      (accelerate_dgetrf env (fun m0 _ _ _ _ _ _ => (m0, (0 : FortranInt))) (fun m0 _ _ _ _ _ _ => (m0, (0 : FortranInt))) mem m n a lda ipiv info).1 =
        mem) ∧
     (∀ (env1 env2 : Env) (mem : Mem)
        (m : IntPtr) (n : IntPtr) (a : DoubleArr) (lda : IntPtr) (ipiv : IntArr)
        (info : IntPtr),
      (accelerate_dgetrf env2 (fun m0 _ _ _ _ _ _ => (bumpCell 0 m0, (0 : FortranInt))) (fun m0 _ _ _ _ _ _ => (bumpCell 1 m0, (0 : FortranInt))) (accelerate_dgetrf env1 (fun m0 _ _ _ _ _ _ => (bumpCell 0 m0, (0 : FortranInt))) (fun m0 _ _ _ _ _ _ => (bumpCell 1 m0, (0 : FortranInt))) mem m n a lda ipiv info).1 m n a lda ipiv info).1 0 =
        mem 0 + (if builtinAvailable env1 accelerate_dgetrf_threshold = true then (1 : Int) else 0) +
          (if builtinAvailable env2 accelerate_dgetrf_threshold = true then (1 : Int) else 0) ∧
      (accelerate_dgetrf env2 (fun m0 _ _ _ _ _ _ => (bumpCell 0 m0, (0 : FortranInt))) (fun m0 _ _ _ _ _ _ => (bumpCell 1 m0, (0 : FortranInt))) (accelerate_dgetrf env1 (fun m0 _ _ _ _ _ _ => (bumpCell 0 m0, (0 : FortranInt))) (fun m0 _ _ _ _ _ _ => (bumpCell 1 m0, (0 : FortranInt))) mem m n a lda ipiv info).1 m n a lda ipiv info).1 1 =
        mem 1 + (if builtinAvailable env1 accelerate_dgetrf_threshold = true then (0 : Int) else 1) +
          (if builtinAvailable env2 accelerate_dgetrf_threshold = true then (0 : Int) else 1))) ∧
    ((∀ (env : Env) (mem : Mem)
        (m : IntPtr) (n : IntPtr) (a : CplxArr) (lda : IntPtr) (ipiv : IntArr)
        (info : IntPtr),
      (accelerate_cgetrf env (fun m0 _ _ _ _ _ _ => (m0, (0 : FortranInt))) (fun m0 _ _ _ _ _ _ => (m0, (0 : FortranInt))) mem m n a lda ipiv info).1 =
        mem) ∧
     (∀ (env1 env2 : Env) (mem : Mem)
        (m : IntPtr) (n : IntPtr) (a : CplxArr) (lda : IntPtr) (ipiv : IntArr)
        (info : IntPtr),
      (accelerate_cgetrf env2 (fun m0 _ _ _ _ _ _ => (bumpCell 0 m0, (0 : FortranInt))) (fun m0 _ _ _ _ _ _ => (bumpCell 1 m0, (0 : FortranInt))) (accelerate_cgetrf env1 (fun m0 _ _ _ _ _ _ => (bumpCell 0 m0, (0 : FortranInt))) (fun m0 _ _ _ _ _ _ => (bumpCell 1 m0, (0 : FortranInt))) mem m n a lda ipiv info).1 m n a lda ipiv info).1 0 =
        mem 0 + (if builtinAvailable env1 accelerate_cgetrf_threshold = true then (1 : Int) else 0) +
          (if builtinAvailable env2 accelerate_cgetrf_threshold = true then (1 : Int) else 0) ∧
      (accelerate_cgetrf env2 (fun m0 _ _ _ _ _ _ => (bumpCell 0 m0, (0 : FortranInt))) (fun m0 _ _ _ _ _ _ => (bumpCell 1 m0, (0 : FortranInt))) (accelerate_cgetrf env1 (fun m0 _ _ _ _ _ _ => (bumpCell 0 m0, (0 : FortranInt))) (fun m0 _ _ _ _ _ _ => (bumpCell 1 m0, (0 : FortranInt))) mem m n a lda ipiv info).1 m n a lda ipiv info).1 1 =
        mem 1 + (if builtinAvailable env1 accelerate_cgetrf_threshold = true then (0 : Int) else 1) +
          (if builtinAvailable env2 accelerate_cgetrf_threshold = true then (0 : Int) else 1))) ∧
    ((∀ (env : Env) (mem : Mem)
        (m : IntPtr) (n : IntPtr) (a : DCplxArr) (lda : IntPtr) (ipiv : IntArr)
        (info : IntPtr),
      (accelerate_zgetrf env (fun m0 _ _ _ _ _ _ => (m0, (0 : FortranInt))) (fun m0 _ _ _ _ _ _ => (m0, (0 : FortranInt))) mem m n a lda ipiv info).1 =
        mem) ∧
     (∀ (env1 env2 : Env) (mem : Mem)
        (m : IntPtr) (n : IntPtr) (a : DCplxArr) (lda : IntPtr) (ipiv : IntArr)
        (info : IntPtr),
      (accelerate_zgetrf env2 (fun m0 _ _ _ _ _ _ => (bumpCell 0 m0, (0 : FortranInt))) (fun m0 _ _ _ _ _ _ => (bumpCell 1 m0, (0 : FortranInt))) (accelerate_zgetrf env1 (fun m0 _ _ _ _ _ _ => (bumpCell 0 m0, (0 : FortranInt))) (fun m0 _ _ _ _ _ _ => (bumpCell 1 m0, (0 : FortranInt))) mem m n a lda ipiv info).1 m n a lda ipiv info).1 0 =
        mem 0 + (if builtinAvailable env1 accelerate_zgetrf_threshold = true then (1 : Int) else 0) +
          (if builtinAvailable env2 accelerate_zgetrf_threshold = true then (1 : Int) else 0) ∧
      (accelerate_zgetrf env2 (fun m0 _ _ _ _ _ _ => (bumpCell 0 m0, (0 : FortranInt))) (fun m0 _ _ _ _ _ _ => (bumpCell 1 m0, (0 : FortranInt))) (accelerate_zgetrf env1 (fun m0 _ _ _ _ _ _ => (bumpCell 0 m0, (0 : FortranInt))) (fun m0 _ _ _ _ _ _ => (bumpCell 1 m0, (0 : FortranInt))) mem m n a lda ipiv info).1 m n a lda ipiv info).1 1 =
        mem 1 + (if builtinAvailable env1 accelerate_zgetrf_threshold = true then (0 : Int) else 1) +
          (if builtinAvailable env2 accelerate_zgetrf_threshold = true then (0 : Int) else 1))) ∧
    ((∀ (env : Env) (mem : Mem)
        (uplo : CharPtr) (n : IntPtr) (a : FloatArr) (lda : IntPtr) (info : IntPtr),
      (accelerate_spotrf env (fun m0 _ _ _ _ _ => m0) (fun m0 _ _ _ _ _ => m0) mem uplo n a lda info) =
        mem) ∧
     (∀ (env1 env2 : Env) (mem : Mem)
        (uplo : CharPtr) (n : IntPtr) (a : FloatArr) (lda : IntPtr) (info : IntPtr),
      (accelerate_spotrf env2 (fun m0 _ _ _ _ _ => bumpCell 0 m0) (fun m0 _ _ _ _ _ => bumpCell 1 m0) (accelerate_spotrf env1 (fun m0 _ _ _ _ _ => bumpCell 0 m0) (fun m0 _ _ _ _ _ => bumpCell 1 m0) mem uplo n a lda info) uplo n a lda info) 0 =
        mem 0 + (if builtinAvailable env1 accelerate_spotrf_threshold = true then (1 : Int) else 0) +
          (if builtinAvailable env2 accelerate_spotrf_threshold = true then (1 : Int) else 0) ∧
      (accelerate_spotrf env2 (fun m0 _ _ _ _ _ => bumpCell 0 m0) (fun m0 _ _ _ _ _ => bumpCell 1 m0) (accelerate_spotrf env1 (fun m0 _ _ _ _ _ => bumpCell 0 m0) (fun m0 _ _ _ _ _ => bumpCell 1 m0) mem uplo n a lda info) uplo n a lda info) 1 =
        mem 1 + (if builtinAvailable env1 accelerate_spotrf_threshold = true then (0 : Int) else 1) +
          (if builtinAvailable env2 accelerate_spotrf_threshold = true then (0 : Int) else 1))) ∧
    ((∀ (env : Env) (mem : Mem)
        (uplo : CharPtr) (n : IntPtr) (a : DoubleArr) (lda : IntPtr) (info : IntPtr),
      (accelerate_dpotrf env (fun m0 _ _ _ _ _ => m0) (fun m0 _ _ _ _ _ => m0) mem uplo n a lda info) =
        mem) ∧
     (∀ (env1 env2 : Env) (mem : Mem)
        (uplo : CharPtr) (n : IntPtr) (a : DoubleArr) (lda : IntPtr) (info : IntPtr),
      (accelerate_dpotrf env2 (fun m0 _ _ _ _ _ => bumpCell 0 m0) (fun m0 _ _ _ _ _ => bumpCell 1 m0) (accelerate_dpotrf env1 (fun m0 _ _ _ _ _ => bumpCell 0 m0) (fun m0 _ _ _ _ _ => bumpCell 1 m0) mem uplo n a lda info) uplo n a lda info) 0 =
        mem 0 + (if builtinAvailable env1 accelerate_dpotrf_threshold = true then (1 : Int) else 0) +
          (if builtinAvailable env2 accelerate_dpotrf_threshold = true then (1 : Int) else 0) ∧
      (accelerate_dpotrf env2 (fun m0 _ _ _ _ _ => bumpCell 0 m0) (fun m0 _ _ _ _ _ => bumpCell 1 m0) (accelerate_dpotrf env1 (fun m0 _ _ _ _ _ => bumpCell 0 m0) (fun m0 _ _ _ _ _ => bumpCell 1 m0) mem uplo n a lda info) uplo n a lda info) 1 =
        mem 1 + (if builtinAvailable env1 accelerate_dpotrf_threshold = true then (0 : Int) else 1) +
          (if builtinAvailable env2 accelerate_dpotrf_threshold = true then (0 : Int) else 1))) ∧
    ((∀ (env : Env) (mem : Mem)
        (uplo : CharPtr) (n : IntPtr) (a : CplxArr) (lda : IntPtr) (info : IntPtr),
      (accelerate_cpotrf env (fun m0 _ _ _ _ _ => m0) (fun m0 _ _ _ _ _ => m0) mem uplo n a lda info) =
        mem) ∧
     (∀ (env1 env2 : Env) (mem : Mem)
        (uplo : CharPtr) (n : IntPtr) (a : CplxArr) (lda : IntPtr) (info : IntPtr),
      (accelerate_cpotrf env2 (fun m0 _ _ _ _ _ => bumpCell 0 m0) (fun m0 _ _ _ _ _ => bumpCell 1 m0) (accelerate_cpotrf env1 (fun m0 _ _ _ _ _ => bumpCell 0 m0) (fun m0 _ _ _ _ _ => bumpCell 1 m0) mem uplo n a lda info) uplo n a lda info) 0 =
        mem 0 + (if builtinAvailable env1 accelerate_cpotrf_threshold = true then (1 : Int) else 0) +
          (if builtinAvailable env2 accelerate_cpotrf_threshold = true then (1 : Int) else 0) ∧
      (accelerate_cpotrf env2 (fun m0 _ _ _ _ _ => bumpCell 0 m0) (fun m0 _ _ _ _ _ => bumpCell 1 m0) (accelerate_cpotrf env1 (fun m0 _ _ _ _ _ => bumpCell 0 m0) (fun m0 _ _ _ _ _ => bumpCell 1 m0) mem uplo n a lda info) uplo n a lda info) 1 =
        mem 1 + (if builtinAvailable env1 accelerate_cpotrf_threshold = true then (0 : Int) else 1) +
          (if builtinAvailable env2 accelerate_cpotrf_threshold = true then (0 : Int) else 1))) ∧
    ((∀ (env : Env) (mem : Mem)
        (uplo : CharPtr) (n : IntPtr) (a : DCplxArr) (lda : IntPtr) (info : IntPtr),
      (accelerate_zpotrf env (fun m0 _ _ _ _ _ => m0) (fun m0 _ _ _ _ _ => m0) mem uplo n a lda info) =
        mem) ∧
     (∀ (env1 env2 : Env) (mem : Mem)
        (uplo : CharPtr) (n : IntPtr) (a : DCplxArr) (lda : IntPtr) (info : IntPtr),
      (accelerate_zpotrf env2 (fun m0 _ _ _ _ _ => bumpCell 0 m0) (fun m0 _ _ _ _ _ => bumpCell 1 m0) (accelerate_zpotrf env1 (fun m0 _ _ _ _ _ => bumpCell 0 m0) (fun m0 _ _ _ _ _ => bumpCell 1 m0) mem uplo n a lda info) uplo n a lda info) 0 =
        mem 0 + (if builtinAvailable env1 accelerate_zpotrf_threshold = true then (1 : Int) else 0) +
          (if builtinAvailable env2 accelerate_zpotrf_threshold = true then (1 : Int) else 0) ∧
      (accelerate_zpotrf env2 (fun m0 _ _ _ _ _ => bumpCell 0 m0) (fun m0 _ _ _ _ _ => bumpCell 1 m0) (accelerate_zpotrf env1 (fun m0 _ _ _ _ _ => bumpCell 0 m0) (fun m0 _ _ _ _ _ => bumpCell 1 m0) mem uplo n a lda info) uplo n a lda info) 1 =
        mem 1 + (if builtinAvailable env1 accelerate_zpotrf_threshold = true then (0 : Int) else 1) +
          (if builtinAvailable env2 accelerate_zpotrf_threshold = true then (0 : Int) else 1))) ∧
    ((∀ (env : Env) (mem : Mem)
        (jobz : CharPtr) (m : IntPtr) (n : IntPtr) (a : FloatArr) (lda : IntPtr)
        (s : FloatArr) (u : FloatArr) (ldu : IntPtr) (vt : FloatArr) (ldvt : IntPtr)
        (work : FloatArr) (lwork : IntPtr) (iwork : IntArr) (info : IntPtr),
      (accelerate_sgesdd env (fun m0 _ _ _ _ _ _ _ _ _ _ _ _ _ _ => m0) (fun m0 _ _ _ _ _ _ _ _ _ _ _ _ _ _ => m0) mem jobz m n a lda s u ldu vt ldvt work lwork iwork info) =
        mem) ∧
     (∀ (env1 env2 : Env) (mem : Mem)
        (jobz : CharPtr) (m : IntPtr) (n : IntPtr) (a : FloatArr) (lda : IntPtr)
        (s : FloatArr) (u : FloatArr) (ldu : IntPtr) (vt : FloatArr) (ldvt : IntPtr)
        (work : FloatArr) (lwork : IntPtr) (iwork : IntArr) (info : IntPtr),
      (accelerate_sgesdd env2 (fun m0 _ _ _ _ _ _ _ _ _ _ _ _ _ _ => bumpCell 0 m0) (fun m0 _ _ _ _ _ _ _ _ _ _ _ _ _ _ => bumpCell 1 m0) (accelerate_sgesdd env1 (fun m0 _ _ _ _ _ _ _ _ _ _ _ _ _ _ => bumpCell 0 m0) (fun m0 _ _ _ _ _ _ _ _ _ _ _ _ _ _ => bumpCell 1 m0) mem jobz m n a lda s u ldu vt ldvt work lwork iwork info) jobz m n a lda s u ldu vt ldvt work lwork iwork info) 0 =
        mem 0 + (if builtinAvailable env1 accelerate_sgesdd_threshold = true then (1 : Int) else 0) +
          (if builtinAvailable env2 accelerate_sgesdd_threshold = true then (1 : Int) else 0) ∧
      (accelerate_sgesdd env2 (fun m0 _ _ _ _ _ _ _ _ _ _ _ _ _ _ => bumpCell 0 m0) (fun m0 _ _ _ _ _ _ _ _ _ _ _ _ _ _ => bumpCell 1 m0) (accelerate_sgesdd env1 (fun m0 _ _ _ _ _ _ _ _ _ _ _ _ _ _ => bumpCell 0 m0) (fun m0 _ _ _ _ _ _ _ _ _ _ _ _ _ _ => bumpCell 1 m0) mem jobz m n a lda s u ldu vt ldvt work lwork iwork info) jobz m n a lda s u ldu vt ldvt work lwork iwork info) 1 =
        mem 1 + (if builtinAvailable env1 accelerate_sgesdd_threshold = true then (0 : Int) else 1) +
          (if builtinAvailable env2 accelerate_sgesdd_threshold = true then (0 : Int) else 1))) ∧
    ((∀ (env : Env) (mem : Mem)
        (jobz : CharPtr) (m : IntPtr) (n : IntPtr) (a : DoubleArr) (lda : IntPtr)
        (s : DoubleArr) (u : DoubleArr) (ldu : IntPtr) (vt : DoubleArr) (ldvt : IntPtr)
        (work : DoubleArr) (lwork : IntPtr) (iwork : IntArr) (info : IntPtr),
      (accelerate_dgesdd env (fun m0 _ _ _ _ _ _ _ _ _ _ _ _ _ _ => m0) (fun m0 _ _ _ _ _ _ _ _ _ _ _ _ _ _ => m0) mem jobz m n a lda s u ldu vt ldvt work lwork iwork info) =
        mem) ∧
     (∀ (env1 env2 : Env) (mem : Mem)
        (jobz : CharPtr) (m : IntPtr) (n : IntPtr) (a : DoubleArr) (lda : IntPtr)
        (s : DoubleArr) (u : DoubleArr) (ldu : IntPtr) (vt : DoubleArr) (ldvt : IntPtr)
        (work : DoubleArr) (lwork : IntPtr) (iwork : IntArr) (info : IntPtr),
      (accelerate_dgesdd env2 (fun m0 _ _ _ _ _ _ _ _ _ _ _ _ _ _ => bumpCell 0 m0) (fun m0 _ _ _ _ _ _ _ _ _ _ _ _ _ _ => bumpCell 1 m0) (accelerate_dgesdd env1 (fun m0 _ _ _ _ _ _ _ _ _ _ _ _ _ _ => bumpCell 0 m0) (fun m0 _ _ _ _ _ _ _ _ _ _ _ _ _ _ => bumpCell 1 m0) mem jobz m n a lda s u ldu vt ldvt work lwork iwork info) jobz m n a lda s u ldu vt ldvt work lwork iwork info) 0 =
        mem 0 + (if builtinAvailable env1 accelerate_dgesdd_threshold = true then (1 : Int) else 0) +
          (if builtinAvailable env2 accelerate_dgesdd_threshold = true then (1 : Int) else 0) ∧
      (accelerate_dgesdd env2 (fun m0 _ _ _ _ _ _ _ _ _ _ _ _ _ _ => bumpCell 0 m0) (fun m0 _ _ _ _ _ _ _ _ _ _ _ _ _ _ => bumpCell 1 m0) (accelerate_dgesdd env1 (fun m0 _ _ _ _ _ _ _ _ _ _ _ _ _ _ => bumpCell 0 m0) (fun m0 _ _ _ _ _ _ _ _ _ _ _ _ _ _ => bumpCell 1 m0) mem jobz m n a lda s u ldu vt ldvt work lwork iwork info) jobz m n a lda s u ldu vt ldvt work lwork iwork info) 1 =
        mem 1 + (if builtinAvailable env1 accelerate_dgesdd_threshold = true then (0 : Int) else 1) +
          (if builtinAvailable env2 accelerate_dgesdd_threshold = true then (0 : Int) else 1))) ∧
    ((∀ (env : Env) (mem : Mem)
        (jobz : CharPtr) (m : IntPtr) (n : IntPtr) (a : CplxArr) (lda : IntPtr)
        (s : FloatArr) (u : CplxArr) (ldu : IntPtr) (vt : CplxArr) (ldvt : IntPtr)
        (work : CplxArr) (lwork : IntPtr) (rwork : FloatArr) (iwork : IntArr) (info : IntPtr),
      (accelerate_cgesdd env (fun m0 _ _ _ _ _ _ _ _ _ _ _ _ _ _ _ => m0) (fun m0 _ _ _ _ _ _ _ _ _ _ _ _ _ _ _ => m0) mem jobz m n a lda s u ldu vt ldvt work lwork rwork iwork info) =
        mem) ∧
     (∀ (env1 env2 : Env) (mem : Mem)
        (jobz : CharPtr) (m : IntPtr) (n : IntPtr) (a : CplxArr) (lda : IntPtr)
        (s : FloatArr) (u : CplxArr) (ldu : IntPtr) (vt : CplxArr) (ldvt : IntPtr)
        (work : CplxArr) (lwork : IntPtr) (rwork : FloatArr) (iwork : IntArr) (info : IntPtr),
      (accelerate_cgesdd env2 (fun m0 _ _ _ _ _ _ _ _ _ _ _ _ _ _ _ => bumpCell 0 m0) (fun m0 _ _ _ _ _ _ _ _ _ _ _ _ _ _ _ => bumpCell 1 m0) (accelerate_cgesdd env1 (fun m0 _ _ _ _ _ _ _ _ _ _ _ _ _ _ _ => bumpCell 0 m0) (fun m0 _ _ _ _ _ _ _ _ _ _ _ _ _ _ _ => bumpCell 1 m0) mem jobz m n a lda s u ldu vt ldvt work lwork rwork iwork info) jobz m n a lda s u ldu vt ldvt work lwork rwork iwork info) 0 =
        mem 0 + (if builtinAvailable env1 accelerate_cgesdd_threshold = true then (1 : Int) else 0) +
          (if builtinAvailable env2 accelerate_cgesdd_threshold = true then (1 : Int) else 0) ∧
      (accelerate_cgesdd env2 (fun m0 _ _ _ _ _ _ _ _ _ _ _ _ _ _ _ => bumpCell 0 m0) (fun m0 _ _ _ _ _ _ _ _ _ _ _ _ _ _ _ => bumpCell 1 m0) (accelerate_cgesdd env1 (fun m0 _ _ _ _ _ _ _ _ _ _ _ _ _ _ _ => bumpCell 0 m0) (fun m0 _ _ _ _ _ _ _ _ _ _ _ _ _ _ _ => bumpCell 1 m0) mem jobz m n a lda s u ldu vt ldvt work lwork rwork iwork info) jobz m n a lda s u ldu vt ldvt work lwork rwork iwork info) 1 =
        mem 1 + (if builtinAvailable env1 accelerate_cgesdd_threshold = true then (0 : Int) else 1) +
          (if builtinAvailable env2 accelerate_cgesdd_threshold = true then (0 : Int) else 1))) ∧
    ((∀ (env : Env) (mem : Mem)
        (jobz : CharPtr) (m : IntPtr) (n : IntPtr) (a : DCplxArr) (lda : IntPtr)
        (s : DoubleArr) (u : DCplxArr) (ldu : IntPtr) (vt : DCplxArr) (ldvt : IntPtr)
        (work : DCplxArr) (lwork : IntPtr) (rwork : DoubleArr) (iwork : IntArr) (info : IntPtr),
      (accelerate_zgesdd env (fun m0 _ _ _ _ _ _ _ _ _ _ _ _ _ _ _ => m0) (fun m0 _ _ _ _ _ _ _ _ _ _ _ _ _ _ _ => m0) mem jobz m n a lda s u ldu vt ldvt work lwork rwork iwork info) =
        mem) ∧
     (∀ (env1 env2 : Env) (mem : Mem)
        (jobz : CharPtr) (m : IntPtr) (n : IntPtr) (a : DCplxArr) (lda : IntPtr)
        (s : DoubleArr) (u : DCplxArr) (ldu : IntPtr) (vt : DCplxArr) (ldvt : IntPtr)
        (work : DCplxArr) (lwork : IntPtr) (rwork : DoubleArr) (iwork : IntArr) (info : IntPtr),
      (accelerate_zgesdd env2 (fun m0 _ _ _ _ _ _ _ _ _ _ _ _ _ _ _ => bumpCell 0 m0) (fun m0 _ _ _ _ _ _ _ _ _ _ _ _ _ _ _ => bumpCell 1 m0) (accelerate_zgesdd env1 (fun m0 _ _ _ _ _ _ _ _ _ _ _ _ _ _ _ => bumpCell 0 m0) (fun m0 _ _ _ _ _ _ _ _ _ _ _ _ _ _ _ => bumpCell 1 m0) mem jobz m n a lda s u ldu vt ldvt work lwork rwork iwork info) jobz m n a lda s u ldu vt ldvt work lwork rwork iwork info) 0 =
        mem 0 + (if builtinAvailable env1 accelerate_zgesdd_threshold = true then (1 : Int) else 0) +
          (if builtinAvailable env2 accelerate_zgesdd_threshold = true then (1 : Int) else 0) ∧
      (accelerate_zgesdd env2 (fun m0 _ _ _ _ _ _ _ _ _ _ _ _ _ _ _ => bumpCell 0 m0) (fun m0 _ _ _ _ _ _ _ _ _ _ _ _ _ _ _ => bumpCell 1 m0) (accelerate_zgesdd env1 (fun m0 _ _ _ _ _ _ _ _ _ _ _ _ _ _ _ => bumpCell 0 m0) (fun m0 _ _ _ _ _ _ _ _ _ _ _ _ _ _ _ => bumpCell 1 m0) mem jobz m n a lda s u ldu vt ldvt work lwork rwork iwork info) jobz m n a lda s u ldu vt ldvt work lwork rwork iwork info) 1 =
        mem 1 + (if builtinAvailable env1 accelerate_zgesdd_threshold = true then (0 : Int) else 1) +
          (if builtinAvailable env2 accelerate_zgesdd_threshold = true then (0 : Int) else 1))) ∧
    ((∀ (env : Env) (mem : Mem)
        (uplo : CharPtr) (n : IntPtr) (nrhs : IntPtr) (a : FloatArr) (lda : IntPtr)
        (b : FloatArr) (ldb : IntPtr) (info : IntPtr),
      (accelerate_spotrs env (fun m0 _ _ _ _ _ _ _ _ => m0) (fun m0 _ _ _ _ _ _ _ _ => m0) mem uplo n nrhs a lda b ldb info) =
        mem) ∧
     (∀ (env1 env2 : Env) (mem : Mem)
        (uplo : CharPtr) (n : IntPtr) (nrhs : IntPtr) (a : FloatArr) (lda : IntPtr)
        (b : FloatArr) (ldb : IntPtr) (info : IntPtr),
      (accelerate_spotrs env2 (fun m0 _ _ _ _ _ _ _ _ => bumpCell 0 m0) (fun m0 _ _ _ _ _ _ _ _ => bumpCell 1 m0) (accelerate_spotrs env1 (fun m0 _ _ _ _ _ _ _ _ => bumpCell 0 m0) (fun m0 _ _ _ _ _ _ _ _ => bumpCell 1 m0) mem uplo n nrhs a lda b ldb info) uplo n nrhs a lda b ldb info) 0 =
        mem 0 + (if builtinAvailable env1 accelerate_spotrs_threshold = true then (1 : Int) else 0) +
          (if builtinAvailable env2 accelerate_spotrs_threshold = true then (1 : Int) else 0) ∧
      (accelerate_spotrs env2 (fun m0 _ _ _ _ _ _ _ _ => bumpCell 0 m0) (fun m0 _ _ _ _ _ _ _ _ => bumpCell 1 m0) (accelerate_spotrs env1 (fun m0 _ _ _ _ _ _ _ _ => bumpCell 0 m0) (fun m0 _ _ _ _ _ _ _ _ => bumpCell 1 m0) mem uplo n nrhs a lda b ldb info) uplo n nrhs a lda b ldb info) 1 =
        mem 1 + (if builtinAvailable env1 accelerate_spotrs_threshold = true then (0 : Int) else 1) +
          (if builtinAvailable env2 accelerate_spotrs_threshold = true then (0 : Int) else 1))) ∧
    ((∀ (env : Env) (mem : Mem)
        (uplo : CharPtr) (n : IntPtr) (nrhs : IntPtr) (a : DoubleArr) (lda : IntPtr)
        (b : DoubleArr) (ldb : IntPtr) (info : IntPtr),
      (accelerate_dpotrs env (fun m0 _ _ _ _ _ _ _ _ => m0) (fun m0 _ _ _ _ _ _ _ _ => m0) mem uplo n nrhs a lda b ldb info) =
        mem) ∧
     (∀ (env1 env2 : Env) (mem : Mem)
        (uplo : CharPtr) (n : IntPtr) (nrhs : IntPtr) (a : DoubleArr) (lda : IntPtr)
        (b : DoubleArr) (ldb : IntPtr) (info : IntPtr),
      (accelerate_dpotrs env2 (fun m0 _ _ _ _ _ _ _ _ => bumpCell 0 m0) (fun m0 _ _ _ _ _ _ _ _ => bumpCell 1 m0) (accelerate_dpotrs env1 (fun m0 _ _ _ _ _ _ _ _ => bumpCell 0 m0) (fun m0 _ _ _ _ _ _ _ _ => bumpCell 1 m0) mem uplo n nrhs a lda b ldb info) uplo n nrhs a lda b ldb info) 0 =
        mem 0 + (if builtinAvailable env1 accelerate_dpotrs_threshold = true then (1 : Int) else 0) +
          (if builtinAvailable env2 accelerate_dpotrs_threshold = true then (1 : Int) else 0) ∧
      (accelerate_dpotrs env2 (fun m0 _ _ _ _ _ _ _ _ => bumpCell 0 m0) (fun m0 _ _ _ _ _ _ _ _ => bumpCell 1 m0) (accelerate_dpotrs env1 (fun m0 _ _ _ _ _ _ _ _ => bumpCell 0 m0) (fun m0 _ _ _ _ _ _ _ _ => bumpCell 1 m0) mem uplo n nrhs a lda b ldb info) uplo n nrhs a lda b ldb info) 1 =
        mem 1 + (if builtinAvailable env1 accelerate_dpotrs_threshold = true then (0 : Int) else 1) +
          (if builtinAvailable env2 accelerate_dpotrs_threshold = true then (0 : Int) else 1))) ∧
    ((∀ (env : Env) (mem : Mem)
        (uplo : CharPtr) (n : IntPtr) (nrhs : IntPtr) (a : CplxArr) (lda : IntPtr)
        (b : CplxArr) (ldb : IntPtr) (info : IntPtr),
      (accelerate_cpotrs env (fun m0 _ _ _ _ _ _ _ _ => m0) (fun m0 _ _ _ _ _ _ _ _ => m0) mem uplo n nrhs a lda b ldb info) =
        mem) ∧
     (∀ (env1 env2 : Env) (mem : Mem)
        (uplo : CharPtr) (n : IntPtr) (nrhs : IntPtr) (a : CplxArr) (lda : IntPtr)
        (b : CplxArr) (ldb : IntPtr) (info : IntPtr),
      (accelerate_cpotrs env2 (fun m0 _ _ _ _ _ _ _ _ => bumpCell 0 m0) (fun m0 _ _ _ _ _ _ _ _ => bumpCell 1 m0) (accelerate_cpotrs env1 (fun m0 _ _ _ _ _ _ _ _ => bumpCell 0 m0) (fun m0 _ _ _ _ _ _ _ _ => bumpCell 1 m0) mem uplo n nrhs a lda b ldb info) uplo n nrhs a lda b ldb info) 0 =
        mem 0 + (if builtinAvailable env1 accelerate_cpotrs_threshold = true then (1 : Int) else 0) +
          (if builtinAvailable env2 accelerate_cpotrs_threshold = true then (1 : Int) else 0) ∧
      (accelerate_cpotrs env2 (fun m0 _ _ _ _ _ _ _ _ => bumpCell 0 m0) (fun m0 _ _ _ _ _ _ _ _ => bumpCell 1 m0) (accelerate_cpotrs env1 (fun m0 _ _ _ _ _ _ _ _ => bumpCell 0 m0) (fun m0 _ _ _ _ _ _ _ _ => bumpCell 1 m0) mem uplo n nrhs a lda b ldb info) uplo n nrhs a lda b ldb info) 1 =
        mem 1 + (if builtinAvailable env1 accelerate_cpotrs_threshold = true then (0 : Int) else 1) +
          (if builtinAvailable env2 accelerate_cpotrs_threshold = true then (0 : Int) else 1))) ∧
    ((∀ (env : Env) (mem : Mem)
        (uplo : CharPtr) (n : IntPtr) (nrhs : IntPtr) (a : DCplxArr) (lda : IntPtr)
        (b : DCplxArr) (ldb : IntPtr) (info : IntPtr),
      (accelerate_zpotrs env (fun m0 _ _ _ _ _ _ _ _ => m0) (fun m0 _ _ _ _ _ _ _ _ => m0) mem uplo n nrhs a lda b ldb info) =
        mem) ∧
     (∀ (env1 env2 : Env) (mem : Mem)
        (uplo : CharPtr) (n : IntPtr) (nrhs : IntPtr) (a : DCplxArr) (lda : IntPtr)
        (b : DCplxArr) (ldb : IntPtr) (info : IntPtr),
      (accelerate_zpotrs env2 (fun m0 _ _ _ _ _ _ _ _ => bumpCell 0 m0) (fun m0 _ _ _ _ _ _ _ _ => bumpCell 1 m0) (accelerate_zpotrs env1 (fun m0 _ _ _ _ _ _ _ _ => bumpCell 0 m0) (fun m0 _ _ _ _ _ _ _ _ => bumpCell 1 m0) mem uplo n nrhs a lda b ldb info) uplo n nrhs a lda b ldb info) 0 =
        mem 0 + (if builtinAvailable env1 accelerate_zpotrs_threshold = true then (1 : Int) else 0) +
          (if builtinAvailable env2 accelerate_zpotrs_threshold = true then (1 : Int) else 0) ∧
      (accelerate_zpotrs env2 (fun m0 _ _ _ _ _ _ _ _ => bumpCell 0 m0) (fun m0 _ _ _ _ _ _ _ _ => bumpCell 1 m0) (accelerate_zpotrs env1 (fun m0 _ _ _ _ _ _ _ _ => bumpCell 0 m0) (fun m0 _ _ _ _ _ _ _ _ => bumpCell 1 m0) mem uplo n nrhs a lda b ldb info) uplo n nrhs a lda b ldb info) 1 =
        mem 1 + (if builtinAvailable env1 accelerate_zpotrs_threshold = true then (0 : Int) else 1) +
          (if builtinAvailable env2 accelerate_zpotrs_threshold = true then (0 : Int) else 1))) ∧
    ((∀ (env : Env) (mem : Mem)
        (uplo : CharPtr) (n : IntPtr) (a : FloatArr) (lda : IntPtr) (info : IntPtr),
      (accelerate_spotri env (fun m0 _ _ _ _ _ => m0) (fun m0 _ _ _ _ _ => m0) mem uplo n a lda info) =
        mem) ∧
     (∀ (env1 env2 : Env) (mem : Mem)
        (uplo : CharPtr) (n : IntPtr) (a : FloatArr) (lda : IntPtr) (info : IntPtr),
      (accelerate_spotri env2 (fun m0 _ _ _ _ _ => bumpCell 0 m0) (fun m0 _ _ _ _ _ => bumpCell 1 m0) (accelerate_spotri env1 (fun m0 _ _ _ _ _ => bumpCell 0 m0) (fun m0 _ _ _ _ _ => bumpCell 1 m0) mem uplo n a lda info) uplo n a lda info) 0 =
        mem 0 + (if builtinAvailable env1 accelerate_spotri_threshold = true then (1 : Int) else 0) +
          (if builtinAvailable env2 accelerate_spotri_threshold = true then (1 : Int) else 0) ∧
      (accelerate_spotri env2 (fun m0 _ _ _ _ _ => bumpCell 0 m0) (fun m0 _ _ _ _ _ => bumpCell 1 m0) (accelerate_spotri env1 (fun m0 _ _ _ _ _ => bumpCell 0 m0) (fun m0 _ _ _ _ _ => bumpCell 1 m0) mem uplo n a lda info) uplo n a lda info) 1 =
        mem 1 + (if builtinAvailable env1 accelerate_spotri_threshold = true then (0 : Int) else 1) +
          (if builtinAvailable env2 accelerate_spotri_threshold = true then (0 : Int) else 1))) ∧
    ((∀ (env : Env) (mem : Mem)
        (uplo : CharPtr) (n : IntPtr) (a : DoubleArr) (lda : IntPtr) (info : IntPtr),
      (accelerate_dpotri env (fun m0 _ _ _ _ _ => m0) (fun m0 _ _ _ _ _ => m0) mem uplo n a lda info) =
        mem) ∧
     (∀ (env1 env2 : Env) (mem : Mem)
        (uplo : CharPtr) (n : IntPtr) (a : DoubleArr) (lda : IntPtr) (info : IntPtr),
      (accelerate_dpotri env2 (fun m0 _ _ _ _ _ => bumpCell 0 m0) (fun m0 _ _ _ _ _ => bumpCell 1 m0) (accelerate_dpotri env1 (fun m0 _ _ _ _ _ => bumpCell 0 m0) (fun m0 _ _ _ _ _ => bumpCell 1 m0) mem uplo n a lda info) uplo n a lda info) 0 =
        mem 0 + (if builtinAvailable env1 accelerate_dpotri_threshold = true then (1 : Int) else 0) +
          (if builtinAvailable env2 accelerate_dpotri_threshold = true then (1 : Int) else 0) ∧
      (accelerate_dpotri env2 (fun m0 _ _ _ _ _ => bumpCell 0 m0) (fun m0 _ _ _ _ _ => bumpCell 1 m0) (accelerate_dpotri env1 (fun m0 _ _ _ _ _ => bumpCell 0 m0) (fun m0 _ _ _ _ _ => bumpCell 1 m0) mem uplo n a lda info) uplo n a lda info) 1 =
        mem 1 + (if builtinAvailable env1 accelerate_dpotri_threshold = true then (0 : Int) else 1) +
          (if builtinAvailable env2 accelerate_dpotri_threshold = true then (0 : Int) else 1))) ∧
    ((∀ (env : Env) (mem : Mem)
        (uplo : CharPtr) (n : IntPtr) (a : CplxArr) (lda : IntPtr) (info : IntPtr),
      (accelerate_cpotri env (fun m0 _ _ _ _ _ => m0) (fun m0 _ _ _ _ _ => m0) mem uplo n a lda info) =
        mem) ∧
     (∀ (env1 env2 : Env) (mem : Mem)
        (uplo : CharPtr) (n : IntPtr) (a : CplxArr) (lda : IntPtr) (info : IntPtr),
      (accelerate_cpotri env2 (fun m0 _ _ _ _ _ => bumpCell 0 m0) (fun m0 _ _ _ _ _ => bumpCell 1 m0) (accelerate_cpotri env1 (fun m0 _ _ _ _ _ => bumpCell 0 m0) (fun m0 _ _ _ _ _ => bumpCell 1 m0) mem uplo n a lda info) uplo n a lda info) 0 =
        mem 0 + (if builtinAvailable env1 accelerate_cpotri_threshold = true then (1 : Int) else 0) +
          (if builtinAvailable env2 accelerate_cpotri_threshold = true then (1 : Int) else 0) ∧
      (accelerate_cpotri env2 (fun m0 _ _ _ _ _ => bumpCell 0 m0) (fun m0 _ _ _ _ _ => bumpCell 1 m0) (accelerate_cpotri env1 (fun m0 _ _ _ _ _ => bumpCell 0 m0) (fun m0 _ _ _ _ _ => bumpCell 1 m0) mem uplo n a lda info) uplo n a lda info) 1 =
        mem 1 + (if builtinAvailable env1 accelerate_cpotri_threshold = true then (0 : Int) else 1) +
          (if builtinAvailable env2 accelerate_cpotri_threshold = true then (0 : Int) else 1))) ∧
    ((∀ (env : Env) (mem : Mem)
        (uplo : CharPtr) (n : IntPtr) (a : DCplxArr) (lda : IntPtr) (info : IntPtr),
      (accelerate_zpotri env (fun m0 _ _ _ _ _ => m0) (fun m0 _ _ _ _ _ => m0) mem uplo n a lda info) =
        mem) ∧
     (∀ (env1 env2 : Env) (mem : Mem)
        (uplo : CharPtr) (n : IntPtr) (a : DCplxArr) (lda : IntPtr) (info : IntPtr),
      (accelerate_zpotri env2 (fun m0 _ _ _ _ _ => bumpCell 0 m0) (fun m0 _ _ _ _ _ => bumpCell 1 m0) (accelerate_zpotri env1 (fun m0 _ _ _ _ _ => bumpCell 0 m0) (fun m0 _ _ _ _ _ => bumpCell 1 m0) mem uplo n a lda info) uplo n a lda info) 0 =
        mem 0 + (if builtinAvailable env1 accelerate_zpotri_threshold = true then (1 : Int) else 0) +
          (if builtinAvailable env2 accelerate_zpotri_threshold = true then (1 : Int) else 0) ∧
      (accelerate_zpotri env2 (fun m0 _ _ _ _ _ => bumpCell 0 m0) (fun m0 _ _ _ _ _ => bumpCell 1 m0) (accelerate_zpotri env1 (fun m0 _ _ _ _ _ => bumpCell 0 m0) (fun m0 _ _ _ _ _ => bumpCell 1 m0) mem uplo n a lda info) uplo n a lda info) 1 =
        mem 1 + (if builtinAvailable env1 accelerate_zpotri_threshold = true then (0 : Int) else 1) +
          (if builtinAvailable env2 accelerate_zpotri_threshold = true then (0 : Int) else 1))) ∧
    ((∀ (env : Env) (mem : Mem)
        (n : IntPtr) (sx : FloatPtr) (incx : IntPtr) (sy : FloatPtr) (incy : IntPtr),
      (accelerate_scopy env (fun m0 _ _ _ _ _ => (m0, (0 : FortranInt))) (fun m0 _ _ _ _ _ => (m0, (0 : FortranInt))) mem n sx incx sy incy).1 =
        mem) ∧
     (∀ (env1 env2 : Env) (mem : Mem)
        (n : IntPtr) (sx : FloatPtr) (incx : IntPtr) (sy : FloatPtr) (incy : IntPtr),
      (accelerate_scopy env2 (fun m0 _ _ _ _ _ => (bumpCell 0 m0, (0 : FortranInt))) (fun m0 _ _ _ _ _ => (bumpCell 1 m0, (0 : FortranInt))) (accelerate_scopy env1 (fun m0 _ _ _ _ _ => (bumpCell 0 m0, (0 : FortranInt))) (fun m0 _ _ _ _ _ => (bumpCell 1 m0, (0 : FortranInt))) mem n sx incx sy incy).1 n sx incx sy incy).1 0 =
        mem 0 + (if builtinAvailable env1 accelerate_scopy_threshold = true then (1 : Int) else 0) +
          (if builtinAvailable env2 accelerate_scopy_threshold = true then (1 : Int) else 0) ∧
      (accelerate_scopy env2 (fun m0 _ _ _ _ _ => (bumpCell 0 m0, (0 : FortranInt))) (fun m0 _ _ _ _ _ => (bumpCell 1 m0, (0 : FortranInt))) (accelerate_scopy env1 (fun m0 _ _ _ _ _ => (bumpCell 0 m0, (0 : FortranInt))) (fun m0 _ _ _ _ _ => (bumpCell 1 m0, (0 : FortranInt))) mem n sx incx sy incy).1 n sx incx sy incy).1 1 =
        mem 1 + (if builtinAvailable env1 accelerate_scopy_threshold = true then (0 : Int) else 1) +
          (if builtinAvailable env2 accelerate_scopy_threshold = true then (0 : Int) else 1))) ∧
    ((∀ (env : Env) (mem : Mem)
        (n : IntPtr) (sx : DoublePtr) (incx : IntPtr) (sy : DoublePtr) (incy : IntPtr),
      (accelerate_dcopy env (fun m0 _ _ _ _ _ => (m0, (0 : FortranInt))) (fun m0 _ _ _ _ _ => (m0, (0 : FortranInt))) mem n sx incx sy incy).1 =
        mem) ∧
     (∀ (env1 env2 : Env) (mem : Mem)
        (n : IntPtr) (sx : DoublePtr) (incx : IntPtr) (sy : DoublePtr) (incy : IntPtr),
      (accelerate_dcopy env2 (fun m0 _ _ _ _ _ => (bumpCell 0 m0, (0 : FortranInt))) (fun m0 _ _ _ _ _ => (bumpCell 1 m0, (0 : FortranInt))) (accelerate_dcopy env1 (fun m0 _ _ _ _ _ => (bumpCell 0 m0, (0 : FortranInt))) (fun m0 _ _ _ _ _ => (bumpCell 1 m0, (0 : FortranInt))) mem n sx incx sy incy).1 n sx incx sy incy).1 0 =
        mem 0 + (if builtinAvailable env1 accelerate_dcopy_threshold = true then (1 : Int) else 0) +
          (if builtinAvailable env2 accelerate_dcopy_threshold = true then (1 : Int) else 0) ∧
      (accelerate_dcopy env2 (fun m0 _ _ _ _ _ => (bumpCell 0 m0, (0 : FortranInt))) (fun m0 _ _ _ _ _ => (bumpCell 1 m0, (0 : FortranInt))) (accelerate_dcopy env1 (fun m0 _ _ _ _ _ => (bumpCell 0 m0, (0 : FortranInt))) (fun m0 _ _ _ _ _ => (bumpCell 1 m0, (0 : FortranInt))) mem n sx incx sy incy).1 n sx incx sy incy).1 1 =
        mem 1 + (if builtinAvailable env1 accelerate_dcopy_threshold = true then (0 : Int) else 1) +
          (if builtinAvailable env2 accelerate_dcopy_threshold = true then (0 : Int) else 1))) ∧
    ((∀ (env : Env) (mem : Mem)
        (n : IntPtr) (sx : CplxPtr) (incx : IntPtr) (sy : CplxPtr) (incy : IntPtr),
      (accelerate_ccopy env (fun m0 _ _ _ _ _ => (m0, (0 : FortranInt))) (fun m0 _ _ _ _ _ => (m0, (0 : FortranInt))) mem n sx incx sy incy).1 =
        mem) ∧
     (∀ (env1 env2 : Env) (mem : Mem)
        (n : IntPtr) (sx : CplxPtr) (incx : IntPtr) (sy : CplxPtr) (incy : IntPtr),
      (accelerate_ccopy env2 (fun m0 _ _ _ _ _ => (bumpCell 0 m0, (0 : FortranInt))) (fun m0 _ _ _ _ _ => (bumpCell 1 m0, (0 : FortranInt))) (accelerate_ccopy env1 (fun m0 _ _ _ _ _ => (bumpCell 0 m0, (0 : FortranInt))) (fun m0 _ _ _ _ _ => (bumpCell 1 m0, (0 : FortranInt))) mem n sx incx sy incy).1 n sx incx sy incy).1 0 =
        mem 0 + (if builtinAvailable env1 accelerate_ccopy_threshold = true then (1 : Int) else 0) +
          (if builtinAvailable env2 accelerate_ccopy_threshold = true then (1 : Int) else 0) ∧
      (accelerate_ccopy env2 (fun m0 _ _ _ _ _ => (bumpCell 0 m0, (0 : FortranInt))) (fun m0 _ _ _ _ _ => (bumpCell 1 m0, (0 : FortranInt))) (accelerate_ccopy env1 (fun m0 _ _ _ _ _ => (bumpCell 0 m0, (0 : FortranInt))) (fun m0 _ _ _ _ _ => (bumpCell 1 m0, (0 : FortranInt))) mem n sx incx sy incy).1 n sx incx sy incy).1 1 =
        mem 1 + (if builtinAvailable env1 accelerate_ccopy_threshold = true then (0 : Int) else 1) +
          (if builtinAvailable env2 accelerate_ccopy_threshold = true then (0 : Int) else 1))) ∧
    ((∀ (env : Env) (mem : Mem)
        (n : IntPtr) (sx : DCplxPtr) (incx : IntPtr) (sy : DCplxPtr) (incy : IntPtr),
      (accelerate_zcopy env (fun m0 _ _ _ _ _ => (m0, (0 : FortranInt))) (fun m0 _ _ _ _ _ => (m0, (0 : FortranInt))) mem n sx incx sy incy).1 =
        mem) ∧
     (∀ (env1 env2 : Env) (mem : Mem)
        (n : IntPtr) (sx : DCplxPtr) (incx : IntPtr) (sy : DCplxPtr) (incy : IntPtr),
      (accelerate_zcopy env2 (fun m0 _ _ _ _ _ => (bumpCell 0 m0, (0 : FortranInt))) (fun m0 _ _ _ _ _ => (bumpCell 1 m0, (0 : FortranInt))) (accelerate_zcopy env1 (fun m0 _ _ _ _ _ => (bumpCell 0 m0, (0 : FortranInt))) (fun m0 _ _ _ _ _ => (bumpCell 1 m0, (0 : FortranInt))) mem n sx incx sy incy).1 n sx incx sy incy).1 0 =
        mem 0 + (if builtinAvailable env1 accelerate_zcopy_threshold = true then (1 : Int) else 0) +
          (if builtinAvailable env2 accelerate_zcopy_threshold = true then (1 : Int) else 0) ∧
      (accelerate_zcopy env2 (fun m0 _ _ _ _ _ => (bumpCell 0 m0, (0 : FortranInt))) (fun m0 _ _ _ _ _ => (bumpCell 1 m0, (0 : FortranInt))) (accelerate_zcopy env1 (fun m0 _ _ _ _ _ => (bumpCell 0 m0, (0 : FortranInt))) (fun m0 _ _ _ _ _ => (bumpCell 1 m0, (0 : FortranInt))) mem n sx incx sy incy).1 n sx incx sy incy).1 1 =
        mem 1 + (if builtinAvailable env1 accelerate_zcopy_threshold = true then (0 : Int) else 1) +
          (if builtinAvailable env2 accelerate_zcopy_threshold = true then (0 : Int) else 1))) ∧
    ((∀ (env : Env) (mem : Mem)
        (n : IntPtr) (sx : FloatPtr) (incx : IntPtr) (sy : FloatPtr) (incy : IntPtr),
      (accelerate_sdot env (fun m0 _ _ _ _ _ => (m0, (CFloat.mk 0))) (fun m0 _ _ _ _ _ => (m0, (CFloat.mk 0))) mem n sx incx sy incy).1 =
        mem) ∧
     (∀ (env1 env2 : Env) (mem : Mem)
        (n : IntPtr) (sx : FloatPtr) (incx : IntPtr) (sy : FloatPtr) (incy : IntPtr),
      (accelerate_sdot env2 (fun m0 _ _ _ _ _ => (bumpCell 0 m0, (CFloat.mk 0))) (fun m0 _ _ _ _ _ => (bumpCell 1 m0, (CFloat.mk 0))) (accelerate_sdot env1 (fun m0 _ _ _ _ _ => (bumpCell 0 m0, (CFloat.mk 0))) (fun m0 _ _ _ _ _ => (bumpCell 1 m0, (CFloat.mk 0))) mem n sx incx sy incy).1 n sx incx sy incy).1 0 =
        mem 0 + (if builtinAvailable env1 accelerate_sdot_threshold = true then (1 : Int) else 0) +
          (if builtinAvailable env2 accelerate_sdot_threshold = true then (1 : Int) else 0) ∧
      (accelerate_sdot env2 (fun m0 _ _ _ _ _ => (bumpCell 0 m0, (CFloat.mk 0))) (fun m0 _ _ _ _ _ => (bumpCell 1 m0, (CFloat.mk 0))) (accelerate_sdot env1 (fun m0 _ _ _ _ _ => (bumpCell 0 m0, (CFloat.mk 0))) (fun m0 _ _ _ _ _ => (bumpCell 1 m0, (CFloat.mk 0))) mem n sx incx sy incy).1 n sx incx sy incy).1 1 =
        mem 1 + (if builtinAvailable env1 accelerate_sdot_threshold = true then (0 : Int) else 1) +
          (if builtinAvailable env2 accelerate_sdot_threshold = true then (0 : Int) else 1))) ∧
    ((∀ (env : Env) (mem : Mem)
        (n : IntPtr) (sx : DoublePtr) (incx : IntPtr) (sy : DoublePtr) (incy : IntPtr),
      (accelerate_ddot env (fun m0 _ _ _ _ _ => (m0, (CDouble.mk 0))) (fun m0 _ _ _ _ _ => (m0, (CDouble.mk 0))) mem n sx incx sy incy).1 =
        mem) ∧
     (∀ (env1 env2 : Env) (mem : Mem)
        (n : IntPtr) (sx : DoublePtr) (incx : IntPtr) (sy : DoublePtr) (incy : IntPtr),
      (accelerate_ddot env2 (fun m0 _ _ _ _ _ => (bumpCell 0 m0, (CDouble.mk 0))) (fun m0 _ _ _ _ _ => (bumpCell 1 m0, (CDouble.mk 0))) (accelerate_ddot env1 (fun m0 _ _ _ _ _ => (bumpCell 0 m0, (CDouble.mk 0))) (fun m0 _ _ _ _ _ => (bumpCell 1 m0, (CDouble.mk 0))) mem n sx incx sy incy).1 n sx incx sy incy).1 0 =
        mem 0 + (if builtinAvailable env1 accelerate_ddot_threshold = true then (1 : Int) else 0) +
          (if builtinAvailable env2 accelerate_ddot_threshold = true then (1 : Int) else 0) ∧
      (accelerate_ddot env2 (fun m0 _ _ _ _ _ => (bumpCell 0 m0, (CDouble.mk 0))) (fun m0 _ _ _ _ _ => (bumpCell 1 m0, (CDouble.mk 0))) (accelerate_ddot env1 (fun m0 _ _ _ _ _ => (bumpCell 0 m0, (CDouble.mk 0))) (fun m0 _ _ _ _ _ => (bumpCell 1 m0, (CDouble.mk 0))) mem n sx incx sy incy).1 n sx incx sy incy).1 1 =
        mem 1 + (if builtinAvailable env1 accelerate_ddot_threshold = true then (0 : Int) else 1) +
          (if builtinAvailable env2 accelerate_ddot_threshold = true then (0 : Int) else 1))) ∧
    ((∀ (env : Env) (mem : Mem)
        (ret : CplxPtr) (n : IntPtr) (sx : CplxPtr) (incx : IntPtr) (sy : CplxPtr)
        (incy : IntPtr),
      (accelerate_cdotu env (fun m0 _ _ _ _ _ _ => m0) (fun m0 _ _ _ _ _ _ => m0) mem ret n sx incx sy incy) =
        mem) ∧
     (∀ (env1 env2 : Env) (mem : Mem)
        (ret : CplxPtr) (n : IntPtr) (sx : CplxPtr) (incx : IntPtr) (sy : CplxPtr)
        (incy : IntPtr),
      (accelerate_cdotu env2 (fun m0 _ _ _ _ _ _ => bumpCell 0 m0) (fun m0 _ _ _ _ _ _ => bumpCell 1 m0) (accelerate_cdotu env1 (fun m0 _ _ _ _ _ _ => bumpCell 0 m0) (fun m0 _ _ _ _ _ _ => bumpCell 1 m0) mem ret n sx incx sy incy) ret n sx incx sy incy) 0 =
        mem 0 + (if builtinAvailable env1 accelerate_cdotu_threshold = true then (1 : Int) else 0) +
          (if builtinAvailable env2 accelerate_cdotu_threshold = true then (1 : Int) else 0) ∧
      (accelerate_cdotu env2 (fun m0 _ _ _ _ _ _ => bumpCell 0 m0) (fun m0 _ _ _ _ _ _ => bumpCell 1 m0) (accelerate_cdotu env1 (fun m0 _ _ _ _ _ _ => bumpCell 0 m0) (fun m0 _ _ _ _ _ _ => bumpCell 1 m0) mem ret n sx incx sy incy) ret n sx incx sy incy) 1 =
        mem 1 + (if builtinAvailable env1 accelerate_cdotu_threshold = true then (0 : Int) else 1) +
          (if builtinAvailable env2 accelerate_cdotu_threshold = true then (0 : Int) else 1))) ∧
    ((∀ (env : Env) (mem : Mem)
        (ret : DCplxPtr) (n : IntPtr) (sx : DCplxPtr) (incx : IntPtr) (sy : DCplxPtr)
        (incy : IntPtr),
      (accelerate_zdotu env (fun m0 _ _ _ _ _ _ => m0) (fun m0 _ _ _ _ _ _ => m0) mem ret n sx incx sy incy) =
        mem) ∧
     (∀ (env1 env2 : Env) (mem : Mem)
        (ret : DCplxPtr) (n : IntPtr) (sx : DCplxPtr) (incx : IntPtr) (sy : DCplxPtr)
        (incy : IntPtr),
      (accelerate_zdotu env2 (fun m0 _ _ _ _ _ _ => bumpCell 0 m0) (fun m0 _ _ _ _ _ _ => bumpCell 1 m0) (accelerate_zdotu env1 (fun m0 _ _ _ _ _ _ => bumpCell 0 m0) (fun m0 _ _ _ _ _ _ => bumpCell 1 m0) mem ret n sx incx sy incy) ret n sx incx sy incy) 0 =
        mem 0 + (if builtinAvailable env1 accelerate_zdotu_threshold = true then (1 : Int) else 0) +
          (if builtinAvailable env2 accelerate_zdotu_threshold = true then (1 : Int) else 0) ∧
      (accelerate_zdotu env2 (fun m0 _ _ _ _ _ _ => bumpCell 0 m0) (fun m0 _ _ _ _ _ _ => bumpCell 1 m0) (accelerate_zdotu env1 (fun m0 _ _ _ _ _ _ => bumpCell 0 m0) (fun m0 _ _ _ _ _ _ => bumpCell 1 m0) mem ret n sx incx sy incy) ret n sx incx sy incy) 1 =
        mem 1 + (if builtinAvailable env1 accelerate_zdotu_threshold = true then (0 : Int) else 1) +
          (if builtinAvailable env2 accelerate_zdotu_threshold = true then (0 : Int) else 1))) ∧
    ((∀ (env : Env) (mem : Mem)
        (ret : CplxPtr) (n : IntPtr) (sx : CplxPtr) (incx : IntPtr) (sy : CplxPtr)
        (incy : IntPtr),
      (accelerate_cdotc env (fun m0 _ _ _ _ _ _ => m0) (fun m0 _ _ _ _ _ _ => m0) mem ret n sx incx sy incy) =
        mem) ∧
     (∀ (env1 env2 : Env) (mem : Mem)
        (ret : CplxPtr) (n : IntPtr) (sx : CplxPtr) (incx : IntPtr) (sy : CplxPtr)
        (incy : IntPtr),
      (accelerate_cdotc env2 (fun m0 _ _ _ _ _ _ => bumpCell 0 m0) (fun m0 _ _ _ _ _ _ => bumpCell 1 m0) (accelerate_cdotc env1 (fun m0 _ _ _ _ _ _ => bumpCell 0 m0) (fun m0 _ _ _ _ _ _ => bumpCell 1 m0) mem ret n sx incx sy incy) ret n sx incx sy incy) 0 =
        mem 0 + (if builtinAvailable env1 accelerate_cdotc_threshold = true then (1 : Int) else 0) +
          (if builtinAvailable env2 accelerate_cdotc_threshold = true then (1 : Int) else 0) ∧
      (accelerate_cdotc env2 (fun m0 _ _ _ _ _ _ => bumpCell 0 m0) (fun m0 _ _ _ _ _ _ => bumpCell 1 m0) (accelerate_cdotc env1 (fun m0 _ _ _ _ _ _ => bumpCell 0 m0) (fun m0 _ _ _ _ _ _ => bumpCell 1 m0) mem ret n sx incx sy incy) ret n sx incx sy incy) 1 =
        mem 1 + (if builtinAvailable env1 accelerate_cdotc_threshold = true then (0 : Int) else 1) +
          (if builtinAvailable env2 accelerate_cdotc_threshold = true then (0 : Int) else 1))) ∧
    ((∀ (env : Env) (mem : Mem)
        (ret : DCplxPtr) (n : IntPtr) (sx : DCplxPtr) (incx : IntPtr) (sy : DCplxPtr)
        (incy : IntPtr),
      (accelerate_zdotc env (fun m0 _ _ _ _ _ _ => m0) (fun m0 _ _ _ _ _ _ => m0) mem ret n sx incx sy incy) =
        mem) ∧
     (∀ (env1 env2 : Env) (mem : Mem)
        (ret : DCplxPtr) (n : IntPtr) (sx : DCplxPtr) (incx : IntPtr) (sy : DCplxPtr)
        (incy : IntPtr),
      (accelerate_zdotc env2 (fun m0 _ _ _ _ _ _ => bumpCell 0 m0) (fun m0 _ _ _ _ _ _ => bumpCell 1 m0) (accelerate_zdotc env1 (fun m0 _ _ _ _ _ _ => bumpCell 0 m0) (fun m0 _ _ _ _ _ _ => bumpCell 1 m0) mem ret n sx incx sy incy) ret n sx incx sy incy) 0 =
        mem 0 + (if builtinAvailable env1 accelerate_zdotc_threshold = true then (1 : Int) else 0) +
          (if builtinAvailable env2 accelerate_zdotc_threshold = true then (1 : Int) else 0) ∧
      (accelerate_zdotc env2 (fun m0 _ _ _ _ _ _ => bumpCell 0 m0) (fun m0 _ _ _ _ _ _ => bumpCell 1 m0) (accelerate_zdotc env1 (fun m0 _ _ _ _ _ _ => bumpCell 0 m0) (fun m0 _ _ _ _ _ _ => bumpCell 1 m0) mem ret n sx incx sy incy) ret n sx incx sy incy) 1 =
        mem 1 + (if builtinAvailable env1 accelerate_zdotc_threshold = true then (0 : Int) else 1) +
          (if builtinAvailable env2 accelerate_zdotc_threshold = true then (0 : Int) else 1))) ∧
    ((∀ (env : Env) (mem : Mem)
        (transa : CharPtr) (transb : CharPtr) (m : IntPtr) (n : IntPtr) (k : IntPtr)
        (alpha : FloatPtr) (a : FloatPtr) (lda : IntPtr) (b : FloatPtr) (ldb : IntPtr)
        (beta : FloatPtr) (c : FloatPtr) (ldc : IntPtr),
      (accelerate_sgemm env (fun m0 _ _ _ _ _ _ _ _ _ _ _ _ _ => m0) (fun m0 _ _ _ _ _ _ _ _ _ _ _ _ _ => m0) mem transa transb m n k alpha a lda b ldb beta c ldc) =
        mem) ∧
     (∀ (env1 env2 : Env) (mem : Mem)
        (transa : CharPtr) (transb : CharPtr) (m : IntPtr) (n : IntPtr) (k : IntPtr)
        (alpha : FloatPtr) (a : FloatPtr) (lda : IntPtr) (b : FloatPtr) (ldb : IntPtr)
        (beta : FloatPtr) (c : FloatPtr) (ldc : IntPtr),
      (accelerate_sgemm env2 (fun m0 _ _ _ _ _ _ _ _ _ _ _ _ _ => bumpCell 0 m0) (fun m0 _ _ _ _ _ _ _ _ _ _ _ _ _ => bumpCell 1 m0) (accelerate_sgemm env1 (fun m0 _ _ _ _ _ _ _ _ _ _ _ _ _ => bumpCell 0 m0) (fun m0 _ _ _ _ _ _ _ _ _ _ _ _ _ => bumpCell 1 m0) mem transa transb m n k alpha a lda b ldb beta c ldc) transa transb m n k alpha a lda b ldb beta c ldc) 0 =
        mem 0 + (if builtinAvailable env1 accelerate_sgemm_threshold = true then (1 : Int) else 0) +
          (if builtinAvailable env2 accelerate_sgemm_threshold = true then (1 : Int) else 0) ∧
      (accelerate_sgemm env2 (fun m0 _ _ _ _ _ _ _ _ _ _ _ _ _ => bumpCell 0 m0) (fun m0 _ _ _ _ _ _ _ _ _ _ _ _ _ => bumpCell 1 m0) (accelerate_sgemm env1 (fun m0 _ _ _ _ _ _ _ _ _ _ _ _ _ => bumpCell 0 m0) (fun m0 _ _ _ _ _ _ _ _ _ _ _ _ _ => bumpCell 1 m0) mem transa transb m n k alpha a lda b ldb beta c ldc) transa transb m n k alpha a lda b ldb beta c ldc) 1 =
        mem 1 + (if builtinAvailable env1 accelerate_sgemm_threshold = true then (0 : Int) else 1) +
          (if builtinAvailable env2 accelerate_sgemm_threshold = true then (0 : Int) else 1))) ∧
    ((∀ (env : Env) (mem : Mem)
        (transa : CharPtr) (transb : CharPtr) (m : IntPtr) (n : IntPtr) (k : IntPtr)
        (alpha : DoublePtr) (a : DoublePtr) (lda : IntPtr) (b : DoublePtr) (ldb : IntPtr)
        (beta : DoublePtr) (c : DoublePtr) (ldc : IntPtr),
      (accelerate_dgemm env (fun m0 _ _ _ _ _ _ _ _ _ _ _ _ _ => m0) (fun m0 _ _ _ _ _ _ _ _ _ _ _ _ _ => m0) mem transa transb m n k alpha a lda b ldb beta c ldc) =
        mem) ∧
     (∀ (env1 env2 : Env) (mem : Mem)
        (transa : CharPtr) (transb : CharPtr) (m : IntPtr) (n : IntPtr) (k : IntPtr)
        (alpha : DoublePtr) (a : DoublePtr) (lda : IntPtr) (b : DoublePtr) (ldb : IntPtr)
        (beta : DoublePtr) (c : DoublePtr) (ldc : IntPtr),
      (accelerate_dgemm env2 (fun m0 _ _ _ _ _ _ _ _ _ _ _ _ _ => bumpCell 0 m0) (fun m0 _ _ _ _ _ _ _ _ _ _ _ _ _ => bumpCell 1 m0) (accelerate_dgemm env1 (fun m0 _ _ _ _ _ _ _ _ _ _ _ _ _ => bumpCell 0 m0) (fun m0 _ _ _ _ _ _ _ _ _ _ _ _ _ => bumpCell 1 m0) mem transa transb m n k alpha a lda b ldb beta c ldc) transa transb m n k alpha a lda b ldb beta c ldc) 0 =
        mem 0 + (if builtinAvailable env1 accelerate_dgemm_threshold = true then (1 : Int) else 0) +
          (if builtinAvailable env2 accelerate_dgemm_threshold = true then (1 : Int) else 0) ∧
      (accelerate_dgemm env2 (fun m0 _ _ _ _ _ _ _ _ _ _ _ _ _ => bumpCell 0 m0) (fun m0 _ _ _ _ _ _ _ _ _ _ _ _ _ => bumpCell 1 m0) (accelerate_dgemm env1 (fun m0 _ _ _ _ _ _ _ _ _ _ _ _ _ => bumpCell 0 m0) (fun m0 _ _ _ _ _ _ _ _ _ _ _ _ _ => bumpCell 1 m0) mem transa transb m n k alpha a lda b ldb beta c ldc) transa transb m n k alpha a lda b ldb beta c ldc) 1 =
        mem 1 + (if builtinAvailable env1 accelerate_dgemm_threshold = true then (0 : Int) else 1) +
          (if builtinAvailable env2 accelerate_dgemm_threshold = true then (0 : Int) else 1))) ∧
    ((∀ (env : Env) (mem : Mem)
        (transa : CharPtr) (transb : CharPtr) (m : IntPtr) (n : IntPtr) (k : IntPtr)
        (alpha : CplxPtr) (a : CplxPtr) (lda : IntPtr) (b : CplxPtr) (ldb : IntPtr)
        (beta : CplxPtr) (c : CplxPtr) (ldc : IntPtr),
      (accelerate_cgemm env (fun m0 _ _ _ _ _ _ _ _ _ _ _ _ _ => m0) (fun m0 _ _ _ _ _ _ _ _ _ _ _ _ _ => m0) mem transa transb m n k alpha a lda b ldb beta c ldc) =
        mem) ∧
     (∀ (env1 env2 : Env) (mem : Mem)
        (transa : CharPtr) (transb : CharPtr) (m : IntPtr) (n : IntPtr) (k : IntPtr)
        (alpha : CplxPtr) (a : CplxPtr) (lda : IntPtr) (b : CplxPtr) (ldb : IntPtr)
        (beta : CplxPtr) (c : CplxPtr) (ldc : IntPtr),
      (accelerate_cgemm env2 (fun m0 _ _ _ _ _ _ _ _ _ _ _ _ _ => bumpCell 0 m0) (fun m0 _ _ _ _ _ _ _ _ _ _ _ _ _ => bumpCell 1 m0) (accelerate_cgemm env1 (fun m0 _ _ _ _ _ _ _ _ _ _ _ _ _ => bumpCell 0 m0) (fun m0 _ _ _ _ _ _ _ _ _ _ _ _ _ => bumpCell 1 m0) mem transa transb m n k alpha a lda b ldb beta c ldc) transa transb m n k alpha a lda b ldb beta c ldc) 0 =
        mem 0 + (if builtinAvailable env1 accelerate_cgemm_threshold = true then (1 : Int) else 0) +
          (if builtinAvailable env2 accelerate_cgemm_threshold = true then (1 : Int) else 0) ∧
      (accelerate_cgemm env2 (fun m0 _ _ _ _ _ _ _ _ _ _ _ _ _ => bumpCell 0 m0) (fun m0 _ _ _ _ _ _ _ _ _ _ _ _ _ => bumpCell 1 m0) (accelerate_cgemm env1 (fun m0 _ _ _ _ _ _ _ _ _ _ _ _ _ => bumpCell 0 m0) (fun m0 _ _ _ _ _ _ _ _ _ _ _ _ _ => bumpCell 1 m0) mem transa transb m n k alpha a lda b ldb beta c ldc) transa transb m n k alpha a lda b ldb beta c ldc) 1 =
        mem 1 + (if builtinAvailable env1 accelerate_cgemm_threshold = true then (0 : Int) else 1) +
          (if builtinAvailable env2 accelerate_cgemm_threshold = true then (0 : Int) else 1))) ∧
    ((∀ (env : Env) (mem : Mem)
        (transa : CharPtr) (transb : CharPtr) (m : IntPtr) (n : IntPtr) (k : IntPtr)
        (alpha : DCplxPtr) (a : DCplxPtr) (lda : IntPtr) (b : DCplxPtr) (ldb : IntPtr)
        (beta : DCplxPtr) (c : DCplxPtr) (ldc : IntPtr),
      (accelerate_zgemm env (fun m0 _ _ _ _ _ _ _ _ _ _ _ _ _ => m0) (fun m0 _ _ _ _ _ _ _ _ _ _ _ _ _ => m0) mem transa transb m n k alpha a lda b ldb beta c ldc) =
        mem) ∧
     (∀ (env1 env2 : Env) (mem : Mem)
        (transa : CharPtr) (transb : CharPtr) (m : IntPtr) (n : IntPtr) (k : IntPtr)
        (alpha : DCplxPtr) (a : DCplxPtr) (lda : IntPtr) (b : DCplxPtr) (ldb : IntPtr)
        (beta : DCplxPtr) (c : DCplxPtr) (ldc : IntPtr),
      (accelerate_zgemm env2 (fun m0 _ _ _ _ _ _ _ _ _ _ _ _ _ => bumpCell 0 m0) (fun m0 _ _ _ _ _ _ _ _ _ _ _ _ _ => bumpCell 1 m0) (accelerate_zgemm env1 (fun m0 _ _ _ _ _ _ _ _ _ _ _ _ _ => bumpCell 0 m0) (fun m0 _ _ _ _ _ _ _ _ _ _ _ _ _ => bumpCell 1 m0) mem transa transb m n k alpha a lda b ldb beta c ldc) transa transb m n k alpha a lda b ldb beta c ldc) 0 =
        mem 0 + (if builtinAvailable env1 accelerate_zgemm_threshold = true then (1 : Int) else 0) +
          (if builtinAvailable env2 accelerate_zgemm_threshold = true then (1 : Int) else 0) ∧
      (accelerate_zgemm env2 (fun m0 _ _ _ _ _ _ _ _ _ _ _ _ _ => bumpCell 0 m0) (fun m0 _ _ _ _ _ _ _ _ _ _ _ _ _ => bumpCell 1 m0) (accelerate_zgemm env1 (fun m0 _ _ _ _ _ _ _ _ _ _ _ _ _ => bumpCell 0 m0) (fun m0 _ _ _ _ _ _ _ _ _ _ _ _ _ => bumpCell 1 m0) mem transa transb m n k alpha a lda b ldb beta c ldc) transa transb m n k alpha a lda b ldb beta c ldc) 1 =
        mem 1 + (if builtinAvailable env1 accelerate_zgemm_threshold = true then (0 : Int) else 1) +
          (if builtinAvailable env2 accelerate_zgemm_threshold = true then (0 : Int) else 1))) :=
  ⟨
    ⟨fun env mem jobvl jobvr n a lda wr wi vl ldvl vr ldvr work lwork info => by
        by_cases h : builtinAvailable env accelerate_sgeev_threshold = true <;>
          simp [accelerate_sgeev, h],
      fun env1 env2 mem jobvl jobvr n a lda wr wi vl ldvl vr ldvr work lwork info => by
        by_cases h1 : builtinAvailable env1 accelerate_sgeev_threshold = true <;>
          by_cases h2 : builtinAvailable env2 accelerate_sgeev_threshold = true <;>
            constructor <;> simp [accelerate_sgeev, bumpCell, h1, h2]⟩,
    ⟨fun env mem jobvl jobvr n a lda wr wi vl ldvl vr ldvr work lwork info => by
        by_cases h : builtinAvailable env accelerate_dgeev_threshold = true <;>
          simp [accelerate_dgeev, h],
      fun env1 env2 mem jobvl jobvr n a lda wr wi vl ldvl vr ldvr work lwork info => by
        by_cases h1 : builtinAvailable env1 accelerate_dgeev_threshold = true <;>
          by_cases h2 : builtinAvailable env2 accelerate_dgeev_threshold = true <;>
            constructor <;> simp [accelerate_dgeev, bumpCell, h1, h2]⟩,
    ⟨fun env mem jobvl jobvr n a lda w vl ldvl vr ldvr work lwork rwork info => by
        by_cases h : builtinAvailable env accelerate_cgeev_threshold = true <;>
          simp [accelerate_cgeev, h],
      fun env1 env2 mem jobvl jobvr n a lda w vl ldvl vr ldvr work lwork rwork info => by
        by_cases h1 : builtinAvailable env1 accelerate_cgeev_threshold = true <;>
          by_cases h2 : builtinAvailable env2 accelerate_cgeev_threshold = true <;>
            constructor <;> simp [accelerate_cgeev, bumpCell, h1, h2]⟩,
    ⟨fun env mem jobvl jobvr n a lda w vl ldvl vr ldvr work lwork rwork info => by
        by_cases h : builtinAvailable env accelerate_zgeev_threshold = true <;>
          simp [accelerate_zgeev, h],
      fun env1 env2 mem jobvl jobvr n a lda w vl ldvl vr ldvr work lwork rwork info => by
        by_cases h1 : builtinAvailable env1 accelerate_zgeev_threshold = true <;>
          by_cases h2 : builtinAvailable env2 accelerate_zgeev_threshold = true <;>
            constructor <;> simp [accelerate_zgeev, bumpCell, h1, h2]⟩,
    ⟨fun env mem jobz uplo n a lda w work lwork iwork liwork info => by
        by_cases h : builtinAvailable env accelerate_ssyevd_threshold = true <;>
          simp [accelerate_ssyevd, h],
      fun env1 env2 mem jobz uplo n a lda w work lwork iwork liwork info => by
        by_cases h1 : builtinAvailable env1 accelerate_ssyevd_threshold = true <;>
          by_cases h2 : builtinAvailable env2 accelerate_ssyevd_threshold = true <;>
            constructor <;> simp [accelerate_ssyevd, bumpCell, h1, h2]⟩,
    ⟨fun env mem jobz uplo n a lda w work lwork iwork liwork info => by
        by_cases h : builtinAvailable env accelerate_dsyevd_threshold = true <;>
          simp [accelerate_dsyevd, h],
      fun env1 env2 mem jobz uplo n a lda w work lwork iwork liwork info => by
        by_cases h1 : builtinAvailable env1 accelerate_dsyevd_threshold = true <;>
          by_cases h2 : builtinAvailable env2 accelerate_dsyevd_threshold = true <;>
            constructor <;> simp [accelerate_dsyevd, bumpCell, h1, h2]⟩,
    ⟨fun env mem jobz uplo n a lda w work lwork rwork lrwork iwork liwork info => by
        by_cases h : builtinAvailable env accelerate_cheevd_threshold = true <;>
          simp [accelerate_cheevd, h],
      fun env1 env2 mem jobz uplo n a lda w work lwork rwork lrwork iwork liwork info => by
        by_cases h1 : builtinAvailable env1 accelerate_cheevd_threshold = true <;>
          by_cases h2 : builtinAvailable env2 accelerate_cheevd_threshold = true <;>
            constructor <;> simp [accelerate_cheevd, bumpCell, h1, h2]⟩,
    ⟨fun env mem jobz uplo n a lda w work lwork rwork lrwork iwork liwork info => by
        by_cases h : builtinAvailable env accelerate_zheevd_threshold = true <;>
          simp [accelerate_zheevd, h],
      fun env1 env2 mem jobz uplo n a lda w work lwork rwork lrwork iwork liwork info => by
        by_cases h1 : builtinAvailable env1 accelerate_zheevd_threshold = true <;>
          by_cases h2 : builtinAvailable env2 accelerate_zheevd_threshold = true <;>
            constructor <;> simp [accelerate_zheevd, bumpCell, h1, h2]⟩,
    ⟨fun env mem m n nrhs a lda b ldb s rcond rank work lwork iwork info => by
        by_cases h : builtinAvailable env accelerate_sgelsd_threshold = true <;>
          simp [accelerate_sgelsd, h],
      fun env1 env2 mem m n nrhs a lda b ldb s rcond rank work lwork iwork info => by
        by_cases h1 : builtinAvailable env1 accelerate_sgelsd_threshold = true <;>
          by_cases h2 : builtinAvailable env2 accelerate_sgelsd_threshold = true <;>
            constructor <;> simp [accelerate_sgelsd, bumpCell, h1, h2]⟩,
    ⟨fun env mem m n nrhs a lda b ldb s rcond rank work lwork iwork info => by
        by_cases h : builtinAvailable env accelerate_dgelsd_threshold = true <;>
          simp [accelerate_dgelsd, h],
      fun env1 env2 mem m n nrhs a lda b ldb s rcond rank work lwork iwork info => by
        by_cases h1 : builtinAvailable env1 accelerate_dgelsd_threshold = true <;>
          by_cases h2 : builtinAvailable env2 accelerate_dgelsd_threshold = true <;>
            constructor <;> simp [accelerate_dgelsd, bumpCell, h1, h2]⟩,
    ⟨fun env mem m n nrhs a lda b ldb s rcond rank work lwork rwork iwork info => by
        by_cases h : builtinAvailable env accelerate_cgelsd_threshold = true <;>
          simp [accelerate_cgelsd, h],
      fun env1 env2 mem m n nrhs a lda b ldb s rcond rank work lwork rwork iwork info => by
        by_cases h1 : builtinAvailable env1 accelerate_cgelsd_threshold = true <;>
          by_cases h2 : builtinAvailable env2 accelerate_cgelsd_threshold = true <;>
            constructor <;> simp [accelerate_cgelsd, bumpCell, h1, h2]⟩,
    ⟨fun env mem m n nrhs a lda b ldb s rcond rank work lwork rwork iwork info => by
        by_cases h : builtinAvailable env accelerate_zgelsd_threshold = true <;>
          simp [accelerate_zgelsd, h],
      fun env1 env2 mem m n nrhs a lda b ldb s rcond rank work lwork rwork iwork info => by
        by_cases h1 : builtinAvailable env1 accelerate_zgelsd_threshold = true <;>
          by_cases h2 : builtinAvailable env2 accelerate_zgelsd_threshold = true <;>
            constructor <;> simp [accelerate_zgelsd, bumpCell, h1, h2]⟩,
    ⟨fun env mem m n a lda tau work lwork info => by
        by_cases h : builtinAvailable env accelerate_dgeqrf_threshold = true <;>
          simp [accelerate_dgeqrf, h],
      fun env1 env2 mem m n a lda tau work lwork info => by
        by_cases h1 : builtinAvailable env1 accelerate_dgeqrf_threshold = true <;>
          by_cases h2 : builtinAvailable env2 accelerate_dgeqrf_threshold = true <;>
            constructor <;> simp [accelerate_dgeqrf, bumpCell, h1, h2]⟩,
    ⟨fun env mem m n a lda tau work lwork info => by
        by_cases h : builtinAvailable env accelerate_zgeqrf_threshold = true <;>
          simp [accelerate_zgeqrf, h],
      fun env1 env2 mem m n a lda tau work lwork info => by
        by_cases h1 : builtinAvailable env1 accelerate_zgeqrf_threshold = true <;>
          by_cases h2 : builtinAvailable env2 accelerate_zgeqrf_threshold = true <;>
            constructor <;> simp [accelerate_zgeqrf, bumpCell, h1, h2]⟩,
    ⟨fun env mem m n k a lda tau work lwork info => by
        by_cases h : builtinAvailable env accelerate_dorgqr_threshold = true <;>
          simp [accelerate_dorgqr, h],
      fun env1 env2 mem m n k a lda tau work lwork info => by
        by_cases h1 : builtinAvailable env1 accelerate_dorgqr_threshold = true <;>
          by_cases h2 : builtinAvailable env2 accelerate_dorgqr_threshold = true <;>
            constructor <;> simp [accelerate_dorgqr, bumpCell, h1, h2]⟩,
    ⟨fun env mem m n k a lda tau work lwork info => by
        by_cases h : builtinAvailable env accelerate_zungqr_threshold = true <;>
          simp [accelerate_zungqr, h],
      fun env1 env2 mem m n k a lda tau work lwork info => by
        by_cases h1 : builtinAvailable env1 accelerate_zungqr_threshold = true <;>
          by_cases h2 : builtinAvailable env2 accelerate_zungqr_threshold = true <;>
            constructor <;> simp [accelerate_zungqr, bumpCell, h1, h2]⟩,
    ⟨fun env mem n nrhs a lda ipiv b ldb info => by
        by_cases h : builtinAvailable env accelerate_sgesv_threshold = true <;>
          simp [accelerate_sgesv, h],
      fun env1 env2 mem n nrhs a lda ipiv b ldb info => by
        by_cases h1 : builtinAvailable env1 accelerate_sgesv_threshold = true <;>
          by_cases h2 : builtinAvailable env2 accelerate_sgesv_threshold = true <;>
            constructor <;> simp [accelerate_sgesv, bumpCell, h1, h2]⟩,
    ⟨fun env mem n nrhs a lda ipiv b ldb info => by
        by_cases h : builtinAvailable env accelerate_dgesv_threshold = true <;>
          simp [accelerate_dgesv, h],
      fun env1 env2 mem n nrhs a lda ipiv b ldb info => by
        by_cases h1 : builtinAvailable env1 accelerate_dgesv_threshold = true <;>
          by_cases h2 : builtinAvailable env2 accelerate_dgesv_threshold = true <;>
            constructor <;> simp [accelerate_dgesv, bumpCell, h1, h2]⟩,
    ⟨fun env mem n nrhs a lda ipiv b ldb info => by
        by_cases h : builtinAvailable env accelerate_cgesv_threshold = true <;>
          simp [accelerate_cgesv, h],
      fun env1 env2 mem n nrhs a lda ipiv b ldb info => by
        by_cases h1 : builtinAvailable env1 accelerate_cgesv_threshold = true <;>
          by_cases h2 : builtinAvailable env2 accelerate_cgesv_threshold = true <;>
            constructor <;> simp [accelerate_cgesv, bumpCell, h1, h2]⟩,
    ⟨fun env mem n nrhs a lda ipiv b ldb info => by
        by_cases h : builtinAvailable env accelerate_zgesv_threshold = true <;>
          simp [accelerate_zgesv, h],
      fun env1 env2 mem n nrhs a lda ipiv b ldb info => by
        by_cases h1 : builtinAvailable env1 accelerate_zgesv_threshold = true <;>
          by_cases h2 : builtinAvailable env2 accelerate_zgesv_threshold = true <;>
            constructor <;> simp [accelerate_zgesv, bumpCell, h1, h2]⟩,
    ⟨fun env mem m n a lda ipiv info => by
        by_cases h : builtinAvailable env accelerate_sgetrf_threshold = true <;>
          simp [accelerate_sgetrf, h],
      fun env1 env2 mem m n a lda ipiv info => by
        by_cases h1 : builtinAvailable env1 accelerate_sgetrf_threshold = true <;>
          by_cases h2 : builtinAvailable env2 accelerate_sgetrf_threshold = true <;>
            constructor <;> simp [accelerate_sgetrf, bumpCell, h1, h2]⟩,
    ⟨fun env mem m n a lda ipiv info => by
        by_cases h : builtinAvailable env accelerate_dgetrf_threshold = true <;>
          simp [accelerate_dgetrf, h],
      fun env1 env2 mem m n a lda ipiv info => by
        by_cases h1 : builtinAvailable env1 accelerate_dgetrf_threshold = true <;>
          by_cases h2 : builtinAvailable env2 accelerate_dgetrf_threshold = true <;>
            constructor <;> simp [accelerate_dgetrf, bumpCell, h1, h2]⟩,
    ⟨fun env mem m n a lda ipiv info => by
        by_cases h : builtinAvailable env accelerate_cgetrf_threshold = true <;>
          simp [accelerate_cgetrf, h],
      fun env1 env2 mem m n a lda ipiv info => by
        by_cases h1 : builtinAvailable env1 accelerate_cgetrf_threshold = true <;>
          by_cases h2 : builtinAvailable env2 accelerate_cgetrf_threshold = true <;>
            constructor <;> simp [accelerate_cgetrf, bumpCell, h1, h2]⟩,
    ⟨fun env mem m n a lda ipiv info => by
        by_cases h : builtinAvailable env accelerate_zgetrf_threshold = true <;>
          simp [accelerate_zgetrf, h],
      fun env1 env2 mem m n a lda ipiv info => by
        by_cases h1 : builtinAvailable env1 accelerate_zgetrf_threshold = true <;>
          by_cases h2 : builtinAvailable env2 accelerate_zgetrf_threshold = true <;>
            constructor <;> simp [accelerate_zgetrf, bumpCell, h1, h2]⟩,
    ⟨fun env mem uplo n a lda info => by
        by_cases h : builtinAvailable env accelerate_spotrf_threshold = true <;>
          simp [accelerate_spotrf, h],
      fun env1 env2 mem uplo n a lda info => by
        by_cases h1 : builtinAvailable env1 accelerate_spotrf_threshold = true <;>
          by_cases h2 : builtinAvailable env2 accelerate_spotrf_threshold = true <;>
            constructor <;> simp [accelerate_spotrf, bumpCell, h1, h2]⟩,
    ⟨fun env mem uplo n a lda info => by
        by_cases h : builtinAvailable env accelerate_dpotrf_threshold = true <;>
          simp [accelerate_dpotrf, h],
      fun env1 env2 mem uplo n a lda info => by
        by_cases h1 : builtinAvailable env1 accelerate_dpotrf_threshold = true <;>
          by_cases h2 : builtinAvailable env2 accelerate_dpotrf_threshold = true <;>
            constructor <;> simp [accelerate_dpotrf, bumpCell, h1, h2]⟩,
    ⟨fun env mem uplo n a lda info => by
        by_cases h : builtinAvailable env accelerate_cpotrf_threshold = true <;>
          simp [accelerate_cpotrf, h],
      fun env1 env2 mem uplo n a lda info => by
        by_cases h1 : builtinAvailable env1 accelerate_cpotrf_threshold = true <;>
          by_cases h2 : builtinAvailable env2 accelerate_cpotrf_threshold = true <;>
            constructor <;> simp [accelerate_cpotrf, bumpCell, h1, h2]⟩,
    ⟨fun env mem uplo n a lda info => by
        by_cases h : builtinAvailable env accelerate_zpotrf_threshold = true <;>
          simp [accelerate_zpotrf, h],
      fun env1 env2 mem uplo n a lda info => by
        by_cases h1 : builtinAvailable env1 accelerate_zpotrf_threshold = true <;>
          by_cases h2 : builtinAvailable env2 accelerate_zpotrf_threshold = true <;>
            constructor <;> simp [accelerate_zpotrf, bumpCell, h1, h2]⟩,
    ⟨fun env mem jobz m n a lda s u ldu vt ldvt work lwork iwork info => by
        by_cases h : builtinAvailable env accelerate_sgesdd_threshold = true <;>
          simp [accelerate_sgesdd, h],
      fun env1 env2 mem jobz m n a lda s u ldu vt ldvt work lwork iwork info => by
        by_cases h1 : builtinAvailable env1 accelerate_sgesdd_threshold = true <;>
          by_cases h2 : builtinAvailable env2 accelerate_sgesdd_threshold = true <;>
            constructor <;> simp [accelerate_sgesdd, bumpCell, h1, h2]⟩,
    ⟨fun env mem jobz m n a lda s u ldu vt ldvt work lwork iwork info => by
        by_cases h : builtinAvailable env accelerate_dgesdd_threshold = true <;>
          simp [accelerate_dgesdd, h],
      fun env1 env2 mem jobz m n a lda s u ldu vt ldvt work lwork iwork info => by
        by_cases h1 : builtinAvailable env1 accelerate_dgesdd_threshold = true <;>
          by_cases h2 : builtinAvailable env2 accelerate_dgesdd_threshold = true <;>
            constructor <;> simp [accelerate_dgesdd, bumpCell, h1, h2]⟩,
    ⟨fun env mem jobz m n a lda s u ldu vt ldvt work lwork rwork iwork info => by
        by_cases h : builtinAvailable env accelerate_cgesdd_threshold = true <;>
          simp [accelerate_cgesdd, h],
      fun env1 env2 mem jobz m n a lda s u ldu vt ldvt work lwork rwork iwork info => by
        by_cases h1 : builtinAvailable env1 accelerate_cgesdd_threshold = true <;>
          by_cases h2 : builtinAvailable env2 accelerate_cgesdd_threshold = true <;>
            constructor <;> simp [accelerate_cgesdd, bumpCell, h1, h2]⟩,
    ⟨fun env mem jobz m n a lda s u ldu vt ldvt work lwork rwork iwork info => by
        by_cases h : builtinAvailable env accelerate_zgesdd_threshold = true <;>
          simp [accelerate_zgesdd, h],
      fun env1 env2 mem jobz m n a lda s u ldu vt ldvt work lwork rwork iwork info => by
        by_cases h1 : builtinAvailable env1 accelerate_zgesdd_threshold = true <;>
          by_cases h2 : builtinAvailable env2 accelerate_zgesdd_threshold = true <;>
            constructor <;> simp [accelerate_zgesdd, bumpCell, h1, h2]⟩,
    ⟨fun env mem uplo n nrhs a lda b ldb info => by
        by_cases h : builtinAvailable env accelerate_spotrs_threshold = true <;>
          simp [accelerate_spotrs, h],
      fun env1 env2 mem uplo n nrhs a lda b ldb info => by
        by_cases h1 : builtinAvailable env1 accelerate_spotrs_threshold = true <;>
          by_cases h2 : builtinAvailable env2 accelerate_spotrs_threshold = true <;>
            constructor <;> simp [accelerate_spotrs, bumpCell, h1, h2]⟩,
    ⟨fun env mem uplo n nrhs a lda b ldb info => by
        by_cases h : builtinAvailable env accelerate_dpotrs_threshold = true <;>
          simp [accelerate_dpotrs, h],
      fun env1 env2 mem uplo n nrhs a lda b ldb info => by
        by_cases h1 : builtinAvailable env1 accelerate_dpotrs_threshold = true <;>
          by_cases h2 : builtinAvailable env2 accelerate_dpotrs_threshold = true <;>
            constructor <;> simp [accelerate_dpotrs, bumpCell, h1, h2]⟩,
    ⟨fun env mem uplo n nrhs a lda b ldb info => by
        by_cases h : builtinAvailable env accelerate_cpotrs_threshold = true <;>
          simp [accelerate_cpotrs, h],
      fun env1 env2 mem uplo n nrhs a lda b ldb info => by
        by_cases h1 : builtinAvailable env1 accelerate_cpotrs_threshold = true <;>
          by_cases h2 : builtinAvailable env2 accelerate_cpotrs_threshold = true <;>
            constructor <;> simp [accelerate_cpotrs, bumpCell, h1, h2]⟩,
    ⟨fun env mem uplo n nrhs a lda b ldb info => by
        by_cases h : builtinAvailable env accelerate_zpotrs_threshold = true <;>
          simp [accelerate_zpotrs, h],
      fun env1 env2 mem uplo n nrhs a lda b ldb info => by
        by_cases h1 : builtinAvailable env1 accelerate_zpotrs_threshold = true <;>
          by_cases h2 : builtinAvailable env2 accelerate_zpotrs_threshold = true <;>
            constructor <;> simp [accelerate_zpotrs, bumpCell, h1, h2]⟩,
    ⟨fun env mem uplo n a lda info => by
        by_cases h : builtinAvailable env accelerate_spotri_threshold = true <;>
          simp [accelerate_spotri, h],
      fun env1 env2 mem uplo n a lda info => by
        by_cases h1 : builtinAvailable env1 accelerate_spotri_threshold = true <;>
          by_cases h2 : builtinAvailable env2 accelerate_spotri_threshold = true <;>
            constructor <;> simp [accelerate_spotri, bumpCell, h1, h2]⟩,
    ⟨fun env mem uplo n a lda info => by
        by_cases h : builtinAvailable env accelerate_dpotri_threshold = true <;>
          simp [accelerate_dpotri, h],
      fun env1 env2 mem uplo n a lda info => by
        by_cases h1 : builtinAvailable env1 accelerate_dpotri_threshold = true <;>
          by_cases h2 : builtinAvailable env2 accelerate_dpotri_threshold = true <;>
            constructor <;> simp [accelerate_dpotri, bumpCell, h1, h2]⟩,
    ⟨fun env mem uplo n a lda info => by
        by_cases h : builtinAvailable env accelerate_cpotri_threshold = true <;>
          simp [accelerate_cpotri, h],
      fun env1 env2 mem uplo n a lda info => by
        by_cases h1 : builtinAvailable env1 accelerate_cpotri_threshold = true <;>
          by_cases h2 : builtinAvailable env2 accelerate_cpotri_threshold = true <;>
            constructor <;> simp [accelerate_cpotri, bumpCell, h1, h2]⟩,
    ⟨fun env mem uplo n a lda info => by
        by_cases h : builtinAvailable env accelerate_zpotri_threshold = true <;>
          simp [accelerate_zpotri, h],
      fun env1 env2 mem uplo n a lda info => by
        by_cases h1 : builtinAvailable env1 accelerate_zpotri_threshold = true <;>
          by_cases h2 : builtinAvailable env2 accelerate_zpotri_threshold = true <;>
            constructor <;> simp [accelerate_zpotri, bumpCell, h1, h2]⟩,
    ⟨fun env mem n sx incx sy incy => by
        by_cases h : builtinAvailable env accelerate_scopy_threshold = true <;>
          simp [accelerate_scopy, h],
      fun env1 env2 mem n sx incx sy incy => by
        by_cases h1 : builtinAvailable env1 accelerate_scopy_threshold = true <;>
          by_cases h2 : builtinAvailable env2 accelerate_scopy_threshold = true <;>
            constructor <;> simp [accelerate_scopy, bumpCell, h1, h2]⟩,
    ⟨fun env mem n sx incx sy incy => by
        by_cases h : builtinAvailable env accelerate_dcopy_threshold = true <;>
          simp [accelerate_dcopy, h],
      fun env1 env2 mem n sx incx sy incy => by
        by_cases h1 : builtinAvailable env1 accelerate_dcopy_threshold = true <;>
          by_cases h2 : builtinAvailable env2 accelerate_dcopy_threshold = true <;>
            constructor <;> simp [accelerate_dcopy, bumpCell, h1, h2]⟩,
    ⟨fun env mem n sx incx sy incy => by
        by_cases h : builtinAvailable env accelerate_ccopy_threshold = true <;>
          simp [accelerate_ccopy, h],
      fun env1 env2 mem n sx incx sy incy => by
        by_cases h1 : builtinAvailable env1 accelerate_ccopy_threshold = true <;>
          by_cases h2 : builtinAvailable env2 accelerate_ccopy_threshold = true <;>
            constructor <;> simp [accelerate_ccopy, bumpCell, h1, h2]⟩,
    ⟨fun env mem n sx incx sy incy => by
        by_cases h : builtinAvailable env accelerate_zcopy_threshold = true <;>
          simp [accelerate_zcopy, h],
      fun env1 env2 mem n sx incx sy incy => by
        by_cases h1 : builtinAvailable env1 accelerate_zcopy_threshold = true <;>
          by_cases h2 : builtinAvailable env2 accelerate_zcopy_threshold = true <;>
            constructor <;> simp [accelerate_zcopy, bumpCell, h1, h2]⟩,
    ⟨fun env mem n sx incx sy incy => by
        by_cases h : builtinAvailable env accelerate_sdot_threshold = true <;>
          simp [accelerate_sdot, h],
      fun env1 env2 mem n sx incx sy incy => by
        by_cases h1 : builtinAvailable env1 accelerate_sdot_threshold = true <;>
          by_cases h2 : builtinAvailable env2 accelerate_sdot_threshold = true <;>
            constructor <;> simp [accelerate_sdot, bumpCell, h1, h2]⟩,
    ⟨fun env mem n sx incx sy incy => by
        by_cases h : builtinAvailable env accelerate_ddot_threshold = true <;>
          simp [accelerate_ddot, h],
      fun env1 env2 mem n sx incx sy incy => by
        by_cases h1 : builtinAvailable env1 accelerate_ddot_threshold = true <;>
          by_cases h2 : builtinAvailable env2 accelerate_ddot_threshold = true <;>
            constructor <;> simp [accelerate_ddot, bumpCell, h1, h2]⟩,
    ⟨fun env mem ret n sx incx sy incy => by
        by_cases h : builtinAvailable env accelerate_cdotu_threshold = true <;>
          simp [accelerate_cdotu, h],
      fun env1 env2 mem ret n sx incx sy incy => by
        by_cases h1 : builtinAvailable env1 accelerate_cdotu_threshold = true <;>
          by_cases h2 : builtinAvailable env2 accelerate_cdotu_threshold = true <;>
            constructor <;> simp [accelerate_cdotu, bumpCell, h1, h2]⟩,
    ⟨fun env mem ret n sx incx sy incy => by
        by_cases h : builtinAvailable env accelerate_zdotu_threshold = true <;>
          simp [accelerate_zdotu, h],
      fun env1 env2 mem ret n sx incx sy incy => by
        by_cases h1 : builtinAvailable env1 accelerate_zdotu_threshold = true <;>
          by_cases h2 : builtinAvailable env2 accelerate_zdotu_threshold = true <;>
            constructor <;> simp [accelerate_zdotu, bumpCell, h1, h2]⟩,
    ⟨fun env mem ret n sx incx sy incy => by
        by_cases h : builtinAvailable env accelerate_cdotc_threshold = true <;>
          simp [accelerate_cdotc, h],
      fun env1 env2 mem ret n sx incx sy incy => by
        by_cases h1 : builtinAvailable env1 accelerate_cdotc_threshold = true <;>
          by_cases h2 : builtinAvailable env2 accelerate_cdotc_threshold = true <;>
            constructor <;> simp [accelerate_cdotc, bumpCell, h1, h2]⟩,
    ⟨fun env mem ret n sx incx sy incy => by
        by_cases h : builtinAvailable env accelerate_zdotc_threshold = true <;>
          simp [accelerate_zdotc, h],
      fun env1 env2 mem ret n sx incx sy incy => by
        by_cases h1 : builtinAvailable env1 accelerate_zdotc_threshold = true <;>
          by_cases h2 : builtinAvailable env2 accelerate_zdotc_threshold = true <;>
            constructor <;> simp [accelerate_zdotc, bumpCell, h1, h2]⟩,
    ⟨fun env mem transa transb m n k alpha a lda b ldb beta c ldc => by
        by_cases h : builtinAvailable env accelerate_sgemm_threshold = true <;>
          simp [accelerate_sgemm, h],
      fun env1 env2 mem transa transb m n k alpha a lda b ldb beta c ldc => by
        by_cases h1 : builtinAvailable env1 accelerate_sgemm_threshold = true <;>
          by_cases h2 : builtinAvailable env2 accelerate_sgemm_threshold = true <;>
            constructor <;> simp [accelerate_sgemm, bumpCell, h1, h2]⟩,
    ⟨fun env mem transa transb m n k alpha a lda b ldb beta c ldc => by
        by_cases h : builtinAvailable env accelerate_dgemm_threshold = true <;>
          simp [accelerate_dgemm, h],
      fun env1 env2 mem transa transb m n k alpha a lda b ldb beta c ldc => by
        by_cases h1 : builtinAvailable env1 accelerate_dgemm_threshold = true <;>
          by_cases h2 : builtinAvailable env2 accelerate_dgemm_threshold = true <;>
            constructor <;> simp [accelerate_dgemm, bumpCell, h1, h2]⟩,
    ⟨fun env mem transa transb m n k alpha a lda b ldb beta c ldc => by
        by_cases h : builtinAvailable env accelerate_cgemm_threshold = true <;>
          simp [accelerate_cgemm, h],
      fun env1 env2 mem transa transb m n k alpha a lda b ldb beta c ldc => by
        by_cases h1 : builtinAvailable env1 accelerate_cgemm_threshold = true <;>
          by_cases h2 : builtinAvailable env2 accelerate_cgemm_threshold = true <;>
            constructor <;> simp [accelerate_cgemm, bumpCell, h1, h2]⟩,
    ⟨fun env mem transa transb m n k alpha a lda b ldb beta c ldc => by
        by_cases h : builtinAvailable env accelerate_zgemm_threshold = true <;>
          simp [accelerate_zgemm, h],
      fun env1 env2 mem transa transb m n k alpha a lda b ldb beta c ldc => by
        by_cases h1 : builtinAvailable env1 accelerate_zgemm_threshold = true <;>
          by_cases h2 : builtinAvailable env2 accelerate_zgemm_threshold = true <;>
            constructor <;> simp [accelerate_zgemm, bumpCell, h1, h2]⟩
  ⟩

/-- C9: the four complex dot-product wrappers return void (their embedding
produces only the memory state, no value) and forward the leading `ret`
output pointer as the first argument, ahead of the length and vector
arguments; an entry point that delivers its result through its first
argument makes that result appear at `ret`'s cell for the caller. -/
theorem complex_dot_wrappers_deliver_result_via_ret_pointer :
    (∀ (env : Env) (fm fl : CdotuFn) (mem : Mem)
        (ret : CplxPtr) (n : IntPtr) (sx : CplxPtr) (incx : IntPtr) (sy : CplxPtr)
        (incy : IntPtr),
      (accelerate_cdotu env fm fl mem ret n sx incx sy incy =
          fm mem ret n sx incx sy incy ∨
        accelerate_cdotu env fm fl mem ret n sx incx sy incy =
          fl mem ret n sx incx sy incy) ∧
      (∀ (v : Int),
        (accelerate_cdotu env (fun m0 r0 _ _ _ _ _ => writeCell r0.addr v m0) (fun m0 r0 _ _ _ _ _ => writeCell r0.addr v m0) mem ret n sx incx sy incy)
          ret.addr = v)) ∧
    (∀ (env : Env) (fm fl : ZdotuFn) (mem : Mem)
        (ret : DCplxPtr) (n : IntPtr) (sx : DCplxPtr) (incx : IntPtr) (sy : DCplxPtr)
        (incy : IntPtr),
      (accelerate_zdotu env fm fl mem ret n sx incx sy incy =
          fm mem ret n sx incx sy incy ∨
        accelerate_zdotu env fm fl mem ret n sx incx sy incy =
          fl mem ret n sx incx sy incy) ∧
      (∀ (v : Int),
        (accelerate_zdotu env (fun m0 r0 _ _ _ _ _ => writeCell r0.addr v m0) (fun m0 r0 _ _ _ _ _ => writeCell r0.addr v m0) mem ret n sx incx sy incy)
          ret.addr = v)) ∧
    (∀ (env : Env) (fm fl : CdotcFn) (mem : Mem)
        (ret : CplxPtr) (n : IntPtr) (sx : CplxPtr) (incx : IntPtr) (sy : CplxPtr)
        (incy : IntPtr),
      (accelerate_cdotc env fm fl mem ret n sx incx sy incy =
          fm mem ret n sx incx sy incy ∨
        accelerate_cdotc env fm fl mem ret n sx incx sy incy =
          fl mem ret n sx incx sy incy) ∧
      (∀ (v : Int),
        (accelerate_cdotc env (fun m0 r0 _ _ _ _ _ => writeCell r0.addr v m0) (fun m0 r0 _ _ _ _ _ => writeCell r0.addr v m0) mem ret n sx incx sy incy)
          ret.addr = v)) ∧
    (∀ (env : Env) (fm fl : ZdotcFn) (mem : Mem)
        (ret : DCplxPtr) (n : IntPtr) (sx : DCplxPtr) (incx : IntPtr) (sy : DCplxPtr)
        (incy : IntPtr),
      (accelerate_zdotc env fm fl mem ret n sx incx sy incy =
          fm mem ret n sx incx sy incy ∨
        accelerate_zdotc env fm fl mem ret n sx incx sy incy =
          fl mem ret n sx incx sy incy) ∧
      (∀ (v : Int),
        (accelerate_zdotc env (fun m0 r0 _ _ _ _ _ => writeCell r0.addr v m0) (fun m0 r0 _ _ _ _ _ => writeCell r0.addr v m0) mem ret n sx incx sy incy)
          ret.addr = v)) :=
  ⟨
    fun env fm fl mem ret n sx incx sy incy =>
      ⟨by by_cases h : builtinAvailable env accelerate_cdotu_threshold = true <;>
          simp [accelerate_cdotu, h],
        fun v => by
          by_cases h : builtinAvailable env accelerate_cdotu_threshold = true <;>
            simp [accelerate_cdotu, writeCell, h]⟩,
    fun env fm fl mem ret n sx incx sy incy =>
      ⟨by by_cases h : builtinAvailable env accelerate_zdotu_threshold = true <;>
          simp [accelerate_zdotu, h],
        fun v => by
          by_cases h : builtinAvailable env accelerate_zdotu_threshold = true <;>
            simp [accelerate_zdotu, writeCell, h]⟩,
    fun env fm fl mem ret n sx incx sy incy =>
      ⟨by by_cases h : builtinAvailable env accelerate_cdotc_threshold = true <;>
          simp [accelerate_cdotc, h],
        fun v => by
          by_cases h : builtinAvailable env accelerate_cdotc_threshold = true <;>
            simp [accelerate_cdotc, writeCell, h]⟩,
    fun env fm fl mem ret n sx incx sy incy =>
      ⟨by by_cases h : builtinAvailable env accelerate_zdotc_threshold = true <;>
          simp [accelerate_zdotc, h],
        fun v => by
          by_cases h : builtinAvailable env accelerate_zdotc_threshold = true <;>
            simp [accelerate_zdotc, writeCell, h]⟩
  ⟩

/-- C10: the QR-factorization family is exported only in double-precision
variants: the exported set contains `dgeqrf`, `zgeqrf`, `dorgqr`, `zungqr`
and no other `geqrf`/`orgqr`/`ungqr` wrapper — in particular, no
single-precision real or single-precision complex variant exists. -/
theorem qr_family_exported_only_in_double_precision :
    ("accelerate_dgeqrf" ∈ exportedRoutines ∧ "accelerate_zgeqrf" ∈ exportedRoutines ∧
      "accelerate_dorgqr" ∈ exportedRoutines ∧ "accelerate_zungqr" ∈ exportedRoutines) ∧
    ("accelerate_sgeqrf" ∉ exportedRoutines ∧ "accelerate_cgeqrf" ∉ exportedRoutines ∧
      "accelerate_sorgqr" ∉ exportedRoutines ∧ "accelerate_cungqr" ∉ exportedRoutines) ∧
    exportedRoutines.filter
        (fun s => strTailEq s "geqrf" || strTailEq s "orgqr" || strTailEq s "ungqr") =
      ["accelerate_dgeqrf", "accelerate_zgeqrf", "accelerate_dorgqr", "accelerate_zungqr"] := by
  decide
